import Mathlib

/-!
# GPS CNAV-2 frame decoder and federation of stores

A shallow embedding of `core/lib/NewNav/PNBGPSCNav2DataFactory.cpp` (the
bit-field table `CNav2BitInfo`, the dispatcher `addData` and the four page
decoders `processEph`, `processAlmOrb`, `processUTCIono` and
`processGGTOEOP`) and of `core/lib/NewNav/MultiFormatNavDataFactory.cpp`
(`find`, `addFactory`), followed by theorems about them.

Conventions of the embedding:

* the in/out parameter `navOut` is passed in and returned;
* a C++ exception is a value of `Except Exception _`; the `try`/`catch` of
  `addData` is a `match` on it;
* machine integers are `Nat`/`Int` with an explicit `% 2^64` or `% 2^32`
  where the C++ type wraps;
* a `double` is a `Double`: a number or not-a-number; sums, products and
  conversions round to nearest even on 53 significant bits (the exponent
  range is not bounded: overflow, underflow and infinities are not
  modelled).
-/

namespace gpstk

/-! ## Enumerations and identity types

These types are declared in headers that are not among the sources; the
constructors listed are those the decoder names, plus the neighbouring
values of each enumeration. -/

/-- Navigation message format tag (`NavType`). -/
inductive NavType where
  | GPSLNAV | GPSCNAVL2 | GPSCNAVL5 | GPSCNAV2 | GPSMNAV
  | BeiDou_D1 | BeiDou_D2 | GloCivilF | GloCivilC
  | GalFNAV | GalINAV | IRNSS_SPS | Unknown | Any
  deriving DecidableEq, Repr

/-- Satellite constellation (`SatelliteSystem`). -/
inductive SatelliteSystem where
  | Unknown | GPS | Galileo | Glonass | Geosync | LEO | Transit
  | BeiDou | QZSS | IRNSS | Mixed | UserDefined
  deriving DecidableEq, Repr

/-- Carrier band (`CarrierBand`). -/
inductive CarrierBand where
  | Unknown | Any | L1 | L2 | L5 | G1 | G2 | G3 | E5b | E5ab | E6
  | B1 | B2 | B3 | I9
  deriving DecidableEq, Repr

/-- Tracking code (`TrackingCode`). -/
inductive TrackingCode where
  | Unknown | Any | CA | P | Y | L2CM | L2CL | L5I | L5Q | L1CP | L1CD
  deriving DecidableEq, Repr

/-- Observation type (`ObservationType`). -/
inductive ObservationType where
  | Unknown | Any | Range | Phase | Doppler | SNR | NavMsg
  deriving DecidableEq, Repr

/-- Time system (`TimeSystem`). -/
inductive TimeSystem where
  | Unknown | Any | GPS | GLO | GAL | QZS | BDT | IRN | UTC | TAI | TT | TDB
  deriving DecidableEq, Repr

/-- Kind of a decoded message (`NavMessageType`). -/
inductive NavMessageType where
  | Unknown | Almanac | Ephemeris | TimeOffset | Health | Clock | Iono
  deriving DecidableEq, Repr

/-- Rolled-up satellite health (`SVHealth`). -/
inductive SVHealth where
  | Unknown | Any | Healthy | Unhealthy | Degraded
  deriving DecidableEq, Repr

/-- Satellite identifier (`SatID`): PRN and constellation.  `id` is a C++
`int`. -/
structure SatID where
  id : Int
  system : SatelliteSystem
  deriving DecidableEq, Repr

/-- Observation identifier (`ObsID`). -/
structure ObsID where
  type : ObservationType
  band : CarrierBand
  code : TrackingCode
  deriving DecidableEq, Repr

/-- Full signal identity of a message (`NavSatelliteID`): subject
satellite, transmitting satellite, constellation, carrier/code and format. -/
structure NavSatelliteID where
  sat : SatID
  xmitSat : SatID
  system : SatelliteSystem
  obs : ObsID
  nav : NavType
  deriving DecidableEq, Repr

/-- Message identity (`NavMessageID`): a `NavSatelliteID` plus the message
kind. -/
structure NavMessageID where
  satID : NavSatelliteID
  messageType : NavMessageType
  deriving DecidableEq, Repr

/-- Modelled from the spec: `NavSatelliteID.hpp` is not among the sources.
Constructor `NavSatelliteID(subj, xmit, sys, car, track, nmt)` taking two
PRNs: both satellites are in constellation `sys`. -/
def NavSatelliteID.ofPRNs (subj xmit : Int) (sys : SatelliteSystem)
    (car : CarrierBand) (track : TrackingCode) (nmt : NavType) : NavSatelliteID :=
  { sat := ⟨subj, sys⟩, xmitSat := ⟨xmit, sys⟩, system := sys,
    obs := ⟨ObservationType.NavMsg, car, track⟩, nav := nmt }

/-- Modelled from the spec: `NavSatelliteID.hpp` is not among the sources.
Constructor `NavSatelliteID(subj, xmit, oid, navid)` taking the subject PRN
and the transmitting `SatID`: the subject is in the transmitter's
constellation. -/
def NavSatelliteID.ofPRN (subj : Int) (xmit : SatID) (oid : ObsID)
    (navid : NavType) : NavSatelliteID :=
  { sat := ⟨subj, xmit.system⟩, xmitSat := xmit, system := xmit.system,
    obs := oid, nav := navid }

/-- Modelled from the spec: `NavSatelliteID.hpp` is not among the sources.
Constructor `NavSatelliteID(subj, xmit, oid, navid)` taking two `SatID`s. -/
def NavSatelliteID.ofSats (subj xmit : SatID) (oid : ObsID)
    (navid : NavType) : NavSatelliteID :=
  { sat := subj, xmitSat := xmit, system := subj.system,
    obs := oid, nav := navid }

/-! ## Numbers and times -/

/-- A C++ `double`: a number, or not-a-number.  The exponent range is not
bounded: overflow, underflow and infinities are not modelled.  Constants
that come from other files are parameters and may hold any number. -/
inductive Double where
  | nan
  | val (q : ℚ)
  deriving DecidableEq

/-- Rounding of an exact result to the nearest number of 53 significant
bits, ties to even: the rounding of binary64 arithmetic.  The binade of `x`
is `2^e ≤ |x| < 2^(e+1)`, its numbers are the multiples of `2^(e-52)`. -/
def Double.roundNearestEven (x : ℚ) : ℚ :=
  if x = 0 then 0
  else
    let q : ℚ := 2 ^ (Int.log 2 |x| - 52)
    let y : ℚ := x / q
    let n : Int := ⌊y⌋
    let r : Int :=
      if y - n < 1 / 2 then n
      else if 1 / 2 < y - n then n + 1
      else if n % 2 = 0 then n else n + 1
    r * q

/-- Addition of doubles: the exact sum, rounded; not-a-number is
absorbing. -/
def Double.add : Double → Double → Double
  | Double.val a, Double.val b => Double.val (Double.roundNearestEven (a + b))
  | _, _ => Double.nan

/-- Multiplication of doubles: the exact product, rounded; not-a-number is
absorbing. -/
def Double.mul : Double → Double → Double
  | Double.val a, Double.val b => Double.val (Double.roundNearestEven (a * b))
  | _, _ => Double.nan

instance : Add Double := ⟨Double.add⟩
instance : Mul Double := ⟨Double.mul⟩

/-- Conversion `(double) n` of an integer, rounded. -/
def Double.ofInt (n : Int) : Double := Double.val (Double.roundNearestEven n)

/-- The value of `pow(2.0, n)`. -/
def Double.pow2 (n : Int) : Double := Double.val ((2 : ℚ) ^ n)

/-- An instant (`CommonTime`), as an integer count. -/
abbrev CommonTime := Int

/-- GPS week and seconds of week (`GPSWeekSecond`). -/
structure GPSWeekSecond where
  week : Int
  sow : Double
  deriving DecidableEq

/-! ## Raw frames and field extraction -/

/-- Exceptions the decoder can meet. -/
inductive Exception where
  | InvalidParameter
  deriving DecidableEq, Repr

/-- Modelled from the spec: `PackedNavBits.hpp` is not among the sources.
A raw frame: format tag, satellite (PRN and constellation), carrier/code,
transmit time and bit payload; the bit length is the length of the
payload. -/
structure PackedNavBits where
  navID : NavType
  satSys : SatID
  obsID : ObsID
  transmitTime : CommonTime
  bits : List Bool
  deriving DecidableEq

namespace PackedNavBits

/-- Number of bits of the frame (`getNumBits`). -/
def getNumBits (nav : PackedNavBits) : Nat := nav.bits.length

/-- The `numBits` bits of the frame from `startBit` on. -/
def field (nav : PackedNavBits) (startBit numBits : Nat) : List Bool :=
  (nav.bits.drop startBit).take numBits

/-- The loop of `asUint64_t`: shift the 64-bit register left by one and
add the next bit, first bit first. -/
def accumulate (bs : List Bool) : Nat :=
  bs.foldl (fun temp b => (temp * 2 + (if b then 1 else 0)) % 2 ^ 64) 0

/-- Modelled from the spec: `PackedNavBits.cpp` is not among the sources.
`asUint64_t`: the unsigned value of a bit range, most significant bit
first, accumulated in a 64-bit register; a range that runs past the end of
the frame raises `InvalidParameter`. -/
def asUint64_t (nav : PackedNavBits) (startBit numBits : Nat) : Except Exception Nat :=
  if startBit + numBits > nav.bits.length then
    Except.error Exception.InvalidParameter
  else
    Except.ok (accumulate (nav.field startBit numBits))

/-- Reinterpretation of a 64-bit pattern as a signed `int64_t`. -/
def toInt64 (u : Nat) : Int :=
  if u % 2 ^ 64 < 2 ^ 63 then ((u % 2 ^ 64 : Nat) : Int)
  else ((u % 2 ^ 64 : Nat) : Int) - 2 ^ 64

/-- The shifts of `SignExtend` on a pattern `u` of `numBits` bits:
`s <<= 64 - numBits` in the 64-bit register, then the arithmetic
`s >>= 64 - numBits`. -/
def signExtend64 (u numBits : Nat) : Int :=
  toInt64 (u * 2 ^ (64 - numBits)) / 2 ^ (64 - numBits)

/-- Modelled from the spec: `PackedNavBits.cpp` is not among the sources.
`SignExtend`: the signed value of a bit range: the pattern is shifted left
so that its first bit is bit 63, then shifted back arithmetically. -/
def SignExtend (nav : PackedNavBits) (startBit numBits : Nat) : Except Exception Int :=
  match nav.asUint64_t startBit numBits with
  | Except.error e => Except.error e
  | Except.ok u => Except.ok (signExtend64 u numBits)

/-- Modelled from the spec: `PackedNavBits.cpp` is not among the sources.
`asUnsignedLong`: the unsigned value times a linear scale, in an
`unsigned long`. -/
def asUnsignedLong (nav : PackedNavBits) (startBit numBits : Nat) (scale : Int) :
    Except Exception Nat :=
  match nav.asUint64_t startBit numBits with
  | Except.error e => Except.error e
  | Except.ok u => Except.ok (((u : Int) * scale) % 2 ^ 64).toNat

/-- Modelled from the spec: `PackedNavBits.cpp` is not among the sources.
`asLong`: the signed value times a linear scale, in a `long`. -/
def asLong (nav : PackedNavBits) (startBit numBits : Nat) (scale : Int) :
    Except Exception Int :=
  match nav.SignExtend startBit numBits with
  | Except.error e => Except.error e
  | Except.ok s => Except.ok (toInt64 ((s * scale) % 2 ^ 64).toNat)

/-- Modelled from the spec: `PackedNavBits.cpp` is not among the sources.
`asUnsignedDouble`: the unsigned value times `2^power2`. -/
def asUnsignedDouble (nav : PackedNavBits) (startBit numBits : Nat) (power2 : Int) :
    Except Exception Double :=
  match nav.asUint64_t startBit numBits with
  | Except.error e => Except.error e
  | Except.ok u => Except.ok (Double.ofInt u * Double.pow2 power2)

/-- Modelled from the spec: `PackedNavBits.cpp` is not among the sources.
`asSignedDouble`: the signed value times `2^power2`. -/
def asSignedDouble (nav : PackedNavBits) (startBit numBits : Nat) (power2 : Int) :
    Except Exception Double :=
  match nav.SignExtend startBit numBits with
  | Except.error e => Except.error e
  | Except.ok s => Except.ok (Double.ofInt s * Double.pow2 power2)

/-- Modelled from the spec: `PackedNavBits.cpp` is not among the sources.
`asDoubleSemiCircles`: the signed scaled value times `PI`; the constant
`PI` of `GNSSconstants.hpp` is a parameter. -/
def asDoubleSemiCircles (PI : Double) (nav : PackedNavBits) (startBit numBits : Nat)
    (power2 : Int) : Except Exception Double :=
  match nav.asSignedDouble startBit numBits power2 with
  | Except.error e => Except.error e
  | Except.ok drad => Except.ok (drad * PI)

/-- Modelled from the spec: `PackedNavBits.cpp` is not among the sources.
`asBool`: one bit of the frame (an unchecked read; `false` stands for a
read past the end). -/
def asBool (nav : PackedNavBits) (bitNum : Nat) : Bool :=
  nav.bits.getD bitNum false

end PackedNavBits

/-! ## Reference readings of a bit string

The value a bit string denotes, independently of how the decoder computes
it: used to state what a field holds. -/

/-- Binary value of a bit string, most significant bit first. -/
def unsignedValue : List Bool → Nat
  | [] => 0
  | b :: bs => (if b then 2 ^ bs.length else 0) + unsignedValue bs

/-- Two's-complement value of a bit string: the first bit weighs
`-2^(length - 1)`. -/
def twosComplement : List Bool → Int
  | [] => 0
  | b :: bs => (if b then -(2 : Int) ^ bs.length else 0) + (unsignedValue bs : Int)

/-! ## `CNav2BitInfo`: start bit, bit count and scale of every field

Start bits and bit counts are natural numbers; scale and power factors are
integers (several are negative). -/

namespace CNav2BitInfo

/-- Number of bits in subframe 2 message. -/
abbrev nnbSF2 : Nat := 600
/-- Number of bits in subframe 3 message. -/
abbrev nnbSF3 : Nat := 274
/-- UTC & Iono page number for subframe 3. -/
abbrev npgUTC : Nat := 1
/-- GPS-GNSS time offset page number for subframe 3. -/
abbrev npgGGTO : Nat := 2
/-- Midi Almanac page number for subframe 3. -/
abbrev npgMAlm : Nat := 4

/-! these apply to subframe 2 -/

/-- WN start bit. -/
abbrev esbWN : Nat := 0
/-- WN number of bits. -/
abbrev enbWN : Nat := 13
/-- WN scale factor. -/
abbrev escWN : Int := 1
/-- ITOW start bit. -/
abbrev esbITOW : Nat := 13
/-- ITOW number of bits. -/
abbrev enbITOW : Nat := 8
/-- ITOW scale factor. -/
abbrev escITOW : Int := 1
/-- top start bit. -/
abbrev esbtop : Nat := 21
/-- top number of bits. -/
abbrev enbtop : Nat := 11
/-- top scale factor. -/
abbrev esctop : Int := 300
/-- L1C Signal health bit. -/
abbrev esbHeaL1C : Nat := 32
/-- URA index start bit. -/
abbrev esbURA : Nat := 33
/-- URA index number of bits. -/
abbrev enbURA : Nat := 5
/-- URA index scale factor. -/
abbrev escURA : Int := 1
/-- toe start bit. -/
abbrev esbtoe : Nat := 38
/-- toe number of bits. -/
abbrev enbtoe : Nat := 11
/-- toe scale factor. -/
abbrev esctoe : Int := 300
/-- Delta A start bit. -/
abbrev esbdA : Nat := 49
/-- Delta A number of bits. -/
abbrev enbdA : Nat := 26
/-- Delta A power factor. -/
abbrev escdA : Int := -9
/-- Adot start bit. -/
abbrev esbAdot : Nat := 75
/-- Adot number of bits. -/
abbrev enbAdot : Nat := 25
/-- Adot power factor. -/
abbrev escAdot : Int := -21
/-- Delta n0 start bit. -/
abbrev esbdn0 : Nat := 100
/-- Delta n0 number of bits. -/
abbrev enbdn0 : Nat := 17
/-- Delta n0 power factor. -/
abbrev escdn0 : Int := -44
/-- Delta n0 dot start bit. -/
abbrev esbdn0dot : Nat := 117
/-- Delta n0 dot number of bits. -/
abbrev enbdn0dot : Nat := 23
/-- Delta n0 dot power factor. -/
abbrev escdn0dot : Int := -57
/-- M0-n start bit. -/
abbrev esbM0 : Nat := 140
/-- M0-n number of bits. -/
abbrev enbM0 : Nat := 33
/-- M0-n power factor. -/
abbrev escM0 : Int := -32
/-- Ecc n start bit. -/
abbrev esbEcc : Nat := 173
/-- Ecc n number of bits. -/
abbrev enbEcc : Nat := 33
/-- Ecc n power factor. -/
abbrev escEcc : Int := -34
/-- w start bit. -/
abbrev esbw : Nat := 206
/-- w number of bits. -/
abbrev enbw : Nat := 33
/-- w power factor. -/
abbrev escw : Int := -32
/-- OMEGA0-n start bit. -/
abbrev esbOMEGA0 : Nat := 239
/-- OMEGA0-n number of bits. -/
abbrev enbOMEGA0 : Nat := 33
/-- OMEGA0-n power factor. -/
abbrev escOMEGA0 : Int := -32
/-- i0-n start bit. -/
abbrev esbi0 : Nat := 272
/-- i0-n number of bits. -/
abbrev enbi0 : Nat := 33
/-- i0-n power factor. -/
abbrev esci0 : Int := -32
/-- Delta OMEGAdot start bit. -/
abbrev esbdOMEGAdot : Nat := 305
/-- Delta OMEGAdot number of bits. -/
abbrev enbdOMEGAdot : Nat := 17
/-- Delta OMEGAdot power factor. -/
abbrev escdOMEGAdot : Int := -44
/-- i0-n - DOT start bit. -/
abbrev esbidot : Nat := 322
/-- i0-n - DOT number of bits. -/
abbrev enbidot : Nat := 15
/-- i0-n - DOT power factor. -/
abbrev escidot : Int := -44
/-- Cis-n start bit. -/
abbrev esbCis : Nat := 337
/-- Cis-n number of bits. -/
abbrev enbCis : Nat := 16
/-- Cis-n power factor. -/
abbrev escCis : Int := -30
/-- Cic-n start bit. -/
abbrev esbCic : Nat := 353
/-- Cic-n number of bits. -/
abbrev enbCic : Nat := 16
/-- Cic-n power factor. -/
abbrev escCic : Int := -30
/-- Crs-n start bit. -/
abbrev esbCrs : Nat := 369
/-- Crs-n number of bits. -/
abbrev enbCrs : Nat := 24
/-- Crs-n power factor. -/
abbrev escCrs : Int := -8
/-- Crc-n start bit. -/
abbrev esbCrc : Nat := 393
/-- Crc-n number of bits. -/
abbrev enbCrc : Nat := 24
/-- Crc-n power factor. -/
abbrev escCrc : Int := -8
/-- Cus-n start bit. -/
abbrev esbCus : Nat := 417
/-- Cus-n number of bits. -/
abbrev enbCus : Nat := 21
/-- Cus-n power factor. -/
abbrev escCus : Int := -30
/-- Cuc-n start bit. -/
abbrev esbCuc : Nat := 438
/-- Cuc-n number of bits. -/
abbrev enbCuc : Nat := 21
/-- Cuc-n power factor. -/
abbrev escCuc : Int := -30
/-- URA_NED0 start bit. -/
abbrev esbURAned0 : Nat := 459
/-- URA_NED0 number of bits. -/
abbrev enbURAned0 : Nat := 5
/-- URA_NED0 scale factor. -/
abbrev escURAned0 : Int := 1
/-- URA_NED1 start bit. -/
abbrev esbURAned1 : Nat := 464
/-- URA_NED1 number of bits. -/
abbrev enbURAned1 : Nat := 3
/-- URA_NED1 scale factor. -/
abbrev escURAned1 : Int := 1
/-- URA_NED2 start bit. -/
abbrev esbURAned2 : Nat := 467
/-- URA_NED2 number of bits. -/
abbrev enbURAned2 : Nat := 3
/-- URA_NED2 scale factor. -/
abbrev escURAned2 : Int := 1
/-- af0 start bit. -/
abbrev esbaf0 : Nat := 470
/-- af0 number of bits. -/
abbrev enbaf0 : Nat := 26
/-- af0 power factor. -/
abbrev escaf0 : Int := -35
/-- af1 start bit. -/
abbrev esbaf1 : Nat := 496
/-- af1 number of bits. -/
abbrev enbaf1 : Nat := 20
/-- af1 power factor. -/
abbrev escaf1 : Int := -48
/-- af2 start bit. -/
abbrev esbaf2 : Nat := 516
/-- af2 number of bits. -/
abbrev enbaf2 : Nat := 10
/-- af2 power factor. -/
abbrev escaf2 : Int := -60
/-- Tgd start bit. -/
abbrev esbTGD : Nat := 526
/-- Tgd number of bits. -/
abbrev enbTGD : Nat := 13
/-- Tgd power factor. -/
abbrev escTGD : Int := -35
/-- ISC_L1CP start bit. -/
abbrev esbISCL1CP : Nat := 539
/-- ISC_L1CP number of bits. -/
abbrev enbISCL1CP : Nat := 13
/-- ISC_L1CP power factor. -/
abbrev escISCL1CP : Int := -35
/-- ISC_L1CD start bit. -/
abbrev esbISCL1CD : Nat := 552
/-- ISC_L1CD number of bits. -/
abbrev enbISCL1CD : Nat := 13
/-- ISC_L1CD power factor. -/
abbrev escISCL1CD : Int := -35
/-- ISF start bit. -/
abbrev esbISF : Nat := 565
/-- WNop start bit. -/
abbrev esbWNop : Nat := 566
/-- WNop number of bits. -/
abbrev enbWNop : Nat := 8
/-- WNop scale factor. -/
abbrev escWNop : Int := 1

/-! these apply to subframe 3 -/

/-- PRN start bit. -/
abbrev asbPRN : Nat := 0
/-- PRN number of bits. -/
abbrev anbPRN : Nat := 8
/-- PRN scale factor. -/
abbrev ascPRN : Int := 1
/-- Page # start bit. -/
abbrev asbPage : Nat := 8
/-- Page # number of bits. -/
abbrev anbPage : Nat := 6
/-- Page # scale factor. -/
abbrev ascPage : Int := 1

/-! these apply to subframe 3 page 1 (UTC & IONO) -/

/-- A0-n start bit. -/
abbrev csbA0 : Nat := 14
/-- A0-n number of bits. -/
abbrev cnbA0 : Nat := 16
/-- A0-n power factor. -/
abbrev cscA0 : Int := -35
/-- A1-n start bit. -/
abbrev csbA1 : Nat := 30
/-- A1-n number of bits. -/
abbrev cnbA1 : Nat := 13
/-- A1-n power factor. -/
abbrev cscA1 : Int := -51
/-- A2-n start bit. -/
abbrev csbA2 : Nat := 43
/-- A2-n number of bits. -/
abbrev cnbA2 : Nat := 7
/-- A2-n power factor. -/
abbrev cscA2 : Int := -68
/-- dtLS start bit. -/
abbrev csbdtLS : Nat := 50
/-- dtLS number of bits. -/
abbrev cnbdtLS : Nat := 8
/-- dtLS scale factor. -/
abbrev cscdtLS : Int := 1
/-- tot start bit. -/
abbrev csbtot : Nat := 58
/-- tot number of bits. -/
abbrev cnbtot : Nat := 16
/-- tot power factor. -/
abbrev csctot : Int := 4
/-- WNot start bit. -/
abbrev csbWNot : Nat := 74
/-- WNot number of bits. -/
abbrev cnbWNot : Nat := 13
/-- WNot scale factor. -/
abbrev cscWNot : Int := 1
/-- WNlsf start bit. -/
abbrev csbWNlsf : Nat := 87
/-- WNlsf number of bits. -/
abbrev cnbWNlsf : Nat := 13
/-- WNlsf scale factor. -/
abbrev cscWNlsf : Int := 1
/-- DN start bit. -/
abbrev csbDN : Nat := 100
/-- DN number of bits. -/
abbrev cnbDN : Nat := 4
/-- DN scale factor. -/
abbrev cscDN : Int := 1
/-- dtLSF start bit. -/
abbrev csbdtLSF : Nat := 104
/-- dtLSF number of bits. -/
abbrev cnbdtLSF : Nat := 8
/-- dtLSF scale factor. -/
abbrev cscdtLSF : Int := 1

/-! these apply to subframe 3 page 2 (GGTO & EOP) -/

/-- GNSS ID start bit. -/
abbrev gsbGNSS : Nat := 14
/-- GNSS ID number of bits. -/
abbrev gnbGNSS : Nat := 3
/-- GNSS ID scale factor. -/
abbrev gscGNSS : Int := 1
/-- tggto start bit. -/
abbrev gsbt : Nat := 17
/-- tggto number of bits. -/
abbrev gnbt : Nat := 16
/-- tggto power factor. -/
abbrev gsct : Int := 4
/-- WNggto start bit. -/
abbrev gsbWN : Nat := 33
/-- WNggto number of bits. -/
abbrev gnbWN : Nat := 13
/-- WNggto scale factor. -/
abbrev gscWN : Int := 1
/-- A0-ggto start bit. -/
abbrev gsbA0 : Nat := 46
/-- A0-ggto number of bits. -/
abbrev gnbA0 : Nat := 16
/-- A0-ggto power factor. -/
abbrev gscA0 : Int := -35
/-- A1-ggto start bit. -/
abbrev gsbA1 : Nat := 62
/-- A1-ggto number of bits. -/
abbrev gnbA1 : Nat := 13
/-- A1-ggto power factor. -/
abbrev gscA1 : Int := -51
/-- A2-ggto start bit. -/
abbrev gsbA2 : Nat := 75
/-- A2-ggto number of bits. -/
abbrev gnbA2 : Nat := 7
/-- A2-ggto power factor. -/
abbrev gscA2 : Int := -68

/-! these apply to message type 37 (midi almanac) -/

/-- WNa-n start bit. -/
abbrev asbWNa : Nat := 14
/-- WNa-n number of bits. -/
abbrev anbWNa : Nat := 13
/-- WNa-n scale factor. -/
abbrev ascWNa : Int := 1
/-- toa start bit. -/
abbrev asbtoa : Nat := 27
/-- toa number of bits. -/
abbrev anbtoa : Nat := 8
/-- toa power factor. -/
abbrev asctoa : Int := 12
/-- PRNa start bit. -/
abbrev asbPRNa : Nat := 35
/-- PRNa number of bits. -/
abbrev anbPRNa : Nat := 8
/-- PRNa scale factor. -/
abbrev ascPRNa : Int := 1
/-- L1 Signal health bit. -/
abbrev asbHeaL1 : Nat := 43
/-- L2 Signal health bit. -/
abbrev asbHeaL2 : Nat := 44
/-- L5 Signal health bit. -/
abbrev asbHeaL5 : Nat := 45
/-- Ecc n start bit. -/
abbrev asbEcc : Nat := 46
/-- Ecc n number of bits. -/
abbrev anbEcc : Nat := 11
/-- Ecc n power factor. -/
abbrev ascEcc : Int := -16
/-- delta i start bit. -/
abbrev asbdi : Nat := 57
/-- delta i n number of bits. -/
abbrev anbdi : Nat := 11
/-- delta i n power factor. -/
abbrev ascdi : Int := -14
/-- OMEGAdot start bit. -/
abbrev asbOMEGAdot : Nat := 68
/-- OMEGAdot number of bits. -/
abbrev anbOMEGAdot : Nat := 11
/-- OMEGAdot power factor. -/
abbrev ascOMEGAdot : Int := -33
/-- Ahalf MSBs start bit. -/
abbrev asbAhalf : Nat := 79
/-- Ahalf MSBs number of bits. -/
abbrev anbAhalf : Nat := 17
/-- Ahalf scale factor. -/
abbrev ascAhalf : Int := -4
/-- OMEGA0 MSBs start bit. -/
abbrev asbOMEGA0 : Nat := 96
/-- OMEGA0 MSBs number of bits. -/
abbrev anbOMEGA0 : Nat := 16
/-- OMEGA0 power factor. -/
abbrev ascOMEGA0 : Int := -15
/-- w start bit. -/
abbrev asbw : Nat := 112
/-- w number of bits. -/
abbrev anbw : Nat := 16
/-- w power factor. -/
abbrev ascw : Int := -15
/-- M0 start bit. -/
abbrev asbM0 : Nat := 128
/-- M0 number of bits. -/
abbrev anbM0 : Nat := 16
/-- M0 power factor. -/
abbrev ascM0 : Int := -15
/-- af0 start bit. -/
abbrev asbaf0 : Nat := 144
/-- af0 number of bits. -/
abbrev anbaf0 : Nat := 11
/-- af0 power factor. -/
abbrev ascaf0 : Int := -20
/-- af1 start bit. -/
abbrev asbaf1 : Nat := 155
/-- af1 number of bits. -/
abbrev anbaf1 : Nat := 10
/-- af1 power factor. -/
abbrev ascaf1 : Int := -37

end CNav2BitInfo

open CNav2BitInfo

/-! ## Decoded messages

The message classes are declared in headers that are not among the
sources; each structure lists the members the decoder assigns. -/

/-- Modelled from the spec: `GPSCNav2Health.hpp` is not among the sources.
A standalone health message: one health bit of one signal. -/
structure GPSCNav2Health where
  timeStamp : CommonTime
  signal : NavMessageID
  health : Bool
  isEph : Bool
  deriving DecidableEq

/-- Modelled from the spec: `GPSCNav2Eph.hpp` is not among the sources.
An ephemeris message: the orbit and clock members assigned by
`processEph`, and the fit interval assigned by `fixFit`. -/
structure GPSCNav2Eph where
  timeStamp : CommonTime
  signal : NavMessageID
  xmitTime : CommonTime
  Toe : GPSWeekSecond
  Toc : GPSWeekSecond
  health : SVHealth
  Cuc : Double
  Cus : Double
  Crc : Double
  Crs : Double
  Cic : Double
  Cis : Double
  M0 : Double
  dn : Double
  dndot : Double
  ecc : Double
  deltaA : Double
  A : Double
  Ahalf : Double
  Adot : Double
  OMEGA0 : Double
  i0 : Double
  w : Double
  dOMEGAdot : Double
  OMEGAdot : Double
  idot : Double
  af0 : Double
  af1 : Double
  af2 : Double
  healthL1C : Bool
  uraED : Int
  top : GPSWeekSecond
  uraNED0 : Int
  uraNED1 : Nat
  uraNED2 : Nat
  tgd : Double
  iscL1CP : Double
  iscL1CD : Double
  integStat : Bool
  beginFit : CommonTime
  endFit : CommonTime
  deriving DecidableEq

/-- Modelled from the spec: `GPSCNav2Alm.hpp` is not among the sources.
A midi almanac message: the members assigned by `processAlmOrb`, and the
fit interval assigned by `fixFit`. -/
structure GPSCNav2Alm where
  timeStamp : CommonTime
  signal : NavMessageID
  xmitTime : CommonTime
  wna : Nat
  toa : Double
  Toc : GPSWeekSecond
  Toe : GPSWeekSecond
  M0 : Double
  ecc : Double
  Ahalf : Double
  A : Double
  OMEGA0 : Double
  w : Double
  OMEGAdot : Double
  af0 : Double
  af1 : Double
  healthL1 : Bool
  healthL2 : Bool
  healthL5 : Bool
  health : SVHealth
  deltai : Double
  i0 : Double
  beginFit : CommonTime
  endFit : CommonTime
  deriving DecidableEq

/-- Modelled from the spec: `GPSCNav2TimeOffset.hpp` is not among the
sources.  A time offset message: target time system and coefficients. -/
structure GPSCNav2TimeOffset where
  timeStamp : CommonTime
  signal : NavMessageID
  tgt : TimeSystem
  a0 : Double
  a1 : Double
  a2 : Double
  deltatLS : Int
  tot : Double
  wnot : Nat
  wnLSF : Nat
  dn : Nat
  deltatLSF : Int
  deriving DecidableEq

/-- A decoded navigation message (`NavData` and its subclasses), as a
tagged variant. -/
inductive NavData where
  | Health (h : GPSCNav2Health)
  | Ephemeris (e : GPSCNav2Eph)
  | Almanac (a : GPSCNav2Alm)
  | TimeOffset (t : GPSCNav2TimeOffset)
  deriving DecidableEq

/-- The output list of the decoder (`NavDataPtrList`). -/
abbrev NavDataPtrList := List NavData

/-- Time stamp of a message (`NavData::timeStamp`). -/
def NavData.timeStamp : NavData → CommonTime
  | NavData.Health h => h.timeStamp
  | NavData.Ephemeris e => e.timeStamp
  | NavData.Almanac a => a.timeStamp
  | NavData.TimeOffset t => t.timeStamp

/-- Identity of a message (`NavData::signal`). -/
def NavData.signal : NavData → NavMessageID
  | NavData.Health h => h.signal
  | NavData.Ephemeris e => e.signal
  | NavData.Almanac a => a.signal
  | NavData.TimeOffset t => t.signal

/-! ## Collaborators that are not among the sources -/

/-- Reinterpretation of a 32-bit pattern as a signed `int`. -/
def toInt32 (u : Nat) : Int :=
  if u % 2 ^ 32 < 2 ^ 31 then ((u % 2 ^ 32 : Nat) : Int)
  else ((u % 2 ^ 32 : Nat) : Int) - 2 ^ 32

/-- Modelled from the spec: `GPSWeekSecond.hpp` is not among the sources.
Constructor `GPSWeekSecond(w, s)`: the week is passed as an `unsigned int`
and kept as an `int`. -/
def GPSWeekSecond.ofWeekSow (w : Nat) (s : Double) : GPSWeekSecond :=
  { week := toInt32 w, sow := s }

/-- Modelled from the spec: `TimeCorrection.hpp` is not among the sources.
Week rollover resolution of an 8-bit week: the value congruent to
`toCorrectWeek` modulo `2^8` that lies within half that modulus of
`refWeek`, taken in the window `refWeek - 128 .. refWeek + 127`. -/
def timeAdjust8BitWeekRollover (toCorrectWeek refWeek : Int) : Int :=
  refWeek - 128 + (toCorrectWeek - (refWeek - 128)) % 256

/-- Constants and library functions the decoder uses whose definitions are
not among the sources: `PI` (`GNSSconstants.hpp`), the reference values
`GPSCNav2Eph::refAGPS`, `GPSCNav2Eph::refOMEGAdotGPS` and
`GPSCNav2Alm::refioffsetGPS`, the C library `sqrt`, and the fit intervals
(begin, end) that `GPSCNav2Eph::fixFit` and `GPSCNav2Alm::fixFit` compute
from the decoded message. -/
structure Externals where
  PI : Double
  refAGPS : Double
  refOMEGAdotGPS : Double
  refioffsetGPS : Double
  sqrt : Double → Double
  ephFit : GPSCNav2Eph → CommonTime × CommonTime
  almFit : GPSCNav2Alm → CommonTime × CommonTime

/-- Method `GPSCNav2Eph::fixFit`: assigns the fit interval. -/
def GPSCNav2Eph.fixFit (x : Externals) (eph : GPSCNav2Eph) : GPSCNav2Eph :=
  { eph with beginFit := (x.ephFit eph).1, endFit := (x.ephFit eph).2 }

/-- Method `GPSCNav2Alm::fixFit`: assigns the fit interval. -/
def GPSCNav2Alm.fixFit (x : Externals) (alm : GPSCNav2Alm) : GPSCNav2Alm :=
  { alm with beginFit := (x.almFit alm).1, endFit := (x.almFit alm).2 }

/-- Modelled from the spec: `GPSCNav2TimeOffset.hpp` is not among the
sources.  A default-constructed time offset message: unknown target,
every coefficient zero. -/
def GPSCNav2TimeOffset.init (t : CommonTime) (sig : NavMessageID) : GPSCNav2TimeOffset :=
  { timeStamp := t, signal := sig, tgt := TimeSystem.Unknown,
    a0 := Double.val 0, a1 := Double.val 0, a2 := Double.val 0, deltatLS := 0,
    tot := Double.val 0, wnot := 0, wnLSF := 0, dn := 0, deltatLSF := 0 }

/-- Modelled from the spec: `PNBNavDataFactory.hpp` is not among the
sources.  The base class of the decoders: the emission toggles, set by the
caller before decoding. -/
structure PNBNavDataFactory where
  processEph : Bool
  processAlm : Bool
  processHea : Bool
  processTim : Bool

/-- The CNAV-2 decoder object (`PNBGPSCNav2DataFactory`): its base class
part `base`, and the collaborators it uses. -/
structure PNBGPSCNav2DataFactory where
  base : PNBNavDataFactory
  ext : Externals

/-- Result of a page decoder: the returned flag, or the exception that
left the function, and the output list as the function left it. -/
abbrev Outcome := Except Exception Bool × NavDataPtrList

namespace PNBGPSCNav2DataFactory

/-- The member assignments of `processEph` (from `make_shared<GPSCNav2Eph>`
to `fixFit`); none of them touches `navOut`. -/
def decodeEph (f : PNBGPSCNav2DataFactory) (navIn : PackedNavBits) :
    Except Exception GPSCNav2Eph := do
  let prn := navIn.satSys.id
  let timeStamp := navIn.transmitTime
  let signal : NavMessageID :=
    ⟨NavSatelliteID.ofPRN prn navIn.satSys navIn.obsID navIn.navID,
     NavMessageType.Ephemeris⟩
  let xmitTime := timeStamp
  let wn : Int := PackedNavBits.toInt64 (← navIn.asUnsignedLong esbWN enbWN escWN)
  let toe : Double := Double.ofInt (← navIn.asUnsignedLong esbtoe enbtoe esctoe)
  let Toe := GPSWeekSecond.ofWeekSow (wn % 2 ^ 32).toNat toe
  let Cuc ← navIn.asSignedDouble esbCuc enbCuc escCuc
  let Cus ← navIn.asSignedDouble esbCus enbCus escCus
  let Crc ← navIn.asSignedDouble esbCrc enbCrc escCrc
  let Crs ← navIn.asSignedDouble esbCrs enbCrs escCrs
  let Cic ← navIn.asSignedDouble esbCic enbCic escCic
  let Cis ← navIn.asSignedDouble esbCis enbCis escCis
  let M0 ← navIn.asDoubleSemiCircles f.ext.PI esbM0 enbM0 escM0
  let dn ← navIn.asDoubleSemiCircles f.ext.PI esbdn0 enbdn0 escdn0
  let dndot ← navIn.asDoubleSemiCircles f.ext.PI esbdn0dot enbdn0dot escdn0dot
  let ecc ← navIn.asUnsignedDouble esbEcc enbEcc escEcc
  let deltaA ← navIn.asSignedDouble esbdA enbdA escdA
  let A := deltaA + f.ext.refAGPS
  let Ahalf := f.ext.sqrt A
  let Adot ← navIn.asSignedDouble esbAdot enbAdot escAdot
  let OMEGA0 ← navIn.asDoubleSemiCircles f.ext.PI esbOMEGA0 enbOMEGA0 escOMEGA0
  let i0 ← navIn.asDoubleSemiCircles f.ext.PI esbi0 enbi0 esci0
  let w ← navIn.asDoubleSemiCircles f.ext.PI esbw enbw escw
  let dOMEGAdot ← navIn.asDoubleSemiCircles f.ext.PI esbdOMEGAdot enbdOMEGAdot escdOMEGAdot
  let OMEGAdot := dOMEGAdot + f.ext.refOMEGAdotGPS
  let idot ← navIn.asDoubleSemiCircles f.ext.PI esbidot enbidot escidot
  let af0 ← navIn.asSignedDouble esbaf0 enbaf0 escaf0
  let af1 ← navIn.asSignedDouble esbaf1 enbaf1 escaf1
  let af2 ← navIn.asSignedDouble esbaf2 enbaf2 escaf2
  let healthL1C := navIn.asBool esbHeaL1C
  let health := if healthL1C then SVHealth.Unhealthy else SVHealth.Healthy
  let uraED ← navIn.asLong esbURA enbURA escURA
  let wnop0 : Nat := (← navIn.asUnsignedLong esbWNop enbWNop escWNop) % 2 ^ 32
  let top : Double := Double.ofInt (← navIn.asUnsignedLong esbtop enbtop esctop)
  let wnop : Nat := (timeAdjust8BitWeekRollover wnop0 wn % 2 ^ 32).toNat
  let top := GPSWeekSecond.ofWeekSow wnop top
  let uraNED0 ← navIn.asLong esbURAned0 enbURAned0 escURAned0
  let uraNED1 ← navIn.asUnsignedLong esbURAned1 enbURAned1 escURAned1
  let uraNED2 ← navIn.asUnsignedLong esbURAned2 enbURAned2 escURAned2
  let tgdBits ← navIn.asUnsignedLong esbTGD enbTGD 1
  let tgd ← if tgdBits = 0x1000 then (pure Double.nan : Except Exception Double)
            else navIn.asSignedDouble esbTGD enbTGD escTGD
  let iscL1CP ← navIn.asSignedDouble esbISCL1CP enbISCL1CP escISCL1CP
  let iscL1CD ← navIn.asSignedDouble esbISCL1CD enbISCL1CD escISCL1CD
  let integStat := navIn.asBool esbISF
  let eph : GPSCNav2Eph :=
    { timeStamp := timeStamp, signal := signal, xmitTime := xmitTime,
      Toe := Toe, Toc := Toe, health := health,
      Cuc := Cuc, Cus := Cus, Crc := Crc, Crs := Crs, Cic := Cic, Cis := Cis,
      M0 := M0, dn := dn, dndot := dndot, ecc := ecc, deltaA := deltaA,
      A := A, Ahalf := Ahalf, Adot := Adot, OMEGA0 := OMEGA0, i0 := i0, w := w,
      dOMEGAdot := dOMEGAdot, OMEGAdot := OMEGAdot, idot := idot,
      af0 := af0, af1 := af1, af2 := af2, healthL1C := healthL1C,
      uraED := uraED, top := top, uraNED0 := uraNED0, uraNED1 := uraNED1,
      uraNED2 := uraNED2, tgd := tgd, iscL1CP := iscL1CP, iscL1CD := iscL1CD,
      integStat := integStat, beginFit := 0, endFit := 0 }
  pure (eph.fixFit f.ext)

/-- Method `processEph`: decode a 600-bit subframe 2 into a health message
and an ephemeris. -/
def processEph (f : PNBGPSCNav2DataFactory) (navIn : PackedNavBits)
    (navOut : NavDataPtrList) : Outcome :=
  let prn := navIn.satSys.id
  let navOut :=
    if f.base.processHea then
      navOut ++ [NavData.Health
        { timeStamp := navIn.transmitTime
          signal := ⟨NavSatelliteID.ofPRNs prn prn navIn.satSys.system
            CarrierBand.L1 TrackingCode.L1CD NavType.GPSCNAV2, NavMessageType.Health⟩
          health := navIn.asBool esbHeaL1C
          isEph := true }]
    else navOut
  if !f.base.processEph then
    (Except.ok true, navOut)
  else
    match f.decodeEph navIn with
    | Except.error exc => (Except.error exc, navOut)
    | Except.ok p0 => (Except.ok true, navOut ++ [NavData.Ephemeris p0])

/-- The member assignments of `processAlmOrb` (from
`make_shared<GPSCNav2Alm>` to `fixFit`); none of them touches `navOut`. -/
def decodeAlm (f : PNBGPSCNav2DataFactory) (navIn : PackedNavBits)
    (subjSat xmitSat : SatID) : Except Exception GPSCNav2Alm := do
  let timeStamp := navIn.transmitTime
  let signal : NavMessageID :=
    ⟨NavSatelliteID.ofSats subjSat xmitSat navIn.obsID navIn.navID,
     NavMessageType.Almanac⟩
  let xmitTime := timeStamp
  let wna ← navIn.asUnsignedLong asbWNa anbWNa ascWNa
  let toa ← navIn.asUnsignedDouble asbtoa anbtoa asctoa
  let Toe := GPSWeekSecond.ofWeekSow (wna % 2 ^ 32) toa
  let M0 ← navIn.asDoubleSemiCircles f.ext.PI asbM0 anbM0 ascM0
  let ecc ← navIn.asUnsignedDouble asbEcc anbEcc ascEcc
  let Ahalf ← navIn.asUnsignedDouble asbAhalf anbAhalf ascAhalf
  let A := Ahalf * Ahalf
  let OMEGA0 ← navIn.asDoubleSemiCircles f.ext.PI asbOMEGA0 anbOMEGA0 ascOMEGA0
  let w ← navIn.asDoubleSemiCircles f.ext.PI asbw anbw ascw
  let OMEGAdot ← navIn.asDoubleSemiCircles f.ext.PI asbOMEGAdot anbOMEGAdot ascOMEGAdot
  let af0 ← navIn.asSignedDouble asbaf0 anbaf0 ascaf0
  let af1 ← navIn.asSignedDouble asbaf1 anbaf1 ascaf1
  let healthL1 := navIn.asBool asbHeaL1
  let healthL2 := navIn.asBool asbHeaL2
  let healthL5 := navIn.asBool asbHeaL5
  let health := if healthL1 = false then SVHealth.Healthy else SVHealth.Unhealthy
  let deltai ← navIn.asDoubleSemiCircles f.ext.PI asbdi anbdi ascdi
  let i0 := f.ext.refioffsetGPS + deltai
  let alm : GPSCNav2Alm :=
    { timeStamp := timeStamp, signal := signal, xmitTime := xmitTime,
      wna := wna, toa := toa, Toc := Toe, Toe := Toe, M0 := M0, ecc := ecc,
      Ahalf := Ahalf, A := A, OMEGA0 := OMEGA0, w := w, OMEGAdot := OMEGAdot,
      af0 := af0, af1 := af1, healthL1 := healthL1, healthL2 := healthL2,
      healthL5 := healthL5, health := health, deltai := deltai, i0 := i0,
      beginFit := 0, endFit := 0 }
  pure (alm.fixFit f.ext)

/-- Method `processAlmOrb`: decode a midi almanac page (subframe 3 page 4)
into three health messages and an almanac. -/
def processAlmOrb (f : PNBGPSCNav2DataFactory) (navIn : PackedNavBits)
    (navOut : NavDataPtrList) : Outcome :=
  match navIn.asUnsignedLong asbPRNa anbPRNa ascPRNa with
  | Except.error exc => (Except.error exc, navOut)
  | Except.ok sprn =>
    let xmitSat : SatID := navIn.satSys
    let subjSys := xmitSat.system
    let subjSat : SatID := ⟨toInt32 sprn, subjSys⟩
    let navOut :=
      if f.base.processHea then
        navOut ++
          [NavData.Health
            { timeStamp := navIn.transmitTime
              signal := ⟨NavSatelliteID.ofSats subjSat xmitSat navIn.obsID navIn.navID,
                NavMessageType.Health⟩
              health := navIn.asBool asbHeaL1
              isEph := false }] ++
          [NavData.Health
            { timeStamp := navIn.transmitTime
              signal := ⟨NavSatelliteID.ofSats subjSat xmitSat
                ⟨ObservationType.NavMsg, CarrierBand.L2, TrackingCode.L2CM⟩
                NavType.GPSCNAVL2, NavMessageType.Health⟩
              health := navIn.asBool asbHeaL2
              isEph := false }] ++
          [NavData.Health
            { timeStamp := navIn.transmitTime
              signal := ⟨NavSatelliteID.ofSats subjSat xmitSat
                ⟨ObservationType.NavMsg, CarrierBand.L5, TrackingCode.L5I⟩
                NavType.GPSCNAVL5, NavMessageType.Health⟩
              health := navIn.asBool asbHeaL5
              isEph := false }]
      else navOut
    if !f.base.processAlm then
      (Except.ok true, navOut)
    else
      match f.decodeAlm navIn subjSat xmitSat with
      | Except.error exc => (Except.error exc, navOut)
      | Except.ok p0 => (Except.ok true, navOut ++ [NavData.Almanac p0])

/-- The member assignments of `processUTCIono`. -/
def decodeUTCIono (navIn : PackedNavBits) : Except Exception GPSCNav2TimeOffset := do
  let p0 := GPSCNav2TimeOffset.init navIn.transmitTime
    ⟨NavSatelliteID.ofPRN navIn.satSys.id navIn.satSys navIn.obsID navIn.navID,
     NavMessageType.TimeOffset⟩
  let tgt := TimeSystem.UTC
  let a0 ← navIn.asSignedDouble csbA0 cnbA0 cscA0
  let a1 ← navIn.asSignedDouble csbA1 cnbA1 cscA1
  let a2 ← navIn.asSignedDouble csbA2 cnbA2 cscA2
  let deltatLS ← navIn.asLong csbdtLS cnbdtLS cscdtLS
  let tot ← navIn.asUnsignedDouble csbtot cnbtot csctot
  let wnot ← navIn.asUnsignedLong csbWNot cnbWNot cscWNot
  let wnLSF ← navIn.asUnsignedLong csbWNlsf cnbWNlsf cscWNlsf
  let dn ← navIn.asUnsignedLong csbDN cnbDN cscDN
  let deltatLSF ← navIn.asLong csbdtLSF cnbdtLSF cscdtLSF
  pure { p0 with tgt := tgt, a0 := a0, a1 := a1, a2 := a2, deltatLS := deltatLS,
                 tot := tot, wnot := wnot, wnLSF := wnLSF, dn := dn,
                 deltatLSF := deltatLSF }

/-- Method `processUTCIono`: decode a UTC and ionosphere page (subframe 3
page 1) into a time offset message. -/
def processUTCIono (f : PNBGPSCNav2DataFactory) (navIn : PackedNavBits)
    (navOut : NavDataPtrList) : Outcome :=
  if !f.base.processTim then
    (Except.ok true, navOut)
  else
    match decodeUTCIono navIn with
    | Except.error exc => (Except.error exc, navOut)
    | Except.ok p0 => (Except.ok true, navOut ++ [NavData.TimeOffset p0])

/-- The coefficient assignments of `processGGTOEOP`, made after the target
time system is known. -/
def decodeGGTO (navIn : PackedNavBits) (tgt : TimeSystem) :
    Except Exception GPSCNav2TimeOffset := do
  let p0 := GPSCNav2TimeOffset.init navIn.transmitTime
    ⟨NavSatelliteID.ofPRN navIn.satSys.id navIn.satSys navIn.obsID navIn.navID,
     NavMessageType.TimeOffset⟩
  let tot ← navIn.asUnsignedDouble gsbt gnbt gsct
  let wnot ← navIn.asUnsignedLong gsbWN gnbWN gscWN
  let a0 ← navIn.asSignedDouble gsbA0 gnbA0 gscA0
  let a1 ← navIn.asSignedDouble gsbA1 gnbA1 gscA1
  let a2 ← navIn.asSignedDouble gsbA2 gnbA2 gscA2
  pure { p0 with tgt := tgt, tot := tot, wnot := wnot, a0 := a0, a1 := a1, a2 := a2 }

/-- Method `processGGTOEOP`: decode a GPS-GNSS time offset page (subframe 3
page 2) into a time offset message; the GNSS ID is kept in a `uint8_t`. -/
def processGGTOEOP (f : PNBGPSCNav2DataFactory) (navIn : PackedNavBits)
    (navOut : NavDataPtrList) : Outcome :=
  if !f.base.processTim then
    (Except.ok true, navOut)
  else
    match navIn.asUnsignedLong gsbGNSS gnbGNSS gscGNSS with
    | Except.error exc => (Except.error exc, navOut)
    | Except.ok g =>
      let gnssID : Nat := g % 2 ^ 8
      let finish (tgt : TimeSystem) : Outcome :=
        match decodeGGTO navIn tgt with
        | Except.error exc => (Except.error exc, navOut)
        | Except.ok p0 => (Except.ok true, navOut ++ [NavData.TimeOffset p0])
      match gnssID with
      | 0 => (Except.ok true, navOut)
      | 1 => finish TimeSystem.GAL
      | 2 => finish TimeSystem.GLO
      | 3 => finish TimeSystem.QZS
      | _ => (Except.ok false, navOut)

/-- Method `addData`: classify one frame by format tag, bit length and page
number, and decode it; an exception of a page decoder is caught and turned
into `false`. -/
def addData (f : PNBGPSCNav2DataFactory) (navIn : PackedNavBits)
    (navOut : NavDataPtrList) : Bool × NavDataPtrList :=
  if navIn.navID ≠ NavType.GPSCNAV2 then
    (false, navOut)
  else
    let caught (r : Outcome) : Bool × NavDataPtrList :=
      match r with
      | (Except.ok rv, out) => (rv, out)
      | (Except.error _, out) => (false, out)
    if navIn.getNumBits = nnbSF2 then
      caught (f.processEph navIn navOut)
    else if navIn.getNumBits = nnbSF3 then
      match navIn.asUnsignedLong asbPage anbPage ascPage with
      | Except.error _ => (false, navOut)
      | Except.ok pageNum =>
        if pageNum = npgUTC then caught (f.processUTCIono navIn navOut)
        else if pageNum = npgGGTO then caught (f.processGGTOEOP navIn navOut)
        else if pageNum = npgMAlm then caught (f.processAlmOrb navIn navOut)
        else (true, navOut)
    else
      (false, navOut)

/-- The control flow of `addData` alone (format tag test, switch on the bit
length, switch on the page number, `try`/`catch`), over the outcome of the
page number read and the outcome of each page decoder, whatever they are. -/
def dispatch (navID : NavType) (numBits : Nat) (pageNum : Except Exception Nat)
    (eph utc ggto alm : Outcome) (navOut : NavDataPtrList) : Bool × NavDataPtrList :=
  if navID ≠ NavType.GPSCNAV2 then
    (false, navOut)
  else
    let caught (r : Outcome) : Bool × NavDataPtrList :=
      match r with
      | (Except.ok rv, out) => (rv, out)
      | (Except.error _, out) => (false, out)
    if numBits = nnbSF2 then
      caught eph
    else if numBits = nnbSF3 then
      match pageNum with
      | Except.error _ => (false, navOut)
      | Except.ok pageNum =>
        if pageNum = npgUTC then caught utc
        else if pageNum = npgGGTO then caught ggto
        else if pageNum = npgMAlm then caught alm
        else (true, navOut)
    else
      (false, navOut)

end PNBGPSCNav2DataFactory

/-! ## Sample inputs

Concrete collaborators, decoder objects and frames on which the theorems
below are exercised. -/

/-- Sample square root: the square root of a non-negative rational rounded
down to a multiple of its denominator's inverse; not-a-number otherwise. -/
def sampleSqrt : Double → Double
  | Double.nan => Double.nan
  | Double.val q =>
    if q < 0 then Double.nan
    else Double.val ((Nat.sqrt (q.num.toNat * q.den) : ℚ) / q.den)

/-- Sample collaborators: `PI` is the double nearest to pi, the reference
values are those of the CNAV-2 interface specification (26559710 m, and the
double products of -2.6e-9 and of 0.3 with `PI`), and the fit intervals run
from the transmit time for three hours. -/
def sampleExternals : Externals where
  PI := Double.val (884279719003555 / 281474976710656)
  refAGPS := Double.val 26559710
  refOMEGAdotGPS := Double.val (Double.roundNearestEven (-26 / 10000000000))
    * Double.val (884279719003555 / 281474976710656)
  refioffsetGPS := Double.val (Double.roundNearestEven (3 / 10))
    * Double.val (884279719003555 / 281474976710656)
  sqrt := sampleSqrt
  ephFit := fun eph => (eph.xmitTime, eph.xmitTime + 10800)
  almFit := fun alm => (alm.xmitTime, alm.xmitTime + 10800)

/-- Sample decoder object with the given emission toggles. -/
def sampleFactory (eph alm hea tim : Bool) : PNBGPSCNav2DataFactory :=
  ⟨⟨eph, alm, hea, tim⟩, sampleExternals⟩

/-- The `n` low bits of `v`, most significant bit first. -/
def bitsOfNat (n v : Nat) : List Bool :=
  (List.range n).reverse.map (fun i => v.testBit i)

/-- Sample frame of GPS satellite 5 on L1 with the given format tag and
payload, transmitted at instant 1000. -/
def sampleFrame (navID : NavType) (bits : List Bool) : PackedNavBits :=
  { navID := navID, satSys := ⟨5, SatelliteSystem.GPS⟩,
    obsID := ⟨ObservationType.NavMsg, CarrierBand.L1, TrackingCode.L1CD⟩,
    transmitTime := 1000, bits := bits }

/-- Sample 274-bit subframe 3 from PRN 5 with the given page number and,
in bits 14..16, the given 3-bit value; every later bit is 1. -/
def sampleSubframe3 (page sel : Nat) : PackedNavBits :=
  sampleFrame NavType.GPSCNAV2
    (bitsOfNat 8 5 ++ bitsOfNat 6 page ++ bitsOfNat 3 sel ++ List.replicate 257 true)

/-- Sample Health message: GPS satellite 5 on L1 / L1CD, healthy, from an
ephemeris frame transmitted at instant 900. -/
def sampleHealth : GPSCNav2Health :=
  { timeStamp := 900,
    signal := ⟨NavSatelliteID.ofPRNs 5 5 SatelliteSystem.GPS CarrierBand.L1
      TrackingCode.L1CD NavType.GPSCNAV2, NavMessageType.Health⟩,
    health := false, isEph := true }

/-- Sample 600-bit subframe 2 with every bit 1. -/
def sampleSubframe2 : PackedNavBits :=
  sampleFrame NavType.GPSCNAV2 (List.replicate 600 true)

/-! ## Synthetic frames

A frame built from known field values, by writing the bit pattern of each
value at the start bit of its field. -/

/-- The `n`-bit two's-complement pattern of `v`, most significant bit
first. -/
def bitsOfInt (n : Nat) (v : Int) : List Bool :=
  bitsOfNat n (v % 2 ^ n).toNat

/-- Write the pattern `enc` into `bits` from position `start` on. -/
def writeBits (bits : List Bool) (start : Nat) (enc : List Bool) : List Bool :=
  bits.take start ++ enc ++ bits.drop (start + enc.length)

/-- Write a list of patterns, each at its start bit, one after the other. -/
def writeAll (ws : List (Nat × List Bool)) (bits : List Bool) : List Bool :=
  ws.foldl (fun acc w => writeBits acc w.1 w.2) bits

/-- Integer values of the fields of subframe 2, before scaling: one per
field of `CNav2BitInfo` that "applies to subframe 2". -/
structure Subframe2Fields where
  WN : Nat
  ITOW : Nat
  top : Nat
  HeaL1C : Bool
  URA : Int
  toe : Nat
  dA : Int
  Adot : Int
  dn0 : Int
  dn0dot : Int
  M0 : Int
  Ecc : Nat
  w : Int
  OMEGA0 : Int
  i0 : Int
  dOMEGAdot : Int
  idot : Int
  Cis : Int
  Cic : Int
  Crs : Int
  Crc : Int
  Cus : Int
  Cuc : Int
  URAned0 : Int
  URAned1 : Nat
  URAned2 : Nat
  af0 : Int
  af1 : Int
  af2 : Int
  TGD : Int
  ISCL1CP : Int
  ISCL1CD : Int
  ISF : Bool
  WNop : Nat
  deriving DecidableEq

namespace Subframe2Fields

/-- An unsigned value fits in `n` bits. -/
def fitsU (n v : Nat) : Prop := v < 2 ^ n

/-- A signed value fits in `n` bits in two's complement. -/
def fitsS (n : Nat) (v : Int) : Prop := -(2 : Int) ^ (n - 1) ≤ v ∧ v < 2 ^ (n - 1)

instance (n v : Nat) : Decidable (fitsU n v) := by unfold fitsU; infer_instance

instance (n : Nat) (v : Int) : Decidable (fitsS n v) := by unfold fitsS; infer_instance

/-- Every value is in the range of its field: unsigned fields hold
`0 .. 2^n - 1`, signed fields `-2^(n-1) .. 2^(n-1) - 1`, for a field of `n`
bits. -/
def InRange (v : Subframe2Fields) : Prop :=
  fitsU enbWN v.WN ∧ fitsU enbITOW v.ITOW ∧ fitsU enbtop v.top ∧ fitsS enbURA v.URA
  ∧ fitsU enbtoe v.toe ∧ fitsS enbdA v.dA ∧ fitsS enbAdot v.Adot ∧ fitsS enbdn0 v.dn0
  ∧ fitsS enbdn0dot v.dn0dot ∧ fitsS enbM0 v.M0 ∧ fitsU enbEcc v.Ecc ∧ fitsS enbw v.w
  ∧ fitsS enbOMEGA0 v.OMEGA0 ∧ fitsS enbi0 v.i0 ∧ fitsS enbdOMEGAdot v.dOMEGAdot
  ∧ fitsS enbidot v.idot ∧ fitsS enbCis v.Cis ∧ fitsS enbCic v.Cic ∧ fitsS enbCrs v.Crs
  ∧ fitsS enbCrc v.Crc ∧ fitsS enbCus v.Cus ∧ fitsS enbCuc v.Cuc
  ∧ fitsS enbURAned0 v.URAned0 ∧ fitsU enbURAned1 v.URAned1 ∧ fitsU enbURAned2 v.URAned2
  ∧ fitsS enbaf0 v.af0 ∧ fitsS enbaf1 v.af1 ∧ fitsS enbaf2 v.af2 ∧ fitsS enbTGD v.TGD
  ∧ fitsS enbISCL1CP v.ISCL1CP ∧ fitsS enbISCL1CD v.ISCL1CD ∧ fitsU enbWNop v.WNop

instance (v : Subframe2Fields) : Decidable v.InRange := by unfold InRange; infer_instance

/-- The pattern of each field and the start bit it is written at. -/
def writes (v : Subframe2Fields) : List (Nat × List Bool) :=
  [ (esbWN, bitsOfNat enbWN v.WN),
    (esbITOW, bitsOfNat enbITOW v.ITOW),
    (esbtop, bitsOfNat enbtop v.top),
    (esbHeaL1C, [v.HeaL1C]),
    (esbURA, bitsOfInt enbURA v.URA),
    (esbtoe, bitsOfNat enbtoe v.toe),
    (esbdA, bitsOfInt enbdA v.dA),
    (esbAdot, bitsOfInt enbAdot v.Adot),
    (esbdn0, bitsOfInt enbdn0 v.dn0),
    (esbdn0dot, bitsOfInt enbdn0dot v.dn0dot),
    (esbM0, bitsOfInt enbM0 v.M0),
    (esbEcc, bitsOfNat enbEcc v.Ecc),
    (esbw, bitsOfInt enbw v.w),
    (esbOMEGA0, bitsOfInt enbOMEGA0 v.OMEGA0),
    (esbi0, bitsOfInt enbi0 v.i0),
    (esbdOMEGAdot, bitsOfInt enbdOMEGAdot v.dOMEGAdot),
    (esbidot, bitsOfInt enbidot v.idot),
    (esbCis, bitsOfInt enbCis v.Cis),
    (esbCic, bitsOfInt enbCic v.Cic),
    (esbCrs, bitsOfInt enbCrs v.Crs),
    (esbCrc, bitsOfInt enbCrc v.Crc),
    (esbCus, bitsOfInt enbCus v.Cus),
    (esbCuc, bitsOfInt enbCuc v.Cuc),
    (esbURAned0, bitsOfInt enbURAned0 v.URAned0),
    (esbURAned1, bitsOfNat enbURAned1 v.URAned1),
    (esbURAned2, bitsOfNat enbURAned2 v.URAned2),
    (esbaf0, bitsOfInt enbaf0 v.af0),
    (esbaf1, bitsOfInt enbaf1 v.af1),
    (esbaf2, bitsOfInt enbaf2 v.af2),
    (esbTGD, bitsOfInt enbTGD v.TGD),
    (esbISCL1CP, bitsOfInt enbISCL1CP v.ISCL1CP),
    (esbISCL1CD, bitsOfInt enbISCL1CD v.ISCL1CD),
    (esbISF, [v.ISF]),
    (esbWNop, bitsOfNat enbWNop v.WNop) ]

/-- Start bit and bit count of every field written, in the order of
`writes`. -/
def spans : List (Nat × Nat) :=
  [ (esbWN, enbWN), (esbITOW, enbITOW), (esbtop, enbtop), (esbHeaL1C, 1), (esbURA, enbURA),
    (esbtoe, enbtoe), (esbdA, enbdA), (esbAdot, enbAdot), (esbdn0, enbdn0),
    (esbdn0dot, enbdn0dot), (esbM0, enbM0), (esbEcc, enbEcc), (esbw, enbw),
    (esbOMEGA0, enbOMEGA0), (esbi0, enbi0), (esbdOMEGAdot, enbdOMEGAdot), (esbidot, enbidot),
    (esbCis, enbCis), (esbCic, enbCic), (esbCrs, enbCrs), (esbCrc, enbCrc), (esbCus, enbCus),
    (esbCuc, enbCuc), (esbURAned0, enbURAned0), (esbURAned1, enbURAned1),
    (esbURAned2, enbURAned2), (esbaf0, enbaf0), (esbaf1, enbaf1), (esbaf2, enbaf2),
    (esbTGD, enbTGD), (esbISCL1CP, enbISCL1CP), (esbISCL1CD, enbISCL1CD), (esbISF, 1),
    (esbWNop, enbWNop) ]

/-- The 600-bit payload holding the values: every field written at its
start bit into a payload of zeros. -/
def payload (v : Subframe2Fields) : List Bool :=
  writeAll v.writes (List.replicate nnbSF2 false)

/-- The synthetic GPSCNAV2 frame holding the values, with the satellite,
signal and transmit time of `sampleFrame`. -/
def frame (v : Subframe2Fields) : PackedNavBits :=
  sampleFrame NavType.GPSCNAV2 v.payload

end Subframe2Fields

/-- Two doubles differ by less than `lsb`: both are numbers and the
absolute value of their difference is below `lsb`. -/
def Double.differsByLessThan (lsb : ℚ) : Double → Double → Prop
  | Double.val x, Double.val y => |x - y| < lsb
  | _, _ => False

/-- Sample field values: every field zero. -/
def sampleFieldsZero : Subframe2Fields :=
  { WN := 0, ITOW := 0, top := 0, HeaL1C := false, URA := 0, toe := 0, dA := 0, Adot := 0,
    dn0 := 0, dn0dot := 0, M0 := 0, Ecc := 0, w := 0, OMEGA0 := 0, i0 := 0, dOMEGAdot := 0,
    idot := 0, Cis := 0, Cic := 0, Crs := 0, Crc := 0, Cus := 0, Cuc := 0, URAned0 := 0,
    URAned1 := 0, URAned2 := 0, af0 := 0, af1 := 0, af2 := 0, TGD := 0, ISCL1CP := 0,
    ISCL1CD := 0, ISF := false, WNop := 0 }

/-- Sample field values: week 2300 with prediction week 2299 (8-bit value
251), Tgd at the reserved pattern (-4096), and a few non-zero orbit and
clock terms. -/
def sampleFieldsSentinel : Subframe2Fields :=
  { sampleFieldsZero with
    WN := 2300, WNop := 251, top := 1000, toe := 1024, HeaL1C := true, URA := -3,
    dA := -12345, dOMEGAdot := 777, Cuc := -5, af0 := 4321, TGD := -4096, ISCL1CP := -4096 }

/-- Sample field values: as `sampleFieldsSentinel` with an ordinary Tgd. -/
def sampleFieldsPlain : Subframe2Fields :=
  { sampleFieldsSentinel with TGD := -4095 }

/-! ## Federation of stores (`MultiFormatNavDataFactory`)

The registry `factories()` is a process-wide multimap from signal to
factory pointer; it is passed in and returned.  A factory pointer is an
address, and the objects live in a heap indexed by address, so that two
registry rows holding the same pointer denote the same object. -/

/-- Signal identity (`NavSignalID`), the key of the registry: constellation,
carrier and code, format. -/
structure NavSignalID where
  system : SatelliteSystem
  obs : ObsID
  nav : NavType
  deriving DecidableEq, Repr

/-- Validity filter of a query (`NavValidityType`). -/
inductive NavValidityType where
  | ValidOnly | InvalidOnly | Any
  deriving DecidableEq, Repr

/-- Search order of a query (`NavSearchOrder`). -/
inductive NavSearchOrder where
  | User | Nearest
  deriving DecidableEq, Repr

/-- A shared pointer to a message (`NavDataPtr`); `none` is the null
pointer. -/
abbrev NavDataPtr := Option NavData

/-- The arguments of `find` other than the output parameter. -/
structure FindArgs where
  nmid : NavMessageID
  when : CommonTime
  xmitHealth : SVHealth
  valid : NavValidityType
  order : NavSearchOrder
  deriving DecidableEq

/-- Modelled from the spec: the class headers are not among the sources.
Dynamic class of a factory object, along the inheritance chain
`NavDataFactory`, `NavDataFactoryWithStore`, `NavDataFactoryWithStoreFile`
(the file-backed stores), `MultiFormatNavDataFactory` (the federation
itself, which is a file-backed store). -/
inductive FactoryClass where
  | NavDataFactory
  | NavDataFactoryWithStore
  | NavDataFactoryWithStoreFile
  | MultiFormatNavDataFactory
  deriving DecidableEq, Repr

/-- Whether `dynamic_cast<NavDataFactoryWithStore*>` succeeds. -/
def FactoryClass.isWithStore : FactoryClass → Bool
  | FactoryClass.NavDataFactory => false
  | _ => true

/-- Whether `dynamic_cast<NavDataFactoryWithStoreFile*>` succeeds. -/
def FactoryClass.isWithStoreFile : FactoryClass → Bool
  | FactoryClass.NavDataFactoryWithStoreFile => true
  | FactoryClass.MultiFormatNavDataFactory => true
  | _ => false

/-- Whether `dynamic_cast<MultiFormatNavDataFactory*>` succeeds. -/
def FactoryClass.isMultiFormat : FactoryClass → Bool
  | FactoryClass.MultiFormatNavDataFactory => true
  | _ => false

/-- Modelled from the spec: `NavDataFactory.hpp` is not among the sources.
A factory object as the federation uses it: its dynamic class, the signals
it declares, the message its `find` produces for given arguments (if any),
and what a failing `find` leaves in the output parameter. -/
structure NavDataFactoryObj where
  cls : FactoryClass
  supportedSignals : List NavSignalID
  lookup : FindArgs → Option NavData
  onMiss : NavDataPtr → NavDataPtr

/-- Virtual method `find` of a factory object: true with the message found
in `navOut`, or false. -/
def NavDataFactoryObj.find (o : NavDataFactoryObj) (args : FindArgs) (navOut : NavDataPtr) :
    Bool × NavDataPtr :=
  match o.lookup args with
  | some m => (true, some m)
  | none => (false, o.onMiss navOut)

/-- The address held by a `NavDataFactoryPtr` (what `get()` returns). -/
abbrev NavDataFactoryPtr := Nat

/-- The factory objects, by address. -/
abbrev FactoryHeap := NavDataFactoryPtr → NavDataFactoryObj

/-- The registry (`NavDataFactoryMap`, a `std::multimap`): its rows in
iteration order. -/
abbrev NavDataFactoryMap := List (NavSignalID × NavDataFactoryPtr)

/-- The comparisons of `NavSignalID`, whose definitions are not among the
sources: `eq sig nmid` is `sig == nmid` (the query is seen as a signal), and
`lt` is the key order of the registry. -/
structure SignalCompare where
  eq : NavSignalID → NavMessageID → Bool
  lt : NavSignalID → NavSignalID → Bool

namespace MultiFormatNavDataFactory

/-- The loop of `find` from a given row on: `uniques` is the set of stores
already tried, `navOut` the output parameter, and `calls` records, in order,
the stores whose `find` has been invoked. -/
def findLoop (cmp : SignalCompare) (heap : FactoryHeap) (args : FindArgs) :
    NavDataFactoryMap → List NavDataFactoryPtr → NavDataPtr → List NavDataFactoryPtr →
      (Bool × NavDataPtr) × List NavDataFactoryPtr
  | [], _, navOut, calls => ((false, navOut), calls)
  | fi :: rest, uniques, navOut, calls =>
    if cmp.eq fi.1 args.nmid && !(uniques.contains fi.2) then
      match (heap fi.2).find args navOut with
      | (true, out) => ((true, out), calls ++ [fi.2])
      | (false, out) => findLoop cmp heap args rest (fi.2 :: uniques) out (calls ++ [fi.2])
    else
      findLoop cmp heap args rest uniques navOut calls

/-- Method `find`: the flag returned and the output parameter. -/
def find (cmp : SignalCompare) (heap : FactoryHeap) (factories : NavDataFactoryMap)
    (args : FindArgs) (navOut : NavDataPtr) : Bool × NavDataPtr :=
  (findLoop cmp heap args factories [] navOut []).1

/-- The stores whose `find` one call of `find` invokes, in order. -/
def findCalls (cmp : SignalCompare) (heap : FactoryHeap) (factories : NavDataFactoryMap)
    (args : FindArgs) (navOut : NavDataPtr) : List NavDataFactoryPtr :=
  (findLoop cmp heap args factories [] navOut []).2

/-- Insertion into the multimap: after the rows whose key is not greater
than the new key. -/
def insert (cmp : SignalCompare) :
    NavDataFactoryMap → NavSignalID × NavDataFactoryPtr → NavDataFactoryMap
  | [], row => [row]
  | x :: xs, row => if cmp.lt row.1 x.1 then row :: x :: xs else x :: insert cmp xs row

/-- Method `addFactory`: the flag returned and the registry afterwards. -/
def addFactory (cmp : SignalCompare) (heap : FactoryHeap) (factories : NavDataFactoryMap)
    (fact : NavDataFactoryPtr) : Bool × NavDataFactoryMap :=
  let ndfp := heap fact
  if ndfp.cls.isWithStoreFile = false then
    (false, factories)
  else if ndfp.cls.isMultiFormat = true then
    (false, factories)
  else
    (true, ndfp.supportedSignals.foldl (fun m si => insert cmp m (si, fact)) factories)

end MultiFormatNavDataFactory

/-- Sample signal: GPS L1 C/A LNAV. -/
def sampleSignalLNAV : NavSignalID :=
  ⟨SatelliteSystem.GPS, ⟨ObservationType.NavMsg, CarrierBand.L1, TrackingCode.CA⟩,
   NavType.GPSLNAV⟩

/-- Sample signal: GPS L1 L1CD CNAV-2. -/
def sampleSignalCNAV2 : NavSignalID :=
  ⟨SatelliteSystem.GPS, ⟨ObservationType.NavMsg, CarrierBand.L1, TrackingCode.L1CD⟩,
   NavType.GPSCNAV2⟩

/-- Sample comparisons: a row matches a query of exactly its signal, and no
key is below another (rows stay in insertion order). -/
def sampleCompare : SignalCompare where
  eq := fun sig nmid =>
    decide (sig = ⟨nmid.satID.system, nmid.satID.obs, nmid.satID.nav⟩)
  lt := fun _ _ => false

/-- Sample heap: address 0 is an empty file-backed store for both sample
signals, address 1 a file-backed store for CNAV-2 that finds the sample
Health message, address 2 a federation object, and every other address a
plain factory; a failing `find` leaves its output parameter alone. -/
def sampleHeap : FactoryHeap := fun p =>
  match p with
  | 0 => ⟨FactoryClass.NavDataFactoryWithStoreFile, [sampleSignalLNAV, sampleSignalCNAV2],
          fun _ => none, id⟩
  | 1 => ⟨FactoryClass.NavDataFactoryWithStoreFile, [sampleSignalCNAV2],
          fun _ => some (NavData.Health sampleHealth), id⟩
  | 2 => ⟨FactoryClass.MultiFormatNavDataFactory, [sampleSignalCNAV2], fun _ => none, id⟩
  | _ => ⟨FactoryClass.NavDataFactory, [sampleSignalLNAV], fun _ => none, id⟩

/-- Sample query: the Health message of GPS satellite 5 on L1 / L1CD CNAV-2
at instant 1000, any health, valid only, in user order. -/
def sampleQuery : FindArgs :=
  { nmid := sampleHealth.signal, when := 1000, xmitHealth := SVHealth.Any,
    valid := NavValidityType.ValidOnly, order := NavSearchOrder.User }

/-! ## Message store (`NavDataFactoryWithStore`)

`NavDataFactoryWithStore.hpp` declares and documents the methods of the
store; `NavDataFactoryWithStore.cpp`, which defines them, is not among the
sources.  The operations below are modelled from the specification of the
message store and from the documentation in the header. -/

/-- Modelled from the spec: `CommonTime.hpp` is not among the sources.  An
instant together with the time system it is expressed in, as the stores
report their bounds (the decoders above use the instant alone). -/
structure SystemTime where
  time : CommonTime
  timeSystem : TimeSystem
  deriving DecidableEq, Repr

namespace SystemTime

/-- Modelled from the spec: `CommonTime.hpp` is not among the sources.
Accessor `getTimeSystem`. -/
def getTimeSystem (t : SystemTime) : TimeSystem := t.timeSystem

/-- Modelled from the spec: `CommonTime.hpp` is not among the sources.
Method `setTimeSystem`: the same instant, relabelled. -/
def setTimeSystem (t : SystemTime) (ts : TimeSystem) : SystemTime :=
  { t with timeSystem := ts }

/-- Modelled from the spec: `CommonTime.hpp`, which defines the comparison of
times, is not among the sources.  Library call `std::min(a, b)` on times:
`b` when `b < a`, else `a`; the comparison is that of the instants. -/
def min (a b : SystemTime) : SystemTime := if b.time < a.time then b else a

/-- Modelled from the spec: `CommonTime.hpp`, which defines the comparison of
times, is not among the sources.  Library call `std::max(a, b)` on times:
`b` when `a < b`, else `a`. -/
def max (a b : SystemTime) : SystemTime := if a.time < b.time then b else a

end SystemTime

/-- Modelled from the spec: `CommonTime.hpp` and
`BasicTimeSystemConverter.hpp` are not among the sources.  The two extreme
instants (every `CommonTime` lies between them) and the conversion of a time
to another time system with the basic converter. -/
structure TimeExternals where
  BEGINNING_OF_TIME : SystemTime
  END_OF_TIME : SystemTime
  changeTimeSystem : SystemTime → TimeSystem → SystemTime

/-- Modelled from the spec: the message classes are declared in headers that
are not among the sources.  What the store asks of a message besides its time
stamp and identity: its own self-consistency check (`validate`), the status a
Health message reports (`getHealth`), its reference epoch (`nearTime`), and
the earliest and latest time it is applicable at. -/
structure NavDataMethods where
  validate : NavData → Bool
  getHealth : NavData → SVHealth
  nearTime : NavData → CommonTime
  beginTime : NavData → SystemTime
  endTime : NavData → SystemTime

/-- Modelled from the spec: `NavDataFactoryWithStore.cpp` is not among the
sources.  State of a store: the messages of its primary index in the order
they were added (`data`), and the two bounds (`initialTime`, `finalTime`).
The time-offset index, which no method below reads, is left out. -/
structure NavDataFactoryWithStore where
  data : List NavData
  initialTime : SystemTime
  finalTime : SystemTime
  deriving DecidableEq

namespace NavDataFactoryWithStore

/-- Modelled from the spec: `NavDataFactoryWithStore.cpp` is not among the
sources.  The constructor: no message, and the bounds of a store without
data. -/
def init (ext : TimeExternals) : NavDataFactoryWithStore :=
  { data := [], initialTime := ext.END_OF_TIME, finalTime := ext.BEGINNING_OF_TIME }

/-- Method `getInitialTime`, defined in the header. -/
def getInitialTime (s : NavDataFactoryWithStore) : SystemTime := s.initialTime

/-- Method `getFinalTime`, defined in the header. -/
def getFinalTime (s : NavDataFactoryWithStore) : SystemTime := s.finalTime

/-- Modelled from the spec: `NavDataFactoryWithStore.cpp` is not among the
sources.  Method `size`: the number of messages in `data`. -/
def size (s : NavDataFactoryWithStore) : Nat := s.data.length

/-- Modelled from the spec: `NavDataFactoryWithStore.cpp` is not among the
sources.  Method `clear`: empties the store and resets the bounds to those
of a store without data. -/
def clear (ext : TimeExternals) (_s : NavDataFactoryWithStore) : NavDataFactoryWithStore :=
  init ext

/-- Modelled from the spec: `NavDataFactoryWithStore.cpp` is not among the
sources.  Method `addNavData`, without the flag it returns: the message
enters the primary index, where it replaces a message of the same identity
and time stamp (the specification leaves open which of the two is kept), and
the bounds are extended to the times the message is applicable at. -/
def addNavData (M : NavDataMethods) (s : NavDataFactoryWithStore) (nd : NavData) :
    NavDataFactoryWithStore :=
  { data := s.data.filter
      (fun m => !(decide (m.signal = nd.signal) && decide (m.timeStamp = nd.timeStamp)))
        ++ [nd],
    initialTime := s.initialTime.min (M.beginTime nd),
    finalTime := s.finalTime.max (M.endTime nd) }

/-- Modelled from the spec: `NavDataFactoryWithStore.cpp` is not among the
sources.  The test of `edit`: whether a time stamp lies in the half-open
span `[fromTime, toTime)`. -/
def inSpan (fromTime toTime t : CommonTime) : Bool :=
  decide (fromTime ≤ t) && decide (t < toTime)

/-- Modelled from the spec: `NavDataFactoryWithStore.cpp` is not among the
sources.  Method `edit(fromTime, toTime)`: removes the messages whose time
stamp lies in `[fromTime, toTime)`; the bounds are not recomputed. -/
def edit (s : NavDataFactoryWithStore) (fromTime toTime : CommonTime) :
    NavDataFactoryWithStore :=
  { s with
    data := s.data.filter (fun m => !(inSpan fromTime toTime m.timeStamp)) }

/-- Modelled from the spec: `NavDataFactoryWithStore.cpp` is not among the
sources.  Method `edit(fromTime, toTime, satID)`: as `edit`, for the
messages of one complete signal specification only. -/
def editSatellite (s : NavDataFactoryWithStore) (fromTime toTime : CommonTime)
    (satID : NavSatelliteID) : NavDataFactoryWithStore :=
  { s with
    data := s.data.filter
      (fun m => !(inSpan fromTime toTime m.timeStamp && decide (m.signal.satID = satID))) }

/-- Modelled from the spec: `NavDataFactoryWithStore.cpp` is not among the
sources.  Method `edit(fromTime, toTime, signal)`: as `edit`, for the
messages of all satellites on one signal only. -/
def editSignal (s : NavDataFactoryWithStore) (fromTime toTime : CommonTime)
    (signal : NavSignalID) : NavDataFactoryWithStore :=
  { s with
    data := s.data.filter
      (fun m => !(inSpan fromTime toTime m.timeStamp
        && decide ((⟨m.signal.satID.system, m.signal.satID.obs, m.signal.satID.nav⟩
            : NavSignalID) = signal))) }

end NavDataFactoryWithStore

namespace NavDataFactoryWithStore

/-- Modelled from the spec: `NavDataFactoryWithStore.cpp` is not among the
sources.  Selection step of the causal search: the later of the candidate held so
far and the next message; the candidate is kept when the two time stamps are
equal. -/
def later (best : NavDataPtr) (m : NavData) : NavDataPtr :=
  match best with
  | none => some m
  | some b => if b.timeStamp < m.timeStamp then some m else some b

/-- Modelled from the spec: `NavDataFactoryWithStore.cpp` is not among the
sources.  Selection step of the nearest-epoch search: whichever of the candidate
held so far and the next message has its reference epoch closer to `when`;
the candidate is kept when the two are equally close. -/
def nearer (M : NavDataMethods) (when : CommonTime) (best : NavDataPtr) (m : NavData) :
    NavDataPtr :=
  match best with
  | none => some m
  | some b =>
    if (M.nearTime m - when).natAbs < (M.nearTime b - when).natAbs then some m else some b

/-- Modelled from the spec: `NavDataFactoryWithStore.cpp` is not among the
sources.  Identity of the Health message of the satellite that transmitted
`m`, on the signal of `m`. -/
def healthID (m : NavData) : NavMessageID :=
  ⟨NavSatelliteID.ofSats m.signal.satID.xmitSat m.signal.satID.xmitSat
      m.signal.satID.obs m.signal.satID.nav, NavMessageType.Health⟩

/-- Modelled from the spec: `NavDataFactoryWithStore.cpp` is not among the
sources.  The Health message of the transmitter of `m` that applies at
`when`: the latest one stored with a time stamp not after `when`. -/
def findHealth (s : NavDataFactoryWithStore) (m : NavData) (when : CommonTime) : NavDataPtr :=
  (s.data.filter
    (fun h => decide (h.signal = healthID m) && decide (h.timeStamp ≤ when))).foldl later none

/-- Modelled from the spec: `NavDataFactoryWithStore.cpp` is not among the
sources.  Method `matchHealth`, at the instant `when` of the query: any
message passes when the desired health is `Any`; otherwise the Health
message of the transmitter must be found and must report the desired
health. -/
def matchHealth (M : NavDataMethods) (s : NavDataFactoryWithStore) (ndp : NavData)
    (xmitHealth : SVHealth) (when : CommonTime) : Bool :=
  if xmitHealth = SVHealth.Any then true
  else
    match findHealth s ndp when with
    | none => false
    | some h => decide (M.getHealth h = xmitHealth)

/-- Modelled from the spec: `NavDataFactoryWithStore.cpp` is not among the
sources.  Method `validityCheck`: the validity of the message is the one
asked for, and the health of its transmitter is the one asked for. -/
def validityCheck (M : NavDataMethods) (s : NavDataFactoryWithStore) (ndp : NavData)
    (valid : NavValidityType) (xmitHealth : SVHealth) (when : CommonTime) : Bool :=
  (match valid with
    | NavValidityType.ValidOnly => M.validate ndp
    | NavValidityType.InvalidOnly => !(M.validate ndp)
    | NavValidityType.Any => true)
  && matchHealth M s ndp xmitHealth when

/-- Modelled from the spec: `NavDataFactoryWithStore.cpp` is not among the
sources.  Method `findUser`: among the messages of the queried identity
whose time stamp is not after `when` and that pass the filters, the latest
one. -/
def findUser (M : NavDataMethods) (s : NavDataFactoryWithStore) (nmid : NavMessageID)
    (when : CommonTime) (xmitHealth : SVHealth) (valid : NavValidityType) : NavDataPtr :=
  (s.data.filter
    (fun m => decide (m.signal = nmid) && decide (m.timeStamp ≤ when)
      && validityCheck M s m valid xmitHealth when)).foldl later none

/-- Modelled from the spec: `NavDataFactoryWithStore.cpp` is not among the
sources.  Method `findNearest`: among the messages of the queried identity
that pass the filters, one whose reference epoch is closest to `when`. -/
def findNearest (M : NavDataMethods) (s : NavDataFactoryWithStore) (nmid : NavMessageID)
    (when : CommonTime) (xmitHealth : SVHealth) (valid : NavValidityType) : NavDataPtr :=
  (s.data.filter
    (fun m => decide (m.signal = nmid)
      && validityCheck M s m valid xmitHealth when)).foldl (nearer M when) none

/-- Modelled from the spec: `NavDataFactoryWithStore.cpp` is not among the
sources.  Method `find`: the search in the order asked for; true with the
message found in `navOut`, or false with `navOut` untouched. -/
def find (M : NavDataMethods) (s : NavDataFactoryWithStore) (args : FindArgs)
    (navOut : NavDataPtr) : Bool × NavDataPtr :=
  match (match args.order with
    | NavSearchOrder.User => findUser M s args.nmid args.when args.xmitHealth args.valid
    | NavSearchOrder.Nearest =>
      findNearest M s args.nmid args.when args.xmitHealth args.valid) with
  | some m => (true, some m)
  | none => (false, navOut)

end NavDataFactoryWithStore

/-- Sample time externals: instants run from 0 to 1000000, both extreme
instants are in the generic time system, and a conversion relabels the
instant. -/
def sampleTimeExternals : TimeExternals where
  BEGINNING_OF_TIME := ⟨0, TimeSystem.Any⟩
  END_OF_TIME := ⟨1000000, TimeSystem.Any⟩
  changeTimeSystem := fun t ts => ⟨t.time, ts⟩

/-- Sample message methods: every message is valid, a Health message reports
its health bit, the reference epoch of a message is its time stamp, and a
message is applicable at its time stamp, in GPS time. -/
def sampleMethods : NavDataMethods where
  validate := fun _ => true
  getHealth := fun m =>
    match m with
    | NavData.Health h => if h.health then SVHealth.Unhealthy else SVHealth.Healthy
    | _ => SVHealth.Unknown
  nearTime := fun m => m.timeStamp
  beginTime := fun m => ⟨m.timeStamp, TimeSystem.GPS⟩
  endTime := fun m => ⟨m.timeStamp, TimeSystem.GPS⟩

/-- Sample message: the sample Health message, with time stamp `t`. -/
def sampleMessageAt (t : CommonTime) : NavData :=
  NavData.Health { sampleHealth with timeStamp := t }

/-- Sample store: the empty store, then the sample message added with time
stamps 100, 200 and 300. -/
def sampleStore : NavDataFactoryWithStore :=
  ((((NavDataFactoryWithStore.init sampleTimeExternals).addNavData sampleMethods
    (sampleMessageAt 100)).addNavData sampleMethods
    (sampleMessageAt 200)).addNavData sampleMethods (sampleMessageAt 300))

/-- Sample store: the empty store, then the sample message added with time
stamps (and reference epochs) 100 and 200. -/
def sampleStoreTwo : NavDataFactoryWithStore :=
  (((NavDataFactoryWithStore.init sampleTimeExternals).addNavData sampleMethods
    (sampleMessageAt 100)).addNavData sampleMethods (sampleMessageAt 200))

/-! ## Federation: operations on every distinct store

The stores live at the addresses the registry holds; their states are
passed in and returned.  A virtual call on a registered object runs the
method of `NavDataFactoryWithStore`. -/

/-- The states of the store objects, by address. -/
abbrev StoreHeap := NavDataFactoryPtr → NavDataFactoryWithStore

/-- Assignment to the object at address `p`. -/
def StoreHeap.set (stores : StoreHeap) (p : NavDataFactoryPtr)
    (s : NavDataFactoryWithStore) : StoreHeap :=
  fun q => if q = p then s else stores q

/-- Modelled from the spec: `NDFUniqIterator.hpp` is not among the sources.
The rows visited from a given row on, `uniques` being the stores already
visited. -/
def NDFUniqIterator.visit (uniques : List NavDataFactoryPtr) :
    NavDataFactoryMap → NavDataFactoryMap
  | [] => []
  | fi :: rest =>
    if uniques.contains fi.2 then NDFUniqIterator.visit uniques rest
    else fi :: NDFUniqIterator.visit (fi.2 :: uniques) rest

/-- Modelled from the spec: `NDFUniqIterator.hpp` is not among the sources.
The rows a loop over `NDFUniqIterator<NavDataFactoryMap>(factories())`
visits: in registry order, the first row of each distinct store; a row whose
store was visited before is skipped. -/
def NDFUniqIterator (factories : NavDataFactoryMap) : NavDataFactoryMap :=
  NDFUniqIterator.visit [] factories

/-- Modelled from the spec: `NDFUniqConstIterator.hpp` is not among the
sources.  The same rows as `NDFUniqIterator`, for a constant registry. -/
def NDFUniqConstIterator (factories : NavDataFactoryMap) : NavDataFactoryMap :=
  NDFUniqIterator.visit [] factories

/-- A call that the federation forwards to a store, with its arguments:
`clear()` or one of the three overloads of `edit`. -/
inductive StoreCall where
  | clear
  | edit (fromTime toTime : CommonTime)
  | editSatellite (fromTime toTime : CommonTime) (satID : NavSatelliteID)
  | editSignal (fromTime toTime : CommonTime) (signal : NavSignalID)
  deriving DecidableEq

/-- The effect of a forwarded call on the store that receives it. -/
def StoreCall.run (ext : TimeExternals) (call : StoreCall) (s : NavDataFactoryWithStore) :
    NavDataFactoryWithStore :=
  match call with
  | StoreCall.clear => s.clear ext
  | StoreCall.edit fromTime toTime => s.edit fromTime toTime
  | StoreCall.editSatellite fromTime toTime satID => s.editSatellite fromTime toTime satID
  | StoreCall.editSignal fromTime toTime signal => s.editSignal fromTime toTime signal

namespace MultiFormatNavDataFactory

/-- The loop shared by `clear` and the three overloads of `edit`, over the
rows the iterator visits: the call is made on the store of each row; `calls`
records, in order, the calls made. -/
def forwardLoop (ext : TimeExternals) (call : StoreCall) :
    NavDataFactoryMap → StoreHeap → List (NavDataFactoryPtr × StoreCall) →
      StoreHeap × List (NavDataFactoryPtr × StoreCall)
  | [], stores, calls => (stores, calls)
  | fi :: rest, stores, calls =>
    forwardLoop ext call rest (stores.set fi.2 (call.run ext (stores fi.2)))
      (calls ++ [(fi.2, call)])

/-- Method `clear`: the store states afterwards. -/
def clear (ext : TimeExternals) (factories : NavDataFactoryMap) (stores : StoreHeap) :
    StoreHeap :=
  (forwardLoop ext StoreCall.clear (NDFUniqIterator factories) stores []).1

/-- The calls one call of `clear` makes on the stores, in order. -/
def clearCalls (ext : TimeExternals) (factories : NavDataFactoryMap) (stores : StoreHeap) :
    List (NavDataFactoryPtr × StoreCall) :=
  (forwardLoop ext StoreCall.clear (NDFUniqIterator factories) stores []).2

/-- Method `edit(fromTime, toTime)`: the store states afterwards. -/
def edit (ext : TimeExternals) (factories : NavDataFactoryMap) (stores : StoreHeap)
    (fromTime toTime : CommonTime) : StoreHeap :=
  (forwardLoop ext (StoreCall.edit fromTime toTime) (NDFUniqIterator factories) stores []).1

/-- The calls one call of `edit(fromTime, toTime)` makes on the stores. -/
def editCalls (ext : TimeExternals) (factories : NavDataFactoryMap) (stores : StoreHeap)
    (fromTime toTime : CommonTime) : List (NavDataFactoryPtr × StoreCall) :=
  (forwardLoop ext (StoreCall.edit fromTime toTime) (NDFUniqIterator factories) stores []).2

/-- Method `edit(fromTime, toTime, satID)`: the store states afterwards. -/
def editSatellite (ext : TimeExternals) (factories : NavDataFactoryMap) (stores : StoreHeap)
    (fromTime toTime : CommonTime) (satID : NavSatelliteID) : StoreHeap :=
  (forwardLoop ext (StoreCall.editSatellite fromTime toTime satID)
    (NDFUniqIterator factories) stores []).1

/-- The calls one call of `edit(fromTime, toTime, satID)` makes on the
stores. -/
def editSatelliteCalls (ext : TimeExternals) (factories : NavDataFactoryMap)
    (stores : StoreHeap) (fromTime toTime : CommonTime) (satID : NavSatelliteID) :
    List (NavDataFactoryPtr × StoreCall) :=
  (forwardLoop ext (StoreCall.editSatellite fromTime toTime satID)
    (NDFUniqIterator factories) stores []).2

/-- Method `edit(fromTime, toTime, signal)`: the store states afterwards. -/
def editSignal (ext : TimeExternals) (factories : NavDataFactoryMap) (stores : StoreHeap)
    (fromTime toTime : CommonTime) (signal : NavSignalID) : StoreHeap :=
  (forwardLoop ext (StoreCall.editSignal fromTime toTime signal)
    (NDFUniqIterator factories) stores []).1

/-- The calls one call of `edit(fromTime, toTime, signal)` makes on the
stores. -/
def editSignalCalls (ext : TimeExternals) (factories : NavDataFactoryMap)
    (stores : StoreHeap) (fromTime toTime : CommonTime) (signal : NavSignalID) :
    List (NavDataFactoryPtr × StoreCall) :=
  (forwardLoop ext (StoreCall.editSignal fromTime toTime signal)
    (NDFUniqIterator factories) stores []).2

/-- Method `size`: the sizes of the distinct registered objects that are
stores, added up in a `size_t`. -/
def size (heap : FactoryHeap) (factories : NavDataFactoryMap) (stores : StoreHeap) : Nat :=
  (NDFUniqConstIterator factories).foldl
    (fun rv fi =>
      if (heap fi.2).cls.isWithStore then (rv + (stores fi.2).size) % 2 ^ 64 else rv)
    0

/-- Method `getInitialTime`: the earliest of the initial times of the
distinct stores, starting from `END_OF_TIME` in the generic time system; two
times in different time systems, neither of them generic, are both
converted to UTC first. -/
def getInitialTime (ext : TimeExternals) (factories : NavDataFactoryMap)
    (stores : StoreHeap) : SystemTime :=
  (NDFUniqConstIterator factories).foldl
    (fun rv fi =>
      let t := (stores fi.2).getInitialTime
      if rv.getTimeSystem = TimeSystem.Any ∨ t.getTimeSystem = TimeSystem.Any
          ∨ t.getTimeSystem = rv.getTimeSystem then
        SystemTime.min rv t
      else
        SystemTime.min (ext.changeTimeSystem rv TimeSystem.UTC)
          (ext.changeTimeSystem t TimeSystem.UTC))
    (ext.END_OF_TIME.setTimeSystem TimeSystem.Any)

/-- Method `getFinalTime`: the latest of the final times of the distinct
stores, starting from `BEGINNING_OF_TIME` in the generic time system. -/
def getFinalTime (ext : TimeExternals) (factories : NavDataFactoryMap)
    (stores : StoreHeap) : SystemTime :=
  (NDFUniqConstIterator factories).foldl
    (fun rv fi =>
      let t := (stores fi.2).getFinalTime
      if rv.getTimeSystem = TimeSystem.Any ∨ t.getTimeSystem = TimeSystem.Any
          ∨ t.getTimeSystem = rv.getTimeSystem then
        SystemTime.max rv t
      else
        SystemTime.max (ext.changeTimeSystem rv TimeSystem.UTC)
          (ext.changeTimeSystem t TimeSystem.UTC))
    (ext.BEGINNING_OF_TIME.setTimeSystem TimeSystem.Any)

end MultiFormatNavDataFactory

/-- Virtual method `addDataSource` of the file-backed stores, whose code is
not among the sources: for the store at an address, a source and the state
of the store, whether the store accepts the source, and the state of the
store afterwards. -/
abbrev DataSourceReader :=
  NavDataFactoryPtr → String → NavDataFactoryWithStore → Bool × NavDataFactoryWithStore

namespace MultiFormatNavDataFactory

/-- The loop of `addDataSource` over the rows the iterator visits; `calls`
records, in order, the stores the source has been offered to. -/
def addDataSourceLoop (heap : FactoryHeap) (reader : DataSourceReader) (source : String) :
    NavDataFactoryMap → StoreHeap → List NavDataFactoryPtr →
      (Bool × StoreHeap) × List NavDataFactoryPtr
  | [], stores, calls => ((false, stores), calls)
  | fi :: rest, stores, calls =>
    if (heap fi.2).cls.isWithStoreFile then
      match reader fi.2 source (stores fi.2) with
      | (true, s) => ((true, stores.set fi.2 s), calls ++ [fi.2])
      | (false, s) =>
        addDataSourceLoop heap reader source rest (stores.set fi.2 s) (calls ++ [fi.2])
    else
      addDataSourceLoop heap reader source rest stores calls

/-- Method `addDataSource`: the flag returned and the store states
afterwards. -/
def addDataSource (heap : FactoryHeap) (reader : DataSourceReader)
    (factories : NavDataFactoryMap) (stores : StoreHeap) (source : String) :
    Bool × StoreHeap :=
  (addDataSourceLoop heap reader source (NDFUniqIterator factories) stores []).1

/-- The stores one call of `addDataSource` offers the source to, in order. -/
def addDataSourceCalls (heap : FactoryHeap) (reader : DataSourceReader)
    (factories : NavDataFactoryMap) (stores : StoreHeap) (source : String) :
    List NavDataFactoryPtr :=
  (addDataSourceLoop heap reader source (NDFUniqIterator factories) stores []).2

end MultiFormatNavDataFactory

/-- Sample registry: the store at address 0 under both sample signals, then
the store at address 1 under the second. -/
def sampleRegistry : NavDataFactoryMap :=
  [(sampleSignalLNAV, 0), (sampleSignalCNAV2, 0), (sampleSignalCNAV2, 1)]

/-- Sample store states: the three-message store at address 0, the
two-message store at address 1, and a store without data elsewhere. -/
def sampleStores : StoreHeap := fun p =>
  match p with
  | 0 => sampleStore
  | 1 => sampleStoreTwo
  | _ => NavDataFactoryWithStore.init sampleTimeExternals

/-- Sample reader: the store at address 0 accepts the source `rinex`, the
store at address 1 the source `yuma`, and both accept the source `any`; an
accepting store gains the sample message with time stamp 400. -/
def sampleReader : DataSourceReader := fun p source s =>
  if (source = "rinex" ∧ p = 0) ∨ (source = "yuma" ∧ p = 1) ∨ source = "any" then
    (true, s.addNavData sampleMethods (sampleMessageAt 400))
  else (false, s)

namespace MultiFormatNavDataFactory

/-- The method of the federation that forwards a given call, `clear` or one
of the three overloads of `edit`, with the arguments of the call: the store
states afterwards and the calls made on the stores. -/
def forward (ext : TimeExternals) (factories : NavDataFactoryMap) (stores : StoreHeap)
    (call : StoreCall) : StoreHeap × List (NavDataFactoryPtr × StoreCall) :=
  match call with
  | StoreCall.clear =>
    (clear ext factories stores, clearCalls ext factories stores)
  | StoreCall.edit fromTime toTime =>
    (edit ext factories stores fromTime toTime, editCalls ext factories stores fromTime toTime)
  | StoreCall.editSatellite fromTime toTime satID =>
    (editSatellite ext factories stores fromTime toTime satID,
     editSatelliteCalls ext factories stores fromTime toTime satID)
  | StoreCall.editSignal fromTime toTime signal =>
    (editSignal ext factories stores fromTime toTime signal,
     editSignalCalls ext factories stores fromTime toTime signal)

end MultiFormatNavDataFactory

namespace MultiFormatNavDataFactory

/-- The distinct registered stores that are file-backed, in registry
order. -/
def fileStores (heap : FactoryHeap) (factories : NavDataFactoryMap) :
    List NavDataFactoryPtr :=
  ((NDFUniqIterator factories).map Prod.snd).filter (fun p => (heap p).cls.isWithStoreFile)

/-- Whether the store at address `p`, in its state before the call, accepts
the source. -/
def accepts (reader : DataSourceReader) (stores : StoreHeap) (source : String)
    (p : NavDataFactoryPtr) : Bool :=
  (reader p source (stores p)).1

end MultiFormatNavDataFactory

/-- Sample message: the health of GPS satellite 7 as broadcast by satellite
5 on L1 / L1CD, with time stamp 100. -/
def sampleRelayed : NavData :=
  NavData.Health
    { timeStamp := 100,
      signal := ⟨NavSatelliteID.ofPRNs 7 5 SatelliteSystem.GPS CarrierBand.L1
        TrackingCode.L1CD NavType.GPSCNAV2, NavMessageType.Health⟩,
      health := false, isEph := false }

/-- Sample store: the empty store, then the relayed sample message; no
Health message of the transmitting satellite 5 has been added. -/
def sampleStoreRelayed : NavDataFactoryWithStore :=
  (NavDataFactoryWithStore.init sampleTimeExternals).addNavData sampleMethods sampleRelayed

/-! ## Galileo F/NAV health (`GalFNavHealth`) -/

/-- Class `GalFNavHealth`, from `GalFNavHealth.hpp`: the time stamp and
identity it inherits from `NavData`, the signal health status, the data
validity status and the SISA index (a `uint8_t`).  The two status
enumerations are declared in headers that are not among the sources, and
are parameters. -/
structure GalFNavHealth (GalHealthStatus GalDataValid : Type) where
  timeStamp : CommonTime
  signal : NavMessageID
  sigHealthStatus : GalHealthStatus
  dataValidityStatus : GalDataValid
  sisaIndex : Nat

/-- Method `validate`: true always, there is nothing to check. -/
def GalFNavHealth.validate {GalHealthStatus GalDataValid : Type}
    (_h : GalFNavHealth GalHealthStatus GalDataValid) : Bool :=
  true

/-- Sample Galileo F/NAV health message, with the statuses as integer codes:
satellite 11 on the L5 band at instant 1000, signal health status 1, data validity
status 2, SISA index 255. -/
def sampleGalFNavHealth : GalFNavHealth Nat Nat :=
  { timeStamp := 1000,
    signal := ⟨NavSatelliteID.ofPRNs 11 11 SatelliteSystem.Galileo CarrierBand.L5
      TrackingCode.L5I NavType.GalFNAV, NavMessageType.Health⟩,
    sigHealthStatus := 1, dataValidityStatus := 2, sisaIndex := 255 }

/-! ## The bit fields the decoder reads -/

namespace CNav2BitInfo

/-- The bit fields of subframe 2 given in `CNav2BitInfo`, as pairs of first
bit and number of bits, among them every field `processEph` reads; a flag
read with `asBool` is a field of one bit. -/
def subframe2Reads : List (Nat × Nat) :=
  [(esbWN, enbWN), (esbtoe, enbtoe), (esbCuc, enbCuc), (esbCus, enbCus),
   (esbCrc, enbCrc), (esbCrs, enbCrs), (esbCic, enbCic), (esbCis, enbCis),
   (esbM0, enbM0), (esbdn0, enbdn0), (esbdn0dot, enbdn0dot), (esbEcc, enbEcc),
   (esbdA, enbdA), (esbAdot, enbAdot), (esbOMEGA0, enbOMEGA0), (esbi0, enbi0),
   (esbw, enbw), (esbdOMEGAdot, enbdOMEGAdot), (esbidot, enbidot),
   (esbaf0, enbaf0), (esbaf1, enbaf1), (esbaf2, enbaf2), (esbHeaL1C, 1),
   (esbURA, enbURA), (esbWNop, enbWNop), (esbtop, enbtop),
   (esbURAned0, enbURAned0), (esbURAned1, enbURAned1), (esbURAned2, enbURAned2),
   (esbTGD, enbTGD), (esbISCL1CP, enbISCL1CP), (esbISCL1CD, enbISCL1CD),
   (esbISF, 1), (esbITOW, enbITOW)]

/-- The bit fields of subframe 3 given in `CNav2BitInfo`: the page header
(PRN and page number), and the fields of pages 1, 2 and 4, among them every
field `addData`, `processUTCIono`, `processGGTOEOP` and `processAlmOrb`
read. -/
def subframe3Reads : List (Nat × Nat) :=
  [(asbPRN, anbPRN), (asbPage, anbPage),
   (csbA0, cnbA0), (csbA1, cnbA1), (csbA2, cnbA2), (csbdtLS, cnbdtLS),
   (csbtot, cnbtot), (csbWNot, cnbWNot), (csbWNlsf, cnbWNlsf), (csbDN, cnbDN),
   (csbdtLSF, cnbdtLSF),
   (gsbGNSS, gnbGNSS), (gsbt, gnbt), (gsbWN, gnbWN), (gsbA0, gnbA0),
   (gsbA1, gnbA1), (gsbA2, gnbA2),
   (asbWNa, anbWNa), (asbtoa, anbtoa), (asbPRNa, anbPRNa), (asbHeaL1, 1),
   (asbHeaL2, 1), (asbHeaL5, 1), (asbEcc, anbEcc), (asbdi, anbdi),
   (asbOMEGAdot, anbOMEGAdot), (asbAhalf, anbAhalf), (asbOMEGA0, anbOMEGA0),
   (asbw, anbw), (asbM0, anbM0), (asbaf0, anbaf0), (asbaf1, anbaf1)]

end CNav2BitInfo

/-- Sample field values: every field zero but the two inter-signal
corrections, both at the pattern 0x1000 (-4096). -/
def sampleFieldsISC : Subframe2Fields :=
  { sampleFieldsZero with ISCL1CP := -4096, ISCL1CD := -4096 }

/-- Sample 600-bit subframe 2 with every bit 1, reported on L2 / L2CM. -/
def sampleSubframe2L2 : PackedNavBits :=
  { sampleSubframe2 with
    obsID := ⟨ObservationType.NavMsg, CarrierBand.L2, TrackingCode.L2CM⟩ }

/-! ## Filters and file-backed stores

`NavDataFactory.hpp`, `NavDataFactoryWithStoreFile.hpp` and the readers of
the file formats are not among the sources; the tests of two readers are. -/

/-- A set of message kinds (`NavMessageTypeSet`). -/
abbrev NavMessageTypeSet := List NavMessageType

/-- Modelled from the spec: `NavDataFactory.hpp` is not among the sources.
The configuration members of the base class of every factory: the validity
filter (`navValidity`) and the desired message kinds (`procNavTypes`). -/
structure NavDataFactory where
  navValidity : NavValidityType
  procNavTypes : NavMessageTypeSet
  deriving DecidableEq

/-- Modelled from the spec: `NavDataFactory.hpp` is not among the sources.
Method `setValidityFilter`. -/
def NavDataFactory.setValidityFilter (b : NavDataFactory) (nvt : NavValidityType) :
    NavDataFactory :=
  { b with navValidity := nvt }

/-- Modelled from the spec: `NavDataFactory.hpp` is not among the sources.
Method `setTypeFilter`. -/
def NavDataFactory.setTypeFilter (b : NavDataFactory) (nmts : NavMessageTypeSet) :
    NavDataFactory :=
  { b with procNavTypes := nmts }

/-- Modelled from the spec: `NavDataFactoryWithStoreFile.hpp` is not among the
sources.  A store with file loading: the configuration of the base class and
the store. -/
structure NavDataFactoryWithStoreFile where
  base : NavDataFactory
  store : NavDataFactoryWithStore

/-- Modelled from the spec: the readers of the file formats are not among the
sources.  What a reader makes of a source: the messages the source holds, in
file order, or nothing when the source is not in the format of the reader. -/
abbrev SourceReader := String → Option (List NavData)

namespace NavDataFactoryWithStoreFile

/-- Method `setTypeFilter`, inherited from the base class. -/
def setTypeFilter (fs : NavDataFactoryWithStoreFile) (nmts : NavMessageTypeSet) :
    NavDataFactoryWithStoreFile :=
  { fs with base := fs.base.setTypeFilter nmts }

/-- Modelled from the spec: the readers of the file formats are not among the
sources.  Whether a message read from a source is kept: its kind is among the
desired message kinds, and its validity is the one the validity filter asks
for. -/
def wanted (M : NavDataMethods) (fs : NavDataFactoryWithStoreFile) (nd : NavData) : Bool :=
  fs.base.procNavTypes.contains nd.signal.messageType
  && (match fs.base.navValidity with
      | NavValidityType.ValidOnly => M.validate nd
      | NavValidityType.InvalidOnly => !(M.validate nd)
      | NavValidityType.Any => true)

/-- Modelled from the spec: the readers of the file formats are not among the
sources.  Method `addDataSource`: false, with the store as it was, when the
source is not in the format of the reader; otherwise true, the messages of
the source that are wanted having been added to the store in file order. -/
def addDataSource (M : NavDataMethods) (read : SourceReader)
    (fs : NavDataFactoryWithStoreFile) (source : String) :
    Bool × NavDataFactoryWithStoreFile :=
  match read source with
  | none => (false, fs)
  | some msgs =>
    (true,
     { fs with
       store := (msgs.filter (wanted M fs)).foldl (fun s nd => s.addNavData M nd) fs.store })

end NavDataFactoryWithStoreFile

/-- The configurations of the factory objects, by address. -/
abbrev BaseHeap := NavDataFactoryPtr → NavDataFactory

/-- Assignment to the configuration of the object at address `p`. -/
def BaseHeap.set (bases : BaseHeap) (p : NavDataFactoryPtr) (b : NavDataFactory) :
    BaseHeap :=
  fun q => if q = p then b else bases q

/-- The arguments of `getOffset` other than the output parameter. -/
structure OffsetArgs where
  fromSys : TimeSystem
  toSys : TimeSystem
  when : CommonTime
  xmitHealth : SVHealth
  valid : NavValidityType
  deriving DecidableEq

/-- Virtual method `getOffset` of the stores, whose code is not among the
sources: for the store at an address, its state, the arguments and the
output parameter, the flag returned and the output parameter afterwards. -/
abbrev OffsetLookup :=
  NavDataFactoryPtr → NavDataFactoryWithStore → OffsetArgs → NavDataPtr → Bool × NavDataPtr

namespace MultiFormatNavDataFactory

/-- Method `setValidityFilter`: the filter is set on every distinct
registered store. -/
def setValidityFilter (factories : NavDataFactoryMap) (bases : BaseHeap)
    (nvt : NavValidityType) : BaseHeap :=
  (NDFUniqIterator factories).foldl
    (fun b i => b.set i.2 ((b i.2).setValidityFilter nvt)) bases

/-- Method `setTypeFilter`: the filter is set on every distinct registered
store. -/
def setTypeFilter (factories : NavDataFactoryMap) (bases : BaseHeap)
    (nmts : NavMessageTypeSet) : BaseHeap :=
  (NDFUniqIterator factories).foldl
    (fun b i => b.set i.2 ((b i.2).setTypeFilter nmts)) bases

/-- The loop of `getOffset` over the rows the iterator visits. -/
def getOffsetLoop (lookup : OffsetLookup) (stores : StoreHeap) (args : OffsetArgs) :
    NavDataFactoryMap → NavDataPtr → Bool × NavDataPtr
  | [], offset => (false, offset)
  | fi :: rest, offset =>
    match lookup fi.2 (stores fi.2) args offset with
    | (true, out) => (true, out)
    | (false, out) => getOffsetLoop lookup stores args rest out

/-- Method `getOffset`: the flag returned and the output parameter. -/
def getOffset (lookup : OffsetLookup) (factories : NavDataFactoryMap) (stores : StoreHeap)
    (args : OffsetArgs) (offset : NavDataPtr) : Bool × NavDataPtr :=
  getOffsetLoop lookup stores args (NDFUniqIterator factories) offset

end MultiFormatNavDataFactory

/-! ## The state the federation works on

The registry is a static object of `factories()`, shared by every
`MultiFormatNavDataFactory` of the process; the stores and their
configurations are reached through it. -/

/-- The process-wide state: the registry, the store states and the
configurations. -/
structure FederationState where
  factories : NavDataFactoryMap
  stores : StoreHeap
  bases : BaseHeap

/-- What the methods of the federation take from outside: the comparisons of
signals, the factory objects, the time constants, and the stores' own
`addDataSource` and `getOffset`. -/
structure FederationEnv where
  cmp : SignalCompare
  heap : FactoryHeap
  ext : TimeExternals
  reader : DataSourceReader
  offsets : OffsetLookup

/-- A call of a method of `MultiFormatNavDataFactory` that is not `const`,
with its arguments; `destroy` is the destructor. -/
inductive FederationCall where
  | find (args : FindArgs) (navOut : NavDataPtr)
  | getOffset (args : OffsetArgs) (offset : NavDataPtr)
  | clear
  | edit (fromTime toTime : CommonTime)
  | editSatellite (fromTime toTime : CommonTime) (satID : NavSatelliteID)
  | editSignal (fromTime toTime : CommonTime) (signal : NavSignalID)
  | setValidityFilter (nvt : NavValidityType)
  | setTypeFilter (nmts : NavMessageTypeSet)
  | addDataSource (source : String)
  | destroy
  | addFactory (fact : NavDataFactoryPtr)

/-- Whether a call is a call of `addFactory`. -/
def FederationCall.isAddFactory : FederationCall → Bool
  | FederationCall.addFactory _ => true
  | _ => false

namespace MultiFormatNavDataFactory

/-- The state after one call: each method leaves what its body writes; the
values it returns are not part of the state. -/
def step (env : FederationEnv) (w : FederationState) : FederationCall → FederationState
  | FederationCall.find _ _ => w
  | FederationCall.getOffset _ _ => w
  | FederationCall.clear =>
    { w with stores := clear env.ext w.factories w.stores }
  | FederationCall.edit fromTime toTime =>
    { w with stores := edit env.ext w.factories w.stores fromTime toTime }
  | FederationCall.editSatellite fromTime toTime satID =>
    { w with stores := editSatellite env.ext w.factories w.stores fromTime toTime satID }
  | FederationCall.editSignal fromTime toTime signal =>
    { w with stores := editSignal env.ext w.factories w.stores fromTime toTime signal }
  | FederationCall.setValidityFilter nvt =>
    { w with bases := setValidityFilter w.factories w.bases nvt }
  | FederationCall.setTypeFilter nmts =>
    { w with bases := setTypeFilter w.factories w.bases nmts }
  | FederationCall.addDataSource source =>
    { w with stores := (addDataSource env.heap env.reader w.factories w.stores source).2 }
  | FederationCall.destroy =>
    { w with stores := clear env.ext w.factories w.stores }
  | FederationCall.addFactory fact =>
    { w with factories := (addFactory env.cmp env.heap w.factories fact).2 }

/-- The state after a sequence of calls. -/
def run (env : FederationEnv) (w : FederationState) (calls : List FederationCall) :
    FederationState :=
  calls.foldl (step env) w

end MultiFormatNavDataFactory

/-- Sample message: a time offset message of GPS satellite 5 on L1 / L1CD,
with time stamp 150. -/
def sampleTimeOffset : NavData :=
  NavData.TimeOffset
    (GPSCNav2TimeOffset.init 150
      ⟨NavSatelliteID.ofPRNs 5 5 SatelliteSystem.GPS CarrierBand.L1 TrackingCode.L1CD
        NavType.GPSCNAV2, NavMessageType.TimeOffset⟩)

/-- Sample reader of one format: the source `nav` holds a Health message at
100, a time offset message at 150 and a Health message at 200, and any other
source is not in the format. -/
def sampleSourceReader : SourceReader := fun source =>
  if source = "nav" then some [sampleMessageAt 100, sampleTimeOffset, sampleMessageAt 200]
  else none

/-- Sample store with file loading: no data, every message kind desired,
valid messages only. -/
def sampleFileStore : NavDataFactoryWithStoreFile :=
  { base := ⟨NavValidityType.ValidOnly,
      [NavMessageType.Almanac, NavMessageType.Ephemeris, NavMessageType.TimeOffset,
       NavMessageType.Health, NavMessageType.Clock, NavMessageType.Iono]⟩,
    store := NavDataFactoryWithStore.init sampleTimeExternals }

/-- Sample environment of the federation. -/
def sampleEnv : FederationEnv :=
  { cmp := sampleCompare, heap := sampleHeap, ext := sampleTimeExternals,
    reader := sampleReader, offsets := fun _ _ _ offset => (false, offset) }

/-- Sample state: the sample registry and stores, every object configured
for valid messages, with no message kind desired yet. -/
def sampleState : FederationState :=
  { factories := sampleRegistry, stores := sampleStores,
    bases := fun _ => ⟨NavValidityType.ValidOnly, []⟩ }

/-! ## The decoder over the extraction methods of the frame

`PackedNavBits.cpp` is not among the sources, so what makes an extraction
raise is not known from them.  Here the extraction methods the decoder calls
are a parameter, and the decoder is read again over them: with the methods of
the modelled `PackedNavBits` it is the decoder above, and with others an
extraction can raise in the middle of a frame. -/

/-- The extraction methods of a frame that the decoder calls
(`asUnsignedLong`, `asLong`, `asUnsignedDouble`, `asSignedDouble`,
`asDoubleSemiCircles`, `asBool`), as a parameter. -/
structure FieldExtraction where
  asUnsignedLong : PackedNavBits → Nat → Nat → Int → Except Exception Nat
  asLong : PackedNavBits → Nat → Nat → Int → Except Exception Int
  asUnsignedDouble : PackedNavBits → Nat → Nat → Int → Except Exception Double
  asSignedDouble : PackedNavBits → Nat → Nat → Int → Except Exception Double
  asDoubleSemiCircles : PackedNavBits → Nat → Nat → Int → Except Exception Double
  asBool : PackedNavBits → Nat → Bool

/-- The extraction methods of the modelled `PackedNavBits`, for the constant
`PI`. -/
def PackedNavBits.extraction (PI : Double) : FieldExtraction where
  asUnsignedLong := PackedNavBits.asUnsignedLong
  asLong := PackedNavBits.asLong
  asUnsignedDouble := PackedNavBits.asUnsignedDouble
  asSignedDouble := PackedNavBits.asSignedDouble
  asDoubleSemiCircles := PackedNavBits.asDoubleSemiCircles PI
  asBool := PackedNavBits.asBool

namespace PNBGPSCNav2DataFactory

/-- The member assignments of `processEph`, over the extraction methods
`x`. -/
def decodeEphWith (x : FieldExtraction) (f : PNBGPSCNav2DataFactory)
    (navIn : PackedNavBits) : Except Exception GPSCNav2Eph := do
  let prn := navIn.satSys.id
  let timeStamp := navIn.transmitTime
  let signal : NavMessageID :=
    ⟨NavSatelliteID.ofPRN prn navIn.satSys navIn.obsID navIn.navID,
     NavMessageType.Ephemeris⟩
  let xmitTime := timeStamp
  let wn : Int := PackedNavBits.toInt64 (← x.asUnsignedLong navIn esbWN enbWN escWN)
  let toe : Double := Double.ofInt (← x.asUnsignedLong navIn esbtoe enbtoe esctoe)
  let Toe := GPSWeekSecond.ofWeekSow (wn % 2 ^ 32).toNat toe
  let Cuc ← x.asSignedDouble navIn esbCuc enbCuc escCuc
  let Cus ← x.asSignedDouble navIn esbCus enbCus escCus
  let Crc ← x.asSignedDouble navIn esbCrc enbCrc escCrc
  let Crs ← x.asSignedDouble navIn esbCrs enbCrs escCrs
  let Cic ← x.asSignedDouble navIn esbCic enbCic escCic
  let Cis ← x.asSignedDouble navIn esbCis enbCis escCis
  let M0 ← x.asDoubleSemiCircles navIn esbM0 enbM0 escM0
  let dn ← x.asDoubleSemiCircles navIn esbdn0 enbdn0 escdn0
  let dndot ← x.asDoubleSemiCircles navIn esbdn0dot enbdn0dot escdn0dot
  let ecc ← x.asUnsignedDouble navIn esbEcc enbEcc escEcc
  let deltaA ← x.asSignedDouble navIn esbdA enbdA escdA
  let A := deltaA + f.ext.refAGPS
  let Ahalf := f.ext.sqrt A
  let Adot ← x.asSignedDouble navIn esbAdot enbAdot escAdot
  let OMEGA0 ← x.asDoubleSemiCircles navIn esbOMEGA0 enbOMEGA0 escOMEGA0
  let i0 ← x.asDoubleSemiCircles navIn esbi0 enbi0 esci0
  let w ← x.asDoubleSemiCircles navIn esbw enbw escw
  let dOMEGAdot ← x.asDoubleSemiCircles navIn esbdOMEGAdot enbdOMEGAdot escdOMEGAdot
  let OMEGAdot := dOMEGAdot + f.ext.refOMEGAdotGPS
  let idot ← x.asDoubleSemiCircles navIn esbidot enbidot escidot
  let af0 ← x.asSignedDouble navIn esbaf0 enbaf0 escaf0
  let af1 ← x.asSignedDouble navIn esbaf1 enbaf1 escaf1
  let af2 ← x.asSignedDouble navIn esbaf2 enbaf2 escaf2
  let healthL1C := x.asBool navIn esbHeaL1C
  let health := if healthL1C then SVHealth.Unhealthy else SVHealth.Healthy
  let uraED ← x.asLong navIn esbURA enbURA escURA
  let wnop0 : Nat := (← x.asUnsignedLong navIn esbWNop enbWNop escWNop) % 2 ^ 32
  let top : Double := Double.ofInt (← x.asUnsignedLong navIn esbtop enbtop esctop)
  let wnop : Nat := (timeAdjust8BitWeekRollover wnop0 wn % 2 ^ 32).toNat
  let top := GPSWeekSecond.ofWeekSow wnop top
  let uraNED0 ← x.asLong navIn esbURAned0 enbURAned0 escURAned0
  let uraNED1 ← x.asUnsignedLong navIn esbURAned1 enbURAned1 escURAned1
  let uraNED2 ← x.asUnsignedLong navIn esbURAned2 enbURAned2 escURAned2
  let tgdBits ← x.asUnsignedLong navIn esbTGD enbTGD 1
  let tgd ← if tgdBits = 0x1000 then (pure Double.nan : Except Exception Double)
            else x.asSignedDouble navIn esbTGD enbTGD escTGD
  let iscL1CP ← x.asSignedDouble navIn esbISCL1CP enbISCL1CP escISCL1CP
  let iscL1CD ← x.asSignedDouble navIn esbISCL1CD enbISCL1CD escISCL1CD
  let integStat := x.asBool navIn esbISF
  let eph : GPSCNav2Eph :=
    { timeStamp := timeStamp, signal := signal, xmitTime := xmitTime,
      Toe := Toe, Toc := Toe, health := health,
      Cuc := Cuc, Cus := Cus, Crc := Crc, Crs := Crs, Cic := Cic, Cis := Cis,
      M0 := M0, dn := dn, dndot := dndot, ecc := ecc, deltaA := deltaA,
      A := A, Ahalf := Ahalf, Adot := Adot, OMEGA0 := OMEGA0, i0 := i0, w := w,
      dOMEGAdot := dOMEGAdot, OMEGAdot := OMEGAdot, idot := idot,
      af0 := af0, af1 := af1, af2 := af2, healthL1C := healthL1C,
      uraED := uraED, top := top, uraNED0 := uraNED0, uraNED1 := uraNED1,
      uraNED2 := uraNED2, tgd := tgd, iscL1CP := iscL1CP, iscL1CD := iscL1CD,
      integStat := integStat, beginFit := 0, endFit := 0 }
  pure (eph.fixFit f.ext)

/-- Method `processEph`, over the extraction methods `x`. -/
def processEphWith (x : FieldExtraction) (f : PNBGPSCNav2DataFactory)
    (navIn : PackedNavBits) (navOut : NavDataPtrList) : Outcome :=
  let prn := navIn.satSys.id
  let navOut :=
    if f.base.processHea then
      navOut ++ [NavData.Health
        { timeStamp := navIn.transmitTime
          signal := ⟨NavSatelliteID.ofPRNs prn prn navIn.satSys.system
            CarrierBand.L1 TrackingCode.L1CD NavType.GPSCNAV2, NavMessageType.Health⟩
          health := x.asBool navIn esbHeaL1C
          isEph := true }]
    else navOut
  if !f.base.processEph then
    (Except.ok true, navOut)
  else
    match f.decodeEphWith x navIn with
    | Except.error exc => (Except.error exc, navOut)
    | Except.ok p0 => (Except.ok true, navOut ++ [NavData.Ephemeris p0])

/-- The member assignments of `processAlmOrb`, over the extraction methods
`x`. -/
def decodeAlmWith (x : FieldExtraction) (f : PNBGPSCNav2DataFactory)
    (navIn : PackedNavBits) (subjSat xmitSat : SatID) : Except Exception GPSCNav2Alm := do
  let timeStamp := navIn.transmitTime
  let signal : NavMessageID :=
    ⟨NavSatelliteID.ofSats subjSat xmitSat navIn.obsID navIn.navID,
     NavMessageType.Almanac⟩
  let xmitTime := timeStamp
  let wna ← x.asUnsignedLong navIn asbWNa anbWNa ascWNa
  let toa ← x.asUnsignedDouble navIn asbtoa anbtoa asctoa
  let Toe := GPSWeekSecond.ofWeekSow (wna % 2 ^ 32) toa
  let M0 ← x.asDoubleSemiCircles navIn asbM0 anbM0 ascM0
  let ecc ← x.asUnsignedDouble navIn asbEcc anbEcc ascEcc
  let Ahalf ← x.asUnsignedDouble navIn asbAhalf anbAhalf ascAhalf
  let A := Ahalf * Ahalf
  let OMEGA0 ← x.asDoubleSemiCircles navIn asbOMEGA0 anbOMEGA0 ascOMEGA0
  let w ← x.asDoubleSemiCircles navIn asbw anbw ascw
  let OMEGAdot ← x.asDoubleSemiCircles navIn asbOMEGAdot anbOMEGAdot ascOMEGAdot
  let af0 ← x.asSignedDouble navIn asbaf0 anbaf0 ascaf0
  let af1 ← x.asSignedDouble navIn asbaf1 anbaf1 ascaf1
  let healthL1 := x.asBool navIn asbHeaL1
  let healthL2 := x.asBool navIn asbHeaL2
  let healthL5 := x.asBool navIn asbHeaL5
  let health := if healthL1 = false then SVHealth.Healthy else SVHealth.Unhealthy
  let deltai ← x.asDoubleSemiCircles navIn asbdi anbdi ascdi
  let i0 := f.ext.refioffsetGPS + deltai
  let alm : GPSCNav2Alm :=
    { timeStamp := timeStamp, signal := signal, xmitTime := xmitTime,
      wna := wna, toa := toa, Toc := Toe, Toe := Toe, M0 := M0, ecc := ecc,
      Ahalf := Ahalf, A := A, OMEGA0 := OMEGA0, w := w, OMEGAdot := OMEGAdot,
      af0 := af0, af1 := af1, healthL1 := healthL1, healthL2 := healthL2,
      healthL5 := healthL5, health := health, deltai := deltai, i0 := i0,
      beginFit := 0, endFit := 0 }
  pure (alm.fixFit f.ext)

/-- Method `processAlmOrb`, over the extraction methods `x`. -/
def processAlmOrbWith (x : FieldExtraction) (f : PNBGPSCNav2DataFactory)
    (navIn : PackedNavBits) (navOut : NavDataPtrList) : Outcome :=
  match x.asUnsignedLong navIn asbPRNa anbPRNa ascPRNa with
  | Except.error exc => (Except.error exc, navOut)
  | Except.ok sprn =>
    let xmitSat : SatID := navIn.satSys
    let subjSys := xmitSat.system
    let subjSat : SatID := ⟨toInt32 sprn, subjSys⟩
    let navOut :=
      if f.base.processHea then
        navOut ++
          [NavData.Health
            { timeStamp := navIn.transmitTime
              signal := ⟨NavSatelliteID.ofSats subjSat xmitSat navIn.obsID navIn.navID,
                NavMessageType.Health⟩
              health := x.asBool navIn asbHeaL1
              isEph := false }] ++
          [NavData.Health
            { timeStamp := navIn.transmitTime
              signal := ⟨NavSatelliteID.ofSats subjSat xmitSat
                ⟨ObservationType.NavMsg, CarrierBand.L2, TrackingCode.L2CM⟩
                NavType.GPSCNAVL2, NavMessageType.Health⟩
              health := x.asBool navIn asbHeaL2
              isEph := false }] ++
          [NavData.Health
            { timeStamp := navIn.transmitTime
              signal := ⟨NavSatelliteID.ofSats subjSat xmitSat
                ⟨ObservationType.NavMsg, CarrierBand.L5, TrackingCode.L5I⟩
                NavType.GPSCNAVL5, NavMessageType.Health⟩
              health := x.asBool navIn asbHeaL5
              isEph := false }]
      else navOut
    if !f.base.processAlm then
      (Except.ok true, navOut)
    else
      match f.decodeAlmWith x navIn subjSat xmitSat with
      | Except.error exc => (Except.error exc, navOut)
      | Except.ok p0 => (Except.ok true, navOut ++ [NavData.Almanac p0])

/-- The member assignments of `processUTCIono`, over the extraction methods
`x`. -/
def decodeUTCIonoWith (x : FieldExtraction) (navIn : PackedNavBits) :
    Except Exception GPSCNav2TimeOffset := do
  let p0 := GPSCNav2TimeOffset.init navIn.transmitTime
    ⟨NavSatelliteID.ofPRN navIn.satSys.id navIn.satSys navIn.obsID navIn.navID,
     NavMessageType.TimeOffset⟩
  let tgt := TimeSystem.UTC
  let a0 ← x.asSignedDouble navIn csbA0 cnbA0 cscA0
  let a1 ← x.asSignedDouble navIn csbA1 cnbA1 cscA1
  let a2 ← x.asSignedDouble navIn csbA2 cnbA2 cscA2
  let deltatLS ← x.asLong navIn csbdtLS cnbdtLS cscdtLS
  let tot ← x.asUnsignedDouble navIn csbtot cnbtot csctot
  let wnot ← x.asUnsignedLong navIn csbWNot cnbWNot cscWNot
  let wnLSF ← x.asUnsignedLong navIn csbWNlsf cnbWNlsf cscWNlsf
  let dn ← x.asUnsignedLong navIn csbDN cnbDN cscDN
  let deltatLSF ← x.asLong navIn csbdtLSF cnbdtLSF cscdtLSF
  pure { p0 with tgt := tgt, a0 := a0, a1 := a1, a2 := a2, deltatLS := deltatLS,
                 tot := tot, wnot := wnot, wnLSF := wnLSF, dn := dn,
                 deltatLSF := deltatLSF }

/-- Method `processUTCIono`, over the extraction methods `x`. -/
def processUTCIonoWith (x : FieldExtraction) (f : PNBGPSCNav2DataFactory)
    (navIn : PackedNavBits) (navOut : NavDataPtrList) : Outcome :=
  if !f.base.processTim then
    (Except.ok true, navOut)
  else
    match decodeUTCIonoWith x navIn with
    | Except.error exc => (Except.error exc, navOut)
    | Except.ok p0 => (Except.ok true, navOut ++ [NavData.TimeOffset p0])

/-- The coefficient assignments of `processGGTOEOP`, over the extraction
methods `x`. -/
def decodeGGTOWith (x : FieldExtraction) (navIn : PackedNavBits) (tgt : TimeSystem) :
    Except Exception GPSCNav2TimeOffset := do
  let p0 := GPSCNav2TimeOffset.init navIn.transmitTime
    ⟨NavSatelliteID.ofPRN navIn.satSys.id navIn.satSys navIn.obsID navIn.navID,
     NavMessageType.TimeOffset⟩
  let tot ← x.asUnsignedDouble navIn gsbt gnbt gsct
  let wnot ← x.asUnsignedLong navIn gsbWN gnbWN gscWN
  let a0 ← x.asSignedDouble navIn gsbA0 gnbA0 gscA0
  let a1 ← x.asSignedDouble navIn gsbA1 gnbA1 gscA1
  let a2 ← x.asSignedDouble navIn gsbA2 gnbA2 gscA2
  pure { p0 with tgt := tgt, tot := tot, wnot := wnot, a0 := a0, a1 := a1, a2 := a2 }

/-- Method `processGGTOEOP`, over the extraction methods `x`; the GNSS ID is
kept in a `uint8_t`. -/
def processGGTOEOPWith (x : FieldExtraction) (f : PNBGPSCNav2DataFactory)
    (navIn : PackedNavBits) (navOut : NavDataPtrList) : Outcome :=
  if !f.base.processTim then
    (Except.ok true, navOut)
  else
    match x.asUnsignedLong navIn gsbGNSS gnbGNSS gscGNSS with
    | Except.error exc => (Except.error exc, navOut)
    | Except.ok g =>
      let gnssID : Nat := g % 2 ^ 8
      let finish (tgt : TimeSystem) : Outcome :=
        match decodeGGTOWith x navIn tgt with
        | Except.error exc => (Except.error exc, navOut)
        | Except.ok p0 => (Except.ok true, navOut ++ [NavData.TimeOffset p0])
      match gnssID with
      | 0 => (Except.ok true, navOut)
      | 1 => finish TimeSystem.GAL
      | 2 => finish TimeSystem.GLO
      | 3 => finish TimeSystem.QZS
      | _ => (Except.ok false, navOut)

/-- The `try` block of `addData`, over the extraction methods `x`: the value
it leaves in `rv` or returns, or the exception that leaves it, and the output
list as it is then. -/
def addDataTry (x : FieldExtraction) (f : PNBGPSCNav2DataFactory)
    (navIn : PackedNavBits) (navOut : NavDataPtrList) : Outcome :=
  if navIn.getNumBits = nnbSF2 then
    f.processEphWith x navIn navOut
  else if navIn.getNumBits = nnbSF3 then
    match x.asUnsignedLong navIn asbPage anbPage ascPage with
    | Except.error exc => (Except.error exc, navOut)
    | Except.ok pageNum =>
      if pageNum = npgUTC then f.processUTCIonoWith x navIn navOut
      else if pageNum = npgGGTO then f.processGGTOEOPWith x navIn navOut
      else if pageNum = npgMAlm then f.processAlmOrbWith x navIn navOut
      else (Except.ok true, navOut)
  else
    (Except.ok false, navOut)

/-- Method `addData`, over the extraction methods `x`: the format tag test,
the `try` block, and the `catch` clauses, which set `rv` to false. -/
def addDataWith (x : FieldExtraction) (f : PNBGPSCNav2DataFactory)
    (navIn : PackedNavBits) (navOut : NavDataPtrList) : Bool × NavDataPtrList :=
  if navIn.navID ≠ NavType.GPSCNAV2 then
    (false, navOut)
  else
    match f.addDataTry x navIn navOut with
    | (Except.ok rv, out) => (rv, out)
    | (Except.error _, out) => (false, out)

end PNBGPSCNav2DataFactory

/-- Sample extraction methods: those of a frame whose storage holds only the
first `limit` bits of the payload, so that a read past them raises. -/
def sampleShortExtraction (PI : Double) (limit : Nat) : FieldExtraction where
  asUnsignedLong := fun nav => ({ nav with bits := nav.bits.take limit }).asUnsignedLong
  asLong := fun nav => ({ nav with bits := nav.bits.take limit }).asLong
  asUnsignedDouble := fun nav => ({ nav with bits := nav.bits.take limit }).asUnsignedDouble
  asSignedDouble := fun nav => ({ nav with bits := nav.bits.take limit }).asSignedDouble
  asDoubleSemiCircles := fun nav =>
    PackedNavBits.asDoubleSemiCircles PI { nav with bits := nav.bits.take limit }
  asBool := fun nav => ({ nav with bits := nav.bits.take limit }).asBool

end gpstk

/-! # Theorems -/

namespace gpstk

open CNav2BitInfo PackedNavBits PNBGPSCNav2DataFactory

set_option maxRecDepth 20000

/-! ## Reference readings and the 64-bit register -/

/-- A bit string of length `n` denotes a value below `2^n`. -/
theorem unsignedValue_lt (bs : List Bool) : unsignedValue bs < 2 ^ bs.length := by
  induction bs with
  | nil => simp [unsignedValue]
  | cons b bs ih =>
    have e : 2 ^ (bs.length + 1) = 2 ^ bs.length * 2 := pow_succ 2 bs.length
    cases b <;> simp only [unsignedValue, List.length_cons, e, if_true, Bool.false_eq_true,
      if_false] <;> omega

/-- The register loop started from `acc` computes `acc * 2^n` plus the binary
value of the bits, as long as that fits in 64 bits. -/
theorem foldl_accumulate (bs : List Bool) :
    ∀ acc : Nat, acc * 2 ^ bs.length + unsignedValue bs < 2 ^ 64 →
      bs.foldl (fun temp b => (temp * 2 + (if b then 1 else 0)) % 2 ^ 64) acc
        = acc * 2 ^ bs.length + unsignedValue bs := by
  induction bs with
  | nil => intro acc _; simp [unsignedValue]
  | cons b bs ih =>
    intro acc h
    have hpos : 0 < 2 ^ bs.length := Nat.two_pow_pos _
    have e : 2 ^ (bs.length + 1) = 2 ^ bs.length * 2 := pow_succ 2 bs.length
    simp only [List.length_cons, e, unsignedValue] at h
    have hstep : (acc * 2 + (if b then 1 else 0)) * 2 ^ bs.length + unsignedValue bs
        = acc * (2 ^ bs.length * 2) + ((if b then 2 ^ bs.length else 0) + unsignedValue bs) := by
      cases b <;> simp <;> ring
    have hsmall : acc * 2 + (if b then 1 else 0) < 2 ^ 64 := by
      have h1 : (acc * 2 + (if b then 1 else 0)) * 1 ≤
          (acc * 2 + (if b then 1 else 0)) * 2 ^ bs.length := Nat.mul_le_mul_left _ hpos
      omega
    simp only [List.foldl_cons, List.length_cons, e, unsignedValue]
    rw [Nat.mod_eq_of_lt hsmall, ih _ (by omega), hstep]

/-- On at most 64 bits the register loop of `asUint64_t` computes the binary
value, most significant bit first. -/
theorem accumulate_eq (bs : List Bool) (h : bs.length ≤ 64) :
    accumulate bs = unsignedValue bs := by
  have hlt : unsignedValue bs < 2 ^ 64 :=
    lt_of_lt_of_le (unsignedValue_lt bs) (Nat.pow_le_pow_right (by decide) h)
  unfold accumulate
  rw [foldl_accumulate bs 0 (by omega)]
  omega

/-- A field that lies inside the frame has exactly the requested number of
bits. -/
theorem field_length (nav : PackedNavBits) (s n : Nat) (h : s + n ≤ nav.bits.length) :
    (nav.field s n).length = n := by
  simp only [field, List.length_take, List.length_drop]
  omega

/-- The two shifts of `SignExtend` turn the binary value of 1 to 64 bits into
their two's-complement value. -/
theorem signExtend64_eq (bs : List Bool) (h1 : 1 ≤ bs.length) (h64 : bs.length ≤ 64) :
    signExtend64 (unsignedValue bs) bs.length = twosComplement bs := by
  cases bs with
  | nil => simp at h1
  | cons b rest =>
    simp only [List.length_cons] at h64 ⊢
    obtain ⟨k, hk⟩ : ∃ k, 64 - (rest.length + 1) = k := ⟨_, rfl⟩
    have hsum : rest.length + k = 63 := by omega
    have hPK : 2 ^ rest.length * 2 ^ k = 2 ^ 63 := by rw [← pow_add, hsum]
    have hK : 0 < 2 ^ k := Nat.two_pow_pos _
    have hr := unsignedValue_lt rest
    have ht : unsignedValue rest * 2 ^ k < 2 ^ 63 := by
      rw [← hPK]; exact Nat.mul_lt_mul_of_pos_right hr hK
    have hKz : ((2 : Int) ^ k) ≠ 0 := by positivity
    unfold signExtend64 toInt64
    rw [hk]
    cases b
    · simp only [unsignedValue, twosComplement, if_false, Bool.false_eq_true, zero_add]
      rw [Nat.mod_eq_of_lt (by omega), if_pos (by omega)]
      push_cast
      exact Int.mul_ediv_cancel _ hKz
    · simp only [unsignedValue, twosComplement, if_true]
      have e : (2 ^ rest.length + unsignedValue rest) * 2 ^ k
          = 2 ^ 63 + unsignedValue rest * 2 ^ k := by rw [add_mul, hPK]
      rw [e, Nat.mod_eq_of_lt (by omega), if_neg (by omega)]
      have hPKz : (2 : Int) ^ rest.length * 2 ^ k = 2 ^ 63 := by exact_mod_cast hPK
      have e2 : (((2 ^ 63 + unsignedValue rest * 2 ^ k : Nat) : Int) - 2 ^ 64)
          = (-(2 : Int) ^ rest.length + (unsignedValue rest : Int)) * 2 ^ k := by
        push_cast
        rw [add_mul, neg_mul, hPKz]
        ring
      rw [e2]
      exact Int.mul_ediv_cancel _ hKz

/-! ## Field extraction succeeds inside the frame -/

/-- Inside the frame `asUint64_t` does not raise. -/
theorem asUint64_t_ok (nav : PackedNavBits) (s n : Nat) (h : s + n ≤ nav.bits.length) :
    nav.asUint64_t s n = pure (accumulate (nav.field s n)) := by
  unfold asUint64_t
  rw [if_neg (by omega)]
  rfl

/-- Inside the frame `SignExtend` does not raise. -/
theorem SignExtend_ok (nav : PackedNavBits) (s n : Nat) (h : s + n ≤ nav.bits.length) :
    nav.SignExtend s n = pure (signExtend64 (accumulate (nav.field s n)) n) := by
  unfold SignExtend
  rw [asUint64_t_ok nav s n h]
  rfl

/-- Inside the frame `asUnsignedLong` does not raise. -/
theorem asUnsignedLong_ok (nav : PackedNavBits) (s n : Nat) (sc : Int)
    (h : s + n ≤ nav.bits.length) :
    nav.asUnsignedLong s n sc
      = pure (((accumulate (nav.field s n) : Int) * sc) % 2 ^ 64).toNat := by
  unfold asUnsignedLong
  rw [asUint64_t_ok nav s n h]
  rfl

/-- Inside the frame `asLong` does not raise. -/
theorem asLong_ok (nav : PackedNavBits) (s n : Nat) (sc : Int)
    (h : s + n ≤ nav.bits.length) :
    nav.asLong s n sc
      = pure (toInt64 ((signExtend64 (accumulate (nav.field s n)) n * sc) % 2 ^ 64).toNat) := by
  unfold asLong
  rw [SignExtend_ok nav s n h]
  rfl

/-- Inside the frame `asUnsignedDouble` does not raise. -/
theorem asUnsignedDouble_ok (nav : PackedNavBits) (s n : Nat) (p : Int)
    (h : s + n ≤ nav.bits.length) :
    nav.asUnsignedDouble s n p
      = pure (Double.ofInt (accumulate (nav.field s n)) * Double.pow2 p) := by
  unfold asUnsignedDouble
  rw [asUint64_t_ok nav s n h]
  rfl

/-- Inside the frame `asSignedDouble` does not raise. -/
theorem asSignedDouble_ok (nav : PackedNavBits) (s n : Nat) (p : Int)
    (h : s + n ≤ nav.bits.length) :
    nav.asSignedDouble s n p
      = pure (Double.ofInt (signExtend64 (accumulate (nav.field s n)) n) * Double.pow2 p) := by
  unfold asSignedDouble
  rw [SignExtend_ok nav s n h]
  rfl

/-- Inside the frame `asDoubleSemiCircles` does not raise. -/
theorem asDoubleSemiCircles_ok (PI : Double) (nav : PackedNavBits) (s n : Nat) (p : Int)
    (h : s + n ≤ nav.bits.length) :
    nav.asDoubleSemiCircles PI s n p
      = pure (Double.ofInt (signExtend64 (accumulate (nav.field s n)) n) * Double.pow2 p * PI) := by
  unfold asDoubleSemiCircles
  rw [asSignedDouble_ok nav s n p h]
  rfl

/-- Every field of the UTC page lies inside 274 bits: the decoding succeeds,
and the target is UTC. -/
theorem decodeUTCIono_ok (navIn : PackedNavBits) (hlen : navIn.bits.length = 274) :
    ∃ p0, decodeUTCIono navIn = Except.ok p0 ∧ p0.tgt = TimeSystem.UTC := by
  unfold decodeUTCIono
  simp (disch := (rw [hlen]; decide)) only [asUnsignedLong_ok, asLong_ok, asUnsignedDouble_ok,
    asSignedDouble_ok, pure_bind]
  exact ⟨_, rfl, rfl⟩

/-- Every field of the GGTO page lies inside 274 bits: the decoding succeeds
and keeps the target it is given. -/
theorem decodeGGTO_ok (navIn : PackedNavBits) (tgt : TimeSystem) (hlen : navIn.bits.length = 274) :
    ∃ p0, decodeGGTO navIn tgt = Except.ok p0 ∧ p0.tgt = tgt := by
  unfold decodeGGTO
  simp (disch := (rw [hlen]; decide)) only [asUnsignedLong_ok, asLong_ok, asUnsignedDouble_ok,
    asSignedDouble_ok, pure_bind]
  exact ⟨_, rfl, rfl⟩

/-- Every field of the midi almanac page lies inside 274 bits: the decoding
succeeds. -/
theorem decodeAlm_ok (f : PNBGPSCNav2DataFactory) (navIn : PackedNavBits) (subj xmit : SatID)
    (hlen : navIn.bits.length = 274) :
    ∃ p0, f.decodeAlm navIn subj xmit = Except.ok p0 := by
  unfold decodeAlm
  simp (disch := (rw [hlen]; decide)) only [asUnsignedLong_ok, asLong_ok, asUnsignedDouble_ok,
    asSignedDouble_ok, asDoubleSemiCircles_ok, pure_bind]
  exact ⟨_, rfl⟩

/-- Every field of subframe 2 lies inside 600 bits: the decoding succeeds. -/
theorem decodeEph_ok (f : PNBGPSCNav2DataFactory) (navIn : PackedNavBits)
    (hlen : navIn.bits.length = 600) :
    ∃ p0, f.decodeEph navIn = Except.ok p0 := by
  unfold decodeEph
  simp (disch := (rw [hlen]; decide)) only [asUnsignedLong_ok, asLong_ok, asUnsignedDouble_ok,
    asSignedDouble_ok, asDoubleSemiCircles_ok, pure_bind]
  split_ifs <;> exact ⟨_, rfl⟩

/-! ## Classification and dispatch (`addData`) -/

/-- With scale 1, inside the frame, `asUnsignedLong` returns the binary value
of a field of at most 64 bits. -/
theorem asUnsignedLong_scale_one (nav : PackedNavBits) (s n : Nat)
    (h : s + n ≤ nav.bits.length) (hn : n ≤ 64) :
    nav.asUnsignedLong s n 1 = Except.ok (unsignedValue (nav.field s n)) := by
  rw [asUnsignedLong_ok nav s n 1 h,
    accumulate_eq _ (by rw [field_length nav s n h]; exact hn)]
  have : ((unsignedValue (nav.field s n) : Int) * 1 % 2 ^ 64).toNat
      = unsignedValue (nav.field s n) := by
    have hlt := unsignedValue_lt (nav.field s n)
    rw [field_length nav s n h] at hlt
    have h64 : 2 ^ n ≤ 2 ^ 64 := Nat.pow_le_pow_right (by decide) hn
    omega
  rw [this]
  rfl

/-- The page number read by `addData` from a 274-bit frame is the binary
value of bits 8..13. -/
theorem pageNum_eq (nav : PackedNavBits) (hlen : nav.bits.length = 274) :
    nav.asUnsignedLong asbPage anbPage ascPage = Except.ok (unsignedValue (nav.field 8 6)) :=
  asUnsignedLong_scale_one nav 8 6 (by rw [hlen]; decide) (by decide)

/-- The GNSS ID read by `processGGTOEOP` from a 274-bit frame is the binary
value of bits 14..16. -/
theorem gnssID_eq (nav : PackedNavBits) (hlen : nav.bits.length = 274) :
    nav.asUnsignedLong gsbGNSS gnbGNSS gscGNSS = Except.ok (unsignedValue (nav.field 14 3)) :=
  asUnsignedLong_scale_one nav 14 3 (by rw [hlen]; decide) (by decide)

/-- Claim C1. A frame whose format tag is not GPSCNAV2 is rejected:
`addData` returns false and the output list is returned as it was, whatever
the bits and the emission toggles. -/
theorem addData_rejects_other_format (f : PNBGPSCNav2DataFactory) (navIn : PackedNavBits)
    (navOut : NavDataPtrList) (htag : navIn.navID ≠ NavType.GPSCNAV2) :
    f.addData navIn navOut = (false, navOut) := by
  unfold addData
  rw [if_pos htag]

/-- Sample instance: a 300-bit GPS LNAV frame is rejected and the empty output
list stays empty. -/
theorem addData_rejects_other_format_witness :
    (sampleFrame NavType.GPSLNAV (List.replicate 300 true)).navID ≠ NavType.GPSCNAV2
    ∧ (sampleFactory true true true true).addData
        (sampleFrame NavType.GPSLNAV (List.replicate 300 true)) [] = (false, []) :=
  ⟨by decide, addData_rejects_other_format _ _ _ (by decide)⟩

/-- Claim C2. A GPSCNAV2 frame whose bit length is neither 600 nor 274 is
rejected: `addData` returns false and the output list is unchanged. -/
theorem addData_rejects_other_length (f : PNBGPSCNav2DataFactory) (navIn : PackedNavBits)
    (navOut : NavDataPtrList) (htag : navIn.navID = NavType.GPSCNAV2)
    (h600 : navIn.getNumBits ≠ 600) (h274 : navIn.getNumBits ≠ 274) :
    f.addData navIn navOut = (false, navOut) := by
  unfold addData
  simp only [htag, ne_eq, not_true_eq_false, if_false, nnbSF2, nnbSF3, h600, h274]

/-- Sample instance: a 601-bit GPSCNAV2 frame is rejected and the empty output
list stays empty. -/
theorem addData_rejects_other_length_witness :
    (sampleFrame NavType.GPSCNAV2 (List.replicate 601 true)).getNumBits ≠ 600
    ∧ (sampleFrame NavType.GPSCNAV2 (List.replicate 601 true)).getNumBits ≠ 274
    ∧ (sampleFactory true true true true).addData
        (sampleFrame NavType.GPSCNAV2 (List.replicate 601 true)) [] = (false, []) :=
  ⟨by decide, by decide, addData_rejects_other_length _ _ _ rfl (by decide) (by decide)⟩

/-- Claim C3. A 274-bit GPSCNAV2 frame whose page number (bits 8..13) is
not 1, 2 or 4 is accepted with no output: `addData` returns true and the
output list is unchanged. -/
theorem addData_ignores_unused_page (f : PNBGPSCNav2DataFactory) (navIn : PackedNavBits)
    (navOut : NavDataPtrList) (htag : navIn.navID = NavType.GPSCNAV2)
    (hlen : navIn.getNumBits = 274)
    (hpage : unsignedValue (navIn.field 8 6) ≠ 1 ∧ unsignedValue (navIn.field 8 6) ≠ 2
      ∧ unsignedValue (navIn.field 8 6) ≠ 4) :
    f.addData navIn navOut = (true, navOut) := by
  have hl : navIn.bits.length = 274 := hlen
  unfold addData
  simp only [htag, ne_eq, not_true_eq_false, if_false, nnbSF2, nnbSF3, hlen, pageNum_eq navIn hl,
    npgUTC, npgGGTO, npgMAlm, hpage.1, hpage.2.1, hpage.2.2]
  simp

/-- Sample instance: the 274-bit frame with page number 7 is accepted and
nothing is appended. -/
theorem addData_ignores_unused_page_witness :
    (sampleSubframe3 7 0).getNumBits = 274
    ∧ unsignedValue ((sampleSubframe3 7 0).field 8 6) = 7
    ∧ (sampleFactory true true true true).addData (sampleSubframe3 7 0) []
        = (true, []) :=
  ⟨by decide, by decide,
   addData_ignores_unused_page _ _ _ rfl (by decide) (by decide)⟩

/-- Claim C4. A 600-bit GPSCNAV2 frame is decoded as an ephemeris frame
whatever its bits: `addData` returns true and appends one Health message if
health emission is enabled, then one Ephemeris message if ephemeris emission
is enabled, and nothing else. -/
theorem addData_subframe2 (f : PNBGPSCNav2DataFactory) (navIn : PackedNavBits)
    (navOut : NavDataPtrList) (htag : navIn.navID = NavType.GPSCNAV2)
    (hlen : navIn.getNumBits = 600) :
    ∃ (h : GPSCNav2Health) (e : GPSCNav2Eph),
      f.addData navIn navOut
        = (true, navOut ++ (if f.base.processHea then [NavData.Health h] else [])
                        ++ (if f.base.processEph then [NavData.Ephemeris e] else [])) := by
  have hl : navIn.bits.length = 600 := hlen
  obtain ⟨e, he⟩ := decodeEph_ok f navIn hl
  refine ⟨⟨navIn.transmitTime,
    ⟨NavSatelliteID.ofPRNs navIn.satSys.id navIn.satSys.id navIn.satSys.system
      CarrierBand.L1 TrackingCode.L1CD NavType.GPSCNAV2, NavMessageType.Health⟩,
    navIn.asBool esbHeaL1C, true⟩, e, ?_⟩
  unfold addData PNBGPSCNav2DataFactory.processEph
  simp only [htag, ne_eq, not_true_eq_false, if_false, nnbSF2, hlen, if_true, he]
  cases f.base.processHea <;> cases f.base.processEph <;> simp


/-- Sample instance: with every toggle on, the all-ones 600-bit frame yields a
Health message followed by an Ephemeris message. -/
theorem addData_subframe2_witness :
    sampleSubframe2.getNumBits = 600
    ∧ ∃ (h : GPSCNav2Health) (e : GPSCNav2Eph),
      (sampleFactory true true true true).addData sampleSubframe2 []
        = (true, [NavData.Health h, NavData.Ephemeris e]) :=
  ⟨by decide, addData_subframe2 (sampleFactory true true true true) sampleSubframe2 [] rfl (by decide)⟩

/-- Claim C5. A 274-bit GPSCNAV2 frame with page number 4 is decoded as a
midi almanac: `addData` returns true and appends three Health messages if
health emission is enabled, carrying the L1, L2 and L5 health bits (bits 43,
44, 45) in that order, the first under the frame's own carrier and code, the
second under L2 and the third under L5, then one Almanac message if almanac
emission is enabled, and nothing else. -/
theorem addData_almanac_page (f : PNBGPSCNav2DataFactory) (navIn : PackedNavBits)
    (navOut : NavDataPtrList) (htag : navIn.navID = NavType.GPSCNAV2)
    (hlen : navIn.getNumBits = 274) (hpage : unsignedValue (navIn.field 8 6) = 4) :
    ∃ (h1 h2 h3 : GPSCNav2Health) (a : GPSCNav2Alm),
      f.addData navIn navOut
        = (true, navOut
            ++ (if f.base.processHea then
                  [NavData.Health h1, NavData.Health h2, NavData.Health h3] else [])
            ++ (if f.base.processAlm then [NavData.Almanac a] else []))
      ∧ h1.health = navIn.asBool 43 ∧ h2.health = navIn.asBool 44
      ∧ h3.health = navIn.asBool 45
      ∧ h1.signal.satID.obs = navIn.obsID
      ∧ h2.signal.satID.obs.band = CarrierBand.L2
      ∧ h3.signal.satID.obs.band = CarrierBand.L5 := by
  have hl : navIn.bits.length = 274 := hlen
  obtain ⟨sprn, hprn⟩ : ∃ v, navIn.asUnsignedLong asbPRNa anbPRNa ascPRNa = Except.ok v :=
    ⟨_, asUnsignedLong_ok navIn asbPRNa anbPRNa ascPRNa (by rw [hl]; decide)⟩
  obtain ⟨a, ha⟩ := decodeAlm_ok f navIn ⟨toInt32 sprn, navIn.satSys.system⟩ navIn.satSys hl
  refine ⟨⟨navIn.transmitTime, ⟨NavSatelliteID.ofSats ⟨toInt32 sprn, navIn.satSys.system⟩
      navIn.satSys navIn.obsID navIn.navID, NavMessageType.Health⟩,
      navIn.asBool asbHeaL1, false⟩,
    ⟨navIn.transmitTime, ⟨NavSatelliteID.ofSats ⟨toInt32 sprn, navIn.satSys.system⟩
      navIn.satSys ⟨ObservationType.NavMsg, CarrierBand.L2, TrackingCode.L2CM⟩
      NavType.GPSCNAVL2, NavMessageType.Health⟩, navIn.asBool asbHeaL2, false⟩,
    ⟨navIn.transmitTime, ⟨NavSatelliteID.ofSats ⟨toInt32 sprn, navIn.satSys.system⟩
      navIn.satSys ⟨ObservationType.NavMsg, CarrierBand.L5, TrackingCode.L5I⟩
      NavType.GPSCNAVL5, NavMessageType.Health⟩, navIn.asBool asbHeaL5, false⟩,
    a, ?_, rfl, rfl, rfl, rfl, rfl, rfl⟩
  unfold addData processAlmOrb
  rw [hprn]
  simp only [htag, ne_eq, not_true_eq_false, if_false, nnbSF2, nnbSF3, hlen, pageNum_eq navIn hl,
    npgUTC, npgGGTO, npgMAlm, hpage, pure, Except.pure, ha]
  cases f.base.processHea <;> cases f.base.processAlm <;> simp

/-- Sample instance: with every toggle on, the sample page 4 frame yields three
Health messages, all flagged, under L1, L2 and L5, followed by an Almanac
message. -/
theorem addData_almanac_page_witness :
    (sampleSubframe3 4 0).getNumBits = 274
    ∧ unsignedValue ((sampleSubframe3 4 0).field 8 6) = 4
    ∧ ∃ (h1 h2 h3 : GPSCNav2Health) (a : GPSCNav2Alm),
      (sampleFactory true true true true).addData (sampleSubframe3 4 0) []
        = (true, [NavData.Health h1, NavData.Health h2, NavData.Health h3, NavData.Almanac a])
      ∧ h1.health = true ∧ h2.health = true ∧ h3.health = true
      ∧ h1.signal.satID.obs = ⟨ObservationType.NavMsg, CarrierBand.L1, TrackingCode.L1CD⟩
      ∧ h2.signal.satID.obs.band = CarrierBand.L2
      ∧ h3.signal.satID.obs.band = CarrierBand.L5 :=
  ⟨by decide, by decide,
   addData_almanac_page (sampleFactory true true true true) (sampleSubframe3 4 0) [] rfl
     (by decide) (by decide)⟩

/-- Claim C6. A 274-bit GPSCNAV2 frame with page number 1, decoded with
time offset emission enabled, makes `addData` return true and append exactly
one TimeOffset message, whose target time system is UTC. -/
theorem addData_utc_page (f : PNBGPSCNav2DataFactory) (navIn : PackedNavBits)
    (navOut : NavDataPtrList) (htag : navIn.navID = NavType.GPSCNAV2)
    (hlen : navIn.getNumBits = 274) (hpage : unsignedValue (navIn.field 8 6) = 1)
    (htim : f.base.processTim = true) :
    ∃ t : GPSCNav2TimeOffset,
      f.addData navIn navOut = (true, navOut ++ [NavData.TimeOffset t])
      ∧ t.tgt = TimeSystem.UTC := by
  have hl : navIn.bits.length = 274 := hlen
  obtain ⟨t, ht, htgt⟩ := decodeUTCIono_ok navIn hl
  refine ⟨t, ?_, htgt⟩
  unfold addData processUTCIono
  simp [htag, nnbSF2, nnbSF3, hlen, pageNum_eq navIn hl, npgUTC, hpage, htim, ht]

/-- Sample instance: with only time offset emission on, the sample page 1 frame
yields one TimeOffset message towards UTC. -/
theorem addData_utc_page_witness :
    (sampleSubframe3 1 0).getNumBits = 274
    ∧ unsignedValue ((sampleSubframe3 1 0).field 8 6) = 1
    ∧ ∃ t : GPSCNav2TimeOffset,
      (sampleFactory false false false true).addData (sampleSubframe3 1 0) []
        = (true, [NavData.TimeOffset t])
      ∧ t.tgt = TimeSystem.UTC :=
  ⟨by decide, by decide,
   addData_utc_page (sampleFactory false false false true) (sampleSubframe3 1 0) [] rfl
     (by decide) (by decide) rfl⟩

/-- Claim C7. A 274-bit GPSCNAV2 frame with page number 2 whose target
system selector (bits 14..16) is 0 is a silent success: `addData` returns
true and appends nothing, whatever the emission toggles. -/
theorem addData_ggto_no_data (f : PNBGPSCNav2DataFactory) (navIn : PackedNavBits)
    (navOut : NavDataPtrList) (htag : navIn.navID = NavType.GPSCNAV2)
    (hlen : navIn.getNumBits = 274) (hpage : unsignedValue (navIn.field 8 6) = 2)
    (hsel : unsignedValue (navIn.field 14 3) = 0) :
    f.addData navIn navOut = (true, navOut) := by
  have hl : navIn.bits.length = 274 := hlen
  unfold addData processGGTOEOP
  cases f.base.processTim <;>
    simp [htag, nnbSF2, nnbSF3, hlen, pageNum_eq navIn hl, npgUTC, npgGGTO, hpage,
      gnssID_eq navIn hl, hsel]

/-- Sample instance: the sample page 2 frame with selector 0 is accepted and
nothing is appended. -/
theorem addData_ggto_no_data_witness :
    (sampleSubframe3 2 0).getNumBits = 274
    ∧ unsignedValue ((sampleSubframe3 2 0).field 8 6) = 2
    ∧ unsignedValue ((sampleSubframe3 2 0).field 14 3) = 0
    ∧ (sampleFactory true true true true).addData (sampleSubframe3 2 0) [] = (true, []) :=
  ⟨by decide, by decide, by decide,
   addData_ggto_no_data _ _ _ rfl (by decide) (by decide) (by decide)⟩

/-- Claim C8. A 274-bit GPSCNAV2 frame with page number 2, decoded with
time offset emission enabled, whose selector (bits 14..16) is 1, 2 or 3
makes `addData` return true and append exactly one TimeOffset message, whose
target time system is GAL for 1, GLO for 2 and QZS for 3. -/
theorem addData_ggto_known_system (f : PNBGPSCNav2DataFactory) (navIn : PackedNavBits)
    (navOut : NavDataPtrList) (htag : navIn.navID = NavType.GPSCNAV2)
    (hlen : navIn.getNumBits = 274) (hpage : unsignedValue (navIn.field 8 6) = 2)
    (htim : f.base.processTim = true)
    (hsel : unsignedValue (navIn.field 14 3) = 1 ∨ unsignedValue (navIn.field 14 3) = 2
      ∨ unsignedValue (navIn.field 14 3) = 3) :
    ∃ t : GPSCNav2TimeOffset,
      f.addData navIn navOut = (true, navOut ++ [NavData.TimeOffset t])
      ∧ (unsignedValue (navIn.field 14 3) = 1 → t.tgt = TimeSystem.GAL)
      ∧ (unsignedValue (navIn.field 14 3) = 2 → t.tgt = TimeSystem.GLO)
      ∧ (unsignedValue (navIn.field 14 3) = 3 → t.tgt = TimeSystem.QZS) := by
  have hl : navIn.bits.length = 274 := hlen
  rcases hsel with h | h | h
  · obtain ⟨t, ht, htgt⟩ := decodeGGTO_ok navIn TimeSystem.GAL hl
    refine ⟨t, ?_, fun _ => htgt, fun h2 => by omega, fun h3 => by omega⟩
    unfold addData processGGTOEOP
    simp [htag, nnbSF2, nnbSF3, hlen, pageNum_eq navIn hl, npgUTC, npgGGTO, hpage, htim,
      gnssID_eq navIn hl, h, ht]
  · obtain ⟨t, ht, htgt⟩ := decodeGGTO_ok navIn TimeSystem.GLO hl
    refine ⟨t, ?_, fun h1 => by omega, fun _ => htgt, fun h3 => by omega⟩
    unfold addData processGGTOEOP
    simp [htag, nnbSF2, nnbSF3, hlen, pageNum_eq navIn hl, npgUTC, npgGGTO, hpage, htim,
      gnssID_eq navIn hl, h, ht]
  · obtain ⟨t, ht, htgt⟩ := decodeGGTO_ok navIn TimeSystem.QZS hl
    refine ⟨t, ?_, fun h1 => by omega, fun h2 => by omega, fun _ => htgt⟩
    unfold addData processGGTOEOP
    simp [htag, nnbSF2, nnbSF3, hlen, pageNum_eq navIn hl, npgUTC, npgGGTO, hpage, htim,
      gnssID_eq navIn hl, h, ht]

/-- Sample instance: the sample page 2 frame with selector 3 yields one
TimeOffset message towards QZS. -/
theorem addData_ggto_known_system_witness :
    (sampleSubframe3 2 3).getNumBits = 274
    ∧ unsignedValue ((sampleSubframe3 2 3).field 8 6) = 2
    ∧ unsignedValue ((sampleSubframe3 2 3).field 14 3) = 3
    ∧ ∃ t : GPSCNav2TimeOffset,
      (sampleFactory true true true true).addData (sampleSubframe3 2 3) []
        = (true, [NavData.TimeOffset t])
      ∧ (unsignedValue ((sampleSubframe3 2 3).field 14 3) = 1 → t.tgt = TimeSystem.GAL)
      ∧ (unsignedValue ((sampleSubframe3 2 3).field 14 3) = 2 → t.tgt = TimeSystem.GLO)
      ∧ (unsignedValue ((sampleSubframe3 2 3).field 14 3) = 3 → t.tgt = TimeSystem.QZS) :=
  ⟨by decide, by decide, by decide,
   addData_ggto_known_system (sampleFactory true true true true) (sampleSubframe3 2 3) [] rfl
     (by decide) (by decide) rfl (by decide)⟩

/-- Claim C9, amended. A 274-bit GPSCNAV2 frame with page number 2, decoded
with time offset emission enabled, whose selector (bits 14..16) is not 0, 1,
2 or 3 is rejected: `addData` returns false and appends nothing. -/
theorem addData_ggto_unknown_system (f : PNBGPSCNav2DataFactory) (navIn : PackedNavBits)
    (navOut : NavDataPtrList) (htag : navIn.navID = NavType.GPSCNAV2)
    (hlen : navIn.getNumBits = 274) (hpage : unsignedValue (navIn.field 8 6) = 2)
    (htim : f.base.processTim = true)
    (hsel : unsignedValue (navIn.field 14 3) ≠ 0 ∧ unsignedValue (navIn.field 14 3) ≠ 1
      ∧ unsignedValue (navIn.field 14 3) ≠ 2 ∧ unsignedValue (navIn.field 14 3) ≠ 3) :
    f.addData navIn navOut = (false, navOut) := by
  have hl : navIn.bits.length = 274 := hlen
  have hlt := unsignedValue_lt (navIn.field 14 3)
  rw [field_length navIn 14 3 (by rw [hl]; decide)] at hlt
  have hmod : unsignedValue (navIn.field 14 3) % 2 ^ 8 = unsignedValue (navIn.field 14 3) :=
    Nat.mod_eq_of_lt (by omega)
  simp only [Nat.reducePow] at hlt
  unfold addData processGGTOEOP
  simp only [htag, ne_eq, not_true_eq_false, if_false, nnbSF2, nnbSF3, hlen,
    pageNum_eq navIn hl, npgUTC, npgGGTO, hpage, htim, gnssID_eq navIn hl, hmod]
  simp only [Nat.reduceEqDiff, if_false, if_true, Bool.not_true, Bool.false_eq_true]
  generalize unsignedValue (navIn.field 14 3) = v at hsel hlt ⊢
  have hv : v = 4 ∨ v = 5 ∨ v = 6 ∨ v = 7 := by omega
  rcases hv with rfl | rfl | rfl | rfl <;> rfl

/-- Sample instance: with every toggle on, the sample page 2 frame with
selector 4 is rejected and nothing is appended. -/
theorem addData_ggto_unknown_system_witness :
    (sampleSubframe3 2 4).getNumBits = 274
    ∧ unsignedValue ((sampleSubframe3 2 4).field 8 6) = 2
    ∧ unsignedValue ((sampleSubframe3 2 4).field 14 3) = 4
    ∧ (sampleFactory true true true true).addData (sampleSubframe3 2 4) [] = (false, []) :=
  ⟨by decide, by decide, by decide,
   addData_ggto_unknown_system _ _ _ rfl (by decide) (by decide) rfl (by decide)⟩

/-- With time offset emission disabled, `processGGTOEOP` returns true before
it reads anything. -/
theorem processGGTOEOP_disabled (f : PNBGPSCNav2DataFactory) (navIn : PackedNavBits)
    (navOut : NavDataPtrList) (htim : f.base.processTim = false) :
    f.processGGTOEOP navIn navOut = (Except.ok true, navOut) := by
  unfold processGGTOEOP
  simp [htim]

/-- Claim C9 as stated fails: with time offset emission disabled, the
274-bit page 2 frame whose selector is 4 is accepted (`addData` returns
true), so a selector in 4..7 does not always lead to a rejection. -/
theorem addData_ggto_unknown_system_counterexample :
    ¬ ∀ (f : PNBGPSCNav2DataFactory) (navIn : PackedNavBits) (navOut : NavDataPtrList),
      navIn.navID = NavType.GPSCNAV2 → navIn.getNumBits = 274 →
      unsignedValue (navIn.field 8 6) = 2 →
      (unsignedValue (navIn.field 14 3) ≠ 0 ∧ unsignedValue (navIn.field 14 3) ≠ 1
        ∧ unsignedValue (navIn.field 14 3) ≠ 2 ∧ unsignedValue (navIn.field 14 3) ≠ 3) →
      f.addData navIn navOut = (false, navOut) := by
  intro h
  have hfalse := h (sampleFactory true true true false) (sampleSubframe3 2 4) [] rfl
    (by decide) (by decide) (by decide)
  have hl : (sampleSubframe3 2 4).bits.length = 274 := by decide
  have htrue : (sampleFactory true true true false).addData (sampleSubframe3 2 4) []
      = (true, []) := by
    unfold addData
    rw [processGGTOEOP_disabled _ _ _ rfl]
    simp [nnbSF2, nnbSF3, getNumBits, hl, pageNum_eq _ hl, npgUTC, npgGGTO]
    decide
  rw [htrue] at hfalse
  exact absurd hfalse (by decide)

/-! ## Arithmetic of the double model -/

/-- Round to nearest even stays within the unit roundoff: the rounded number
is off by at most 2^-53 of the magnitude of the exact one. -/
theorem Double.roundNearestEven_error (x : ℚ) :
    |Double.roundNearestEven x - x| ≤ 2 ^ (-53 : Int) * |x| := by
  unfold Double.roundNearestEven
  by_cases hx : x = 0
  · simp [hx]
  · rw [if_neg hx]
    simp only []
    have hax : 0 < |x| := abs_pos.mpr hx
    have hlog : (2 : ℚ) ^ (Int.log 2 |x|) ≤ |x| := Int.zpow_log_le_self (by norm_num) hax
    set e := Int.log 2 |x| with he
    have hq : (0 : ℚ) < 2 ^ (e - 52) := by positivity
    set q : ℚ := 2 ^ (e - 52) with hqdef
    set y : ℚ := x / q with hy
    have hxy : x = y * q := by rw [hy]; field_simp
    have hfl : (⌊y⌋ : ℚ) ≤ y := Int.floor_le y
    have hfl2 : y < ⌊y⌋ + 1 := Int.lt_floor_add_one y
    have hr : ∀ r : Int, |(r : ℚ) - y| ≤ 1 / 2 →
        |(r : ℚ) * q - x| ≤ 2 ^ (-53 : Int) * |x| := by
      intro r hr
      have h1 : (r : ℚ) * q - x = ((r : ℚ) - y) * q := by rw [hxy]; ring
      rw [h1, abs_mul, abs_of_pos hq]
      have h2 : q = 2 ^ (-53 : Int) * 2 ^ e * 2 := by
        rw [hqdef, zpow_sub₀ (by norm_num), zpow_neg]
        norm_num
        ring
      calc |(r : ℚ) - y| * q ≤ 1 / 2 * q := by gcongr
        _ = 2 ^ (-53 : Int) * 2 ^ e := by rw [h2]; ring
        _ ≤ 2 ^ (-53 : Int) * |x| := by gcongr
    apply hr
    split_ifs with h1 h2 h3
    · rw [abs_le]; constructor <;> linarith
    · push_cast; rw [abs_le]; constructor <;> linarith
    · rw [abs_le]; constructor <;> linarith
    · push_cast; rw [abs_le]; constructor <;> linarith

/-- The integer nearest to a rational number is the only one within a half
of it. -/
theorem nearest_unique (y : ℚ) (a n : Int) (ha : |y - a| ≤ 1 / 2) (hn : |y - n| < 1 / 2) :
    a = n := by
  rw [abs_le] at ha
  rw [abs_lt] at hn
  have b1 : ((a - n : Int) : ℚ) < 1 := by push_cast; linarith
  have b2 : (-1 : ℚ) < ((a - n : Int) : ℚ) := by push_cast; linarith
  have a1 : a - n < 1 := by exact_mod_cast b1
  have a2 : -1 < a - n := by exact_mod_cast b2
  omega

/-- Round to nearest even of a positive number, from its binade and the
multiple of the spacing of that binade that is nearer than half a spacing. -/
theorem Double.roundNearestEven_eq (x : ℚ) (e n : Int) (h1 : (2 : ℚ) ^ e ≤ x)
    (h2 : x < 2 ^ (e + 1)) (hn : |x / 2 ^ (e - 52) - n| < 1 / 2) :
    Double.roundNearestEven x = n * 2 ^ (e - 52) := by
  have hpos : (0 : ℚ) < x := lt_of_lt_of_le (by positivity) h1
  have hlog : Int.log 2 |x| = e := by
    rw [abs_of_pos hpos]
    apply le_antisymm
    · have := (Int.lt_zpow_iff_log_lt (b := 2) (by norm_num) hpos).mp h2
      omega
    · exact (Int.zpow_le_iff_le_log (b := 2) (by norm_num) hpos).mp h1
  unfold Double.roundNearestEven
  rw [if_neg (ne_of_gt hpos), hlog]
  simp only []
  set y : ℚ := x / 2 ^ (e - 52) with hy
  have hfl : (⌊y⌋ : ℚ) ≤ y := Int.floor_le y
  have hfl2 : y < ⌊y⌋ + 1 := Int.lt_floor_add_one y
  congr 1
  norm_cast
  apply nearest_unique y _ n _ hn
  split_ifs with c1 c2 c3
  · rw [abs_le]; constructor <;> linarith
  · push_cast; rw [abs_le]; constructor <;> linarith
  · rw [abs_le]; constructor <;> linarith
  · push_cast; rw [abs_le]; constructor <;> linarith

/-- A count below 2^53 in magnitude times a power of two is a double: the
rounding leaves it as it is. -/
theorem Double.roundNearestEven_exact (s p : Int) (hs : |s| < 2 ^ 53) :
    Double.roundNearestEven ((s : ℚ) * 2 ^ p) = (s : ℚ) * 2 ^ p := by
  by_cases h0 : s = 0
  · simp [h0, Double.roundNearestEven]
  have hp : (0 : ℚ) < 2 ^ p := by positivity
  have hx : (s : ℚ) * 2 ^ p ≠ 0 := mul_ne_zero (by exact_mod_cast h0) (ne_of_gt hp)
  have hax : 0 < |(s : ℚ) * 2 ^ p| := abs_pos.mpr hx
  have hsq : |(s : ℚ)| < 2 ^ 53 := by exact_mod_cast hs
  have hlt : |(s : ℚ) * 2 ^ p| < 2 ^ (p + 53) := by
    rw [abs_mul, abs_of_pos hp, zpow_add₀ (by norm_num), mul_comm]
    exact mul_lt_mul_of_pos_left (by exact_mod_cast hsq) hp
  have he : Int.log 2 |(s : ℚ) * 2 ^ p| < p + 53 :=
    (Int.lt_zpow_iff_log_lt (b := 2) (by norm_num) hax).mp hlt
  unfold Double.roundNearestEven
  rw [if_neg hx]
  simp only []
  set e := Int.log 2 |(s : ℚ) * 2 ^ p| with hedef
  have hk : 0 ≤ p - e + 52 := by omega
  have hy : (s : ℚ) * 2 ^ p / 2 ^ (e - 52) = ((s * 2 ^ (p - e + 52).toNat : Int) : ℚ) := by
    push_cast
    rw [mul_div_assoc, ← zpow_sub₀ (by norm_num), ← zpow_natCast, Int.toNat_of_nonneg hk]
    congr 2
    ring
  rw [hy, Int.floor_intCast, sub_self, if_pos (by norm_num), ← hy]
  field_simp

/-- Sum of two numbers. -/
theorem Double.val_add (a b : ℚ) :
    Double.val a + Double.val b = Double.val (Double.roundNearestEven (a + b)) := rfl

/-- Product of two numbers. -/
theorem Double.val_mul (a b : ℚ) :
    Double.val a * Double.val b = Double.val (Double.roundNearestEven (a * b)) := rfl

/-- Addition of doubles is commutative. -/
theorem Double.add_swap (a b : Double) : a + b = b + a := by
  cases a <;> cases b <;> first | rfl | (rw [Double.val_add, Double.val_add, add_comm])

/-- The conversion of an integer below 2^53 in magnitude is exact. -/
theorem Double.ofInt_eq (s : Int) (hs : |s| < 2 ^ 53) : Double.ofInt s = Double.val (s : ℚ) := by
  have h := Double.roundNearestEven_exact s 0 hs
  rw [zpow_zero, mul_one] at h
  unfold Double.ofInt
  rw [h]

/-- An integer below 2^53 in magnitude scaled by a power of two: the product
is exact. -/
theorem Double.ofInt_mul_pow2 (s p : Int) (hs : |s| < 2 ^ 53) :
    Double.ofInt s * Double.pow2 p = Double.val ((s : ℚ) * 2 ^ p) := by
  rw [Double.ofInt_eq s hs]
  unfold Double.pow2
  rw [Double.val_mul, Double.roundNearestEven_exact s p hs]

/-- A bit string of at most 53 bits denotes a value below 2^53. -/
theorem unsignedValue_abs_lt (bs : List Bool) (h : bs.length ≤ 53) :
    |(unsignedValue bs : Int)| < 2 ^ 53 := by
  have h1 := unsignedValue_lt bs
  have h2 : (2 : Nat) ^ bs.length ≤ 2 ^ 53 := Nat.pow_le_pow_right (by norm_num) h
  rw [abs_lt]
  constructor <;> omega

/-- The two's-complement value of at most 53 bits is below 2^53 in
magnitude. -/
theorem twosComplement_abs_lt (bs : List Bool) (h : bs.length ≤ 53) :
    |twosComplement bs| < 2 ^ 53 := by
  cases bs with
  | nil => simp [twosComplement]
  | cons b bs =>
    have h1 := unsignedValue_lt bs
    simp only [List.length_cons] at h
    have h2 : (2 : Nat) ^ bs.length ≤ 2 ^ 52 := Nat.pow_le_pow_right (by norm_num) (by omega)
    have h3 : ((2 : Nat) ^ bs.length : Int) = (2 : Int) ^ bs.length := by push_cast; rfl
    rw [abs_lt]
    cases b <;> simp only [twosComplement, if_true, Bool.false_eq_true, if_false] <;>
      constructor <;> omega

/-! ## Ephemeris elements offset from reference values -/

/-- Inside the frame, the signed reading of a field of 1 to 64 bits is the
two's-complement value of its bits. -/
theorem signExtend64_field (nav : PackedNavBits) (s n : Nat) (h : s + n ≤ nav.bits.length)
    (h1 : 1 ≤ n) (h64 : n ≤ 64) :
    signExtend64 (accumulate (nav.field s n)) n = twosComplement (nav.field s n) := by
  have hlen := field_length nav s n h
  rw [accumulate_eq _ (by omega)]
  have := signExtend64_eq (nav.field s n) (by omega) (by omega)
  rwa [hlen] at this

/-- Inside the frame, the signed reading of a field of 1 to 53 bits times a
power of two is a double: neither the conversion nor the product rounds. -/
theorem signed_scaled_exact (nav : PackedNavBits) (s n : Nat) (p : Int)
    (h : s + n ≤ nav.bits.length) (h1 : 1 ≤ n) (h53 : n ≤ 53) :
    Double.ofInt (signExtend64 (accumulate (nav.field s n)) n) * Double.pow2 p
      = Double.val ((twosComplement (nav.field s n) : ℚ) * 2 ^ p) := by
  rw [signExtend64_field nav s n h h1 (by omega)]
  exact Double.ofInt_mul_pow2 _ _
    (twosComplement_abs_lt _ (by rw [field_length nav s n h]; exact h53))

/-- Inside the frame, the unsigned reading of a field of at most 53 bits
times a power of two is a double: neither the conversion nor the product
rounds. -/
theorem unsigned_scaled_exact (nav : PackedNavBits) (s n : Nat) (p : Int)
    (h : s + n ≤ nav.bits.length) (h53 : n ≤ 53) :
    Double.ofInt (accumulate (nav.field s n) : Nat) * Double.pow2 p
      = Double.val ((unsignedValue (nav.field s n) : ℚ) * 2 ^ p) := by
  have hl := field_length nav s n h
  rw [accumulate_eq _ (by omega),
    Double.ofInt_mul_pow2 _ _ (unsignedValue_abs_lt _ (by rw [hl]; exact h53))]
  push_cast
  rfl

/-- The ephemeris decoded from a 600-bit frame: the delta fields are the
scaled two's-complement readings and the absolute elements add the reference
values. -/
theorem decodeEph_axis (f : PNBGPSCNav2DataFactory) (navIn : PackedNavBits)
    (hlen : navIn.bits.length = 600) :
    ∃ e, f.decodeEph navIn = Except.ok e
      ∧ e.deltaA = Double.val ((twosComplement (navIn.field 49 26) : ℚ) * 2 ^ (-9 : Int))
      ∧ e.A = e.deltaA + f.ext.refAGPS
      ∧ e.dOMEGAdot
          = Double.val ((twosComplement (navIn.field 305 17) : ℚ) * 2 ^ (-44 : Int)) * f.ext.PI
      ∧ e.OMEGAdot = e.dOMEGAdot + f.ext.refOMEGAdotGPS := by
  unfold decodeEph
  simp (disch := (rw [hlen]; decide)) only [asUnsignedLong_ok, asLong_ok, asUnsignedDouble_ok,
    asSignedDouble_ok, asDoubleSemiCircles_ok, pure_bind]
  have eA := signed_scaled_exact navIn 49 26 (-9) (by rw [hlen]; decide) (by decide) (by decide)
  have eO := signed_scaled_exact navIn 305 17 (-44) (by rw [hlen]; decide) (by decide)
    (by decide)
  split_ifs <;>
    exact ⟨_, rfl, eA, rfl, by rw [← eO]; rfl, rfl⟩

/-- Claim C10. For a 600-bit GPSCNAV2 frame decoded with ephemeris emission
enabled, the last message appended is the Ephemeris; its `deltaA` is the
two's-complement value of bits 49..74 times 2^-9 and its `A` is
`refAGPS + deltaA`; its `dOMEGAdot` is the two's-complement value of bits
305..321 times 2^-44 times pi and its `OMEGAdot` is
`refOMEGAdotGPS + dOMEGAdot`. -/
theorem addData_subframe2_reference_offsets (f : PNBGPSCNav2DataFactory)
    (navIn : PackedNavBits) (navOut : NavDataPtrList)
    (htag : navIn.navID = NavType.GPSCNAV2) (hlen : navIn.getNumBits = 600)
    (heph : f.base.processEph = true) :
    ∃ (h : GPSCNav2Health) (e : GPSCNav2Eph),
      f.addData navIn navOut
        = (true, navOut ++ (if f.base.processHea then [NavData.Health h] else [])
                        ++ [NavData.Ephemeris e])
      ∧ e.deltaA = Double.val ((twosComplement (navIn.field 49 26) : ℚ) * 2 ^ (-9 : Int))
      ∧ e.A = f.ext.refAGPS + e.deltaA
      ∧ e.dOMEGAdot
          = Double.val ((twosComplement (navIn.field 305 17) : ℚ) * 2 ^ (-44 : Int)) * f.ext.PI
      ∧ e.OMEGAdot = f.ext.refOMEGAdotGPS + e.dOMEGAdot := by
  have hl : navIn.bits.length = 600 := hlen
  obtain ⟨e, he, hdA, hA, hdO, hO⟩ := decodeEph_axis f navIn hl
  refine ⟨⟨navIn.transmitTime,
    ⟨NavSatelliteID.ofPRNs navIn.satSys.id navIn.satSys.id navIn.satSys.system
      CarrierBand.L1 TrackingCode.L1CD NavType.GPSCNAV2, NavMessageType.Health⟩,
    navIn.asBool esbHeaL1C, true⟩, e, ?_, hdA, ?_, hdO, ?_⟩
  · unfold addData PNBGPSCNav2DataFactory.processEph
    simp only [htag, ne_eq, not_true_eq_false, if_false, nnbSF2, hlen, if_true, he, heph]
    cases f.base.processHea <;> simp
  · rw [hA, Double.add_swap]
  · rw [hO, Double.add_swap]

/-- Sample instance: with every toggle on, the Ephemeris decoded from the
all-ones 600-bit frame has its axis and node rate offset from the sample
reference values. -/
theorem addData_subframe2_reference_offsets_witness :
    sampleSubframe2.getNumBits = 600
    ∧ ∃ (h : GPSCNav2Health) (e : GPSCNav2Eph),
      (sampleFactory true true true true).addData sampleSubframe2 []
        = (true, [NavData.Health h, NavData.Ephemeris e])
      ∧ e.deltaA
          = Double.val ((twosComplement (sampleSubframe2.field 49 26) : ℚ) * 2 ^ (-9 : Int))
      ∧ e.A = sampleExternals.refAGPS + e.deltaA
      ∧ e.dOMEGAdot
          = Double.val ((twosComplement (sampleSubframe2.field 305 17) : ℚ) * 2 ^ (-44 : Int))
            * sampleExternals.PI
      ∧ e.OMEGAdot = sampleExternals.refOMEGAdotGPS + e.dOMEGAdot :=
  ⟨by decide,
   addData_subframe2_reference_offsets (sampleFactory true true true true) sampleSubframe2 []
     rfl (by decide) rfl⟩

/-! ## Bit patterns of integers -/

/-- The pattern of `n` bits has `n` bits. -/
theorem bitsOfNat_length (n v : Nat) : (bitsOfNat n v).length = n := by
  simp [bitsOfNat]

/-- The two's-complement pattern of `n` bits has `n` bits. -/
theorem bitsOfInt_length (n : Nat) (v : Int) : (bitsOfInt n v).length = n := by
  simp [bitsOfInt, bitsOfNat_length]

/-- The pattern of `n + 1` bits starts with bit `n` of the value. -/
theorem bitsOfNat_succ (n v : Nat) : bitsOfNat (n + 1) v = v.testBit n :: bitsOfNat n v := by
  simp [bitsOfNat, List.range_succ]

/-- The `n`-bit pattern of `v` denotes `v` modulo `2^n`. -/
theorem unsignedValue_bitsOfNat (n v : Nat) : unsignedValue (bitsOfNat n v) = v % 2 ^ n := by
  induction n with
  | zero => simp [bitsOfNat, unsignedValue, Nat.mod_one]
  | succ n ih =>
    rw [bitsOfNat_succ, unsignedValue, ih, bitsOfNat_length, Nat.mod_pow_succ,
      Nat.testBit_to_div_mod]
    have h2 : v / 2 ^ n % 2 = 0 ∨ v / 2 ^ n % 2 = 1 := by omega
    rcases h2 with h | h
    · simp [h]
    · simp [h]; omega

/-- The `n`-bit pattern of a value below `2^n` denotes that value. -/
theorem unsignedValue_bitsOfNat_of_lt (n v : Nat) (h : v < 2 ^ n) :
    unsignedValue (bitsOfNat n v) = v := by
  rw [unsignedValue_bitsOfNat, Nat.mod_eq_of_lt h]

/-- The `n`-bit two's-complement pattern of an in-range value denotes that
value. -/
theorem twosComplement_bitsOfInt (n : Nat) (v : Int) (hn : 1 ≤ n)
    (h : Subframe2Fields.fitsS n v) : twosComplement (bitsOfInt n v) = v := by
  obtain ⟨m, rfl⟩ : ∃ m, n = m + 1 := ⟨n - 1, by omega⟩
  unfold Subframe2Fields.fitsS at h
  simp only [Nat.add_sub_cancel] at h
  unfold bitsOfInt
  rw [bitsOfNat_succ, twosComplement, bitsOfNat_length, unsignedValue_bitsOfNat,
    Nat.testBit_to_div_mod]
  have hp : (0 : Int) < 2 ^ m := by positivity
  have e1 : (2 : Int) ^ (m + 1) = 2 * 2 ^ m := by ring
  have hpn : (0 : Nat) < 2 ^ m := Nat.two_pow_pos m
  by_cases hv : 0 ≤ v
  · have hu : (v % 2 ^ (m + 1)).toNat = v.toNat := by
      rw [Int.emod_eq_of_lt hv (by rw [e1]; omega)]
    have hlt : v.toNat < 2 ^ m := by
      have : ((v.toNat : Nat) : Int) < ((2 ^ m : Nat) : Int) := by
        rw [Int.toNat_of_nonneg hv]; push_cast; exact h.2
      exact_mod_cast this
    rw [hu, Nat.div_eq_of_lt hlt, Nat.mod_eq_of_lt hlt]
    simp [Int.toNat_of_nonneg hv]
  · have hneg : v < 0 := by omega
    have hu : (v % 2 ^ (m + 1)).toNat = (v + 2 ^ (m + 1)).toNat := by
      congr 1
      rw [← Int.add_mul_emod_self_left v (2 ^ (m + 1)) 1, mul_one]
      exact Int.emod_eq_of_lt (by rw [e1]; omega) (by omega)
    obtain ⟨u, hu2⟩ : ∃ u : Nat, (u : Int) = v + 2 ^ (m + 1) :=
      ⟨(v + 2 ^ (m + 1)).toNat, Int.toNat_of_nonneg (by rw [e1]; omega)⟩
    have hu3 : (v + 2 ^ (m + 1)).toNat = u := by rw [← hu2]; exact Int.toNat_natCast u
    rw [hu, hu3]
    have hge : 2 ^ m ≤ u := by
      have : ((2 ^ m : Nat) : Int) ≤ (u : Int) := by push_cast; rw [hu2, e1]; omega
      exact_mod_cast this
    have hlt : u < 2 * 2 ^ m := by
      have : (u : Int) < ((2 * 2 ^ m : Nat) : Int) := by push_cast; rw [hu2, e1]; omega
      exact_mod_cast this
    have hdiv : u / 2 ^ m = 1 := by
      apply Nat.div_eq_of_lt_le <;> omega
    have hmod : u % 2 ^ m = u - 2 ^ m := by
      rw [Nat.mod_eq_sub_mod hge, Nat.mod_eq_of_lt (by omega)]
    rw [hdiv, hmod]
    simp only [Nat.one_mod, decide_True, if_true]
    rw [Nat.cast_sub hge]
    push_cast
    rw [hu2, e1]
    ring


/-! ## Writing fields into a frame and reading them back -/

/-- A write inside the payload keeps its length. -/
theorem writeBits_length (bits : List Bool) (st : Nat) (enc : List Bool)
    (h : st + enc.length ≤ bits.length) : (writeBits bits st enc).length = bits.length := by
  simp only [writeBits, List.length_append, List.length_take, List.length_drop]
  omega

/-- Bit `i` after a write: a bit of the pattern inside the written range, the
old bit outside. -/
theorem getElem_writeBits (bits : List Bool) (st : Nat) (enc : List Bool)
    (h : st + enc.length ≤ bits.length) (i : Nat) :
    (writeBits bits st enc)[i]?
      = if st ≤ i ∧ i < st + enc.length then enc[i - st]? else bits[i]? := by
  unfold writeBits
  have hlt : (bits.take st).length = st := by
    rw [List.length_take]; omega
  by_cases h1 : i < st
  · rw [List.append_assoc, List.getElem?_append_left (by omega), List.getElem?_take_of_lt h1,
      if_neg (by omega)]
  · by_cases h2 : i < st + enc.length
    · rw [List.append_assoc, List.getElem?_append_right (by omega), hlt,
        List.getElem?_append_left (by omega), if_pos (by omega)]
    · rw [List.getElem?_append_right (by simp only [List.length_append, hlt]; omega),
        List.getElem?_drop, if_neg (by omega)]
      congr 1
      simp only [List.length_append, hlt]
      omega

/-- Reading a range that a write did not touch. -/
theorem slice_writeBits_disjoint (bits : List Bool) (st : Nat) (enc : List Bool)
    (h : st + enc.length ≤ bits.length) (s n : Nat)
    (hd : s + n ≤ st ∨ st + enc.length ≤ s) :
    ((writeBits bits st enc).drop s).take n = (bits.drop s).take n := by
  apply List.ext_getElem?
  intro i
  rw [List.getElem?_take, List.getElem?_take, List.getElem?_drop, List.getElem?_drop]
  by_cases hi : i < n
  · rw [if_pos hi, if_pos hi, getElem_writeBits bits st enc h, if_neg (by omega)]
  · rw [if_neg hi, if_neg hi]

/-- Reading back the range a write filled. -/
theorem slice_writeBits_same (bits : List Bool) (st : Nat) (enc : List Bool)
    (h : st + enc.length ≤ bits.length) :
    ((writeBits bits st enc).drop st).take enc.length = enc := by
  apply List.ext_getElem?
  intro i
  rw [List.getElem?_take, List.getElem?_drop]
  by_cases hi : i < enc.length
  · rw [if_pos hi, getElem_writeBits bits st enc h, if_pos (by omega)]
    congr 1
    omega
  · rw [if_neg hi, List.getElem?_eq_none (by omega)]

/-- Writes inside the payload keep its length. -/
theorem writeAll_length (ws : List (Nat × List Bool)) :
    ∀ bits : List Bool, (∀ w ∈ ws, w.1 + w.2.length ≤ bits.length) →
      (writeAll ws bits).length = bits.length := by
  induction ws with
  | nil => intro bits _; rfl
  | cons w ws ih =>
    intro bits h
    have hw := h w (List.mem_cons_self _ _)
    have hl := writeBits_length bits w.1 w.2 hw
    show (writeAll ws (writeBits bits w.1 w.2)).length = bits.length
    rw [ih _ (fun w2 h2 => by rw [hl]; exact h w2 (List.mem_cons_of_mem _ h2)), hl]

/-- Writes that avoid a range leave it as it was. -/
theorem slice_writeAll_disjoint (ws : List (Nat × List Bool)) (s n : Nat) :
    ∀ bits : List Bool, (∀ w ∈ ws, w.1 + w.2.length ≤ bits.length) →
      (∀ w ∈ ws, s + n ≤ w.1 ∨ w.1 + w.2.length ≤ s) →
      ((writeAll ws bits).drop s).take n = (bits.drop s).take n := by
  induction ws with
  | nil => intro bits _ _; rfl
  | cons w ws ih =>
    intro bits h hd
    have hw := h w (List.mem_cons_self _ _)
    have hl := writeBits_length bits w.1 w.2 hw
    show ((writeAll ws (writeBits bits w.1 w.2)).drop s).take n = _
    rw [ih _ (fun w2 h2 => by rw [hl]; exact h w2 (List.mem_cons_of_mem _ h2))
      (fun w2 h2 => hd w2 (List.mem_cons_of_mem _ h2))]
    exact slice_writeBits_disjoint bits w.1 w.2 hw s n (hd w (List.mem_cons_self _ _))

/-- After non-overlapping writes, every written range reads back the pattern
written into it. -/
theorem slice_writeAll_mem (ws : List (Nat × List Bool)) :
    ∀ bits : List Bool, (∀ w ∈ ws, w.1 + w.2.length ≤ bits.length) →
      ws.Pairwise (fun a b => a.1 + a.2.length ≤ b.1 ∨ b.1 + b.2.length ≤ a.1) →
      ∀ w ∈ ws, ((writeAll ws bits).drop w.1).take w.2.length = w.2 := by
  induction ws with
  | nil => intro bits _ _ w hw; cases hw
  | cons w0 ws ih =>
    intro bits h hp w hw
    have hw0 := h w0 (List.mem_cons_self _ _)
    have hl := writeBits_length bits w0.1 w0.2 hw0
    have hin : ∀ w2 ∈ ws, w2.1 + w2.2.length ≤ (writeBits bits w0.1 w0.2).length :=
      fun w2 h2 => by rw [hl]; exact h w2 (List.mem_cons_of_mem _ h2)
    rw [List.pairwise_cons] at hp
    show ((writeAll ws (writeBits bits w0.1 w0.2)).drop w.1).take w.2.length = w.2
    rcases List.mem_cons.mp hw with rfl | hmem
    · rw [slice_writeAll_disjoint ws w.1 w.2.length _ hin (fun w2 h2 => hp.1 w2 h2)]
      exact slice_writeBits_same bits w.1 w.2 hw0
    · exact ih _ hin hp.2 w hmem


/-! ## The synthetic subframe 2 -/

namespace Subframe2Fields

/-- The patterns written have the start bits and bit counts of `spans`. -/
theorem writes_spans (v : Subframe2Fields) :
    v.writes.map (fun w => (w.1, w.2.length)) = spans := by
  simp [writes, spans, bitsOfNat_length, bitsOfInt_length]

/-- The fields of subframe 2 lie inside 600 bits. -/
theorem spans_inside : ∀ w ∈ spans, w.1 + w.2 ≤ 600 := by decide

/-- No two fields of subframe 2 overlap. -/
theorem spans_disjoint :
    spans.Pairwise (fun a b => a.1 + a.2 ≤ b.1 ∨ b.1 + b.2 ≤ a.1) := by decide

/-- Every pattern written lies inside the 600-bit payload. -/
theorem writes_inside (v : Subframe2Fields) :
    ∀ w ∈ v.writes, w.1 + w.2.length ≤ (List.replicate nnbSF2 false).length := by
  intro w hw
  have hm : (w.1, w.2.length) ∈ v.writes.map (fun w => (w.1, w.2.length)) :=
    List.mem_map_of_mem _ hw
  rw [writes_spans] at hm
  simpa using spans_inside _ hm

/-- No two patterns written overlap. -/
theorem writes_disjoint (v : Subframe2Fields) :
    v.writes.Pairwise (fun a b => a.1 + a.2.length ≤ b.1 ∨ b.1 + b.2.length ≤ a.1) := by
  have h := spans_disjoint
  rw [← writes_spans v, List.pairwise_map] at h
  exact h

/-- The synthetic payload has 600 bits. -/
theorem payload_length (v : Subframe2Fields) : v.payload.length = 600 := by
  unfold payload
  rw [writeAll_length _ _ (writes_inside v)]
  simp

/-- Every field of the synthetic frame reads back the pattern written. -/
theorem frame_field (v : Subframe2Fields) (s : Nat) (enc : List Bool)
    (h : (s, enc) ∈ v.writes) : v.frame.field s enc.length = enc :=
  slice_writeAll_mem v.writes _ (writes_inside v) (writes_disjoint v) (s, enc) h

end Subframe2Fields

namespace Subframe2Fields

/-- The synthetic frame has 600 bits. -/
theorem frame_length (v : Subframe2Fields) : v.frame.bits.length = 600 := payload_length v

/-- A signed field of the synthetic frame reads back its value. -/
theorem read_signed (v : Subframe2Fields) (s n : Nat) (x : Int)
    (hmem : (s, bitsOfInt n x) ∈ v.writes) (h1 : 1 ≤ n) (h64 : n ≤ 64) (hfit : fitsS n x) :
    signExtend64 (accumulate (v.frame.field s n)) n = x := by
  have hf := frame_field v s (bitsOfInt n x) hmem
  rw [bitsOfInt_length] at hf
  have hin : s + n ≤ v.frame.bits.length := by
    have := writes_inside v (s, bitsOfInt n x) hmem
    simp only [bitsOfInt_length, List.length_replicate] at this
    rw [frame_length]; exact this
  rw [signExtend64_field v.frame s n hin h1 h64, hf, twosComplement_bitsOfInt n x h1 hfit]

/-- An unsigned field of the synthetic frame reads back its value. -/
theorem read_unsigned (v : Subframe2Fields) (s n : Nat) (x : Nat)
    (hmem : (s, bitsOfNat n x) ∈ v.writes) (h64 : n ≤ 64) (hfit : fitsU n x) :
    accumulate (v.frame.field s n) = x := by
  have hf := frame_field v s (bitsOfNat n x) hmem
  rw [bitsOfNat_length] at hf
  rw [hf, accumulate_eq _ (by rw [bitsOfNat_length]; exact h64),
    unsignedValue_bitsOfNat_of_lt n x hfit]

/-- A one-bit field of the synthetic frame reads back its value. -/
theorem read_bool (v : Subframe2Fields) (s : Nat) (b : Bool)
    (hmem : (s, [b]) ∈ v.writes) : v.frame.asBool s = b := by
  have hf := frame_field v s [b] hmem
  have h0 : (v.frame.field s 1)[0]? = some b := by
    rw [show ([b] : List Bool).length = 1 from rfl] at hf
    rw [hf]; rfl
  simp only [field, List.getElem?_take, List.getElem?_drop] at h0
  simp only [asBool, List.getD_eq_getElem?_getD]
  simp at h0
  rw [h0]; rfl

end Subframe2Fields

/-! ## Integer conversions on small values -/

/-- A 13-bit week survives the conversions `unsigned long`, `long`,
`unsigned int`, `int`. -/
theorem week_conversions (W : Nat) (h : W < 2 ^ 13) :
    toInt32 ((toInt64 (((W : Int) * 1 % 2 ^ 64).toNat) % 2 ^ 32).toNat) = W := by
  have h1 : (((W : Int) * 1 % 2 ^ 64).toNat) = W := by omega
  have h2 : toInt64 W = W := by
    unfold toInt64
    split_ifs <;> omega
  have h3 : (((W : Nat) : Int) % 2 ^ 32).toNat = W := by omega
  rw [h1, h2, h3]
  unfold toInt32
  split_ifs <;> omega

/-- An 11-bit count of 300 s steps fits the `unsigned long` product. -/
theorem scale_300 (x : Nat) (h : x < 2 ^ 11) :
    ((((x : Int) * 300 % 2 ^ 64).toNat : Nat) : Int) = (x : Int) * 300 := by
  omega

/-- A small signed value survives `asLong` with scale 1. -/
theorem long_scale_one (s : Int) (h : -(2 : Int) ^ 4 ≤ s ∧ s < 2 ^ 4) :
    toInt64 ((s * 1 % 2 ^ 64).toNat) = s := by
  obtain ⟨h1, h2⟩ := h
  unfold toInt64
  split_ifs <;> omega

/-- A small unsigned value survives `asUnsignedLong` with scale 1. -/
theorem ulong_scale_one (x : Nat) (h : x < 2 ^ 13) :
    ((x : Int) * 1 % 2 ^ 64).toNat = x := by
  omega

/-! ## Sentinel and week rollover in the ephemeris -/

/-- With scale 1, the `unsigned long` product of a field of at most 64 bits
is the binary value of the field. -/
theorem scale_one_value (nav : PackedNavBits) (s n : Nat)
    (h : s + n ≤ nav.bits.length) (hn : n ≤ 64) :
    ((accumulate (nav.field s n) : Int) * 1 % 2 ^ 64).toNat = unsignedValue (nav.field s n) := by
  rw [accumulate_eq _ (by rw [field_length nav s n h]; exact hn)]
  have hlt := unsignedValue_lt (nav.field s n)
  rw [field_length nav s n h] at hlt
  have h64 : 2 ^ n ≤ 2 ^ 64 := Nat.pow_le_pow_right (by decide) hn
  omega

/-- The Health message `processEph` emits for a frame. -/
theorem addData_subframe2_of_decode (f : PNBGPSCNav2DataFactory) (navIn : PackedNavBits)
    (navOut : NavDataPtrList) (htag : navIn.navID = NavType.GPSCNAV2)
    (hlen : navIn.getNumBits = 600) (heph : f.base.processEph = true) :
    ∃ h : GPSCNav2Health, ∀ e, f.decodeEph navIn = Except.ok e →
      f.addData navIn navOut
        = (true, navOut ++ (if f.base.processHea then [NavData.Health h] else [])
                        ++ [NavData.Ephemeris e]) := by
  refine ⟨⟨navIn.transmitTime,
    ⟨NavSatelliteID.ofPRNs navIn.satSys.id navIn.satSys.id navIn.satSys.system
      CarrierBand.L1 TrackingCode.L1CD NavType.GPSCNAV2, NavMessageType.Health⟩,
    navIn.asBool esbHeaL1C, true⟩, fun e he => ?_⟩
  unfold addData PNBGPSCNav2DataFactory.processEph
  simp only [htag, ne_eq, not_true_eq_false, if_false, nnbSF2, hlen, if_true, he, heph]
  cases f.base.processHea <;> simp

/-- The Tgd of the ephemeris decoded from a 600-bit frame: not-a-number
when the raw bits 526..538 are 0x1000, the scaled two's-complement reading
otherwise. -/
theorem decodeEph_tgd (f : PNBGPSCNav2DataFactory) (navIn : PackedNavBits)
    (hlen : navIn.bits.length = 600) :
    ∃ e, f.decodeEph navIn = Except.ok e
      ∧ (unsignedValue (navIn.field 526 13) = 0x1000 → e.tgd = Double.nan)
      ∧ (unsignedValue (navIn.field 526 13) ≠ 0x1000 →
          e.tgd = Double.val ((twosComplement (navIn.field 526 13) : ℚ) * 2 ^ (-35 : Int))) := by
  have hraw := scale_one_value navIn esbTGD enbTGD (by rw [hlen]; decide) (by decide)
  unfold decodeEph
  simp (disch := (rw [hlen]; decide)) only [asUnsignedLong_ok, asLong_ok, asUnsignedDouble_ok,
    asSignedDouble_ok, asDoubleSemiCircles_ok, pure_bind]
  rw [hraw]
  by_cases hs : unsignedValue (navIn.field 526 13) = 0x1000
  · rw [if_pos hs]
    exact ⟨_, rfl, fun _ => rfl, fun hne => absurd hs hne⟩
  · rw [if_neg hs]
    exact ⟨_, rfl, fun heq => absurd heq hs, fun _ =>
      signed_scaled_exact navIn 526 13 (-35) (by rw [hlen]; decide) (by decide) (by decide)⟩

/-- Claim C11. For a 600-bit GPSCNAV2 frame decoded with ephemeris emission
enabled: when the raw Tgd bits 526..538 hold the reserved pattern 0x1000 the
decoded `tgd` is not-a-number, which is neither zero nor the scaled value;
otherwise `tgd` is the two's-complement value of those bits times 2^-35.
The test is on the raw bits. -/
theorem addData_tgd_sentinel (f : PNBGPSCNav2DataFactory) (navIn : PackedNavBits)
    (navOut : NavDataPtrList) (htag : navIn.navID = NavType.GPSCNAV2)
    (hlen : navIn.getNumBits = 600) (heph : f.base.processEph = true) :
    ∃ (h : GPSCNav2Health) (e : GPSCNav2Eph),
      f.addData navIn navOut
        = (true, navOut ++ (if f.base.processHea then [NavData.Health h] else [])
                        ++ [NavData.Ephemeris e])
      ∧ (unsignedValue (navIn.field 526 13) = 0x1000 →
          e.tgd = Double.nan ∧ e.tgd ≠ Double.val 0
          ∧ e.tgd ≠ Double.val ((twosComplement (navIn.field 526 13) : ℚ) * 2 ^ (-35 : Int)))
      ∧ (unsignedValue (navIn.field 526 13) ≠ 0x1000 →
          e.tgd = Double.val ((twosComplement (navIn.field 526 13) : ℚ) * 2 ^ (-35 : Int))) := by
  obtain ⟨e, he, hnan, hval⟩ := decodeEph_tgd f navIn hlen
  obtain ⟨h, hadd⟩ := addData_subframe2_of_decode f navIn navOut htag hlen heph
  refine ⟨h, e, hadd e he, fun hs => ⟨hnan hs, ?_, ?_⟩, hval⟩ <;>
    (rw [hnan hs]; intro hc; cases hc)

/-- Sample instance: the synthetic frame whose Tgd bits are 0x1000 decodes
to an Ephemeris whose `tgd` is not-a-number. -/
theorem addData_tgd_sentinel_witness :
    sampleFieldsSentinel.frame.getNumBits = 600
    ∧ unsignedValue (sampleFieldsSentinel.frame.field 526 13) = 0x1000
    ∧ ∃ (h : GPSCNav2Health) (e : GPSCNav2Eph),
      (sampleFactory true true true true).addData sampleFieldsSentinel.frame []
        = (true, [NavData.Health h, NavData.Ephemeris e])
      ∧ e.tgd = Double.nan := by
  have hlen : sampleFieldsSentinel.frame.getNumBits = 600 :=
    Subframe2Fields.frame_length sampleFieldsSentinel
  have hraw : unsignedValue (sampleFieldsSentinel.frame.field 526 13) = 0x1000 := by
    have hf := Subframe2Fields.frame_field sampleFieldsSentinel esbTGD
      (bitsOfInt enbTGD sampleFieldsSentinel.TGD) (by simp [Subframe2Fields.writes])
    rw [bitsOfInt_length] at hf
    rw [show (526 : Nat) = esbTGD from rfl, show (13 : Nat) = enbTGD from rfl, hf]
    decide
  obtain ⟨h, e, hadd, hnan, _⟩ :=
    addData_tgd_sentinel (sampleFactory true true true true) sampleFieldsSentinel.frame []
      rfl hlen rfl
  exact ⟨hlen, hraw, h, e, hadd, (hnan hraw).1⟩

/-- The week resolved by `processEph` from an 8-bit week `w` and a 13-bit
reference week `W`, after the conversions to `unsigned` and back to `int`:
congruent to `w` modulo 2^8 and in the window `W - 128 .. W + 127`. -/
theorem rollover_week (w W : Nat) (hw : w < 2 ^ 8) (hW : W < 2 ^ 13) :
    toInt32 ((timeAdjust8BitWeekRollover ((w % 2 ^ 32 : Nat) : Int) (toInt64 W) % 2 ^ 32).toNat)
        % 2 ^ 8 = (w : Int)
    ∧ (W : Int) - 128 ≤
        toInt32 ((timeAdjust8BitWeekRollover ((w % 2 ^ 32 : Nat) : Int) (toInt64 W)
          % 2 ^ 32).toNat)
    ∧ toInt32 ((timeAdjust8BitWeekRollover ((w % 2 ^ 32 : Nat) : Int) (toInt64 W)
          % 2 ^ 32).toNat) < (W : Int) + 128 := by
  have h2 : toInt64 W = W := by
    unfold toInt64
    split_ifs <;> omega
  rw [h2]
  unfold timeAdjust8BitWeekRollover toInt32
  simp only [Nat.reducePow] at hw hW ⊢
  split_ifs <;> omega

/-- The prediction week of the ephemeris decoded from a 600-bit frame. -/
theorem decodeEph_top (f : PNBGPSCNav2DataFactory) (navIn : PackedNavBits)
    (hlen : navIn.bits.length = 600) :
    ∃ e, f.decodeEph navIn = Except.ok e
      ∧ e.top.week = toInt32 ((timeAdjust8BitWeekRollover
          ((unsignedValue (navIn.field 566 8) % 2 ^ 32 : Nat) : Int)
          (toInt64 (unsignedValue (navIn.field 0 13))) % 2 ^ 32).toNat) := by
  have hw := scale_one_value navIn esbWNop enbWNop (by rw [hlen]; decide) (by decide)
  have hW := scale_one_value navIn esbWN enbWN (by rw [hlen]; decide) (by decide)
  unfold decodeEph
  simp (disch := (rw [hlen]; decide)) only [asUnsignedLong_ok, asLong_ok, asUnsignedDouble_ok,
    asSignedDouble_ok, asDoubleSemiCircles_ok, pure_bind]
  rw [hw, hW]
  by_cases hs : ((accumulate (navIn.field esbTGD enbTGD) : Int) * 1 % 2 ^ 64).toNat = 0x1000
  · rw [if_pos hs]; exact ⟨_, rfl, rfl⟩
  · rw [if_neg hs]; exact ⟨_, rfl, rfl⟩

/-- Claim C12. For a 600-bit GPSCNAV2 frame decoded with ephemeris emission
enabled, with `w` the 8-bit WNop (bits 566..573) and `W` the 13-bit WN (bits
0..12): the week of the Ephemeris' prediction time `top` is congruent to `w`
modulo 2^8, lies in the window `W - 128 .. W + 127`, and is the only integer
that does. -/
theorem addData_top_week_rollover (f : PNBGPSCNav2DataFactory) (navIn : PackedNavBits)
    (navOut : NavDataPtrList) (htag : navIn.navID = NavType.GPSCNAV2)
    (hlen : navIn.getNumBits = 600) (heph : f.base.processEph = true) :
    ∃ (h : GPSCNav2Health) (e : GPSCNav2Eph),
      f.addData navIn navOut
        = (true, navOut ++ (if f.base.processHea then [NavData.Health h] else [])
                        ++ [NavData.Ephemeris e])
      ∧ e.top.week % 2 ^ 8 = (unsignedValue (navIn.field 566 8) : Int) % 2 ^ 8
      ∧ (unsignedValue (navIn.field 0 13) : Int) - 128 ≤ e.top.week
      ∧ e.top.week < (unsignedValue (navIn.field 0 13) : Int) + 128
      ∧ ∀ k : Int, k % 2 ^ 8 = (unsignedValue (navIn.field 566 8) : Int) % 2 ^ 8 →
          (unsignedValue (navIn.field 0 13) : Int) - 128 ≤ k →
          k < (unsignedValue (navIn.field 0 13) : Int) + 128 → k = e.top.week := by
  have hl : navIn.bits.length = 600 := hlen
  obtain ⟨e, he, htop⟩ := decodeEph_top f navIn hl
  obtain ⟨h, hadd⟩ := addData_subframe2_of_decode f navIn navOut htag hlen heph
  have hw := unsignedValue_lt (navIn.field 566 8)
  rw [field_length navIn 566 8 (by rw [hl]; decide)] at hw
  have hW := unsignedValue_lt (navIn.field 0 13)
  rw [field_length navIn 0 13 (by rw [hl]; decide)] at hW
  obtain ⟨h1, h2, h3⟩ := rollover_week _ _ hw hW
  rw [← htop] at h1 h2 h3
  simp only [Nat.reducePow] at hw hW
  refine ⟨h, e, hadd e he, ?_, h2, h3, ?_⟩
  · omega
  · intro k hk1 hk2 hk3
    omega

/-- Sample instance: week 2300 with 8-bit prediction week 251 resolves to
week 2299. -/
theorem addData_top_week_rollover_witness :
    sampleFieldsSentinel.frame.getNumBits = 600
    ∧ ∃ (h : GPSCNav2Health) (e : GPSCNav2Eph),
      (sampleFactory true true true true).addData sampleFieldsSentinel.frame []
        = (true, [NavData.Health h, NavData.Ephemeris e])
      ∧ e.top.week = 2299 := by
  have hlen : sampleFieldsSentinel.frame.getNumBits = 600 :=
    Subframe2Fields.frame_length sampleFieldsSentinel
  have hw : unsignedValue (sampleFieldsSentinel.frame.field 566 8) = 251 := by
    have hf := Subframe2Fields.frame_field sampleFieldsSentinel esbWNop
      (bitsOfNat enbWNop sampleFieldsSentinel.WNop) (by simp [Subframe2Fields.writes])
    rw [bitsOfNat_length] at hf
    rw [show (566 : Nat) = esbWNop from rfl, show (8 : Nat) = enbWNop from rfl, hf]
    decide
  have hW : unsignedValue (sampleFieldsSentinel.frame.field 0 13) = 2300 := by
    have hf := Subframe2Fields.frame_field sampleFieldsSentinel esbWN
      (bitsOfNat enbWN sampleFieldsSentinel.WN) (by simp [Subframe2Fields.writes])
    rw [bitsOfNat_length] at hf
    rw [show (0 : Nat) = esbWN from rfl, show (13 : Nat) = enbWN from rfl, hf]
    decide
  obtain ⟨h, e, hadd, h1, h2, h3, _⟩ :=
    addData_top_week_rollover (sampleFactory true true true true) sampleFieldsSentinel.frame []
      rfl hlen rfl
  rw [hw] at h1
  rw [hW] at h2 h3
  exact ⟨hlen, h, e, hadd, by omega⟩

/-! ## Round trip through a synthetic subframe 2 -/

/-- A number differs from itself by less than any positive step. -/
theorem Double.differsByLessThan_self (lsb x : ℚ) (h : 0 < lsb) :
    Double.differsByLessThan lsb (Double.val x) (Double.val x) := by
  simp [Double.differsByLessThan, h]

/-- Not-a-number differs from everything. -/
theorem Double.not_differsByLessThan_nan (lsb : ℚ) (d : Double) :
    ¬ Double.differsByLessThan lsb Double.nan d := by
  intro h
  cases d <;> exact h

/-- The raw Tgd bits of the synthetic frame hold the reserved pattern exactly
when the Tgd value is -4096. -/
theorem tgd_pattern (x : Int) (h : Subframe2Fields.fitsS 13 x) :
    ((x % 2 ^ 13).toNat = 0x1000) ↔ x = -4096 := by
  unfold Subframe2Fields.fitsS at h
  simp only [Nat.add_one_sub_one, Nat.reduceSub, Nat.reducePow] at h
  omega

/-- The double made from an 11-bit count of 300 s steps. -/
theorem ofInt_scale_300 (x : Nat) (h : x < 2 ^ 11) :
    Double.ofInt ((((x : Int) * 300 % 2 ^ 64).toNat : Nat) : Int) = Double.val ((x : ℚ) * 300) := by
  rw [scale_300 x h, Double.ofInt_eq _ (by rw [abs_lt]; constructor <;> omega)]
  push_cast
  rfl

/-- What `decodeEph` returns on the synthetic frame, member by member. -/
theorem decodeEph_frame (f : PNBGPSCNav2DataFactory) (v : Subframe2Fields)
    (hr : v.InRange) :
    ∃ e, f.decodeEph v.frame = Except.ok e
      ∧ e.Cuc = Double.ofInt v.Cuc * Double.pow2 escCuc
      ∧ e.Cus = Double.ofInt v.Cus * Double.pow2 escCus
      ∧ e.Crc = Double.ofInt v.Crc * Double.pow2 escCrc
      ∧ e.Crs = Double.ofInt v.Crs * Double.pow2 escCrs
      ∧ e.Cic = Double.ofInt v.Cic * Double.pow2 escCic
      ∧ e.Cis = Double.ofInt v.Cis * Double.pow2 escCis
      ∧ e.deltaA = Double.ofInt v.dA * Double.pow2 escdA
      ∧ e.Adot = Double.ofInt v.Adot * Double.pow2 escAdot
      ∧ e.af0 = Double.ofInt v.af0 * Double.pow2 escaf0
      ∧ e.af1 = Double.ofInt v.af1 * Double.pow2 escaf1
      ∧ e.af2 = Double.ofInt v.af2 * Double.pow2 escaf2
      ∧ e.iscL1CP = Double.ofInt v.ISCL1CP * Double.pow2 escISCL1CP
      ∧ e.iscL1CD = Double.ofInt v.ISCL1CD * Double.pow2 escISCL1CD
      ∧ e.M0 = Double.ofInt v.M0 * Double.pow2 escM0 * f.ext.PI
      ∧ e.dn = Double.ofInt v.dn0 * Double.pow2 escdn0 * f.ext.PI
      ∧ e.dndot = Double.ofInt v.dn0dot * Double.pow2 escdn0dot * f.ext.PI
      ∧ e.OMEGA0 = Double.ofInt v.OMEGA0 * Double.pow2 escOMEGA0 * f.ext.PI
      ∧ e.i0 = Double.ofInt v.i0 * Double.pow2 esci0 * f.ext.PI
      ∧ e.w = Double.ofInt v.w * Double.pow2 escw * f.ext.PI
      ∧ e.dOMEGAdot = Double.ofInt v.dOMEGAdot * Double.pow2 escdOMEGAdot * f.ext.PI
      ∧ e.idot = Double.ofInt v.idot * Double.pow2 escidot * f.ext.PI
      ∧ e.ecc = Double.ofInt v.Ecc * Double.pow2 escEcc
      ∧ e.tgd = (if v.TGD = -4096 then Double.nan else Double.ofInt v.TGD * Double.pow2 escTGD)
      ∧ e.Toe.week = v.WN
      ∧ e.Toe.sow = Double.val ((v.toe : ℚ) * 300)
      ∧ e.Toc = e.Toe
      ∧ e.top.sow = Double.val ((v.top : ℚ) * 300)
      ∧ e.top.week % 2 ^ 8 = (v.WNop : Int)
      ∧ e.uraED = v.URA
      ∧ e.uraNED0 = v.URAned0
      ∧ e.uraNED1 = v.URAned1
      ∧ e.uraNED2 = v.URAned2
      ∧ e.healthL1C = v.HeaL1C
      ∧ e.integStat = v.ISF := by
  obtain ⟨hWN, hITOW, htop, hURA, htoe, hdA, hAdot, hdn0, hdn0dot, hM0, hEcc, hw, hOMEGA0, hi0, hdOMEGAdot, hidot, hCis, hCic, hCrs, hCrc, hCus, hCuc, hURAned0, hURAned1, hURAned2, haf0, haf1, haf2, hTGD, hISCL1CP, hISCL1CD, hWNop⟩ := hr
  have hlen : v.frame.bits.length = 600 := Subframe2Fields.frame_length v
  have rURA : signExtend64 (accumulate (v.frame.field esbURA enbURA)) enbURA = v.URA :=
    Subframe2Fields.read_signed v esbURA enbURA v.URA (by simp [Subframe2Fields.writes])
      (by decide) (by decide) hURA
  have rdA : signExtend64 (accumulate (v.frame.field esbdA enbdA)) enbdA = v.dA :=
    Subframe2Fields.read_signed v esbdA enbdA v.dA (by simp [Subframe2Fields.writes])
      (by decide) (by decide) hdA
  have rAdot : signExtend64 (accumulate (v.frame.field esbAdot enbAdot)) enbAdot = v.Adot :=
    Subframe2Fields.read_signed v esbAdot enbAdot v.Adot (by simp [Subframe2Fields.writes])
      (by decide) (by decide) hAdot
  have rdn0 : signExtend64 (accumulate (v.frame.field esbdn0 enbdn0)) enbdn0 = v.dn0 :=
    Subframe2Fields.read_signed v esbdn0 enbdn0 v.dn0 (by simp [Subframe2Fields.writes])
      (by decide) (by decide) hdn0
  have rdn0dot : signExtend64 (accumulate (v.frame.field esbdn0dot enbdn0dot)) enbdn0dot = v.dn0dot :=
    Subframe2Fields.read_signed v esbdn0dot enbdn0dot v.dn0dot (by simp [Subframe2Fields.writes])
      (by decide) (by decide) hdn0dot
  have rM0 : signExtend64 (accumulate (v.frame.field esbM0 enbM0)) enbM0 = v.M0 :=
    Subframe2Fields.read_signed v esbM0 enbM0 v.M0 (by simp [Subframe2Fields.writes])
      (by decide) (by decide) hM0
  have rw : signExtend64 (accumulate (v.frame.field esbw enbw)) enbw = v.w :=
    Subframe2Fields.read_signed v esbw enbw v.w (by simp [Subframe2Fields.writes])
      (by decide) (by decide) hw
  have rOMEGA0 : signExtend64 (accumulate (v.frame.field esbOMEGA0 enbOMEGA0)) enbOMEGA0 = v.OMEGA0 :=
    Subframe2Fields.read_signed v esbOMEGA0 enbOMEGA0 v.OMEGA0 (by simp [Subframe2Fields.writes])
      (by decide) (by decide) hOMEGA0
  have ri0 : signExtend64 (accumulate (v.frame.field esbi0 enbi0)) enbi0 = v.i0 :=
    Subframe2Fields.read_signed v esbi0 enbi0 v.i0 (by simp [Subframe2Fields.writes])
      (by decide) (by decide) hi0
  have rdOMEGAdot : signExtend64 (accumulate (v.frame.field esbdOMEGAdot enbdOMEGAdot)) enbdOMEGAdot = v.dOMEGAdot :=
    Subframe2Fields.read_signed v esbdOMEGAdot enbdOMEGAdot v.dOMEGAdot (by simp [Subframe2Fields.writes])
      (by decide) (by decide) hdOMEGAdot
  have ridot : signExtend64 (accumulate (v.frame.field esbidot enbidot)) enbidot = v.idot :=
    Subframe2Fields.read_signed v esbidot enbidot v.idot (by simp [Subframe2Fields.writes])
      (by decide) (by decide) hidot
  have rCis : signExtend64 (accumulate (v.frame.field esbCis enbCis)) enbCis = v.Cis :=
    Subframe2Fields.read_signed v esbCis enbCis v.Cis (by simp [Subframe2Fields.writes])
      (by decide) (by decide) hCis
  have rCic : signExtend64 (accumulate (v.frame.field esbCic enbCic)) enbCic = v.Cic :=
    Subframe2Fields.read_signed v esbCic enbCic v.Cic (by simp [Subframe2Fields.writes])
      (by decide) (by decide) hCic
  have rCrs : signExtend64 (accumulate (v.frame.field esbCrs enbCrs)) enbCrs = v.Crs :=
    Subframe2Fields.read_signed v esbCrs enbCrs v.Crs (by simp [Subframe2Fields.writes])
      (by decide) (by decide) hCrs
  have rCrc : signExtend64 (accumulate (v.frame.field esbCrc enbCrc)) enbCrc = v.Crc :=
    Subframe2Fields.read_signed v esbCrc enbCrc v.Crc (by simp [Subframe2Fields.writes])
      (by decide) (by decide) hCrc
  have rCus : signExtend64 (accumulate (v.frame.field esbCus enbCus)) enbCus = v.Cus :=
    Subframe2Fields.read_signed v esbCus enbCus v.Cus (by simp [Subframe2Fields.writes])
      (by decide) (by decide) hCus
  have rCuc : signExtend64 (accumulate (v.frame.field esbCuc enbCuc)) enbCuc = v.Cuc :=
    Subframe2Fields.read_signed v esbCuc enbCuc v.Cuc (by simp [Subframe2Fields.writes])
      (by decide) (by decide) hCuc
  have rURAned0 : signExtend64 (accumulate (v.frame.field esbURAned0 enbURAned0)) enbURAned0 = v.URAned0 :=
    Subframe2Fields.read_signed v esbURAned0 enbURAned0 v.URAned0 (by simp [Subframe2Fields.writes])
      (by decide) (by decide) hURAned0
  have raf0 : signExtend64 (accumulate (v.frame.field esbaf0 enbaf0)) enbaf0 = v.af0 :=
    Subframe2Fields.read_signed v esbaf0 enbaf0 v.af0 (by simp [Subframe2Fields.writes])
      (by decide) (by decide) haf0
  have raf1 : signExtend64 (accumulate (v.frame.field esbaf1 enbaf1)) enbaf1 = v.af1 :=
    Subframe2Fields.read_signed v esbaf1 enbaf1 v.af1 (by simp [Subframe2Fields.writes])
      (by decide) (by decide) haf1
  have raf2 : signExtend64 (accumulate (v.frame.field esbaf2 enbaf2)) enbaf2 = v.af2 :=
    Subframe2Fields.read_signed v esbaf2 enbaf2 v.af2 (by simp [Subframe2Fields.writes])
      (by decide) (by decide) haf2
  have rTGD : signExtend64 (accumulate (v.frame.field esbTGD enbTGD)) enbTGD = v.TGD :=
    Subframe2Fields.read_signed v esbTGD enbTGD v.TGD (by simp [Subframe2Fields.writes])
      (by decide) (by decide) hTGD
  have rISCL1CP : signExtend64 (accumulate (v.frame.field esbISCL1CP enbISCL1CP)) enbISCL1CP = v.ISCL1CP :=
    Subframe2Fields.read_signed v esbISCL1CP enbISCL1CP v.ISCL1CP (by simp [Subframe2Fields.writes])
      (by decide) (by decide) hISCL1CP
  have rISCL1CD : signExtend64 (accumulate (v.frame.field esbISCL1CD enbISCL1CD)) enbISCL1CD = v.ISCL1CD :=
    Subframe2Fields.read_signed v esbISCL1CD enbISCL1CD v.ISCL1CD (by simp [Subframe2Fields.writes])
      (by decide) (by decide) hISCL1CD
  have rWN : accumulate (v.frame.field esbWN enbWN) = v.WN :=
    Subframe2Fields.read_unsigned v esbWN enbWN v.WN (by simp [Subframe2Fields.writes])
      (by decide) hWN
  have rtop : accumulate (v.frame.field esbtop enbtop) = v.top :=
    Subframe2Fields.read_unsigned v esbtop enbtop v.top (by simp [Subframe2Fields.writes])
      (by decide) htop
  have rtoe : accumulate (v.frame.field esbtoe enbtoe) = v.toe :=
    Subframe2Fields.read_unsigned v esbtoe enbtoe v.toe (by simp [Subframe2Fields.writes])
      (by decide) htoe
  have rEcc : accumulate (v.frame.field esbEcc enbEcc) = v.Ecc :=
    Subframe2Fields.read_unsigned v esbEcc enbEcc v.Ecc (by simp [Subframe2Fields.writes])
      (by decide) hEcc
  have rURAned1 : accumulate (v.frame.field esbURAned1 enbURAned1) = v.URAned1 :=
    Subframe2Fields.read_unsigned v esbURAned1 enbURAned1 v.URAned1 (by simp [Subframe2Fields.writes])
      (by decide) hURAned1
  have rURAned2 : accumulate (v.frame.field esbURAned2 enbURAned2) = v.URAned2 :=
    Subframe2Fields.read_unsigned v esbURAned2 enbURAned2 v.URAned2 (by simp [Subframe2Fields.writes])
      (by decide) hURAned2
  have rWNop : accumulate (v.frame.field esbWNop enbWNop) = v.WNop :=
    Subframe2Fields.read_unsigned v esbWNop enbWNop v.WNop (by simp [Subframe2Fields.writes])
      (by decide) hWNop
  have rHea : v.frame.asBool esbHeaL1C = v.HeaL1C :=
    Subframe2Fields.read_bool v esbHeaL1C v.HeaL1C (by simp [Subframe2Fields.writes])
  have rISF : v.frame.asBool esbISF = v.ISF :=
    Subframe2Fields.read_bool v esbISF v.ISF (by simp [Subframe2Fields.writes])
  have rTGDraw : accumulate (v.frame.field esbTGD enbTGD) = (v.TGD % 2 ^ 13).toNat := by
    have hf := Subframe2Fields.frame_field v esbTGD (bitsOfInt enbTGD v.TGD)
      (by simp [Subframe2Fields.writes])
    rw [bitsOfInt_length] at hf
    rw [hf, accumulate_eq _ (by rw [bitsOfInt_length]; decide)]
    unfold bitsOfInt
    rw [unsignedValue_bitsOfNat_of_lt]
    have := Int.emod_lt_of_pos v.TGD (show (0 : Int) < 2 ^ 13 by decide)
    have := Int.emod_nonneg v.TGD (show (2 : Int) ^ 13 ≠ 0 by decide)
    show (v.TGD % 2 ^ 13).toNat < 2 ^ 13
    omega
  have hTGDtest : ((accumulate (v.frame.field esbTGD enbTGD) : Int) * 1 % 2 ^ 64).toNat = 0x1000
      ↔ v.TGD = -4096 := by
    rw [rTGDraw, ← tgd_pattern v.TGD hTGD]
    have := Int.emod_lt_of_pos v.TGD (show (0 : Int) < 2 ^ 13 by decide)
    have := Int.emod_nonneg v.TGD (show (2 : Int) ^ 13 ≠ 0 by decide)
    omega
  unfold Subframe2Fields.fitsU at hWN htop htoe hURAned1 hURAned2 hWNop
  unfold Subframe2Fields.fitsS at hURA hURAned0
  have cWN := week_conversions v.WN hWN
  have ctoe := scale_300 v.toe htoe
  have ctop := scale_300 v.top htop
  have cURA := long_scale_one v.URA hURA
  have cURAned0 := long_scale_one v.URAned0 hURAned0
  have cURAned1 := ulong_scale_one v.URAned1 (lt_trans hURAned1 (by decide))
  have cURAned2 := ulong_scale_one v.URAned2 (lt_trans hURAned2 (by decide))
  have cWNop := ulong_scale_one v.WNop (lt_trans hWNop (by decide))
  have cWN1 := ulong_scale_one v.WN hWN
  have croll := (rollover_week v.WNop v.WN hWNop hWN).1
  unfold decodeEph
  simp (disch := (rw [hlen]; decide)) only [asUnsignedLong_ok, asLong_ok, asUnsignedDouble_ok,
    asSignedDouble_ok, asDoubleSemiCircles_ok, pure_bind]
  simp only [rURA, rdA, rAdot, rdn0, rdn0dot, rM0, rw, rOMEGA0, ri0, rdOMEGAdot, ridot, rCis, rCic, rCrs, rCrc, rCus, rCuc, rURAned0, raf0, raf1, raf2, rISCL1CP, rISCL1CD, rWN, rtop, rtoe, rEcc, rURAned1, rURAned2, rWNop, rTGD, rHea, rISF]
  by_cases hs : v.TGD = -4096
  · rw [if_pos (hTGDtest.mpr hs)]
    refine ⟨_, rfl, ?_⟩
    simp only [GPSCNav2Eph.fixFit, GPSWeekSecond.ofWeekSow, if_pos hs, true_and, and_true]
    refine ⟨cWN, ofInt_scale_300 _ htoe, ofInt_scale_300 _ htop, ?_, cURA, cURAned0,
      cURAned1, cURAned2⟩
    rw [cWNop, cWN1]
    exact croll
  · rw [if_neg (fun h => hs (hTGDtest.mp h))]
    refine ⟨_, rfl, ?_⟩
    simp only [GPSCNav2Eph.fixFit, GPSWeekSecond.ofWeekSow, if_neg hs, true_and, and_true]
    refine ⟨cWN, ofInt_scale_300 _ htoe, ofInt_scale_300 _ htop, ?_, cURA, cURAned0,
      cURAned1, cURAned2⟩
    rw [cWNop, cWN1]
    exact croll

/-- An in-range signed field value of at most 34 bits is at most 2^33 in
magnitude. -/
theorem Subframe2Fields.fitsS_abs (n : Nat) (x : Int) (hn : n ≤ 34)
    (h : Subframe2Fields.fitsS n x) : |x| ≤ 2 ^ 33 := by
  unfold Subframe2Fields.fitsS at h
  have hp : (2 : Int) ^ (n - 1) ≤ 2 ^ 33 := pow_le_pow_right₀ (by norm_num) (by omega)
  rw [abs_le]
  constructor <;> omega

/-- An in-range unsigned field value of at most 33 bits is at most 2^33. -/
theorem Subframe2Fields.fitsU_abs (n x : Nat) (hn : n ≤ 33)
    (h : Subframe2Fields.fitsU n x) : |(x : Int)| ≤ 2 ^ 33 := by
  unfold Subframe2Fields.fitsU at h
  have hp : (2 : Nat) ^ n ≤ 2 ^ 33 := Nat.pow_le_pow_right (by norm_num) hn
  rw [abs_le]
  constructor <;> omega

/-- A decoded field without pi is its value times its power factor, with no
rounding of a count of at most 2^33, so within any positive step of it. -/
theorem near_signed (lsb : ℚ) (d : Double) (s p : Int) (hd : d = Double.ofInt s * Double.pow2 p)
    (hs : |s| ≤ 2 ^ 33) (h : 0 < lsb) :
    Double.differsByLessThan lsb d (Double.val ((s : ℚ) * 2 ^ p)) := by
  rw [hd, Double.ofInt_mul_pow2 s p (lt_of_le_of_lt hs (by norm_num))]
  exact Double.differsByLessThan_self lsb _ h

/-- A decoded semicircle field is the rounded product of `PI` with its value
times its power factor: for a count of at most 2^33 and a `PI` of at most 4,
the rounding moves it by less than one least-significant bit, 2 to the power
factor, from the exact product. -/
theorem near_semicircle (d PI : Double) (pi : ℚ) (s p : Int)
    (hd : d = Double.ofInt s * Double.pow2 p * PI) (hPI : PI = Double.val pi)
    (hpi : |pi| ≤ 4) (hs : |s| ≤ 2 ^ 33) :
    Double.differsByLessThan (2 ^ p) d (Double.val ((s : ℚ) * 2 ^ p * pi)) := by
  rw [hd, hPI, Double.ofInt_mul_pow2 s p (lt_of_le_of_lt hs (by norm_num)), Double.val_mul]
  simp only [Double.differsByLessThan]
  have hp : (0 : ℚ) < 2 ^ p := by positivity
  have hsq : |(s : ℚ)| ≤ 2 ^ 33 := by exact_mod_cast hs
  have hx : |(s : ℚ) * 2 ^ p * pi| ≤ 2 ^ 33 * 2 ^ p * 4 := by
    rw [abs_mul, abs_mul, abs_of_pos hp]
    gcongr
  calc |Double.roundNearestEven ((s : ℚ) * 2 ^ p * pi) - (s : ℚ) * 2 ^ p * pi|
      ≤ 2 ^ (-53 : Int) * |(s : ℚ) * 2 ^ p * pi| := Double.roundNearestEven_error _
    _ ≤ 2 ^ (-53 : Int) * (2 ^ 33 * 2 ^ p * 4) := by gcongr
    _ = 2 ^ p * (2 ^ (-53 : Int) * 2 ^ 33 * 4) := by ring
    _ < 2 ^ p * 1 := by
        apply mul_lt_mul_of_pos_left _ hp
        norm_num
    _ = 2 ^ p := mul_one _

/-- Claim C13, amended. Round trip: for every in-range assignment of integer
values to the fields of subframe 2, the synthetic 600-bit frame decodes, with
ephemeris emission enabled, to an Ephemeris in which every power-factor field
differs by less than one least-significant bit (2 to the power factor) from
its integer value times 2 to the power factor, times pi for the semicircle
fields; except that `tgd` is not-a-number when the Tgd value is -4096 (the
reserved pattern 0x1000).  The fields without pi are not rounded; a
semicircle field is the double product with `PI`, rounded to nearest, and
`pi` is the value of `PI`, a number of at most 4.  The linear fields are
exact: the week of `Toe` is WN, the seconds of `Toe` and `top` are 300 times
toe and top, the URA indices and the two flags are as written, and the week
of `top` is congruent to WNop modulo 2^8 (it is resolved against WN, not
copied). -/
theorem addData_round_trip (f : PNBGPSCNav2DataFactory) (v : Subframe2Fields) (pi : ℚ)
    (navOut : NavDataPtrList) (hr : v.InRange) (heph : f.base.processEph = true)
    (hPI : f.ext.PI = Double.val pi) (hpi : |pi| ≤ 4) :
    ∃ (h : GPSCNav2Health) (e : GPSCNav2Eph),
      f.addData v.frame navOut
        = (true, navOut ++ (if f.base.processHea then [NavData.Health h] else [])
                        ++ [NavData.Ephemeris e])
      ∧ Double.differsByLessThan (2 ^ escCuc) e.Cuc (Double.val ((v.Cuc : ℚ) * 2 ^ escCuc))
      ∧ Double.differsByLessThan (2 ^ escCus) e.Cus (Double.val ((v.Cus : ℚ) * 2 ^ escCus))
      ∧ Double.differsByLessThan (2 ^ escCrc) e.Crc (Double.val ((v.Crc : ℚ) * 2 ^ escCrc))
      ∧ Double.differsByLessThan (2 ^ escCrs) e.Crs (Double.val ((v.Crs : ℚ) * 2 ^ escCrs))
      ∧ Double.differsByLessThan (2 ^ escCic) e.Cic (Double.val ((v.Cic : ℚ) * 2 ^ escCic))
      ∧ Double.differsByLessThan (2 ^ escCis) e.Cis (Double.val ((v.Cis : ℚ) * 2 ^ escCis))
      ∧ Double.differsByLessThan (2 ^ escdA) e.deltaA (Double.val ((v.dA : ℚ) * 2 ^ escdA))
      ∧ Double.differsByLessThan (2 ^ escAdot) e.Adot (Double.val ((v.Adot : ℚ) * 2 ^ escAdot))
      ∧ Double.differsByLessThan (2 ^ escaf0) e.af0 (Double.val ((v.af0 : ℚ) * 2 ^ escaf0))
      ∧ Double.differsByLessThan (2 ^ escaf1) e.af1 (Double.val ((v.af1 : ℚ) * 2 ^ escaf1))
      ∧ Double.differsByLessThan (2 ^ escaf2) e.af2 (Double.val ((v.af2 : ℚ) * 2 ^ escaf2))
      ∧ Double.differsByLessThan (2 ^ escISCL1CP) e.iscL1CP
          (Double.val ((v.ISCL1CP : ℚ) * 2 ^ escISCL1CP))
      ∧ Double.differsByLessThan (2 ^ escISCL1CD) e.iscL1CD
          (Double.val ((v.ISCL1CD : ℚ) * 2 ^ escISCL1CD))
      ∧ Double.differsByLessThan (2 ^ escM0) e.M0
          (Double.val ((v.M0 : ℚ) * 2 ^ escM0 * pi))
      ∧ Double.differsByLessThan (2 ^ escdn0) e.dn
          (Double.val ((v.dn0 : ℚ) * 2 ^ escdn0 * pi))
      ∧ Double.differsByLessThan (2 ^ escdn0dot) e.dndot
          (Double.val ((v.dn0dot : ℚ) * 2 ^ escdn0dot * pi))
      ∧ Double.differsByLessThan (2 ^ escOMEGA0) e.OMEGA0
          (Double.val ((v.OMEGA0 : ℚ) * 2 ^ escOMEGA0 * pi))
      ∧ Double.differsByLessThan (2 ^ esci0) e.i0
          (Double.val ((v.i0 : ℚ) * 2 ^ esci0 * pi))
      ∧ Double.differsByLessThan (2 ^ escw) e.w
          (Double.val ((v.w : ℚ) * 2 ^ escw * pi))
      ∧ Double.differsByLessThan (2 ^ escdOMEGAdot) e.dOMEGAdot
          (Double.val ((v.dOMEGAdot : ℚ) * 2 ^ escdOMEGAdot * pi))
      ∧ Double.differsByLessThan (2 ^ escidot) e.idot
          (Double.val ((v.idot : ℚ) * 2 ^ escidot * pi))
      ∧ Double.differsByLessThan (2 ^ escEcc) e.ecc (Double.val ((v.Ecc : ℚ) * 2 ^ escEcc))
      ∧ (v.TGD ≠ -4096 →
          Double.differsByLessThan (2 ^ escTGD) e.tgd (Double.val ((v.TGD : ℚ) * 2 ^ escTGD)))
      ∧ (v.TGD = -4096 → e.tgd = Double.nan)
      ∧ e.Toe.week = v.WN ∧ e.Toe.sow = Double.val ((v.toe : ℚ) * 300) ∧ e.Toc = e.Toe
      ∧ e.top.sow = Double.val ((v.top : ℚ) * 300) ∧ e.top.week % 2 ^ 8 = (v.WNop : Int)
      ∧ e.uraED = v.URA ∧ e.uraNED0 = v.URAned0 ∧ e.uraNED1 = v.URAned1
      ∧ e.uraNED2 = v.URAned2 ∧ e.healthL1C = v.HeaL1C ∧ e.integStat = v.ISF := by
  obtain ⟨e, he, hCuc, hCus, hCrc, hCrs, hCic, hCis, hdeltaA, hAdot, haf0, haf1, haf2, hiscL1CP,
    hiscL1CD, hM0, hdn, hdndot, hOMEGA0, hi0, hw, hdOMEGAdot, hidot, hecc, htgd, hToeW, hToeS,
    hToc, htopS, htopW, huraED, huraNED0, huraNED1, huraNED2, hhea, hisf⟩ :=
    decodeEph_frame f v hr
  obtain ⟨h, hadd⟩ := addData_subframe2_of_decode f v.frame navOut rfl
    (Subframe2Fields.frame_length v) heph
  obtain ⟨_, _, _, _, _, rdA, rAdot, rdn0, rdn0dot, rM0, rEcc, rw, rOMEGA0, ri0, rdOMEGAdot,
    ridot, rCis, rCic, rCrs, rCrc, rCus, rCuc, _, _, _, raf0, raf1, raf2, rTGD, rISCL1CP,
    rISCL1CD, _⟩ := hr
  have bS := fun (n : Nat) (x : Int) (hn : n ≤ 34) (hx : Subframe2Fields.fitsS n x) =>
    Subframe2Fields.fitsS_abs n x hn hx
  exact ⟨h, e, hadd e he,
    near_signed _ _ _ _ hCuc (bS _ _ (by decide) rCuc) (by positivity),
    near_signed _ _ _ _ hCus (bS _ _ (by decide) rCus) (by positivity),
    near_signed _ _ _ _ hCrc (bS _ _ (by decide) rCrc) (by positivity),
    near_signed _ _ _ _ hCrs (bS _ _ (by decide) rCrs) (by positivity),
    near_signed _ _ _ _ hCic (bS _ _ (by decide) rCic) (by positivity),
    near_signed _ _ _ _ hCis (bS _ _ (by decide) rCis) (by positivity),
    near_signed _ _ _ _ hdeltaA (bS _ _ (by decide) rdA) (by positivity),
    near_signed _ _ _ _ hAdot (bS _ _ (by decide) rAdot) (by positivity),
    near_signed _ _ _ _ haf0 (bS _ _ (by decide) raf0) (by positivity),
    near_signed _ _ _ _ haf1 (bS _ _ (by decide) raf1) (by positivity),
    near_signed _ _ _ _ haf2 (bS _ _ (by decide) raf2) (by positivity),
    near_signed _ _ _ _ hiscL1CP (bS _ _ (by decide) rISCL1CP) (by positivity),
    near_signed _ _ _ _ hiscL1CD (bS _ _ (by decide) rISCL1CD) (by positivity),
    near_semicircle _ _ _ _ _ hM0 hPI hpi (bS _ _ (by decide) rM0),
    near_semicircle _ _ _ _ _ hdn hPI hpi (bS _ _ (by decide) rdn0),
    near_semicircle _ _ _ _ _ hdndot hPI hpi (bS _ _ (by decide) rdn0dot),
    near_semicircle _ _ _ _ _ hOMEGA0 hPI hpi (bS _ _ (by decide) rOMEGA0),
    near_semicircle _ _ _ _ _ hi0 hPI hpi (bS _ _ (by decide) ri0),
    near_semicircle _ _ _ _ _ hw hPI hpi (bS _ _ (by decide) rw),
    near_semicircle _ _ _ _ _ hdOMEGAdot hPI hpi (bS _ _ (by decide) rdOMEGAdot),
    near_semicircle _ _ _ _ _ hidot hPI hpi (bS _ _ (by decide) ridot),
    near_signed _ _ _ _ hecc (Subframe2Fields.fitsU_abs _ _ (by decide) rEcc) (by positivity),
    fun hne => near_signed _ _ _ _ (by rw [htgd, if_neg hne]) (bS _ _ (by decide) rTGD)
      (by positivity),
    fun heq => by rw [htgd, if_pos heq],
    hToeW, hToeS, hToc, htopS, htopW, huraED, huraNED0, huraNED1, huraNED2, hhea, hisf⟩

/-- The double product of 777 * 2^-44 with the sample `PI`: the exact
product is rounded down, by 59 * 2^-92. -/
theorem Double.roundNearestEven_sample :
    Double.roundNearestEven ((777 : ℚ) * 2 ^ (-44 : Int) * (884279719003555 / 281474976710656))
      = 5367854231763767 / 38685626227668133590597632 := by
  rw [Double.roundNearestEven_eq _ (-33) 5367854231763767]
  · norm_num
  · norm_num
  · norm_num
  · rw [abs_lt]
    constructor <;> norm_num

/-- Sample instance: the synthetic frame of the sample values with an
ordinary Tgd decodes to an Ephemeris whose `dOMEGAdot` is the double
5367854231763767 * 2^-85, the rounded product of 777 * 2^-44 with the sample
`PI`, within 2^-44 of the exact product; whose `tgd` is within one
least-significant bit of -4095 * 2^-35; and whose `Toe` is week 2300,
307200 s. -/
theorem addData_round_trip_witness :
    sampleFieldsPlain.InRange
    ∧ ∃ (h : GPSCNav2Health) (e : GPSCNav2Eph),
      (sampleFactory true true true true).addData sampleFieldsPlain.frame []
        = (true, [NavData.Health h, NavData.Ephemeris e])
      ∧ e.dOMEGAdot = Double.val (5367854231763767 / 38685626227668133590597632)
      ∧ Double.differsByLessThan (2 ^ escdOMEGAdot) e.dOMEGAdot
          (Double.val ((777 : ℚ) * 2 ^ escdOMEGAdot * (884279719003555 / 281474976710656)))
      ∧ Double.differsByLessThan (2 ^ escTGD) e.tgd (Double.val ((-4095 : ℚ) * 2 ^ escTGD))
      ∧ e.Toe.week = 2300 ∧ e.Toe.sow = Double.val 307200 := by
  have hr : sampleFieldsPlain.InRange := by decide
  have hpi : |(884279719003555 / 281474976710656 : ℚ)| ≤ 4 := by
    rw [abs_le]
    constructor <;> norm_num
  obtain ⟨h, e, hadd, _, _, _, _, _, _, _, _, _, _, _, _, _, _, _, _, _, _, _, hOm, _, _,
      htgd, _, hW, hS, _⟩ :=
    addData_round_trip (sampleFactory true true true true) sampleFieldsPlain
      (884279719003555 / 281474976710656) [] hr rfl rfl hpi
  obtain ⟨e2, he2, _, _, _, _, _, _, _, _, _, _, _, _, _, _, _, _, _, _, _, hOm2, _⟩ :=
    decodeEph_frame (sampleFactory true true true true) sampleFieldsPlain hr
  obtain ⟨h2, hadd2⟩ := addData_subframe2_of_decode (sampleFactory true true true true)
    sampleFieldsPlain.frame [] rfl (Subframe2Fields.frame_length sampleFieldsPlain) rfl
  have hsame := hadd2 e2 he2
  rw [hadd] at hsame
  have hee : e = e2 := by
    have h3 := congrArg (fun p => p.2.getLast?) hsame
    simpa using h3
  refine ⟨hr, h, e, hadd, ?_, ?_, ?_, hW, ?_⟩
  · rw [hee, hOm2, Double.ofInt_mul_pow2 _ _ (by decide)]
    exact congrArg Double.val Double.roundNearestEven_sample
  · simpa [sampleFieldsPlain, sampleFieldsSentinel] using hOm
  · have := htgd (by decide)
    simpa [sampleFieldsPlain, sampleFieldsSentinel] using this
  · rw [hS]
    simp [sampleFieldsPlain, sampleFieldsSentinel]
    norm_num

/-- Claim C13 as stated fails. The in-range sample values with Tgd = -4096
and WN = 2300, WNop = 251 decode to an Ephemeris whose `tgd` is not-a-number,
so not within one least-significant bit of -4096 * 2^-35, and whose `top`
week is 2299, not WNop times its scale 1. -/
theorem addData_round_trip_counterexample :
    sampleFieldsSentinel.InRange
    ∧ ∃ (h : GPSCNav2Health) (e : GPSCNav2Eph),
      (sampleFactory true true true true).addData sampleFieldsSentinel.frame []
        = (true, [NavData.Health h, NavData.Ephemeris e])
      ∧ ¬ Double.differsByLessThan (2 ^ escTGD) e.tgd
            (Double.val ((sampleFieldsSentinel.TGD : ℚ) * 2 ^ escTGD))
      ∧ e.top.week = 2299 ∧ e.top.week ≠ (sampleFieldsSentinel.WNop : Int) * escWNop := by
  have hr : sampleFieldsSentinel.InRange := by decide
  have hlen : sampleFieldsSentinel.frame.getNumBits = 600 :=
    Subframe2Fields.frame_length sampleFieldsSentinel
  obtain ⟨e, he, _, _, _, _, _, _, _, _, _, _, _, _, _, _, _, _, _, _, _, _, _, _,
      htgd, hToeW, _, _, _, htopW, _⟩ :=
    decodeEph_frame (sampleFactory true true true true) sampleFieldsSentinel hr
  obtain ⟨h, hadd⟩ := addData_subframe2_of_decode (sampleFactory true true true true)
    sampleFieldsSentinel.frame [] rfl hlen rfl
  obtain ⟨e2, he2, htop⟩ := decodeEph_top (sampleFactory true true true true)
    sampleFieldsSentinel.frame hlen
  have hee : e2 = e := by
    rw [he] at he2
    exact (Except.ok.inj he2).symm
  subst hee
  have hw : unsignedValue (sampleFieldsSentinel.frame.field 566 8) = 251 := by
    have hf := Subframe2Fields.frame_field sampleFieldsSentinel esbWNop
      (bitsOfNat enbWNop sampleFieldsSentinel.WNop) (by simp [Subframe2Fields.writes])
    rw [bitsOfNat_length] at hf
    rw [show (566 : Nat) = esbWNop from rfl, show (8 : Nat) = enbWNop from rfl, hf]
    decide
  have hW : unsignedValue (sampleFieldsSentinel.frame.field 0 13) = 2300 := by
    have hf := Subframe2Fields.frame_field sampleFieldsSentinel esbWN
      (bitsOfNat enbWN sampleFieldsSentinel.WN) (by simp [Subframe2Fields.writes])
    rw [bitsOfNat_length] at hf
    rw [show (0 : Nat) = esbWN from rfl, show (13 : Nat) = enbWN from rfl, hf]
    decide
  have hweek : e2.top.week = 2299 := by
    rw [htop, hw, hW]
    decide
  refine ⟨hr, h, e2, hadd e2 he, ?_, hweek, ?_⟩
  · rw [htgd, if_pos (by decide)]
    exact Double.not_differsByLessThan_nan _ _
  · rw [hweek]
    decide

/-! ## The output list only grows, and independently of its content -/

/-- `processEph` appends to the output list the messages it would append to
an empty list, and returns the same flag or exception. -/
theorem processEph_append (f : PNBGPSCNav2DataFactory) (navIn : PackedNavBits)
    (navOut : NavDataPtrList) :
    f.processEph navIn navOut
      = ((f.processEph navIn []).1, navOut ++ (f.processEph navIn []).2) := by
  unfold PNBGPSCNav2DataFactory.processEph
  cases f.base.processHea <;> cases f.base.processEph <;> cases f.decodeEph navIn <;> simp

/-- `processAlmOrb` appends to the output list the messages it would append
to an empty list. -/
theorem processAlmOrb_append (f : PNBGPSCNav2DataFactory) (navIn : PackedNavBits)
    (navOut : NavDataPtrList) :
    f.processAlmOrb navIn navOut
      = ((f.processAlmOrb navIn []).1, navOut ++ (f.processAlmOrb navIn []).2) := by
  unfold processAlmOrb
  cases navIn.asUnsignedLong asbPRNa anbPRNa ascPRNa with
  | error e => simp
  | ok sprn =>
    simp only []
    cases f.base.processHea <;> cases f.base.processAlm <;>
      cases f.decodeAlm navIn ⟨toInt32 sprn, navIn.satSys.system⟩ navIn.satSys <;> simp

/-- `processUTCIono` appends to the output list the messages it would append
to an empty list. -/
theorem processUTCIono_append (f : PNBGPSCNav2DataFactory) (navIn : PackedNavBits)
    (navOut : NavDataPtrList) :
    f.processUTCIono navIn navOut
      = ((f.processUTCIono navIn []).1, navOut ++ (f.processUTCIono navIn []).2) := by
  unfold processUTCIono
  cases f.base.processTim <;> cases decodeUTCIono navIn <;> simp

/-- `processGGTOEOP` appends to the output list the messages it would append
to an empty list. -/
theorem processGGTOEOP_append (f : PNBGPSCNav2DataFactory) (navIn : PackedNavBits)
    (navOut : NavDataPtrList) :
    f.processGGTOEOP navIn navOut
      = ((f.processGGTOEOP navIn []).1, navOut ++ (f.processGGTOEOP navIn []).2) := by
  unfold processGGTOEOP
  cases f.base.processTim
  · simp
  · cases navIn.asUnsignedLong gsbGNSS gnbGNSS gscGNSS with
    | error e => simp
    | ok g =>
      simp only [Bool.not_true, Bool.false_eq_true, if_false]
      split
      · simp
      · cases decodeGGTO navIn TimeSystem.GAL <;> simp
      · cases decodeGGTO navIn TimeSystem.GLO <;> simp
      · cases decodeGGTO navIn TimeSystem.QZS <;> simp
      · simp

/-- `addData` appends to the output list the messages it would append to an
empty list, and returns the same flag: it keeps no other state. -/
theorem addData_append (f : PNBGPSCNav2DataFactory) (navIn : PackedNavBits)
    (navOut : NavDataPtrList) :
    f.addData navIn navOut = ((f.addData navIn []).1, navOut ++ (f.addData navIn []).2) := by
  unfold addData
  by_cases htag : navIn.navID = NavType.GPSCNAV2
  · simp only [htag, ne_eq, not_true_eq_false, if_false]
    by_cases h600 : navIn.getNumBits = nnbSF2
    · simp only [h600, if_true]
      rw [processEph_append f navIn navOut]
      rcases hp : f.processEph navIn [] with ⟨r1, r2⟩
      cases r1 <;> rfl
    · simp only [h600, if_false]
      by_cases h274 : navIn.getNumBits = nnbSF3
      · simp only [h274, if_true]
        cases navIn.asUnsignedLong asbPage anbPage ascPage with
        | error e => simp
        | ok pageNum =>
          simp only []
          by_cases h1 : pageNum = npgUTC
          · simp only [h1, if_true]
            rw [processUTCIono_append f navIn navOut]
            rcases hp : f.processUTCIono navIn [] with ⟨r1, r2⟩
            cases r1 <;> rfl
          · simp only [h1, if_false]
            by_cases h2 : pageNum = npgGGTO
            · simp only [h2, if_true]
              rw [processGGTOEOP_append f navIn navOut]
              rcases hp : f.processGGTOEOP navIn [] with ⟨r1, r2⟩
              cases r1 <;> rfl
            · simp only [h2, if_false]
              by_cases h4 : pageNum = npgMAlm
              · simp only [h4, if_true]
                rw [processAlmOrb_append f navIn navOut]
                rcases hp : f.processAlmOrb navIn [] with ⟨r1, r2⟩
                cases r1 <;> rfl
              · simp [h4]
      · simp [h274]
  · simp [htag]

/-! ## Exceptions and rejections at the boundary of `addData` -/

/-- `addData` is its control flow applied to the page number read and to the
four page decoders. -/
theorem addData_eq_dispatch (f : PNBGPSCNav2DataFactory) (navIn : PackedNavBits)
    (navOut : NavDataPtrList) :
    f.addData navIn navOut
      = dispatch navIn.navID navIn.getNumBits (navIn.asUnsignedLong asbPage anbPage ascPage)
          (f.processEph navIn navOut) (f.processUTCIono navIn navOut)
          (f.processGGTOEOP navIn navOut) (f.processAlmOrb navIn navOut) navOut := rfl

/-- With the extraction methods of the modelled `PackedNavBits`, the `try`
block run over them and caught is `addData`. -/
theorem addDataWith_extraction (f : PNBGPSCNav2DataFactory) (navIn : PackedNavBits)
    (navOut : NavDataPtrList) :
    f.addDataWith (PackedNavBits.extraction f.ext.PI) navIn navOut = f.addData navIn navOut := by
  have h1 : f.processEphWith (PackedNavBits.extraction f.ext.PI) navIn navOut
      = f.processEph navIn navOut := rfl
  have h2 : f.processUTCIonoWith (PackedNavBits.extraction f.ext.PI) navIn navOut
      = f.processUTCIono navIn navOut := rfl
  have h3 : f.processGGTOEOPWith (PackedNavBits.extraction f.ext.PI) navIn navOut
      = f.processGGTOEOP navIn navOut := rfl
  have h4 : f.processAlmOrbWith (PackedNavBits.extraction f.ext.PI) navIn navOut
      = f.processAlmOrb navIn navOut := rfl
  have h5 : (PackedNavBits.extraction f.ext.PI).asUnsignedLong navIn asbPage anbPage ascPage
      = navIn.asUnsignedLong asbPage anbPage ascPage := rfl
  unfold addDataWith addDataTry addData
  rw [h1, h2, h3, h4, h5]
  by_cases htag : navIn.navID = NavType.GPSCNAV2
  · simp only [htag, ne_eq, not_true_eq_false, if_false]
    by_cases h600 : navIn.getNumBits = nnbSF2
    · simp only [h600, if_true]
    · simp only [h600, if_false]
      by_cases h274 : navIn.getNumBits = nnbSF3
      · simp only [h274, if_true]
        cases navIn.asUnsignedLong asbPage anbPage ascPage with
        | error e => rfl
        | ok pageNum =>
          simp only []
          by_cases p1 : pageNum = npgUTC
          · simp only [p1, if_true]
          · simp only [p1, if_false]
            by_cases p2 : pageNum = npgGGTO
            · simp only [p2, if_true]
            · simp only [p2, if_false]
              by_cases p4 : pageNum = npgMAlm
              · simp only [p4, if_true]
              · simp only [p4, if_false]
      · simp only [h274, if_false]
  · simp [htag]

/-- Over any extraction methods, `processEph` appends to the output list the
messages it would append to an empty list, and returns the same flag or
exception. -/
theorem processEphWith_append (x : FieldExtraction) (f : PNBGPSCNav2DataFactory)
    (navIn : PackedNavBits) (navOut : NavDataPtrList) :
    f.processEphWith x navIn navOut
      = ((f.processEphWith x navIn []).1, navOut ++ (f.processEphWith x navIn []).2) := by
  unfold processEphWith
  cases f.base.processHea <;> cases f.base.processEph <;> cases f.decodeEphWith x navIn <;> simp

/-- Over any extraction methods, `processAlmOrb` appends to the output list
the messages it would append to an empty list. -/
theorem processAlmOrbWith_append (x : FieldExtraction) (f : PNBGPSCNav2DataFactory)
    (navIn : PackedNavBits) (navOut : NavDataPtrList) :
    f.processAlmOrbWith x navIn navOut
      = ((f.processAlmOrbWith x navIn []).1, navOut ++ (f.processAlmOrbWith x navIn []).2) := by
  unfold processAlmOrbWith
  cases x.asUnsignedLong navIn asbPRNa anbPRNa ascPRNa with
  | error e => simp
  | ok sprn =>
    simp only []
    cases f.base.processHea <;> cases f.base.processAlm <;>
      cases f.decodeAlmWith x navIn ⟨toInt32 sprn, navIn.satSys.system⟩ navIn.satSys <;> simp

/-- Over any extraction methods, `processUTCIono` appends to the output list
the messages it would append to an empty list. -/
theorem processUTCIonoWith_append (x : FieldExtraction) (f : PNBGPSCNav2DataFactory)
    (navIn : PackedNavBits) (navOut : NavDataPtrList) :
    f.processUTCIonoWith x navIn navOut
      = ((f.processUTCIonoWith x navIn []).1,
         navOut ++ (f.processUTCIonoWith x navIn []).2) := by
  unfold processUTCIonoWith
  cases f.base.processTim <;> cases decodeUTCIonoWith x navIn <;> simp

/-- Over any extraction methods, `processGGTOEOP` appends to the output list
the messages it would append to an empty list. -/
theorem processGGTOEOPWith_append (x : FieldExtraction) (f : PNBGPSCNav2DataFactory)
    (navIn : PackedNavBits) (navOut : NavDataPtrList) :
    f.processGGTOEOPWith x navIn navOut
      = ((f.processGGTOEOPWith x navIn []).1,
         navOut ++ (f.processGGTOEOPWith x navIn []).2) := by
  unfold processGGTOEOPWith
  cases f.base.processTim
  · simp
  · cases x.asUnsignedLong navIn gsbGNSS gnbGNSS gscGNSS with
    | error e => simp
    | ok g =>
      simp only [Bool.not_true, Bool.false_eq_true, if_false]
      split
      · simp
      · cases decodeGGTOWith x navIn TimeSystem.GAL <;> simp
      · cases decodeGGTOWith x navIn TimeSystem.GLO <;> simp
      · cases decodeGGTOWith x navIn TimeSystem.QZS <;> simp
      · simp

/-- Over any extraction methods, the `try` block of `addData` appends to the
output list what it would append to an empty list, and leaves the same flag
or exception. -/
theorem addDataTry_append (x : FieldExtraction) (f : PNBGPSCNav2DataFactory)
    (navIn : PackedNavBits) (navOut : NavDataPtrList) :
    f.addDataTry x navIn navOut
      = ((f.addDataTry x navIn []).1, navOut ++ (f.addDataTry x navIn []).2) := by
  unfold addDataTry
  by_cases h600 : navIn.getNumBits = nnbSF2
  · simp only [h600, if_true]
    exact processEphWith_append x f navIn navOut
  · simp only [h600, if_false]
    by_cases h274 : navIn.getNumBits = nnbSF3
    · simp only [h274, if_true]
      cases x.asUnsignedLong navIn asbPage anbPage ascPage with
      | error e => simp
      | ok pageNum =>
        simp only []
        by_cases h1 : pageNum = npgUTC
        · simp only [h1, if_true]
          exact processUTCIonoWith_append x f navIn navOut
        · simp only [h1, if_false]
          by_cases h2 : pageNum = npgGGTO
          · simp only [h2, if_true]
            exact processGGTOEOPWith_append x f navIn navOut
          · simp only [h2, if_false]
            by_cases h4 : pageNum = npgMAlm
            · simp only [h4, if_true]
              exact processAlmOrbWith_append x f navIn navOut
            · simp [h4]
    · simp [h274]

/-- Over any extraction methods, `addData` appends to the output list the
messages it would append to an empty list, and returns the same flag: it
keeps no other state. -/
theorem addDataWith_append (x : FieldExtraction) (f : PNBGPSCNav2DataFactory)
    (navIn : PackedNavBits) (navOut : NavDataPtrList) :
    f.addDataWith x navIn navOut
      = ((f.addDataWith x navIn []).1, navOut ++ (f.addDataWith x navIn []).2) := by
  unfold addDataWith
  by_cases htag : navIn.navID = NavType.GPSCNAV2
  · simp only [htag, ne_eq, not_true_eq_false, if_false]
    rw [addDataTry_append x f navIn navOut]
    rcases f.addDataTry x navIn [] with ⟨r1, r2⟩
    cases r1 <;> rfl
  · simp [htag]

/-- Claim C15. The extraction methods of the frame are a parameter `x`:
with those of the modelled `PackedNavBits` no read of a frame of an accepted
length raises, with others one can.  If an exception leaves the `try` block
of `addData` while a frame of the decoder's format is decoded, it does not
leave `addData`: the call returns false, with the output list as the raising
part left it.  A following call on any frame then returns the same flag as it
would have without the failed call, and appends the same messages: after the
failed call they follow its output list, without it they follow `navOut`. -/
theorem addData_contains_exception (x : FieldExtraction) (f : PNBGPSCNav2DataFactory)
    (navIn next : PackedNavBits) (navOut : NavDataPtrList) (exc : Exception)
    (htag : navIn.navID = NavType.GPSCNAV2)
    (hraise : (f.addDataTry x navIn navOut).1 = Except.error exc) :
    f.addDataWith x navIn navOut = (false, (f.addDataTry x navIn navOut).2)
    ∧ (f.addDataWith x next (f.addDataWith x navIn navOut).2).1
        = (f.addDataWith x next navOut).1
    ∧ (f.addDataWith x next (f.addDataWith x navIn navOut).2).2
        = (f.addDataWith x navIn navOut).2 ++ (f.addDataWith x next []).2
    ∧ (f.addDataWith x next navOut).2 = navOut ++ (f.addDataWith x next []).2 := by
  refine ⟨?_, ?_, ?_, ?_⟩
  · unfold addDataWith
    rw [if_neg (by simp [htag])]
    rcases hr : f.addDataTry x navIn navOut with ⟨r1, r2⟩
    rw [hr] at hraise
    simp only at hraise
    subst hraise
    rfl
  · rw [addDataWith_append x f next (f.addDataWith x navIn navOut).2,
      addDataWith_append x f next navOut]
  · rw [addDataWith_append x f next (f.addDataWith x navIn navOut).2]
  · rw [addDataWith_append x f next navOut]

/-- Sample instance: with a storage that holds only the first 300 bits of a
frame, the decoding of the sample subframe 2 raises after its Health message
was appended; `addData` returns false and leaves that one message.  The
following sample almanac page, read within its 274 bits, still returns true
and appends its four messages behind it, the same as on an empty list. -/
theorem addData_contains_exception_witness :
    ((sampleFactory true true true true).addDataTry
        (sampleShortExtraction sampleExternals.PI 300) sampleSubframe2 []).1
      = Except.error Exception.InvalidParameter
    ∧ ((sampleFactory true true true true).addDataWith
        (sampleShortExtraction sampleExternals.PI 300) sampleSubframe2 []).1 = false
    ∧ ((sampleFactory true true true true).addDataWith
        (sampleShortExtraction sampleExternals.PI 300) sampleSubframe2 []).2.length = 1
    ∧ ((sampleFactory true true true true).addDataWith
        (sampleShortExtraction sampleExternals.PI 300) (sampleSubframe3 4 0)
        ((sampleFactory true true true true).addDataWith
          (sampleShortExtraction sampleExternals.PI 300) sampleSubframe2 []).2).1 = true
    ∧ ((sampleFactory true true true true).addDataWith
        (sampleShortExtraction sampleExternals.PI 300) (sampleSubframe3 4 0)
        ((sampleFactory true true true true).addDataWith
          (sampleShortExtraction sampleExternals.PI 300) sampleSubframe2 []).2).2
      = ((sampleFactory true true true true).addDataWith
          (sampleShortExtraction sampleExternals.PI 300) sampleSubframe2 []).2
        ++ ((sampleFactory true true true true).addDataWith
          (sampleShortExtraction sampleExternals.PI 300) (sampleSubframe3 4 0) []).2
    ∧ ((sampleFactory true true true true).addDataWith
        (sampleShortExtraction sampleExternals.PI 300) (sampleSubframe3 4 0) []).2.length
      = 4 := by
  have hw := addData_contains_exception (sampleShortExtraction sampleExternals.PI 300)
    (sampleFactory true true true true) sampleSubframe2 (sampleSubframe3 4 0) []
    Exception.InvalidParameter rfl rfl
  obtain ⟨h1, h2, h3, _⟩ := hw
  refine ⟨rfl, ?_, ?_, ?_, h3, by decide⟩
  · rw [h1]
  · rw [h1]
    decide
  · rw [h2]
    decide

/-- On a 600-bit frame `processEph` returns true. -/
theorem processEph_true (f : PNBGPSCNav2DataFactory) (navIn : PackedNavBits)
    (navOut : NavDataPtrList) (hlen : navIn.bits.length = 600) :
    (f.processEph navIn navOut).1 = Except.ok true := by
  obtain ⟨e, he⟩ := decodeEph_ok f navIn hlen
  unfold PNBGPSCNav2DataFactory.processEph
  cases f.base.processEph <;> simp [he]

/-- On a 274-bit frame `processUTCIono` returns true. -/
theorem processUTCIono_true (f : PNBGPSCNav2DataFactory) (navIn : PackedNavBits)
    (navOut : NavDataPtrList) (hlen : navIn.bits.length = 274) :
    (f.processUTCIono navIn navOut).1 = Except.ok true := by
  obtain ⟨t, ht, _⟩ := decodeUTCIono_ok navIn hlen
  unfold processUTCIono
  cases f.base.processTim <;> simp [ht]

/-- On a 274-bit frame `processAlmOrb` returns true. -/
theorem processAlmOrb_true (f : PNBGPSCNav2DataFactory) (navIn : PackedNavBits)
    (navOut : NavDataPtrList) (hlen : navIn.bits.length = 274) :
    (f.processAlmOrb navIn navOut).1 = Except.ok true := by
  obtain ⟨sprn, hprn⟩ : ∃ v, navIn.asUnsignedLong asbPRNa anbPRNa ascPRNa = Except.ok v :=
    ⟨_, asUnsignedLong_ok navIn asbPRNa anbPRNa ascPRNa (by rw [hlen]; decide)⟩
  obtain ⟨a, ha⟩ := decodeAlm_ok f navIn ⟨toInt32 sprn, navIn.satSys.system⟩ navIn.satSys hlen
  unfold processAlmOrb
  rw [hprn]
  cases f.base.processAlm <;> simp [ha]

/-- On a 274-bit frame `processGGTOEOP` raises nothing, and when it returns
false it has appended nothing. -/
theorem processGGTOEOP_false (f : PNBGPSCNav2DataFactory) (navIn : PackedNavBits)
    (navOut : NavDataPtrList) (hlen : navIn.bits.length = 274) :
    (f.processGGTOEOP navIn navOut).1 = Except.ok true
    ∨ f.processGGTOEOP navIn navOut = (Except.ok false, navOut) := by
  obtain ⟨t1, ht1, _⟩ := decodeGGTO_ok navIn TimeSystem.GAL hlen
  obtain ⟨t2, ht2, _⟩ := decodeGGTO_ok navIn TimeSystem.GLO hlen
  obtain ⟨t3, ht3, _⟩ := decodeGGTO_ok navIn TimeSystem.QZS hlen
  unfold processGGTOEOP
  rw [gnssID_eq navIn hlen]
  cases f.base.processTim
  · simp
  · simp only [Bool.not_true, Bool.false_eq_true, if_false]
    split <;> simp [ht1, ht2, ht3]

/-- Claim C16. Rejection is atomic: for every frame, every toggle setting
and every output list, when `addData` returns false the output list it
returns is the one it was given. -/
theorem addData_rejection_atomic (f : PNBGPSCNav2DataFactory) (navIn : PackedNavBits)
    (navOut : NavDataPtrList) (hrej : (f.addData navIn navOut).1 = false) :
    (f.addData navIn navOut).2 = navOut := by
  rw [addData_eq_dispatch] at hrej ⊢
  unfold dispatch at hrej ⊢
  by_cases htag : navIn.navID = NavType.GPSCNAV2
  · simp only [htag, ne_eq, not_true_eq_false, if_false] at hrej ⊢
    by_cases h600 : navIn.getNumBits = nnbSF2
    · have ht := processEph_true f navIn navOut h600
      rcases hp : f.processEph navIn navOut with ⟨r1, r2⟩
      rw [hp] at ht hrej
      simp only at ht
      subst ht
      simp [h600] at hrej
    · simp only [h600, if_false] at hrej ⊢
      by_cases h274 : navIn.getNumBits = nnbSF3
      · have hl : navIn.bits.length = 274 := h274
        simp only [h274, if_true, pageNum_eq navIn hl] at hrej ⊢
        by_cases h1 : unsignedValue (navIn.field 8 6) = npgUTC
        · have ht := processUTCIono_true f navIn navOut hl
          rcases hp : f.processUTCIono navIn navOut with ⟨r1, r2⟩
          rw [hp] at ht hrej
          simp only at ht
          subst ht
          simp [h1] at hrej
        · simp only [h1, if_false] at hrej ⊢
          by_cases h2 : unsignedValue (navIn.field 8 6) = npgGGTO
          · simp only [h2, if_true] at hrej ⊢
            rcases processGGTOEOP_false f navIn navOut hl with ht | hf
            · rcases hp : f.processGGTOEOP navIn navOut with ⟨r1, r2⟩
              rw [hp] at ht hrej
              simp only at ht
              subst ht
              simp at hrej
            · rw [hf]
          · simp only [h2, if_false] at hrej ⊢
            by_cases h4 : unsignedValue (navIn.field 8 6) = npgMAlm
            · have ht := processAlmOrb_true f navIn navOut hl
              rcases hp : f.processAlmOrb navIn navOut with ⟨r1, r2⟩
              rw [hp] at ht hrej
              simp only at ht
              subst ht
              simp [h4] at hrej
            · simp [h4]
      · simp [h274]
  · simp [htag]

/-- Sample instance: the sample page 2 frame with unknown selector 4 is
rejected, and the output list that held the sample Health message still holds
exactly that message. -/
theorem addData_rejection_atomic_witness :
    ((sampleFactory true true true true).addData (sampleSubframe3 2 4)
        [NavData.Health sampleHealth]).1 = false
    ∧ ((sampleFactory true true true true).addData (sampleSubframe3 2 4)
        [NavData.Health sampleHealth]).2 = [NavData.Health sampleHealth] := by
  have hl : (sampleSubframe3 2 4).bits.length = 274 := by decide
  have hrej : ((sampleFactory true true true true).addData (sampleSubframe3 2 4)
      [NavData.Health sampleHealth]).1 = false := by
    rw [addData_append]
    have h0 : (sampleFactory true true true true).addData (sampleSubframe3 2 4) []
        = (false, []) := by
      unfold addData processGGTOEOP
      simp [nnbSF2, nnbSF3, getNumBits, hl, pageNum_eq _ hl, npgUTC, npgGGTO,
        gnssID_eq _ hl, sampleFactory]
      have h3 : unsignedValue ((sampleSubframe3 2 4).field 8 6) = 2 := by decide
      have h4 : unsignedValue ((sampleSubframe3 2 4).field 14 3) = 4 := by decide
      simp [h3, h4]
    rw [h0]
  exact ⟨hrej, addData_rejection_atomic _ _ _ hrej⟩

/-! ## Identities of the almanac page messages -/

/-- Inside the frame, `asBool` returns the bit at the given position. -/
theorem asBool_eq (nav : PackedNavBits) (i : Nat) (h : i < nav.bits.length) :
    nav.bits[i]? = some (nav.asBool i) := by
  simp [asBool, List.getD_eq_getElem?_getD, List.getElem?_eq_getElem h]

/-- Identity and time stamp of the almanac `decodeAlm` returns. -/
theorem decodeAlm_signal (f : PNBGPSCNav2DataFactory) (navIn : PackedNavBits)
    (subj xmit : SatID) (hlen : navIn.bits.length = 274) :
    ∃ a, f.decodeAlm navIn subj xmit = Except.ok a
      ∧ a.signal = ⟨NavSatelliteID.ofSats subj xmit navIn.obsID navIn.navID,
          NavMessageType.Almanac⟩
      ∧ a.timeStamp = navIn.transmitTime := by
  unfold decodeAlm
  simp (disch := (rw [hlen]; decide)) only [asUnsignedLong_ok, asLong_ok, asUnsignedDouble_ok,
    asSignedDouble_ok, asDoubleSemiCircles_ok, pure_bind]
  exact ⟨_, rfl, rfl, rfl⟩

/-- Claim C14. For a 274-bit page 4 frame decoded with health and almanac
emission enabled, the four messages appended (three Health, one Almanac) all
have as subject satellite the PRNa field (bits 35..42) in the transmitting
satellite's system, and as transmitting satellite the frame's own satellite.
The first Health carries the frame's own carrier, code and format, the second
L2 / L2CM / GPSCNAVL2, the third L5 / L5I / GPSCNAVL5; their health flags are
bits 43, 44 and 45. -/
theorem addData_almanac_identities (f : PNBGPSCNav2DataFactory) (navIn : PackedNavBits)
    (navOut : NavDataPtrList) (htag : navIn.navID = NavType.GPSCNAV2)
    (hlen : navIn.getNumBits = 274) (hpage : unsignedValue (navIn.field 8 6) = 4)
    (hhea : f.base.processHea = true) (halm : f.base.processAlm = true) :
    ∃ (h1 h2 h3 : GPSCNav2Health) (a : GPSCNav2Alm),
      f.addData navIn navOut
        = (true, navOut ++ [NavData.Health h1, NavData.Health h2, NavData.Health h3,
                            NavData.Almanac a])
      ∧ (∀ m ∈ [NavData.Health h1, NavData.Health h2, NavData.Health h3, NavData.Almanac a],
          m.signal.satID.sat
            = ⟨(unsignedValue (navIn.field 35 8) : Int), navIn.satSys.system⟩
          ∧ m.signal.satID.xmitSat = navIn.satSys)
      ∧ h1.signal.satID.obs = navIn.obsID ∧ h1.signal.satID.nav = navIn.navID
      ∧ h2.signal.satID.obs.band = CarrierBand.L2
      ∧ h2.signal.satID.obs.code = TrackingCode.L2CM
      ∧ h2.signal.satID.nav = NavType.GPSCNAVL2
      ∧ h3.signal.satID.obs.band = CarrierBand.L5
      ∧ h3.signal.satID.obs.code = TrackingCode.L5I
      ∧ h3.signal.satID.nav = NavType.GPSCNAVL5
      ∧ navIn.bits[43]? = some h1.health ∧ navIn.bits[44]? = some h2.health
      ∧ navIn.bits[45]? = some h3.health := by
  have hl : navIn.bits.length = 274 := hlen
  have hprn : navIn.asUnsignedLong asbPRNa anbPRNa ascPRNa
      = Except.ok (unsignedValue (navIn.field 35 8)) :=
    asUnsignedLong_scale_one navIn 35 8 (by rw [hl]; decide) (by decide)
  have hlt := unsignedValue_lt (navIn.field 35 8)
  rw [field_length navIn 35 8 (by rw [hl]; decide)] at hlt
  have hid : toInt32 (unsignedValue (navIn.field 35 8))
      = (unsignedValue (navIn.field 35 8) : Int) := by
    unfold toInt32
    simp only [Nat.reducePow] at hlt ⊢
    split_ifs <;> omega
  obtain ⟨a, ha, hsig, _⟩ := decodeAlm_signal f navIn
    ⟨toInt32 (unsignedValue (navIn.field 35 8)), navIn.satSys.system⟩ navIn.satSys hl
  refine ⟨⟨navIn.transmitTime, ⟨NavSatelliteID.ofSats
      ⟨toInt32 (unsignedValue (navIn.field 35 8)), navIn.satSys.system⟩
      navIn.satSys navIn.obsID navIn.navID, NavMessageType.Health⟩,
      navIn.asBool asbHeaL1, false⟩,
    ⟨navIn.transmitTime, ⟨NavSatelliteID.ofSats
      ⟨toInt32 (unsignedValue (navIn.field 35 8)), navIn.satSys.system⟩
      navIn.satSys ⟨ObservationType.NavMsg, CarrierBand.L2, TrackingCode.L2CM⟩
      NavType.GPSCNAVL2, NavMessageType.Health⟩, navIn.asBool asbHeaL2, false⟩,
    ⟨navIn.transmitTime, ⟨NavSatelliteID.ofSats
      ⟨toInt32 (unsignedValue (navIn.field 35 8)), navIn.satSys.system⟩
      navIn.satSys ⟨ObservationType.NavMsg, CarrierBand.L5, TrackingCode.L5I⟩
      NavType.GPSCNAVL5, NavMessageType.Health⟩, navIn.asBool asbHeaL5, false⟩,
    a, ?_, ?_, rfl, rfl, rfl, rfl, rfl, rfl, rfl, rfl,
    asBool_eq navIn 43 (by rw [hl]; decide), asBool_eq navIn 44 (by rw [hl]; decide),
    asBool_eq navIn 45 (by rw [hl]; decide)⟩
  · unfold addData processAlmOrb
    rw [hprn]
    simp only [htag, ne_eq, not_true_eq_false, if_false, nnbSF2, nnbSF3, hlen,
      pageNum_eq navIn hl, npgUTC, npgGGTO, npgMAlm, hpage, ha, hhea, halm]
    simp
  · intro m hm
    simp only [List.mem_cons, List.mem_singleton, List.not_mem_nil, or_false] at hm
    rcases hm with rfl | rfl | rfl | rfl
    · exact ⟨by simp [NavData.signal, NavSatelliteID.ofSats, hid], rfl⟩
    · exact ⟨by simp [NavData.signal, NavSatelliteID.ofSats, hid], rfl⟩
    · exact ⟨by simp [NavData.signal, NavSatelliteID.ofSats, hid], rfl⟩
    · exact ⟨by simp [NavData.signal, hsig, NavSatelliteID.ofSats, hid],
        by simp [NavData.signal, hsig, NavSatelliteID.ofSats]⟩

/-- Sample instance: the sample page 4 frame from GPS satellite 5, whose
PRNa field is 255, yields four messages about satellite 255 transmitted by
satellite 5. -/
theorem addData_almanac_identities_witness :
    (sampleSubframe3 4 0).getNumBits = 274
    ∧ unsignedValue ((sampleSubframe3 4 0).field 8 6) = 4
    ∧ unsignedValue ((sampleSubframe3 4 0).field 35 8) = 255
    ∧ ∃ (h1 h2 h3 : GPSCNav2Health) (a : GPSCNav2Alm),
      (sampleFactory true true true true).addData (sampleSubframe3 4 0) []
        = (true, [NavData.Health h1, NavData.Health h2, NavData.Health h3,
                  NavData.Almanac a])
      ∧ (∀ m ∈ [NavData.Health h1, NavData.Health h2, NavData.Health h3, NavData.Almanac a],
          m.signal.satID.sat = ⟨255, SatelliteSystem.GPS⟩
          ∧ m.signal.satID.xmitSat = ⟨5, SatelliteSystem.GPS⟩) := by
  have hprn : unsignedValue ((sampleSubframe3 4 0).field 35 8) = 255 := by decide
  obtain ⟨h1, h2, h3, a, hadd, hid, _⟩ :=
    addData_almanac_identities (sampleFactory true true true true) (sampleSubframe3 4 0) []
      rfl (by decide) (by decide) rfl rfl
  rw [hprn] at hid
  exact ⟨by decide, by decide, hprn, h1, h2, h3, a, hadd, hid⟩

/-! ## Federation: `find` -/

namespace MultiFormatNavDataFactory

/-- A store's `find` succeeds exactly when its lookup produces a message. -/
theorem find_fst (o : NavDataFactoryObj) (args : FindArgs) (navOut : NavDataPtr) :
    (o.find args navOut).1 = (o.lookup args).isSome := by
  unfold NavDataFactoryObj.find
  cases o.lookup args <;> rfl

/-- The loop of `find`, when every store already tried has failed: it stops
at the first remaining row that matches the query and whose store finds a
message, with that message, and returns false when there is none. -/
theorem findLoop_first (cmp : SignalCompare) (heap : FactoryHeap) (args : FindArgs)
    (rows : NavDataFactoryMap) :
    ∀ (uniques : List NavDataFactoryPtr) (navOut : NavDataPtr)
      (calls : List NavDataFactoryPtr),
      (∀ p ∈ uniques, (heap p).lookup args = none) →
      match rows.find? (fun fi => cmp.eq fi.1 args.nmid && ((heap fi.2).lookup args).isSome) with
      | some fi => (findLoop cmp heap args rows uniques navOut calls).1
                      = (true, (heap fi.2).lookup args)
      | none => (findLoop cmp heap args rows uniques navOut calls).1.1 = false := by
  induction rows with
  | nil => intro uniques navOut calls _; rfl
  | cons fi rest ih =>
    intro uniques navOut calls hinv
    cases hl : (heap fi.2).lookup args with
    | none =>
      have hP : (cmp.eq fi.1 args.nmid && ((heap fi.2).lookup args).isSome) = false := by
        rw [hl]; simp
      simp only [List.find?_cons, hP]
      unfold findLoop
      by_cases hc : (cmp.eq fi.1 args.nmid && !(uniques.contains fi.2)) = true
      · rw [if_pos hc]
        have hf : (heap fi.2).find args navOut = (false, (heap fi.2).onMiss navOut) := by
          unfold NavDataFactoryObj.find; rw [hl]
        rw [hf]
        exact ih (fi.2 :: uniques) _ _ (by
          intro p hp
          rcases List.mem_cons.mp hp with rfl | hp
          · exact hl
          · exact hinv p hp)
      · rw [if_neg hc]
        exact ih uniques navOut calls hinv
    | some m =>
      by_cases he : cmp.eq fi.1 args.nmid = true
      · have hP : (cmp.eq fi.1 args.nmid && ((heap fi.2).lookup args).isSome) = true := by
          rw [hl, he]; rfl
        simp only [List.find?_cons, hP]
        have hnot : uniques.contains fi.2 = false := by
          cases hcon : uniques.contains fi.2 with
          | false => rfl
          | true =>
            have hmem : fi.2 ∈ uniques := by simpa using hcon
            rw [hinv fi.2 hmem] at hl
            cases hl
        unfold findLoop
        rw [if_pos (by rw [he, hnot]; rfl)]
        have hf : (heap fi.2).find args navOut = (true, some m) := by
          unfold NavDataFactoryObj.find; rw [hl]
        rw [hf, hl]
      · have hP : (cmp.eq fi.1 args.nmid && ((heap fi.2).lookup args).isSome) = false := by
          simp [he]
        simp only [List.find?_cons, hP]
        unfold findLoop
        rw [if_neg (by simp [he])]
        exact ih uniques navOut calls hinv

/-- Claim C17. `find` returns true exactly when some registry row matches
the query and maps to a store whose own `find` succeeds for the same
arguments; the message returned is then the one produced by the store of the
first such row in registry iteration order. -/
theorem find_first_match (cmp : SignalCompare) (heap : FactoryHeap)
    (factories : NavDataFactoryMap) (args : FindArgs) (navOut : NavDataPtr) :
    ((find cmp heap factories args navOut).1 = true
      ↔ ∃ fi ∈ factories, cmp.eq fi.1 args.nmid = true
          ∧ ∀ out, ((heap fi.2).find args out).1 = true)
    ∧ ∀ fi, factories.find?
          (fun fi => cmp.eq fi.1 args.nmid && ((heap fi.2).find args navOut).1) = some fi →
        find cmp heap factories args navOut = (true, ((heap fi.2).find args navOut).2) := by
  have hfun : (fun fi : NavSignalID × NavDataFactoryPtr =>
      cmp.eq fi.1 args.nmid && ((heap fi.2).find args navOut).1)
      = (fun fi => cmp.eq fi.1 args.nmid && ((heap fi.2).lookup args).isSome) := by
    funext fi
    rw [find_fst]
  have hspec := findLoop_first cmp heap args factories [] navOut []
    (by intro p hp; cases hp)
  rw [hfun]
  unfold find
  constructor
  · constructor
    · intro htrue
      cases hfind : factories.find?
          (fun fi => cmp.eq fi.1 args.nmid && ((heap fi.2).lookup args).isSome) with
      | none =>
        rw [hfind] at hspec
        simp only at hspec
        rw [hspec] at htrue
        cases htrue
      | some fi =>
        have hmem := List.mem_of_find?_eq_some hfind
        have hP := List.find?_some hfind
        simp only [Bool.and_eq_true] at hP
        exact ⟨fi, hmem, hP.1, fun out => by rw [find_fst]; exact hP.2⟩
    · rintro ⟨fi, hmem, heq, hfind⟩
      cases hf : factories.find?
          (fun fi => cmp.eq fi.1 args.nmid && ((heap fi.2).lookup args).isSome) with
      | none =>
        have := List.find?_eq_none.mp hf fi hmem
        have h2 := hfind navOut
        rw [find_fst] at h2
        simp [heq, h2] at this
      | some fj =>
        rw [hf] at hspec
        simp only at hspec
        rw [hspec]
  · intro fi hfind
    rw [hfind] at hspec
    simp only at hspec
    rw [hspec]
    have hP := List.find?_some hfind
    simp only [Bool.and_eq_true] at hP
    unfold NavDataFactoryObj.find
    cases hl : (heap fi.2).lookup args with
    | none => rw [hl] at hP; simp at hP
    | some m => rfl

/-- Sample instance: with the empty store registered under both sample
signals before the store that holds the sample Health message, the sample
query is answered by the latter. -/
theorem find_first_match_witness :
    find sampleCompare sampleHeap
        [(sampleSignalLNAV, 0), (sampleSignalCNAV2, 0), (sampleSignalCNAV2, 1)]
        sampleQuery none
      = (true, some (NavData.Health sampleHealth)) :=
  (find_first_match sampleCompare sampleHeap
    [(sampleSignalLNAV, 0), (sampleSignalCNAV2, 0), (sampleSignalCNAV2, 1)]
    sampleQuery none).2 (sampleSignalCNAV2, 1) (by decide)

/-- The loop of `find` invokes only stores not yet tried, each for a row
that matches the query. -/
theorem findLoop_calls (cmp : SignalCompare) (heap : FactoryHeap) (args : FindArgs)
    (rows : NavDataFactoryMap) :
    ∀ (uniques : List NavDataFactoryPtr) (navOut : NavDataPtr)
      (calls : List NavDataFactoryPtr),
      (∀ p ∈ calls, p ∈ uniques) → calls.Nodup →
      (findLoop cmp heap args rows uniques navOut calls).2.Nodup
      ∧ ∀ p ∈ (findLoop cmp heap args rows uniques navOut calls).2,
          p ∈ calls ∨ ∃ fi ∈ rows, fi.2 = p ∧ cmp.eq fi.1 args.nmid = true := by
  induction rows with
  | nil =>
    intro uniques navOut calls _ hnd
    exact ⟨hnd, fun p hp => Or.inl hp⟩
  | cons fi rest ih =>
    intro uniques navOut calls hsub hnd
    unfold findLoop
    by_cases hc : (cmp.eq fi.1 args.nmid && !(uniques.contains fi.2)) = true
    · rw [if_pos hc]
      simp only [Bool.and_eq_true] at hc
      obtain ⟨heq, hnew⟩ := hc
      have hnotin : fi.2 ∉ calls := by
        intro hin
        have hcon : uniques.contains fi.2 = true := by simpa using hsub fi.2 hin
        rw [hcon] at hnew
        cases hnew
      have hnd2 : (calls ++ [fi.2]).Nodup := by
        rw [List.nodup_append]
        refine ⟨hnd, List.nodup_singleton _, ?_⟩
        intro a ha hb
        rw [List.mem_singleton] at hb
        subst hb
        exact hnotin ha
      have hmem2 : ∀ p ∈ calls ++ [fi.2], p ∈ calls ∨ ∃ fj ∈ fi :: rest, fj.2 = p
          ∧ cmp.eq fj.1 args.nmid = true := by
        intro p hp
        rcases List.mem_append.mp hp with h | h
        · exact Or.inl h
        · rw [List.mem_singleton] at h
          exact Or.inr ⟨fi, List.mem_cons_self _ _, h.symm, heq⟩
      rcases hf : (heap fi.2).find args navOut with ⟨b, out⟩
      cases b
      · simp only
        have hsub2 : ∀ p ∈ calls ++ [fi.2], p ∈ fi.2 :: uniques := by
          intro p hp
          rcases List.mem_append.mp hp with h | h
          · exact List.mem_cons_of_mem _ (hsub p h)
          · rw [List.mem_singleton] at h
            rw [h]; exact List.mem_cons_self _ _
        obtain ⟨h1, h2⟩ := ih (fi.2 :: uniques) out (calls ++ [fi.2]) hsub2 hnd2
        refine ⟨h1, fun p hp => ?_⟩
        rcases h2 p hp with h | ⟨fj, hj, hj2⟩
        · exact hmem2 p h
        · exact Or.inr ⟨fj, List.mem_cons_of_mem _ hj, hj2⟩
      · exact ⟨hnd2, hmem2⟩
    · rw [if_neg hc]
      obtain ⟨h1, h2⟩ := ih uniques navOut calls hsub hnd
      refine ⟨h1, fun p hp => ?_⟩
      rcases h2 p hp with h | ⟨fj, hj, hj2⟩
      · exact Or.inl h
      · exact Or.inr ⟨fj, List.mem_cons_of_mem _ hj, hj2⟩

/-- Claim C18. During one call of `find`, no store has its `find` invoked
twice, however many matching rows it is registered under, and every store
invoked is registered under a row that matches the query (so a store with no
matching row is not invoked). -/
theorem find_invokes_each_store_once (cmp : SignalCompare) (heap : FactoryHeap)
    (factories : NavDataFactoryMap) (args : FindArgs) (navOut : NavDataPtr) :
    (findCalls cmp heap factories args navOut).Nodup
    ∧ ∀ p ∈ findCalls cmp heap factories args navOut,
        ∃ fi ∈ factories, fi.2 = p ∧ cmp.eq fi.1 args.nmid = true := by
  obtain ⟨h1, h2⟩ := findLoop_calls cmp heap args factories [] navOut []
    (by intro p hp; cases hp) List.nodup_nil
  refine ⟨h1, fun p hp => ?_⟩
  rcases h2 p hp with h | h
  · cases h
  · exact h

/-- Sample instance: the empty store, registered under two rows of which
both match the sample query after it, is invoked once, then the store that
answers; the plain factory registered under LNAV alone is not invoked. -/
theorem find_invokes_each_store_once_witness :
    findCalls sampleCompare sampleHeap
        [(sampleSignalLNAV, 3), (sampleSignalCNAV2, 0), (sampleSignalCNAV2, 0),
         (sampleSignalCNAV2, 1)]
        sampleQuery none = [0, 1]
    ∧ (findCalls sampleCompare sampleHeap
        [(sampleSignalLNAV, 3), (sampleSignalCNAV2, 0), (sampleSignalCNAV2, 0),
         (sampleSignalCNAV2, 1)]
        sampleQuery none).Nodup :=
  ⟨by decide,
   (find_invokes_each_store_once sampleCompare sampleHeap
      [(sampleSignalLNAV, 3), (sampleSignalCNAV2, 0), (sampleSignalCNAV2, 0),
       (sampleSignalCNAV2, 1)]
      sampleQuery none).1⟩

/-- The loop of `find` over rows none of which leads to a message returns
false and leaves the output parameter alone, when failing stores do. -/
theorem findLoop_miss (cmp : SignalCompare) (heap : FactoryHeap) (args : FindArgs)
    (rows : NavDataFactoryMap)
    (hmiss : ∀ fi ∈ rows, cmp.eq fi.1 args.nmid = true → (heap fi.2).lookup args = none)
    (hkeep : ∀ fi ∈ rows, ∀ out, ((heap fi.2).find args out).1 = false →
      ((heap fi.2).find args out).2 = out) :
    ∀ (uniques : List NavDataFactoryPtr) (navOut : NavDataPtr)
      (calls : List NavDataFactoryPtr),
      (findLoop cmp heap args rows uniques navOut calls).1 = (false, navOut) := by
  induction rows with
  | nil => intro uniques navOut calls; rfl
  | cons fi rest ih =>
    intro uniques navOut calls
    have ih2 := ih (fun fj hj => hmiss fj (List.mem_cons_of_mem _ hj))
      (fun fj hj => hkeep fj (List.mem_cons_of_mem _ hj))
    unfold findLoop
    by_cases hc : (cmp.eq fi.1 args.nmid && !(uniques.contains fi.2)) = true
    · rw [if_pos hc]
      simp only [Bool.and_eq_true] at hc
      have hl := hmiss fi (List.mem_cons_self _ _) hc.1
      have hk := hkeep fi (List.mem_cons_self _ _) navOut
      have hf : (heap fi.2).find args navOut = (false, (heap fi.2).onMiss navOut) := by
        unfold NavDataFactoryObj.find; rw [hl]
      rw [hf] at hk ⊢
      simp only at hk ⊢
      rw [hk trivial]
      exact ih2 _ _ _
    · rw [if_neg hc]
      exact ih2 _ _ _

/-- Claim C19. A query miss is an absent result: when no registry row that
matches the query maps to a store that finds a message (in particular with
an empty registry, or with no matching row), `find` returns false and leaves
`navOut` as it was, given that the `find` of each registered store leaves
`navOut` as it was when it returns false. -/
theorem find_miss (cmp : SignalCompare) (heap : FactoryHeap)
    (factories : NavDataFactoryMap) (args : FindArgs) (navOut : NavDataPtr)
    (hmiss : ∀ fi ∈ factories, cmp.eq fi.1 args.nmid = true →
      ∀ out, ((heap fi.2).find args out).1 = false)
    (hkeep : ∀ fi ∈ factories, ∀ out, ((heap fi.2).find args out).1 = false →
      ((heap fi.2).find args out).2 = out) :
    find cmp heap factories args navOut = (false, navOut) := by
  unfold find
  apply findLoop_miss cmp heap args factories _ hkeep
  intro fi hfi heq
  have h := hmiss fi hfi heq navOut
  rw [find_fst] at h
  cases hl : (heap fi.2).lookup args with
  | none => rfl
  | some m => rw [hl] at h; cases h

/-- Sample instance: with only the empty store registered, under both
sample signals, the sample query misses and the message already in `navOut`
stays there; with an empty registry as well. -/
theorem find_miss_witness :
    find sampleCompare sampleHeap [(sampleSignalLNAV, 0), (sampleSignalCNAV2, 0)]
        sampleQuery (some (NavData.Health sampleHealth))
      = (false, some (NavData.Health sampleHealth))
    ∧ find sampleCompare sampleHeap [] sampleQuery none = (false, none) :=
  ⟨find_miss sampleCompare sampleHeap [(sampleSignalLNAV, 0), (sampleSignalCNAV2, 0)]
      sampleQuery (some (NavData.Health sampleHealth))
      (by
        intro fi hfi _ out
        simp only [List.mem_cons, List.mem_singleton, List.not_mem_nil, or_false] at hfi
        rcases hfi with rfl | rfl <;> rfl)
      (by
        intro fi hfi out _
        simp only [List.mem_cons, List.mem_singleton, List.not_mem_nil, or_false] at hfi
        rcases hfi with rfl | rfl <;> rfl),
   rfl⟩

/-! ## Federation: `addFactory` -/

/-- Claim C20. `addFactory` returns false and leaves the registry as it was
when the offered object is not a `NavDataFactoryWithStoreFile`, and also when
it is itself a `MultiFormatNavDataFactory`. -/
theorem addFactory_rejects (cmp : SignalCompare) (heap : FactoryHeap)
    (factories : NavDataFactoryMap) (fact : NavDataFactoryPtr)
    (h : (heap fact).cls.isWithStoreFile = false ∨ (heap fact).cls.isMultiFormat = true) :
    addFactory cmp heap factories fact = (false, factories) := by
  unfold addFactory
  rcases h with h | h
  · simp only [h, if_true]
  · by_cases h2 : (heap fact).cls.isWithStoreFile = false
    · simp only [h2, if_true]
    · simp [h]

/-- Sample instance: the federation object at address 2 and the plain
factory at address 3 are both refused, and the one-row registry is returned
as it was. -/
theorem addFactory_rejects_witness :
    (sampleHeap 2).cls = FactoryClass.MultiFormatNavDataFactory
    ∧ (sampleHeap 3).cls = FactoryClass.NavDataFactory
    ∧ addFactory sampleCompare sampleHeap [(sampleSignalLNAV, 0)] 2
        = (false, [(sampleSignalLNAV, 0)])
    ∧ addFactory sampleCompare sampleHeap [(sampleSignalLNAV, 0)] 3
        = (false, [(sampleSignalLNAV, 0)]) :=
  ⟨rfl, rfl,
   addFactory_rejects sampleCompare sampleHeap [(sampleSignalLNAV, 0)] 2 (Or.inr rfl),
   addFactory_rejects sampleCompare sampleHeap [(sampleSignalLNAV, 0)] 3 (Or.inl rfl)⟩

end MultiFormatNavDataFactory

/-! ## Federation: `addFactory` accepts a qualifying store -/

namespace MultiFormatNavDataFactory

/-- Inserting a row yields the old rows and the new row, in some order. -/
theorem insert_perm (cmp : SignalCompare) (m : NavDataFactoryMap)
    (row : NavSignalID × NavDataFactoryPtr) : (insert cmp m row).Perm (row :: m) := by
  induction m with
  | nil => exact List.Perm.refl _
  | cons x xs ih =>
    unfold insert
    split_ifs
    · exact List.Perm.refl _
    · exact (List.Perm.cons x ih).trans (List.Perm.swap row x xs)

/-- Inserting a row keeps the old rows, in their order. -/
theorem insert_sublist (cmp : SignalCompare) (m : NavDataFactoryMap)
    (row : NavSignalID × NavDataFactoryPtr) : m.Sublist (insert cmp m row) := by
  induction m with
  | nil => exact List.nil_sublist _
  | cons x xs ih =>
    unfold insert
    split_ifs
    · exact List.sublist_cons_self row (x :: xs)
    · exact List.Sublist.cons₂ x ih

/-- Inserting one row per signal yields the old rows and the new rows, in
some order. -/
theorem foldl_insert_perm (cmp : SignalCompare) (fact : NavDataFactoryPtr)
    (sigs : List NavSignalID) (m : NavDataFactoryMap) :
    (sigs.foldl (fun m si => insert cmp m (si, fact)) m).Perm
      (m ++ sigs.map (fun si => (si, fact))) := by
  induction sigs generalizing m with
  | nil => simp
  | cons s rest ih =>
    simp only [List.foldl_cons, List.map_cons]
    refine (ih _).trans ?_
    refine ((insert_perm cmp m (s, fact)).append_right _).trans ?_
    simp only [List.cons_append]
    exact List.perm_middle.symm

/-- Inserting one row per signal keeps the old rows, in their order. -/
theorem foldl_insert_sublist (cmp : SignalCompare) (fact : NavDataFactoryPtr)
    (sigs : List NavSignalID) (m : NavDataFactoryMap) :
    m.Sublist (sigs.foldl (fun m si => insert cmp m (si, fact)) m) := by
  induction sigs generalizing m with
  | nil => exact List.Sublist.refl _
  | cons s rest ih =>
    simp only [List.foldl_cons]
    exact (insert_sublist cmp m (s, fact)).trans (ih _)

/-- Claim C21. When the offered object is a `NavDataFactoryWithStoreFile`
and not a `MultiFormatNavDataFactory`, `addFactory` returns true; the
registry afterwards holds, up to the order of the rows, the rows it held
before and one row `(signal, fact)` for each signal of the store's
`supportedSignals` and nothing else, so that every row occurs as often as
before plus once for each occurrence among the new rows; and the rows held
before are all still there, unchanged and in the same relative order. -/
theorem addFactory_accepts (cmp : SignalCompare) (heap : FactoryHeap)
    (factories : NavDataFactoryMap) (fact : NavDataFactoryPtr)
    (hfile : (heap fact).cls.isWithStoreFile = true)
    (hmulti : (heap fact).cls.isMultiFormat = false) :
    (addFactory cmp heap factories fact).1 = true
    ∧ (addFactory cmp heap factories fact).2.Perm
        (factories ++ (heap fact).supportedSignals.map (fun si => (si, fact)))
    ∧ factories.Sublist (addFactory cmp heap factories fact).2
    ∧ ∀ row, (addFactory cmp heap factories fact).2.countP (fun r => decide (r = row))
        = factories.countP (fun r => decide (r = row))
          + ((heap fact).supportedSignals.map (fun si => (si, fact))).countP
              (fun r => decide (r = row)) := by
  have e : addFactory cmp heap factories fact
      = (true, (heap fact).supportedSignals.foldl
          (fun m si => insert cmp m (si, fact)) factories) := by
    unfold addFactory
    simp [hfile, hmulti]
  rw [e]
  refine ⟨rfl, foldl_insert_perm cmp fact _ factories,
    foldl_insert_sublist cmp fact _ factories, fun row => ?_⟩
  show List.countP _ (List.foldl (fun m si => insert cmp m (si, fact)) factories
      (heap fact).supportedSignals) = _
  rw [(foldl_insert_perm cmp fact _ factories).countP_eq, List.countP_append]

/-- Sample instance: the file-backed store at address 0, which supports the
two sample signals, is accepted into a registry that holds one row of the
store at address 1; the registry afterwards is that row followed by the two
new rows. -/
theorem addFactory_accepts_witness :
    (sampleHeap 0).cls.isWithStoreFile = true
    ∧ (sampleHeap 0).cls.isMultiFormat = false
    ∧ addFactory sampleCompare sampleHeap [(sampleSignalCNAV2, 1)] 0
        = (true, [(sampleSignalCNAV2, 1), (sampleSignalLNAV, 0), (sampleSignalCNAV2, 0)])
    ∧ (addFactory sampleCompare sampleHeap [(sampleSignalCNAV2, 1)] 0).2.Perm
        ([(sampleSignalCNAV2, 1)]
          ++ (sampleHeap 0).supportedSignals.map (fun si => (si, 0))) :=
  ⟨rfl, rfl, rfl,
   (addFactory_accepts sampleCompare sampleHeap [(sampleSignalCNAV2, 1)] 0 rfl rfl).2.1⟩

end MultiFormatNavDataFactory

/-! ## Federation: the rows the iterator visits -/

/-- The stores of the rows visited are those of the registry that were not
visited before. -/
theorem NDFUniqIterator.mem_visit (uniques : List NavDataFactoryPtr)
    (m : NavDataFactoryMap) (p : NavDataFactoryPtr) :
    p ∈ (NDFUniqIterator.visit uniques m).map Prod.snd
      ↔ p ∉ uniques ∧ p ∈ m.map Prod.snd := by
  induction m generalizing uniques with
  | nil => simp [NDFUniqIterator.visit]
  | cons fi rest ih =>
    unfold NDFUniqIterator.visit
    by_cases h : uniques.contains fi.2 = true
    · rw [if_pos h, ih]
      have hm : fi.2 ∈ uniques := by simpa using h
      simp only [List.map_cons, List.mem_cons]
      constructor
      · rintro ⟨h1, h2⟩
        exact ⟨h1, Or.inr h2⟩
      · rintro ⟨h1, h2 | h2⟩
        · exact absurd (h2 ▸ hm) h1
        · exact ⟨h1, h2⟩
    · rw [if_neg h]
      have hm : fi.2 ∉ uniques := by simpa using h
      simp only [List.map_cons, List.mem_cons, ih]
      constructor
      · rintro (h1 | ⟨h1, h2⟩)
        · exact ⟨h1 ▸ hm, Or.inl h1⟩
        · exact ⟨fun hc => h1 (Or.inr hc), Or.inr h2⟩
      · rintro ⟨h1, h2 | h2⟩
        · exact Or.inl h2
        · by_cases hp : p = fi.2
          · exact Or.inl hp
          · refine Or.inr ⟨?_, h2⟩
            rintro (hc | hc)
            · exact hp hc
            · exact h1 hc

/-- No store is visited twice. -/
theorem NDFUniqIterator.nodup_visit (uniques : List NavDataFactoryPtr)
    (m : NavDataFactoryMap) : ((NDFUniqIterator.visit uniques m).map Prod.snd).Nodup := by
  induction m generalizing uniques with
  | nil => simp [NDFUniqIterator.visit]
  | cons fi rest ih =>
    unfold NDFUniqIterator.visit
    by_cases h : uniques.contains fi.2 = true
    · rw [if_pos h]
      exact ih uniques
    · rw [if_neg h]
      simp only [List.map_cons, List.nodup_cons]
      refine ⟨?_, ih _⟩
      rw [NDFUniqIterator.mem_visit]
      rintro ⟨h1, _⟩
      exact h1 (List.mem_cons_self _ _)

/-- The rows visited are rows of the registry, in registry order. -/
theorem NDFUniqIterator.visit_sublist (uniques : List NavDataFactoryPtr)
    (m : NavDataFactoryMap) : (NDFUniqIterator.visit uniques m).Sublist m := by
  induction m generalizing uniques with
  | nil => simp [NDFUniqIterator.visit]
  | cons fi rest ih =>
    unfold NDFUniqIterator.visit
    by_cases h : uniques.contains fi.2 = true
    · rw [if_pos h]
      exact (ih uniques).cons fi
    · rw [if_neg h]
      exact (ih _).cons₂ fi

/-- The stores visited are exactly the registered stores. -/
theorem NDFUniqIterator.mem_snd (m : NavDataFactoryMap) (p : NavDataFactoryPtr) :
    p ∈ (NDFUniqIterator m).map Prod.snd ↔ p ∈ m.map Prod.snd := by
  unfold NDFUniqIterator
  rw [NDFUniqIterator.mem_visit]
  simp

/-- The stores visited are the distinct registered stores, in some order. -/
theorem NDFUniqIterator.perm_dedup (m : NavDataFactoryMap) :
    ((NDFUniqIterator m).map Prod.snd).Perm (m.map Prod.snd).dedup := by
  refine (List.perm_ext_iff_of_nodup (NDFUniqIterator.nodup_visit [] m)
    (List.nodup_dedup _)).2 ?_
  intro p
  rw [List.mem_dedup]
  exact NDFUniqIterator.mem_snd m p

/-- The constant iterator visits the same rows. -/
theorem NDFUniqConstIterator_eq (m : NavDataFactoryMap) :
    NDFUniqConstIterator m = NDFUniqIterator m := rfl

namespace MultiFormatNavDataFactory

/-- Every forwarding method runs the shared loop over the rows the iterator
visits. -/
theorem forward_eq (ext : TimeExternals) (factories : NavDataFactoryMap)
    (stores : StoreHeap) (call : StoreCall) :
    forward ext factories stores call
      = forwardLoop ext call (NDFUniqIterator factories) stores [] := by
  cases call <;> rfl

/-- The calls the shared loop makes: one per row, in order. -/
theorem forwardLoop_calls (ext : TimeExternals) (call : StoreCall)
    (rows : NavDataFactoryMap) (stores : StoreHeap)
    (calls : List (NavDataFactoryPtr × StoreCall)) :
    (forwardLoop ext call rows stores calls).2
      = calls ++ rows.map (fun fi => (fi.2, call)) := by
  induction rows generalizing stores calls with
  | nil => simp [forwardLoop]
  | cons fi rest ih =>
    unfold forwardLoop
    rw [ih]
    simp

/-- The shared loop leaves alone a store that is on none of the rows. -/
theorem forwardLoop_other (ext : TimeExternals) (call : StoreCall)
    (rows : NavDataFactoryMap) (stores : StoreHeap)
    (calls : List (NavDataFactoryPtr × StoreCall)) (p : NavDataFactoryPtr)
    (hp : p ∉ rows.map Prod.snd) :
    (forwardLoop ext call rows stores calls).1 p = stores p := by
  induction rows generalizing stores calls with
  | nil => rfl
  | cons fi rest ih =>
    unfold forwardLoop
    simp only [List.map_cons, List.mem_cons, not_or] at hp
    rw [ih _ _ hp.2]
    unfold StoreHeap.set
    rw [if_neg hp.1]

/-- The shared loop over rows of distinct stores runs the call once on the
store of each row. -/
theorem forwardLoop_state (ext : TimeExternals) (call : StoreCall)
    (rows : NavDataFactoryMap) (stores : StoreHeap)
    (calls : List (NavDataFactoryPtr × StoreCall)) (p : NavDataFactoryPtr)
    (hn : (rows.map Prod.snd).Nodup) (hp : p ∈ rows.map Prod.snd) :
    (forwardLoop ext call rows stores calls).1 p = call.run ext (stores p) := by
  induction rows generalizing stores calls with
  | nil => simp at hp
  | cons fi rest ih =>
    unfold forwardLoop
    simp only [List.map_cons, List.nodup_cons] at hn
    simp only [List.map_cons, List.mem_cons] at hp
    rcases hp with hp | hp
    · subst hp
      rw [forwardLoop_other ext call rest _ _ fi.2 hn.1]
      unfold StoreHeap.set
      rw [if_pos rfl]
    · rw [ih _ _ hn.2 hp]
      have hne : p ≠ fi.2 := fun hc => hn.1 (hc ▸ hp)
      unfold StoreHeap.set
      rw [if_neg hne]

/-- In a list without repetition, an element occurs once. -/
theorem countP_eq_one_of_nodup (l : List NavDataFactoryPtr) (p : NavDataFactoryPtr)
    (hn : l.Nodup) (hp : p ∈ l) : l.countP (fun q => decide (q = p)) = 1 := by
  induction l with
  | nil => simp at hp
  | cons x xs ih =>
    simp only [List.nodup_cons] at hn
    simp only [List.mem_cons] at hp
    rw [List.countP_cons]
    by_cases hx : x = p
    · subst hx
      have h0 : xs.countP (fun q => decide (q = x)) = 0 := by
        rw [List.countP_eq_zero]
        intro a ha
        simp only [decide_eq_true_eq]
        intro hc
        exact hn.1 (hc ▸ ha)
      simp [h0]
    · have hp2 : p ∈ xs := by
        rcases hp with hp | hp
        · exact absurd hp.symm hx
        · exact hp
      simp [hx, ih hn.2 hp2]

/-- The sum of the sizes of stores that are all empty is zero. -/
theorem size_foldl_zero (heap : FactoryHeap) (stores : StoreHeap)
    (rows : NavDataFactoryMap) (h : ∀ fi ∈ rows, (stores fi.2).size = 0) :
    rows.foldl
      (fun rv fi =>
        if (heap fi.2).cls.isWithStore then (rv + (stores fi.2).size) % 2 ^ 64 else rv)
      0 = 0 := by
  induction rows with
  | nil => rfl
  | cons fi rest ih =>
    rw [List.foldl_cons]
    have h0 : (stores fi.2).size = 0 := h fi (List.mem_cons_self _ _)
    have e : (if (heap fi.2).cls.isWithStore then (0 + (stores fi.2).size) % 2 ^ 64 else 0)
        = 0 := by
      rw [h0]; split_ifs <;> rfl
    rw [e]
    exact ih (fun fi hfi => h fi (List.mem_cons_of_mem _ hfi))

/-- Claim C22. `clear()` and each of the three overloads of `edit` (the
method `forward` of a call) make that same call, with the same arguments, on
registered stores only, and exactly once on every registered store, however
many rows the store has; afterwards every registered store is in the state
the call leaves it in, and any other store is as it was.  After `clear()`
every registered store is empty, and `size()` is 0. -/
theorem forward_once_per_store (ext : TimeExternals) (heap : FactoryHeap)
    (factories : NavDataFactoryMap) (stores : StoreHeap) (call : StoreCall) :
    (∀ c ∈ (forward ext factories stores call).2,
        c.2 = call ∧ c.1 ∈ factories.map Prod.snd)
    ∧ (∀ p ∈ factories.map Prod.snd,
        (forward ext factories stores call).2.countP (fun c => decide (c.1 = p)) = 1)
    ∧ (∀ p ∈ factories.map Prod.snd,
        (forward ext factories stores call).1 p = call.run ext (stores p))
    ∧ (∀ p, p ∉ factories.map Prod.snd →
        (forward ext factories stores call).1 p = stores p)
    ∧ (∀ p ∈ factories.map Prod.snd, (clear ext factories stores p).data = [])
    ∧ size heap factories (clear ext factories stores) = 0 := by
  have hn : ((NDFUniqIterator factories).map Prod.snd).Nodup :=
    NDFUniqIterator.nodup_visit [] factories
  have hclear : ∀ p ∈ factories.map Prod.snd,
      clear ext factories stores p = NavDataFactoryWithStore.init ext := by
    intro p hp
    unfold clear
    rw [forwardLoop_state ext _ _ _ _ p hn ((NDFUniqIterator.mem_snd factories p).2 hp)]
    rfl
  rw [forward_eq, forwardLoop_calls]
  refine ⟨?_, ?_, ?_, ?_, ?_, ?_⟩
  · intro c hc
    simp only [List.nil_append, List.mem_map] at hc
    obtain ⟨fi, hfi, rfl⟩ := hc
    refine ⟨rfl, (NDFUniqIterator.mem_snd factories fi.2).1 ?_⟩
    exact List.mem_map_of_mem Prod.snd hfi
  · intro p hp
    have e := countP_eq_one_of_nodup _ p hn ((NDFUniqIterator.mem_snd factories p).2 hp)
    rw [List.nil_append, List.countP_map]
    rw [List.countP_map] at e
    exact e
  · intro p hp
    exact forwardLoop_state ext call _ _ _ p hn ((NDFUniqIterator.mem_snd factories p).2 hp)
  · intro p hp
    exact forwardLoop_other ext call _ _ _ p
      (fun hc => hp ((NDFUniqIterator.mem_snd factories p).1 hc))
  · intro p hp
    rw [hclear p hp]
    rfl
  · unfold size
    rw [NDFUniqConstIterator_eq]
    apply size_foldl_zero
    intro fi hfi
    have hp : fi.2 ∈ factories.map Prod.snd :=
      (NDFUniqIterator.mem_snd factories fi.2).1 (List.mem_map_of_mem Prod.snd hfi)
    rw [hclear fi.2 hp]
    rfl

/-- Sample instance: in the sample registry the store at address 0 has two
rows and the store at address 1 one row.  `clear()` calls `clear` once on
each, the store at address 0 holds three messages before and none after,
and `size()` goes from 5 to 0. -/
theorem forward_once_per_store_witness :
    (0 : NavDataFactoryPtr) ∈ sampleRegistry.map Prod.snd
    ∧ sampleRegistry.countP (fun fi => decide (fi.2 = 0)) = 2
    ∧ (forward sampleTimeExternals sampleRegistry sampleStores StoreCall.clear).2
        = [(0, StoreCall.clear), (1, StoreCall.clear)]
    ∧ (forward sampleTimeExternals sampleRegistry sampleStores StoreCall.clear).2.countP
        (fun c => decide (c.1 = 0)) = 1
    ∧ (sampleStores 0).size = 3
    ∧ (clear sampleTimeExternals sampleRegistry sampleStores 0).data = []
    ∧ size sampleHeap sampleRegistry sampleStores = 5
    ∧ size sampleHeap sampleRegistry
        (clear sampleTimeExternals sampleRegistry sampleStores) = 0 :=
  ⟨by decide, by decide, by decide,
   (forward_once_per_store sampleTimeExternals sampleHeap sampleRegistry sampleStores
      StoreCall.clear).2.1 0 (by decide),
   by decide,
   (forward_once_per_store sampleTimeExternals sampleHeap sampleRegistry sampleStores
      StoreCall.clear).2.2.2.2.1 0 (by decide),
   by decide,
   (forward_once_per_store sampleTimeExternals sampleHeap sampleRegistry sampleStores
      StoreCall.clear).2.2.2.2.2⟩

end MultiFormatNavDataFactory

namespace MultiFormatNavDataFactory

/-- The accumulation of `size` over rows: the sizes of the rows whose
object is a store, added to the starting value, modulo `2 ^ 64`. -/
theorem size_foldl (heap : FactoryHeap) (stores : StoreHeap) (rows : NavDataFactoryMap)
    (rv : Nat) (hrv : rv < 2 ^ 64) :
    rows.foldl
      (fun rv fi =>
        if (heap fi.2).cls.isWithStore then (rv + (stores fi.2).size) % 2 ^ 64 else rv)
      rv
      = (rv + (((rows.map Prod.snd).filter (fun p => (heap p).cls.isWithStore)).map
          (fun p => (stores p).size)).sum) % 2 ^ 64 := by
  induction rows generalizing rv with
  | nil =>
    simp only [List.foldl_nil, List.map_nil, List.filter_nil, List.sum_nil, Nat.add_zero]
    exact (Nat.mod_eq_of_lt hrv).symm
  | cons fi rest ih =>
    rw [List.foldl_cons]
    by_cases h : (heap fi.2).cls.isWithStore = true
    · rw [if_pos h, ih _ (Nat.mod_lt _ (by norm_num))]
      simp only [List.map_cons, List.filter_cons, h, if_true, List.sum_cons]
      rw [Nat.add_mod, Nat.mod_mod, ← Nat.add_mod, Nat.add_assoc]
    · rw [if_neg h, ih _ hrv]
      simp only [List.map_cons, List.filter_cons, h]
      rfl

/-- Method `size` is the sum of the sizes of the distinct registered
stores, modulo `2 ^ 64`. -/
theorem size_eq_sum (heap : FactoryHeap) (factories : NavDataFactoryMap)
    (stores : StoreHeap) :
    size heap factories stores
      = ((((factories.map Prod.snd).dedup.filter (fun p => (heap p).cls.isWithStore)).map
          (fun p => (stores p).size)).sum) % 2 ^ 64 := by
  unfold size
  rw [NDFUniqConstIterator_eq, size_foldl heap stores _ 0 (by norm_num), Nat.zero_add]
  congr 1
  exact (((NDFUniqIterator.perm_dedup factories).filter _).map _).sum_eq

/-- Claim C23. `size()` is the sum of `size()` over the distinct registered
stores, each store counted once whatever the number of its rows; the sum is
taken in a `size_t`, hence modulo `2 ^ 64`, and is the exact sum when that is
below `2 ^ 64`.  A further row for a store that is registered already does
not change `size()`, and neither does a reordering of the rows. -/
theorem size_sums_distinct_stores (heap : FactoryHeap) (factories : NavDataFactoryMap)
    (stores : StoreHeap) :
    size heap factories stores
      = ((((factories.map Prod.snd).dedup.filter (fun p => (heap p).cls.isWithStore)).map
          (fun p => (stores p).size)).sum) % 2 ^ 64
    ∧ (((((factories.map Prod.snd).dedup.filter (fun p => (heap p).cls.isWithStore)).map
          (fun p => (stores p).size)).sum) < 2 ^ 64 →
        size heap factories stores
          = (((factories.map Prod.snd).dedup.filter (fun p => (heap p).cls.isWithStore)).map
              (fun p => (stores p).size)).sum)
    ∧ (∀ sig p, p ∈ factories.map Prod.snd →
        size heap ((sig, p) :: factories) stores = size heap factories stores)
    ∧ (∀ factories2 : NavDataFactoryMap, factories.Perm factories2 →
        size heap factories2 stores = size heap factories stores) := by
  refine ⟨size_eq_sum heap factories stores, ?_, ?_, ?_⟩
  · intro h
    rw [size_eq_sum, Nat.mod_eq_of_lt h]
  · intro sig p hp
    rw [size_eq_sum, size_eq_sum, List.map_cons, List.dedup_cons_of_mem hp]
  · intro factories2 hperm
    rw [size_eq_sum, size_eq_sum]
    congr 1
    exact ((((hperm.map Prod.snd).dedup).filter _).map _).sum_eq.symm

/-- Sample instance: in the sample registry the three-message store has two
rows and the two-message store one; `size()` is 3 + 2, also when the rows
are reversed. -/
theorem size_sums_distinct_stores_witness :
    (sampleRegistry.map Prod.snd).dedup = [0, 1]
    ∧ (sampleStores 0).size = 3 ∧ (sampleStores 1).size = 2
    ∧ size sampleHeap sampleRegistry sampleStores = 5
    ∧ size sampleHeap sampleRegistry.reverse sampleStores
        = size sampleHeap sampleRegistry sampleStores :=
  ⟨by decide, by decide, by decide,
   (size_sums_distinct_stores sampleHeap sampleRegistry sampleStores).2.1 (by decide),
   (size_sums_distinct_stores sampleHeap sampleRegistry sampleStores).2.2.2
     sampleRegistry.reverse (List.reverse_perm sampleRegistry).symm⟩

end MultiFormatNavDataFactory

namespace MultiFormatNavDataFactory

/-- The loop of `getInitialTime` over stores whose initial times are all in
one time system or generic: the result is not after the starting value nor
after any of the initial times, and it is one of them. -/
theorem getInitialTime_foldl (ext : TimeExternals) (stores : StoreHeap) (S : TimeSystem)
    (rows : NavDataFactoryMap) (rv res : SystemTime)
    (hrv : rv.timeSystem = S ∨ rv.timeSystem = TimeSystem.Any)
    (hsys : ∀ fi ∈ rows, (stores fi.2).initialTime.timeSystem = S
      ∨ (stores fi.2).initialTime.timeSystem = TimeSystem.Any)
    (hres : res = rows.foldl
      (fun rv fi =>
        let t := (stores fi.2).getInitialTime
        if rv.getTimeSystem = TimeSystem.Any ∨ t.getTimeSystem = TimeSystem.Any
            ∨ t.getTimeSystem = rv.getTimeSystem then
          SystemTime.min rv t
        else
          SystemTime.min (ext.changeTimeSystem rv TimeSystem.UTC)
            (ext.changeTimeSystem t TimeSystem.UTC))
      rv) :
    res.time ≤ rv.time
    ∧ (∀ fi ∈ rows, res.time ≤ (stores fi.2).initialTime.time)
    ∧ (res.time = rv.time ∨ ∃ fi ∈ rows, res.time = (stores fi.2).initialTime.time) := by
  induction rows generalizing rv with
  | nil =>
    subst hres
    exact ⟨le_refl _, fun fi hfi => absurd hfi (List.not_mem_nil _), Or.inl rfl⟩
  | cons fi rest ih =>
    rw [List.foldl_cons] at hres
    have ht := hsys fi (List.mem_cons_self _ _)
    have hcond : rv.getTimeSystem = TimeSystem.Any
        ∨ (stores fi.2).getInitialTime.getTimeSystem = TimeSystem.Any
        ∨ (stores fi.2).getInitialTime.getTimeSystem = rv.getTimeSystem := by
      unfold SystemTime.getTimeSystem NavDataFactoryWithStore.getInitialTime
      rcases hrv with h1 | h1
      · rcases ht with h2 | h2
        · exact Or.inr (Or.inr (h2.trans h1.symm))
        · exact Or.inr (Or.inl h2)
      · exact Or.inl h1
    simp only [if_pos hcond] at hres
    have hstep : (SystemTime.min rv (stores fi.2).getInitialTime).timeSystem = S
        ∨ (SystemTime.min rv (stores fi.2).getInitialTime).timeSystem = TimeSystem.Any := by
      unfold SystemTime.min
      split_ifs
      · exact ht
      · exact hrv
    have hle1 : (SystemTime.min rv (stores fi.2).getInitialTime).time ≤ rv.time := by
      unfold SystemTime.min
      split_ifs with hlt
      · exact le_of_lt hlt
      · exact le_refl _
    have hle2 : (SystemTime.min rv (stores fi.2).getInitialTime).time
        ≤ (stores fi.2).initialTime.time := by
      unfold SystemTime.min NavDataFactoryWithStore.getInitialTime
      split_ifs with hlt
      · exact le_refl _
      · exact not_lt.1 hlt
    have hor : (SystemTime.min rv (stores fi.2).getInitialTime).time = rv.time
        ∨ (SystemTime.min rv (stores fi.2).getInitialTime).time
            = (stores fi.2).initialTime.time := by
      unfold SystemTime.min NavDataFactoryWithStore.getInitialTime
      split_ifs
      · exact Or.inr rfl
      · exact Or.inl rfl
    obtain ⟨h1, h2, h3⟩ := ih (SystemTime.min rv (stores fi.2).getInitialTime) hstep
      (fun fi2 hfi2 => hsys fi2 (List.mem_cons_of_mem _ hfi2)) hres
    refine ⟨le_trans h1 hle1, ?_, ?_⟩
    · intro fi2 hfi2
      rcases List.mem_cons.1 hfi2 with rfl | hfi2
      · exact le_trans h1 hle2
      · exact h2 fi2 hfi2
    · rcases h3 with h3 | ⟨fi2, hfi2, h3⟩
      · rcases hor with hor | hor
        · exact Or.inl (h3.trans hor)
        · exact Or.inr ⟨fi, List.mem_cons_self _ _, h3.trans hor⟩
      · exact Or.inr ⟨fi2, List.mem_cons_of_mem _ hfi2, h3⟩

/-- The loop of `getFinalTime` over stores whose final times are all in one
time system or generic: the result is not before the starting value nor
before any of the final times, and it is one of them. -/
theorem getFinalTime_foldl (ext : TimeExternals) (stores : StoreHeap) (S : TimeSystem)
    (rows : NavDataFactoryMap) (rv res : SystemTime)
    (hrv : rv.timeSystem = S ∨ rv.timeSystem = TimeSystem.Any)
    (hsys : ∀ fi ∈ rows, (stores fi.2).finalTime.timeSystem = S
      ∨ (stores fi.2).finalTime.timeSystem = TimeSystem.Any)
    (hres : res = rows.foldl
      (fun rv fi =>
        let t := (stores fi.2).getFinalTime
        if rv.getTimeSystem = TimeSystem.Any ∨ t.getTimeSystem = TimeSystem.Any
            ∨ t.getTimeSystem = rv.getTimeSystem then
          SystemTime.max rv t
        else
          SystemTime.max (ext.changeTimeSystem rv TimeSystem.UTC)
            (ext.changeTimeSystem t TimeSystem.UTC))
      rv) :
    rv.time ≤ res.time
    ∧ (∀ fi ∈ rows, (stores fi.2).finalTime.time ≤ res.time)
    ∧ (res.time = rv.time ∨ ∃ fi ∈ rows, res.time = (stores fi.2).finalTime.time) := by
  induction rows generalizing rv with
  | nil =>
    subst hres
    exact ⟨le_refl _, fun fi hfi => absurd hfi (List.not_mem_nil _), Or.inl rfl⟩
  | cons fi rest ih =>
    rw [List.foldl_cons] at hres
    have ht := hsys fi (List.mem_cons_self _ _)
    have hcond : rv.getTimeSystem = TimeSystem.Any
        ∨ (stores fi.2).getFinalTime.getTimeSystem = TimeSystem.Any
        ∨ (stores fi.2).getFinalTime.getTimeSystem = rv.getTimeSystem := by
      unfold SystemTime.getTimeSystem NavDataFactoryWithStore.getFinalTime
      rcases hrv with h1 | h1
      · rcases ht with h2 | h2
        · exact Or.inr (Or.inr (h2.trans h1.symm))
        · exact Or.inr (Or.inl h2)
      · exact Or.inl h1
    simp only [if_pos hcond] at hres
    have hstep : (SystemTime.max rv (stores fi.2).getFinalTime).timeSystem = S
        ∨ (SystemTime.max rv (stores fi.2).getFinalTime).timeSystem = TimeSystem.Any := by
      unfold SystemTime.max
      split_ifs
      · exact ht
      · exact hrv
    have hle1 : rv.time ≤ (SystemTime.max rv (stores fi.2).getFinalTime).time := by
      unfold SystemTime.max
      split_ifs with hlt
      · exact le_of_lt hlt
      · exact le_refl _
    have hle2 : (stores fi.2).finalTime.time
        ≤ (SystemTime.max rv (stores fi.2).getFinalTime).time := by
      unfold SystemTime.max NavDataFactoryWithStore.getFinalTime
      split_ifs with hlt
      · exact le_refl _
      · exact not_lt.1 hlt
    have hor : (SystemTime.max rv (stores fi.2).getFinalTime).time = rv.time
        ∨ (SystemTime.max rv (stores fi.2).getFinalTime).time
            = (stores fi.2).finalTime.time := by
      unfold SystemTime.max NavDataFactoryWithStore.getFinalTime
      split_ifs
      · exact Or.inr rfl
      · exact Or.inl rfl
    obtain ⟨h1, h2, h3⟩ := ih (SystemTime.max rv (stores fi.2).getFinalTime) hstep
      (fun fi2 hfi2 => hsys fi2 (List.mem_cons_of_mem _ hfi2)) hres
    refine ⟨le_trans hle1 h1, ?_, ?_⟩
    · intro fi2 hfi2
      rcases List.mem_cons.1 hfi2 with rfl | hfi2
      · exact le_trans hle2 h1
      · exact h2 fi2 hfi2
    · rcases h3 with h3 | ⟨fi2, hfi2, h3⟩
      · rcases hor with hor | hor
        · exact Or.inl (h3.trans hor)
        · exact Or.inr ⟨fi, List.mem_cons_self _ _, h3.trans hor⟩
      · exact Or.inr ⟨fi2, List.mem_cons_of_mem _ hfi2, h3⟩

/-- Claim C24. Let every registered store report its two bounds in one time
system `S` or in the generic system `Any`, the bounds being instants between
`BEGINNING_OF_TIME` and `END_OF_TIME`.  Then `getInitialTime` is the minimum
of the stores' initial times: it is not after the initial time of any
registered store, and when a store is registered it is the initial time of
one of them.  In the same way `getFinalTime` is the maximum of the stores'
final times.  With an empty registry they return `END_OF_TIME` and
`BEGINNING_OF_TIME`, labelled with the generic time system. -/
theorem getInitialTime_getFinalTime_bounds (ext : TimeExternals)
    (factories : NavDataFactoryMap) (stores : StoreHeap) (S : TimeSystem)
    (hsys : ∀ p ∈ factories.map Prod.snd,
      ((stores p).getInitialTime.timeSystem = S
        ∨ (stores p).getInitialTime.timeSystem = TimeSystem.Any)
      ∧ ((stores p).getFinalTime.timeSystem = S
        ∨ (stores p).getFinalTime.timeSystem = TimeSystem.Any))
    (hrange : ∀ p ∈ factories.map Prod.snd,
      (stores p).getInitialTime.time ≤ ext.END_OF_TIME.time
      ∧ ext.BEGINNING_OF_TIME.time ≤ (stores p).getFinalTime.time) :
    (∀ p ∈ factories.map Prod.snd,
        (getInitialTime ext factories stores).time ≤ (stores p).getInitialTime.time)
    ∧ (factories ≠ [] → ∃ p ∈ factories.map Prod.snd,
        (getInitialTime ext factories stores).time = (stores p).getInitialTime.time)
    ∧ (∀ p ∈ factories.map Prod.snd,
        (stores p).getFinalTime.time ≤ (getFinalTime ext factories stores).time)
    ∧ (factories ≠ [] → ∃ p ∈ factories.map Prod.snd,
        (getFinalTime ext factories stores).time = (stores p).getFinalTime.time)
    ∧ getInitialTime ext [] stores = ext.END_OF_TIME.setTimeSystem TimeSystem.Any
    ∧ getFinalTime ext [] stores = ext.BEGINNING_OF_TIME.setTimeSystem TimeSystem.Any := by
  have hmem : ∀ fi ∈ NDFUniqIterator factories, fi.2 ∈ factories.map Prod.snd :=
    fun fi hfi => (NDFUniqIterator.mem_snd factories fi.2).1 (List.mem_map_of_mem Prod.snd hfi)
  have hrow : ∀ p ∈ factories.map Prod.snd, ∃ fi ∈ NDFUniqIterator factories, fi.2 = p := by
    intro p hp
    obtain ⟨fi, hfi, e⟩ := List.mem_map.1 ((NDFUniqIterator.mem_snd factories p).2 hp)
    exact ⟨fi, hfi, e⟩
  obtain ⟨i1, i2, i3⟩ := getInitialTime_foldl ext stores S (NDFUniqIterator factories)
    (ext.END_OF_TIME.setTimeSystem TimeSystem.Any) (getInitialTime ext factories stores)
    (Or.inr rfl) (fun fi hfi => (hsys fi.2 (hmem fi hfi)).1) rfl
  obtain ⟨f1, f2, f3⟩ := getFinalTime_foldl ext stores S (NDFUniqIterator factories)
    (ext.BEGINNING_OF_TIME.setTimeSystem TimeSystem.Any) (getFinalTime ext factories stores)
    (Or.inr rfl) (fun fi hfi => (hsys fi.2 (hmem fi hfi)).2) rfl
  refine ⟨?_, ?_, ?_, ?_, rfl, rfl⟩
  · intro p hp
    obtain ⟨fi, hfi, rfl⟩ := hrow p hp
    exact i2 fi hfi
  · intro hne
    rcases i3 with i3 | ⟨fi, hfi, i3⟩
    · obtain ⟨row, rest, rfl⟩ := List.exists_cons_of_ne_nil hne
      have hp : row.2 ∈ List.map Prod.snd (row :: rest) := List.mem_map_of_mem Prod.snd
        (List.mem_cons_self _ _)
      obtain ⟨fi, hfi, e⟩ := hrow row.2 hp
      refine ⟨row.2, hp, le_antisymm ?_ ?_⟩
      · rw [← e]
        exact i2 fi hfi
      · rw [i3]
        exact (hrange row.2 hp).1
    · exact ⟨fi.2, hmem fi hfi, i3⟩
  · intro p hp
    obtain ⟨fi, hfi, rfl⟩ := hrow p hp
    exact f2 fi hfi
  · intro hne
    rcases f3 with f3 | ⟨fi, hfi, f3⟩
    · obtain ⟨row, rest, rfl⟩ := List.exists_cons_of_ne_nil hne
      have hp : row.2 ∈ List.map Prod.snd (row :: rest) := List.mem_map_of_mem Prod.snd
        (List.mem_cons_self _ _)
      obtain ⟨fi, hfi, e⟩ := hrow row.2 hp
      refine ⟨row.2, hp, le_antisymm ?_ ?_⟩
      · rw [f3]
        exact (hrange row.2 hp).2
      · rw [← e]
        exact f2 fi hfi
    · exact ⟨fi.2, hmem fi hfi, f3⟩

/-- Sample instance: the two sample stores report their bounds in GPS time,
100 to 300 and 100 to 200; the federation reports 100 and 300, and with an
empty registry the two extreme instants. -/
theorem getInitialTime_getFinalTime_bounds_witness :
    getInitialTime sampleTimeExternals sampleRegistry sampleStores = ⟨100, TimeSystem.GPS⟩
    ∧ getFinalTime sampleTimeExternals sampleRegistry sampleStores = ⟨300, TimeSystem.GPS⟩
    ∧ (sampleStores 1).getFinalTime = ⟨200, TimeSystem.GPS⟩
    ∧ (sampleStores 1).getFinalTime.time
        ≤ (getFinalTime sampleTimeExternals sampleRegistry sampleStores).time
    ∧ getInitialTime sampleTimeExternals [] sampleStores = sampleTimeExternals.END_OF_TIME :=
  ⟨by decide, by decide, by decide,
   (getInitialTime_getFinalTime_bounds sampleTimeExternals sampleRegistry sampleStores
      TimeSystem.GPS (by decide) (by decide)).2.2.1 1 (by decide),
   by decide⟩

end MultiFormatNavDataFactory

namespace MultiFormatNavDataFactory

/-- The loop of `addDataSource` over rows of distinct stores that are still
in the state `stores0`: the source is offered, in order, to the file-backed
stores up to and including the first that accepts it, and the flag tells
whether one accepted. -/
theorem addDataSourceLoop_spec (heap : FactoryHeap) (reader : DataSourceReader)
    (source : String) (stores0 : StoreHeap) (rows : NavDataFactoryMap) (stores : StoreHeap)
    (calls : List NavDataFactoryPtr)
    (hn : (rows.map Prod.snd).Nodup) (heq : ∀ fi ∈ rows, stores fi.2 = stores0 fi.2) :
    (addDataSourceLoop heap reader source rows stores calls).2
      = calls
        ++ (((rows.map Prod.snd).filter (fun p => (heap p).cls.isWithStoreFile)).takeWhile
            (fun p => !(reader p source (stores0 p)).1))
        ++ (((rows.map Prod.snd).filter (fun p => (heap p).cls.isWithStoreFile)).find?
            (fun p => (reader p source (stores0 p)).1)).toList
    ∧ (addDataSourceLoop heap reader source rows stores calls).1.1
      = ((rows.map Prod.snd).filter (fun p => (heap p).cls.isWithStoreFile)).any
          (fun p => (reader p source (stores0 p)).1) := by
  induction rows generalizing stores calls with
  | nil => simp [addDataSourceLoop]
  | cons fi rest ih =>
    simp only [List.map_cons, List.nodup_cons] at hn
    have hfi : stores fi.2 = stores0 fi.2 := heq fi (List.mem_cons_self _ _)
    unfold addDataSourceLoop
    by_cases hf : (heap fi.2).cls.isWithStoreFile = true
    · rw [if_pos hf, hfi]
      rcases hr : reader fi.2 source (stores0 fi.2) with ⟨ok, s⟩
      cases ok
      · have hrest : ∀ fi2 ∈ rest, (stores.set fi.2 s) fi2.2 = stores0 fi2.2 := by
          intro fi2 hfi2
          have hne : fi2.2 ≠ fi.2 := fun hc =>
            hn.1 (hc ▸ List.mem_map_of_mem Prod.snd hfi2)
          unfold StoreHeap.set
          rw [if_neg hne]
          exact heq fi2 (List.mem_cons_of_mem _ hfi2)
        obtain ⟨h1, h2⟩ := ih (stores.set fi.2 s) (calls ++ [fi.2]) hn.2 hrest
        simp only [h1, h2, List.map_cons, List.filter_cons, hf, if_true, List.takeWhile_cons,
          List.find?_cons, List.any_cons, hr, Bool.not_false, Bool.false_or,
          List.append_assoc, List.singleton_append, List.cons_append, List.nil_append,
          and_self]
      · simp only [List.map_cons, List.filter_cons, hf, if_true, List.takeWhile_cons,
          List.find?_cons, List.any_cons, hr, Bool.not_true, Bool.true_or, Option.toList,
          List.append_nil, and_self]
        simp
    · rw [if_neg hf]
      obtain ⟨h1, h2⟩ := ih stores calls hn.2
        (fun fi2 hfi2 => heq fi2 (List.mem_cons_of_mem _ hfi2))
      simp only [h1, h2, List.map_cons, List.filter_cons, hf, and_self]
      simp

end MultiFormatNavDataFactory

namespace MultiFormatNavDataFactory

/-- The distinct file-backed stores are distinct, they are the registered
stores that are file-backed, and they come in registry order. -/
theorem fileStores_spec (heap : FactoryHeap) (factories : NavDataFactoryMap) :
    (fileStores heap factories).Nodup
    ∧ (fileStores heap factories).Sublist (factories.map Prod.snd)
    ∧ ∀ p, p ∈ fileStores heap factories
        ↔ p ∈ factories.map Prod.snd ∧ (heap p).cls.isWithStoreFile = true := by
  unfold fileStores
  refine ⟨(NDFUniqIterator.nodup_visit [] factories).filter _, ?_, ?_⟩
  · exact (List.filter_sublist _).trans
      ((NDFUniqIterator.visit_sublist [] factories).map Prod.snd)
  · intro p
    rw [List.mem_filter, NDFUniqIterator.mem_snd]

/-- Claim C25. `addDataSource` offers the source to the distinct file-backed
stores in registry order, up to and including the first one that accepts
it: the stores offered the source are those before the first accepting
store, then that store.  It returns true exactly when one of the distinct
file-backed stores accepts the source.  Every store offered the source
before the last one offered has refused it, so no store is offered the
source after one has accepted; no store is offered the source twice.  When
it returns false, every distinct file-backed store has been offered the
source; with an empty registry it returns false. -/
theorem addDataSource_first_acceptance (heap : FactoryHeap) (reader : DataSourceReader)
    (factories : NavDataFactoryMap) (stores : StoreHeap) (source : String) :
    addDataSourceCalls heap reader factories stores source
      = (fileStores heap factories).takeWhile (fun p => !accepts reader stores source p)
        ++ ((fileStores heap factories).find? (accepts reader stores source)).toList
    ∧ ((addDataSource heap reader factories stores source).1 = true
        ↔ ∃ p ∈ fileStores heap factories, accepts reader stores source p = true)
    ∧ (∀ p ∈ (addDataSourceCalls heap reader factories stores source).dropLast,
        accepts reader stores source p = false)
    ∧ (addDataSourceCalls heap reader factories stores source).Nodup
    ∧ ((addDataSource heap reader factories stores source).1 = false →
        addDataSourceCalls heap reader factories stores source = fileStores heap factories)
    ∧ (addDataSource heap reader [] stores source).1 = false := by
  obtain ⟨h1, h2⟩ := addDataSourceLoop_spec heap reader source stores
    (NDFUniqIterator factories) stores [] (NDFUniqIterator.nodup_visit [] factories)
    (fun _ _ => rfl)
  rw [List.nil_append] at h1
  have hcalls : addDataSourceCalls heap reader factories stores source
      = (fileStores heap factories).takeWhile (fun p => !accepts reader stores source p)
        ++ ((fileStores heap factories).find? (accepts reader stores source)).toList := h1
  have hflag : (addDataSource heap reader factories stores source).1
      = (fileStores heap factories).any (accepts reader stores source) := h2
  have hnd := (fileStores_spec heap factories).1
  have hT : ∀ p ∈ (fileStores heap factories).takeWhile
      (fun p => !accepts reader stores source p), accepts reader stores source p = false := by
    intro p hp
    have := List.mem_takeWhile_imp hp
    simpa using this
  refine ⟨hcalls, ?_, ?_, ?_, ?_, rfl⟩
  · rw [hflag, List.any_eq_true]
  · rw [hcalls]
    intro p hp
    rcases hfind : (fileStores heap factories).find? (accepts reader stores source) with _ | q
    · rw [hfind] at hp
      simp only [Option.toList, List.append_nil] at hp
      exact hT p (List.mem_of_mem_dropLast hp)
    · rw [hfind] at hp
      simp only [Option.toList, List.dropLast_concat] at hp
      exact hT p hp
  · rw [hcalls]
    rcases hfind : (fileStores heap factories).find? (accepts reader stores source) with _ | q
    · simp only [Option.toList, List.append_nil]
      exact ((List.takeWhile_sublist _).nodup hnd)
    · simp only [Option.toList]
      rw [List.nodup_append]
      refine ⟨(List.takeWhile_sublist _).nodup hnd, List.nodup_singleton q, ?_⟩
      intro a ha hq
      rw [List.mem_singleton] at hq
      subst hq
      have hacc : accepts reader stores source a = true := List.find?_some hfind
      rw [hT a ha] at hacc
      exact Bool.noConfusion hacc
  · intro hfalse
    rw [hflag] at hfalse
    have hall : ∀ p ∈ fileStores heap factories,
        accepts reader stores source p = false := by
      intro p hp
      by_contra hc
      have : (fileStores heap factories).any (accepts reader stores source) = true :=
        List.any_eq_true.2 ⟨p, hp, by simpa using hc⟩
      rw [hfalse] at this
      exact Bool.noConfusion this
    rw [hcalls]
    have e1 : (fileStores heap factories).takeWhile
        (fun p => !accepts reader stores source p) = fileStores heap factories := by
      rw [List.takeWhile_eq_self_iff]
      intro p hp
      rw [hall p hp]
      rfl
    have e2 : (fileStores heap factories).find? (accepts reader stores source) = none := by
      rw [List.find?_eq_none]
      intro p hp
      rw [hall p hp]
      exact Bool.false_ne_true
    rw [e1, e2]
    simp

/-- Sample instance: in the sample registry both stores are file-backed.
The source `yuma` is refused by the store at address 0 and accepted by the
store at address 1; the source `any` is accepted by the store at address 0,
and the store at address 1 is not offered it; the source `sp3` is offered to
both and accepted by neither. -/
theorem addDataSource_first_acceptance_witness :
    fileStores sampleHeap sampleRegistry = [0, 1]
    ∧ addDataSourceCalls sampleHeap sampleReader sampleRegistry sampleStores "yuma" = [0, 1]
    ∧ (addDataSource sampleHeap sampleReader sampleRegistry sampleStores "yuma").1 = true
    ∧ addDataSourceCalls sampleHeap sampleReader sampleRegistry sampleStores "any" = [0]
    ∧ accepts sampleReader sampleStores "any" 1 = true
    ∧ (addDataSource sampleHeap sampleReader sampleRegistry sampleStores "sp3").1 = false
    ∧ addDataSourceCalls sampleHeap sampleReader sampleRegistry sampleStores "sp3"
        = fileStores sampleHeap sampleRegistry :=
  ⟨by decide, by decide, by decide, by decide, by decide, by decide,
   (addDataSource_first_acceptance sampleHeap sampleReader sampleRegistry sampleStores
      "sp3").2.2.2.2.1 (by decide)⟩

end MultiFormatNavDataFactory

/-! ## Message store: searches -/

namespace NavDataFactoryWithStore

/-- The causal selection over a list: nothing is selected only from nothing;
what is selected is the starting candidate or a message of the list, and no
message of the list, nor the starting candidate, is later. -/
theorem foldl_later (l : List NavData) (init : NavDataPtr) :
    (l.foldl later init = none ↔ init = none ∧ l = [])
    ∧ ∀ r, l.foldl later init = some r →
        (init = some r ∨ r ∈ l)
        ∧ (∀ b, init = some b → b.timeStamp ≤ r.timeStamp)
        ∧ ∀ m ∈ l, m.timeStamp ≤ r.timeStamp := by
  induction l generalizing init with
  | nil =>
    refine ⟨by simp, ?_⟩
    intro r hr
    simp only [List.foldl_nil] at hr
    refine ⟨Or.inl hr, ?_, fun m hm => absurd hm (List.not_mem_nil _)⟩
    intro b hb
    rw [hr] at hb
    cases hb
    exact le_refl _
  | cons x xs ih =>
    rw [List.foldl_cons]
    obtain ⟨ih1, ih2⟩ := ih (later init x)
    have hne : later init x ≠ none := by
      unfold later
      cases init with
      | none => simp
      | some b => dsimp only; split_ifs <;> simp
    refine ⟨?_, ?_⟩
    · constructor
      · intro h
        exact absurd (ih1.1 h).1 hne
      · rintro ⟨_, h⟩
        cases h
    · intro r hr
      obtain ⟨h1, h2, h3⟩ := ih2 r hr
      cases init with
      | none =>
        have e : later none x = some x := rfl
        rw [e] at h1 h2
        have hx : x.timeStamp ≤ r.timeStamp := h2 x rfl
        refine ⟨Or.inr ?_, (fun b hb => by cases hb), ?_⟩
        · rcases h1 with h1 | h1
          · cases h1
            exact List.mem_cons_self _ _
          · exact List.mem_cons_of_mem _ h1
        · intro m hm
          rcases List.mem_cons.1 hm with rfl | hm
          · exact hx
          · exact h3 m hm
      | some b =>
        by_cases hlt : b.timeStamp < x.timeStamp
        · have e : later (some b) x = some x := by
            unfold later
            dsimp only
            rw [if_pos hlt]
          rw [e] at h1 h2
          have hx : x.timeStamp ≤ r.timeStamp := h2 x rfl
          refine ⟨Or.inr ?_, ?_, ?_⟩
          · rcases h1 with h1 | h1
            · cases h1
              exact List.mem_cons_self _ _
            · exact List.mem_cons_of_mem _ h1
          · intro b2 hb2
            cases hb2
            exact le_trans (le_of_lt hlt) hx
          · intro m hm
            rcases List.mem_cons.1 hm with rfl | hm
            · exact hx
            · exact h3 m hm
        · have e : later (some b) x = some b := by
            unfold later
            dsimp only
            rw [if_neg hlt]
          rw [e] at h1 h2
          have hb : b.timeStamp ≤ r.timeStamp := h2 b rfl
          refine ⟨?_, ?_, ?_⟩
          · rcases h1 with h1 | h1
            · exact Or.inl h1
            · exact Or.inr (List.mem_cons_of_mem _ h1)
          · intro b2 hb2
            cases hb2
            exact hb
          · intro m hm
            rcases List.mem_cons.1 hm with rfl | hm
            · exact le_trans (not_lt.1 hlt) hb
            · exact h3 m hm

/-- The nearest-epoch selection over a list: nothing is selected only from
nothing; what is selected is the starting candidate or a message of the
list, and no message of the list, nor the starting candidate, has its
reference epoch closer to `when`. -/
theorem foldl_nearer (M : NavDataMethods) (when : CommonTime) (l : List NavData)
    (init : NavDataPtr) :
    (l.foldl (nearer M when) init = none ↔ init = none ∧ l = [])
    ∧ ∀ r, l.foldl (nearer M when) init = some r →
        (init = some r ∨ r ∈ l)
        ∧ (∀ b, init = some b →
            (M.nearTime r - when).natAbs ≤ (M.nearTime b - when).natAbs)
        ∧ ∀ m ∈ l, (M.nearTime r - when).natAbs ≤ (M.nearTime m - when).natAbs := by
  induction l generalizing init with
  | nil =>
    refine ⟨by simp, ?_⟩
    intro r hr
    simp only [List.foldl_nil] at hr
    refine ⟨Or.inl hr, ?_, fun m hm => absurd hm (List.not_mem_nil _)⟩
    intro b hb
    rw [hr] at hb
    cases hb
    exact le_refl _
  | cons x xs ih =>
    rw [List.foldl_cons]
    obtain ⟨ih1, ih2⟩ := ih (nearer M when init x)
    have hne : nearer M when init x ≠ none := by
      unfold nearer
      cases init with
      | none => simp
      | some b => dsimp only; split_ifs <;> simp
    refine ⟨?_, ?_⟩
    · constructor
      · intro h
        exact absurd (ih1.1 h).1 hne
      · rintro ⟨_, h⟩
        cases h
    · intro r hr
      obtain ⟨h1, h2, h3⟩ := ih2 r hr
      cases init with
      | none =>
        have e : nearer M when none x = some x := rfl
        rw [e] at h1 h2
        have hx := h2 x rfl
        refine ⟨Or.inr ?_, (fun b hb => by cases hb), ?_⟩
        · rcases h1 with h1 | h1
          · cases h1
            exact List.mem_cons_self _ _
          · exact List.mem_cons_of_mem _ h1
        · intro m hm
          rcases List.mem_cons.1 hm with rfl | hm
          · exact hx
          · exact h3 m hm
      | some b =>
        by_cases hlt : (M.nearTime x - when).natAbs < (M.nearTime b - when).natAbs
        · have e : nearer M when (some b) x = some x := by
            unfold nearer
            dsimp only
            rw [if_pos hlt]
          rw [e] at h1 h2
          have hx := h2 x rfl
          refine ⟨Or.inr ?_, ?_, ?_⟩
          · rcases h1 with h1 | h1
            · cases h1
              exact List.mem_cons_self _ _
            · exact List.mem_cons_of_mem _ h1
          · intro b2 hb2
            cases hb2
            exact le_trans hx (le_of_lt hlt)
          · intro m hm
            rcases List.mem_cons.1 hm with rfl | hm
            · exact hx
            · exact h3 m hm
        · have e : nearer M when (some b) x = some b := by
            unfold nearer
            dsimp only
            rw [if_neg hlt]
          rw [e] at h1 h2
          have hb := h2 b rfl
          refine ⟨?_, ?_, ?_⟩
          · rcases h1 with h1 | h1
            · exact Or.inl h1
            · exact Or.inr (List.mem_cons_of_mem _ h1)
          · intro b2 hb2
            cases hb2
            exact hb
          · intro m hm
            rcases List.mem_cons.1 hm with rfl | hm
            · exact le_trans hb (not_lt.1 hlt)
            · exact h3 m hm

end NavDataFactoryWithStore

namespace NavDataFactoryWithStore

/-- Method `find` in user order is `findUser`. -/
theorem find_user (M : NavDataMethods) (s : NavDataFactoryWithStore) (nmid : NavMessageID)
    (when : CommonTime) (xmitHealth : SVHealth) (valid : NavValidityType)
    (navOut : NavDataPtr) :
    find M s ⟨nmid, when, xmitHealth, valid, NavSearchOrder.User⟩ navOut
      = match findUser M s nmid when xmitHealth valid with
        | some m => (true, some m)
        | none => (false, navOut) := rfl

/-- Method `find` in nearest order is `findNearest`. -/
theorem find_nearest (M : NavDataMethods) (s : NavDataFactoryWithStore) (nmid : NavMessageID)
    (when : CommonTime) (xmitHealth : SVHealth) (valid : NavValidityType)
    (navOut : NavDataPtr) :
    find M s ⟨nmid, when, xmitHealth, valid, NavSearchOrder.Nearest⟩ navOut
      = match findNearest M s nmid when xmitHealth valid with
        | some m => (true, some m)
        | none => (false, navOut) := rfl

/-- Claim C26. In user (causal) order, among the stored messages of the
queried identity that pass the validity and health filters: when every one
of them is strictly later than `when` (in particular when there is none),
`find` returns false and leaves `navOut` untouched; when one of them is not
after `when`, `find` returns true with such a message, not after `when`, and
no other such message that is not after `when` has a greater time stamp. -/
theorem findUser_latest (M : NavDataMethods) (s : NavDataFactoryWithStore)
    (nmid : NavMessageID) (when : CommonTime) (xmitHealth : SVHealth)
    (valid : NavValidityType) (navOut : NavDataPtr) :
    ((∀ m ∈ s.data, m.signal = nmid → validityCheck M s m valid xmitHealth when = true →
        when < m.timeStamp) →
      find M s ⟨nmid, when, xmitHealth, valid, NavSearchOrder.User⟩ navOut = (false, navOut))
    ∧ (∀ m ∈ s.data, m.signal = nmid → validityCheck M s m valid xmitHealth when = true →
        m.timeStamp ≤ when →
        ∃ r, find M s ⟨nmid, when, xmitHealth, valid, NavSearchOrder.User⟩ navOut
            = (true, some r)
          ∧ r ∈ s.data ∧ r.signal = nmid
          ∧ validityCheck M s r valid xmitHealth when = true
          ∧ r.timeStamp ≤ when
          ∧ ∀ m2 ∈ s.data, m2.signal = nmid →
              validityCheck M s m2 valid xmitHealth when = true →
              m2.timeStamp ≤ when → m2.timeStamp ≤ r.timeStamp) := by
  have hmem : ∀ m, m ∈ s.data.filter
      (fun m => decide (m.signal = nmid) && decide (m.timeStamp ≤ when)
        && validityCheck M s m valid xmitHealth when)
      ↔ m ∈ s.data ∧ m.signal = nmid ∧ m.timeStamp ≤ when
        ∧ validityCheck M s m valid xmitHealth when = true := by
    intro m
    simp only [List.mem_filter, Bool.and_eq_true, decide_eq_true_eq, and_assoc]
  obtain ⟨f1, f2⟩ := foldl_later (s.data.filter
      (fun m => decide (m.signal = nmid) && decide (m.timeStamp ≤ when)
        && validityCheck M s m valid xmitHealth when)) none
  rw [find_user]
  refine ⟨?_, ?_⟩
  · intro hall
    have hnone : findUser M s nmid when xmitHealth valid = none := by
      unfold findUser
      rw [f1]
      refine ⟨rfl, List.eq_nil_iff_forall_not_mem.2 ?_⟩
      intro m hm
      obtain ⟨h1, h2, h3, h4⟩ := (hmem m).1 hm
      exact absurd (hall m h1 h2 h4) (not_lt.2 h3)
    rw [hnone]
  · intro m hm hid hv hle
    rcases hr : findUser M s nmid when xmitHealth valid with _ | r
    · exfalso
      unfold findUser at hr
      have hnil := (f1.1 hr).2
      have : m ∈ s.data.filter
          (fun m => decide (m.signal = nmid) && decide (m.timeStamp ≤ when)
            && validityCheck M s m valid xmitHealth when) :=
        (hmem m).2 ⟨hm, hid, hle, hv⟩
      rw [hnil] at this
      exact absurd this (List.not_mem_nil _)
    · unfold findUser at hr
      obtain ⟨h1, _, h3⟩ := f2 r hr
      have hrm : r ∈ s.data.filter
          (fun m => decide (m.signal = nmid) && decide (m.timeStamp ≤ when)
            && validityCheck M s m valid xmitHealth when) := by
        rcases h1 with h1 | h1
        · cases h1
        · exact h1
      obtain ⟨r1, r2, r3, r4⟩ := (hmem r).1 hrm
      refine ⟨r, rfl, r1, r2, r4, r3, ?_⟩
      intro m2 hm2 hid2 hv2 hle2
      exact h3 m2 ((hmem m2).2 ⟨hm2, hid2, hle2, hv2⟩)

/-- Sample instance: the sample store holds the sample message with time
stamps 100, 200 and 300; for its identity, in user order, `find` at 250
returns the message at 200 and `find` at 50 returns false. -/
theorem findUser_latest_witness :
    sampleStore.data = [sampleMessageAt 100, sampleMessageAt 200, sampleMessageAt 300]
    ∧ find sampleMethods sampleStore
        ⟨sampleHealth.signal, 250, SVHealth.Any, NavValidityType.ValidOnly,
          NavSearchOrder.User⟩ none
        = (true, some (sampleMessageAt 200))
    ∧ find sampleMethods sampleStore
        ⟨sampleHealth.signal, 50, SVHealth.Any, NavValidityType.ValidOnly,
          NavSearchOrder.User⟩ none
        = (false, none) :=
  ⟨by decide, by decide,
   (findUser_latest sampleMethods sampleStore sampleHealth.signal 50 SVHealth.Any
      NavValidityType.ValidOnly none).1 (by decide)⟩

/-- Claim C27. In nearest order, among the stored messages of the queried
identity that pass the validity and health filters: when there is none,
`find` returns false and leaves `navOut` untouched; when there is one,
`find` returns true with such a message, and no other such message has its
reference epoch closer to `when`, whether before or after `when`. -/
theorem findNearest_closest (M : NavDataMethods) (s : NavDataFactoryWithStore)
    (nmid : NavMessageID) (when : CommonTime) (xmitHealth : SVHealth)
    (valid : NavValidityType) (navOut : NavDataPtr) :
    ((∀ m ∈ s.data, m.signal = nmid → validityCheck M s m valid xmitHealth when = false) →
      find M s ⟨nmid, when, xmitHealth, valid, NavSearchOrder.Nearest⟩ navOut
        = (false, navOut))
    ∧ (∀ m ∈ s.data, m.signal = nmid → validityCheck M s m valid xmitHealth when = true →
        ∃ r, find M s ⟨nmid, when, xmitHealth, valid, NavSearchOrder.Nearest⟩ navOut
            = (true, some r)
          ∧ r ∈ s.data ∧ r.signal = nmid
          ∧ validityCheck M s r valid xmitHealth when = true
          ∧ ∀ m2 ∈ s.data, m2.signal = nmid →
              validityCheck M s m2 valid xmitHealth when = true →
              (M.nearTime r - when).natAbs ≤ (M.nearTime m2 - when).natAbs) := by
  have hmem : ∀ m, m ∈ s.data.filter
      (fun m => decide (m.signal = nmid) && validityCheck M s m valid xmitHealth when)
      ↔ m ∈ s.data ∧ m.signal = nmid
        ∧ validityCheck M s m valid xmitHealth when = true := by
    intro m
    simp only [List.mem_filter, Bool.and_eq_true, decide_eq_true_eq]
  obtain ⟨f1, f2⟩ := foldl_nearer M when (s.data.filter
      (fun m => decide (m.signal = nmid) && validityCheck M s m valid xmitHealth when)) none
  rw [find_nearest]
  refine ⟨?_, ?_⟩
  · intro hall
    have hnone : findNearest M s nmid when xmitHealth valid = none := by
      unfold findNearest
      rw [f1]
      refine ⟨rfl, List.eq_nil_iff_forall_not_mem.2 ?_⟩
      intro m hm
      obtain ⟨h1, h2, h3⟩ := (hmem m).1 hm
      rw [hall m h1 h2] at h3
      exact Bool.noConfusion h3
    rw [hnone]
  · intro m hm hid hv
    rcases hr : findNearest M s nmid when xmitHealth valid with _ | r
    · exfalso
      unfold findNearest at hr
      have hnil := (f1.1 hr).2
      have : m ∈ s.data.filter
          (fun m => decide (m.signal = nmid)
            && validityCheck M s m valid xmitHealth when) :=
        (hmem m).2 ⟨hm, hid, hv⟩
      rw [hnil] at this
      exact absurd this (List.not_mem_nil _)
    · unfold findNearest at hr
      obtain ⟨h1, _, h3⟩ := f2 r hr
      have hrm : r ∈ s.data.filter
          (fun m => decide (m.signal = nmid)
            && validityCheck M s m valid xmitHealth when) := by
        rcases h1 with h1 | h1
        · cases h1
        · exact h1
      obtain ⟨r1, r2, r3⟩ := (hmem r).1 hrm
      refine ⟨r, rfl, r1, r2, r3, ?_⟩
      intro m2 hm2 hid2 hv2
      exact h3 m2 ((hmem m2).2 ⟨hm2, hid2, hv2⟩)

/-- Sample instance: the two-message sample store holds the sample message
with reference epochs 100 and 200; for its identity, in nearest order,
`find` at 180 returns the message at 200, `find` at 120 the message at 100,
and a message is found at 120 because the one at 200 qualifies. -/
theorem findNearest_closest_witness :
    sampleStoreTwo.data = [sampleMessageAt 100, sampleMessageAt 200]
    ∧ sampleMethods.nearTime (sampleMessageAt 100) = 100
    ∧ sampleMethods.nearTime (sampleMessageAt 200) = 200
    ∧ find sampleMethods sampleStoreTwo
        ⟨sampleHealth.signal, 180, SVHealth.Any, NavValidityType.ValidOnly,
          NavSearchOrder.Nearest⟩ none
        = (true, some (sampleMessageAt 200))
    ∧ find sampleMethods sampleStoreTwo
        ⟨sampleHealth.signal, 120, SVHealth.Any, NavValidityType.ValidOnly,
          NavSearchOrder.Nearest⟩ none
        = (true, some (sampleMessageAt 100))
    ∧ ∃ r, find sampleMethods sampleStoreTwo
        ⟨sampleHealth.signal, 120, SVHealth.Any, NavValidityType.ValidOnly,
          NavSearchOrder.Nearest⟩ none = (true, some r)
      ∧ ∀ m2 ∈ sampleStoreTwo.data, m2.signal = sampleHealth.signal →
          validityCheck sampleMethods sampleStoreTwo m2 NavValidityType.ValidOnly
            SVHealth.Any 120 = true →
          (sampleMethods.nearTime r - 120).natAbs
            ≤ (sampleMethods.nearTime m2 - 120).natAbs :=
  ⟨by decide, by decide, by decide, by decide, by decide,
   match (findNearest_closest sampleMethods sampleStoreTwo sampleHealth.signal 120
      SVHealth.Any NavValidityType.ValidOnly none).2 (sampleMessageAt 200) (by decide)
      (by decide) (by decide) with
   | ⟨r, h1, _, _, _, h5⟩ => ⟨r, h1, h5⟩⟩

end NavDataFactoryWithStore

/-! ## Message store: health filter, edit and bounds -/

namespace NavDataFactoryWithStore

/-- The Health identity looked up for a message depends on the identity of
the message only. -/
theorem healthID_congr (m1 m2 : NavData) (h : m1.signal = m2.signal) :
    healthID m1 = healthID m2 := by
  unfold healthID
  rw [h]

/-- Without a Health message of the transmitter in the store, the health
lookup finds nothing. -/
theorem findHealth_none (s : NavDataFactoryWithStore) (m : NavData) (when : CommonTime)
    (hno : ∀ h ∈ s.data, h.signal ≠ healthID m) : findHealth s m when = none := by
  unfold findHealth
  rw [(foldl_later _ none).1]
  refine ⟨rfl, List.eq_nil_iff_forall_not_mem.2 ?_⟩
  intro h hh
  simp only [List.mem_filter, Bool.and_eq_true, decide_eq_true_eq] at hh
  exact hno h hh.1 hh.2.1

/-- Without a Health message of the transmitter in the store, a message
fails every filter that asks for a health other than `Any`. -/
theorem validityCheck_no_health (M : NavDataMethods) (s : NavDataFactoryWithStore)
    (m : NavData) (valid : NavValidityType) (xmitHealth : SVHealth) (when : CommonTime)
    (hx : xmitHealth ≠ SVHealth.Any) (hno : ∀ h ∈ s.data, h.signal ≠ healthID m) :
    validityCheck M s m valid xmitHealth when = false := by
  unfold validityCheck matchHealth
  rw [if_neg hx, findHealth_none s m when hno]
  exact Bool.and_false _

/-- Claim C28. Let `m` be a stored message of the queried identity, and let
the store hold no Health message of the satellite that transmitted `m` on
the signal of `m`.  For every desired health other than `Any` (`Healthy`,
`Unhealthy`, `Degraded`), `m` fails the filter and `find` returns false with
`navOut` untouched, in either search order and whatever the validity asked
for.  With desired health `Any`, when `m` passes the filter and is the only
stored message of the queried identity, `find` returns `m`: in user order
when `m` is not after `when`, and in nearest order. -/
theorem find_health_fails_closed (M : NavDataMethods) (s : NavDataFactoryWithStore)
    (m : NavData) (nmid : NavMessageID) (hm : m ∈ s.data) (hid : m.signal = nmid)
    (hno : ∀ h ∈ s.data, h.signal ≠ healthID m) :
    (∀ xmitHealth, xmitHealth ≠ SVHealth.Any →
      ∀ (valid : NavValidityType) (when : CommonTime) (order : NavSearchOrder)
        (navOut : NavDataPtr),
        validityCheck M s m valid xmitHealth when = false
        ∧ find M s ⟨nmid, when, xmitHealth, valid, order⟩ navOut = (false, navOut))
    ∧ (∀ (valid : NavValidityType) (when : CommonTime) (navOut : NavDataPtr),
        validityCheck M s m valid SVHealth.Any when = true →
        (∀ m2 ∈ s.data, m2.signal = nmid → m2 = m) →
        (m.timeStamp ≤ when →
          find M s ⟨nmid, when, SVHealth.Any, valid, NavSearchOrder.User⟩ navOut
            = (true, some m))
        ∧ find M s ⟨nmid, when, SVHealth.Any, valid, NavSearchOrder.Nearest⟩ navOut
            = (true, some m)) := by
  refine ⟨?_, ?_⟩
  · intro xmitHealth hx valid when order navOut
    have hall : ∀ m2 ∈ s.data, m2.signal = nmid →
        validityCheck M s m2 valid xmitHealth when = false := by
      intro m2 _ hid2
      apply validityCheck_no_health M s m2 valid xmitHealth when hx
      rw [healthID_congr m2 m (hid2.trans hid.symm)]
      exact hno
    refine ⟨validityCheck_no_health M s m valid xmitHealth when hx hno, ?_⟩
    cases order
    · apply (findUser_latest M s nmid when xmitHealth valid navOut).1
      intro m2 hm2 hid2 hv2
      rw [hall m2 hm2 hid2] at hv2
      exact Bool.noConfusion hv2
    · exact (findNearest_closest M s nmid when xmitHealth valid navOut).1 hall
  · intro valid when navOut hpass hone
    refine ⟨?_, ?_⟩
    · intro hle
      obtain ⟨r, h1, h2, h3, _⟩ :=
        (findUser_latest M s nmid when SVHealth.Any valid navOut).2 m hm hid hpass hle
      rw [h1, hone r h2 h3]
    · obtain ⟨r, h1, h2, h3, _⟩ :=
        (findNearest_closest M s nmid when SVHealth.Any valid navOut).2 m hm hid hpass
      rw [h1, hone r h2 h3]

/-- Sample instance: the store holds one message, the health of satellite 7
as broadcast by satellite 5, and no Health message of satellite 5 itself.
Asked for a healthy transmitter, `find` returns false; asked for any health,
it returns the message. -/
theorem find_health_fails_closed_witness :
    sampleStoreRelayed.data = [sampleRelayed]
    ∧ find sampleMethods sampleStoreRelayed
        ⟨sampleRelayed.signal, 150, SVHealth.Healthy, NavValidityType.ValidOnly,
          NavSearchOrder.User⟩ none = (false, none)
    ∧ find sampleMethods sampleStoreRelayed
        ⟨sampleRelayed.signal, 150, SVHealth.Any, NavValidityType.ValidOnly,
          NavSearchOrder.User⟩ none = (true, some sampleRelayed) :=
  ⟨by decide,
   ((find_health_fails_closed sampleMethods sampleStoreRelayed sampleRelayed
      sampleRelayed.signal (by decide) rfl (by decide)).1 SVHealth.Healthy (by decide)
      NavValidityType.ValidOnly 150 NavSearchOrder.User none).2,
   by decide⟩

/-- A time stamp is outside the span `[fromTime, toTime)` exactly when the
test of `edit` keeps the message. -/
theorem not_inSpan_iff (fromTime toTime t : CommonTime) :
    (!inSpan fromTime toTime t) = true ↔ ¬(fromTime ≤ t ∧ t < toTime) := by
  unfold inSpan
  by_cases h1 : fromTime ≤ t <;> by_cases h2 : t < toTime <;> simp [h1, h2]

/-- Claim C29. `edit(fromTime, toTime)` removes exactly the messages whose
time stamp `t` satisfies `fromTime ≤ t < toTime`: the messages left are the
stored messages outside that span, in their order and as often as before.
After `edit(100, 200)` a message at 100 is gone and a stored message at 200
is still there. -/
theorem edit_half_open (s : NavDataFactoryWithStore) (fromTime toTime : CommonTime) :
    (∀ m, m ∈ (s.edit fromTime toTime).data
        ↔ m ∈ s.data ∧ ¬(fromTime ≤ m.timeStamp ∧ m.timeStamp < toTime))
    ∧ (s.edit fromTime toTime).data.Sublist s.data
    ∧ (∀ m, ¬(fromTime ≤ m.timeStamp ∧ m.timeStamp < toTime) →
        (s.edit fromTime toTime).data.countP (fun x => decide (x = m))
          = s.data.countP (fun x => decide (x = m)))
    ∧ (∀ m, m.timeStamp = 100 → m ∉ (s.edit 100 200).data)
    ∧ (∀ m ∈ s.data, m.timeStamp = 200 → m ∈ (s.edit 100 200).data) := by
  have hmem : ∀ (f t : CommonTime) (m : NavData), m ∈ (s.edit f t).data
      ↔ m ∈ s.data ∧ ¬(f ≤ m.timeStamp ∧ m.timeStamp < t) := by
    intro f t m
    unfold edit
    simp only [List.mem_filter, not_inSpan_iff]
  refine ⟨hmem fromTime toTime, ?_, ?_, ?_, ?_⟩
  · unfold edit
    exact List.filter_sublist _
  · intro m hout
    unfold edit
    rw [List.countP_filter]
    apply List.countP_congr
    intro x _
    simp only [Bool.and_eq_true, decide_eq_true_eq, not_inSpan_iff]
    constructor
    · exact fun h => h.1
    · intro h
      subst h
      exact ⟨rfl, hout⟩
  · intro m ht hc
    have := ((hmem 100 200 m).1 hc).2
    rw [ht] at this
    exact this ⟨by norm_num, by norm_num⟩
  · intro m hm ht
    refine (hmem 100 200 m).2 ⟨hm, ?_⟩
    rw [ht]
    norm_num

/-- Sample instance: the sample store holds messages at 100, 200 and 300;
after `edit(100, 200)` the messages at 200 and 300 are left. -/
theorem edit_half_open_witness :
    sampleStore.data = [sampleMessageAt 100, sampleMessageAt 200, sampleMessageAt 300]
    ∧ (sampleStore.edit 100 200).data = [sampleMessageAt 200, sampleMessageAt 300]
    ∧ sampleMessageAt 100 ∉ (sampleStore.edit 100 200).data
    ∧ sampleMessageAt 200 ∈ (sampleStore.edit 100 200).data :=
  ⟨by decide, by decide,
   (edit_half_open sampleStore 100 200).2.2.2.1 (sampleMessageAt 100) rfl,
   (edit_half_open sampleStore 100 200).2.2.2.2 (sampleMessageAt 200) (by decide) rfl⟩

/-- Claim C30. The bounds of a store are a high-water mark.  `addNavData`
leaves the initial time where it was or moves it earlier, and leaves the
final time where it was or moves it later.  `edit`, in each of its three
overloads, leaves both bounds exactly as they were, whatever it removes.  A
store that was never filled reports `END_OF_TIME` as its initial time and
`BEGINNING_OF_TIME` as its final time. -/
theorem bounds_high_water (ext : TimeExternals) (M : NavDataMethods)
    (s : NavDataFactoryWithStore) (nd : NavData) (fromTime toTime : CommonTime)
    (satID : NavSatelliteID) (signal : NavSignalID) :
    (s.addNavData M nd).getInitialTime.time ≤ s.getInitialTime.time
    ∧ s.getFinalTime.time ≤ (s.addNavData M nd).getFinalTime.time
    ∧ (s.edit fromTime toTime).getInitialTime = s.getInitialTime
    ∧ (s.edit fromTime toTime).getFinalTime = s.getFinalTime
    ∧ (s.editSatellite fromTime toTime satID).getInitialTime = s.getInitialTime
    ∧ (s.editSatellite fromTime toTime satID).getFinalTime = s.getFinalTime
    ∧ (s.editSignal fromTime toTime signal).getInitialTime = s.getInitialTime
    ∧ (s.editSignal fromTime toTime signal).getFinalTime = s.getFinalTime
    ∧ (init ext).getInitialTime = ext.END_OF_TIME
    ∧ (init ext).getFinalTime = ext.BEGINNING_OF_TIME := by
  refine ⟨?_, ?_, rfl, rfl, rfl, rfl, rfl, rfl, rfl, rfl⟩
  · unfold addNavData getInitialTime SystemTime.min
    dsimp only
    split_ifs with h
    · exact le_of_lt h
    · exact le_refl _
  · unfold addNavData getFinalTime SystemTime.max
    dsimp only
    split_ifs with h
    · exact le_of_lt h
    · exact le_refl _

/-- Sample instance: the sample store, filled with messages at 100, 200 and
300, reports the bounds 100 and 300; a further message at 400 moves the
final time only; `edit(0, 1000)` removes every message, among them those
that set the bounds, and the bounds are still 100 and 300. -/
theorem bounds_high_water_witness :
    sampleStore.getInitialTime = ⟨100, TimeSystem.GPS⟩
    ∧ sampleStore.getFinalTime = ⟨300, TimeSystem.GPS⟩
    ∧ (sampleStore.addNavData sampleMethods (sampleMessageAt 400)).getInitialTime
        = ⟨100, TimeSystem.GPS⟩
    ∧ (sampleStore.addNavData sampleMethods (sampleMessageAt 400)).getFinalTime
        = ⟨400, TimeSystem.GPS⟩
    ∧ (sampleStore.edit 0 1000).data = []
    ∧ (sampleStore.edit 0 1000).getInitialTime = sampleStore.getInitialTime
    ∧ (sampleStore.edit 0 1000).getFinalTime = sampleStore.getFinalTime
    ∧ (init sampleTimeExternals).getInitialTime = sampleTimeExternals.END_OF_TIME :=
  ⟨by decide, by decide, by decide, by decide, by decide,
   (bounds_high_water sampleTimeExternals sampleMethods sampleStore (sampleMessageAt 400)
      0 1000 sampleHealth.signal.satID sampleSignalCNAV2).2.2.1,
   (bounds_high_water sampleTimeExternals sampleMethods sampleStore (sampleMessageAt 400)
      0 1000 sampleHealth.signal.satID sampleSignalCNAV2).2.2.2.1,
   (bounds_high_water sampleTimeExternals sampleMethods sampleStore (sampleMessageAt 400)
      0 1000 sampleHealth.signal.satID sampleSignalCNAV2).2.2.2.2.2.2.2.2.1⟩

end NavDataFactoryWithStore

/-! ## Galileo F/NAV health -/

/-- Claim C31. `GalFNavHealth::validate()` returns true for every
`GalFNavHealth` object, whatever its time stamp, identity, signal health
status, data validity status and SISA index. -/
theorem GalFNavHealth.validate_always {GalHealthStatus GalDataValid : Type}
    (timeStamp : CommonTime) (signal : NavMessageID) (sigHealthStatus : GalHealthStatus)
    (dataValidityStatus : GalDataValid) (sisaIndex : Nat) :
    GalFNavHealth.validate
      (⟨timeStamp, signal, sigHealthStatus, dataValidityStatus, sisaIndex⟩ :
        GalFNavHealth GalHealthStatus GalDataValid) = true
    ∧ ∀ h : GalFNavHealth GalHealthStatus GalDataValid, h.validate = true :=
  ⟨rfl, fun _ => rfl⟩

/-- Sample instance: the sample message, whose statuses are not the nominal
ones and whose SISA index is 255, is valid. -/
theorem GalFNavHealth.validate_always_witness :
    sampleGalFNavHealth.sisaIndex = 255 ∧ sampleGalFNavHealth.validate = true :=
  ⟨rfl, (GalFNavHealth.validate_always (0 : CommonTime) sampleGalFNavHealth.signal
      (0 : Nat) (0 : Nat) 0).2 sampleGalFNavHealth⟩

/-! ## Decoder: every read is inside the frame -/

/-- Inside the frame, the raw extraction of a field succeeds. -/
theorem asUint64_t_in_range (nav : PackedNavBits) (fld : Nat × Nat)
    (h : fld.1 + fld.2 ≤ nav.getNumBits) :
    ∃ v, nav.asUint64_t fld.1 fld.2 = Except.ok v :=
  ⟨_, asUint64_t_ok nav fld.1 fld.2 h⟩

/-- Claim C33. Every bit field the decoder reads lies inside the frame it is
read from: every field of subframe 2 ends at or before bit 600, and every
field of the header and of pages 1, 2 and 4 of subframe 3 ends at or before
bit 274, so the raw extraction of each of them from a frame of that length
succeeds.  Hence no page decoder raises on a frame of an accepted length:
on a 600-bit frame `processEph` returns true; on a 274-bit frame the page
number is read, `processUTCIono` and `processAlmOrb` return true and
`processGGTOEOP` returns a flag; the exception branch of `addData` is not
taken.  On a frame of any other length `addData` reads nothing. -/
theorem addData_reads_in_range (f : PNBGPSCNav2DataFactory) (navIn : PackedNavBits)
    (navOut : NavDataPtrList) :
    (∀ fld ∈ subframe2Reads, fld.1 + fld.2 ≤ nnbSF2)
    ∧ (∀ fld ∈ subframe3Reads, fld.1 + fld.2 ≤ nnbSF3)
    ∧ (navIn.getNumBits = nnbSF2 →
        (∀ fld ∈ subframe2Reads, ∃ v, navIn.asUint64_t fld.1 fld.2 = Except.ok v)
        ∧ (f.processEph navIn navOut).1 = Except.ok true)
    ∧ (navIn.getNumBits = nnbSF3 →
        (∀ fld ∈ subframe3Reads, ∃ v, navIn.asUint64_t fld.1 fld.2 = Except.ok v)
        ∧ (∃ pageNum, navIn.asUnsignedLong asbPage anbPage ascPage = Except.ok pageNum)
        ∧ (f.processUTCIono navIn navOut).1 = Except.ok true
        ∧ (∃ rv, (f.processGGTOEOP navIn navOut).1 = Except.ok rv)
        ∧ (f.processAlmOrb navIn navOut).1 = Except.ok true)
    ∧ (navIn.getNumBits ≠ nnbSF2 → navIn.getNumBits ≠ nnbSF3 →
        f.addData navIn navOut = (false, navOut)) := by
  have h2 : ∀ fld ∈ subframe2Reads, fld.1 + fld.2 ≤ nnbSF2 := by decide
  have h3 : ∀ fld ∈ subframe3Reads, fld.1 + fld.2 ≤ nnbSF3 := by decide
  refine ⟨h2, h3, ?_, ?_, ?_⟩
  · intro hlen
    refine ⟨fun fld hfld => asUint64_t_in_range navIn fld (by rw [hlen]; exact h2 fld hfld),
      processEph_true f navIn navOut hlen⟩
  · intro hlen
    refine ⟨fun fld hfld => asUint64_t_in_range navIn fld (by rw [hlen]; exact h3 fld hfld),
      ⟨_, pageNum_eq navIn hlen⟩, processUTCIono_true f navIn navOut hlen, ?_,
      processAlmOrb_true f navIn navOut hlen⟩
    rcases processGGTOEOP_false f navIn navOut hlen with h | h
    · exact ⟨true, h⟩
    · exact ⟨false, by rw [h]⟩
  · intro hn2 hn3
    unfold addData
    by_cases htag : navIn.navID ≠ NavType.GPSCNAV2
    · rw [if_pos htag]
    · rw [if_neg htag]
      simp only [hn2, hn3, if_false]

/-- Sample instance: on the all-ones 600-bit sample frame `processEph`
returns true, and on the 274-bit sample page 2 frame with selector 7 the
page decoders do not raise: `addData` returns false for the unknown selector
and `processAlmOrb` would return true. -/
theorem addData_reads_in_range_witness :
    sampleSubframe2.getNumBits = nnbSF2
    ∧ ((sampleFactory true true true true).processEph sampleSubframe2 []).1 = Except.ok true
    ∧ (sampleSubframe3 2 7).getNumBits = nnbSF3
    ∧ (sampleFactory true true true true).addData (sampleSubframe3 2 7) [] = (false, [])
    ∧ ((sampleFactory true true true true).processAlmOrb (sampleSubframe3 2 7) []).1
        = Except.ok true :=
  ⟨by decide,
   ((addData_reads_in_range (sampleFactory true true true true) sampleSubframe2 []).2.2.1
      (by decide)).2,
   by decide, by decide,
   ((addData_reads_in_range (sampleFactory true true true true) (sampleSubframe3 2 7)
      []).2.2.2.1 (by decide)).2.2.2.2⟩

/-- Claim C34. With time offset emission disabled, a 274-bit GPSCNAV2 frame
whose page number is 1 or 2 makes `addData` return true and append nothing,
whatever the bits of the page are, the target-system selector of page 2
(bits 14..16) included: neither page decoder reads anything of the page. -/
theorem addData_time_offset_disabled (f : PNBGPSCNav2DataFactory) (navIn : PackedNavBits)
    (navOut : NavDataPtrList) (htag : navIn.navID = NavType.GPSCNAV2)
    (hlen : navIn.getNumBits = 274)
    (hpage : unsignedValue (navIn.field 8 6) = 1 ∨ unsignedValue (navIn.field 8 6) = 2)
    (htim : f.base.processTim = false) :
    f.addData navIn navOut = (true, navOut)
    ∧ f.processUTCIono navIn navOut = (Except.ok true, navOut)
    ∧ f.processGGTOEOP navIn navOut = (Except.ok true, navOut) := by
  have hutc : f.processUTCIono navIn navOut = (Except.ok true, navOut) := by
    unfold processUTCIono
    simp [htim]
  have hggto := processGGTOEOP_disabled f navIn navOut htim
  refine ⟨?_, hutc, hggto⟩
  unfold addData
  rw [pageNum_eq navIn hlen]
  rcases hpage with hp | hp
  · simp [htag, hlen, nnbSF2, nnbSF3, hp, npgUTC, hutc]
  · simp [htag, hlen, nnbSF2, nnbSF3, hp, npgUTC, npgGGTO, hggto]

/-- Sample instance: with time offset emission disabled and every other
toggle on, the sample page 2 frames with the unknown selectors 4 and 7, and
the sample page 1 frame, are accepted and nothing is appended. -/
theorem addData_time_offset_disabled_witness :
    unsignedValue ((sampleSubframe3 2 7).field 14 3) = 7
    ∧ ((sampleFactory true true true false).addData (sampleSubframe3 2 7) [] = (true, []))
    ∧ ((sampleFactory true true true false).addData (sampleSubframe3 2 4) [] = (true, []))
    ∧ ((sampleFactory true true true false).addData (sampleSubframe3 1 7) [] = (true, [])) :=
  ⟨by decide,
   (addData_time_offset_disabled _ _ _ rfl (by decide) (Or.inr (by decide)) rfl).1,
   (addData_time_offset_disabled _ _ _ rfl (by decide) (Or.inr (by decide)) rfl).1,
   (addData_time_offset_disabled _ _ _ rfl (by decide) (Or.inl (by decide)) rfl).1⟩

/-! ## Decoder: members of the messages, field by field -/

/-- A 13-bit field whose binary value is 0x1000 has the two's-complement
value -4096. -/
theorem twosComplement_sentinel (bs : List Bool) (hlen : bs.length = 13)
    (h : unsignedValue bs = 0x1000) : twosComplement bs = -4096 := by
  cases bs with
  | nil => simp at hlen
  | cons b rest =>
    have hr : rest.length = 12 := by simpa using hlen
    have hlt := unsignedValue_lt rest
    rw [hr] at hlt
    have h1 : unsignedValue (b :: rest)
        = (if b then 2 ^ rest.length else 0) + unsignedValue rest := rfl
    have h2 : twosComplement (b :: rest)
        = (if b then -(2 : Int) ^ rest.length else 0) + (unsignedValue rest : Int) := rfl
    rw [h1, hr] at h
    rw [h2, hr]
    cases b
    · simp only [Bool.false_eq_true, if_false] at h
      omega
    · simp only [if_true] at h ⊢
      omega

/-- The ephemeris decoded from a 600-bit frame: time stamp, identity, health
members and inter-signal corrections. -/
theorem decodeEph_members (f : PNBGPSCNav2DataFactory) (navIn : PackedNavBits)
    (hlen : navIn.bits.length = 600) :
    ∃ e, f.decodeEph navIn = Except.ok e
      ∧ e.timeStamp = navIn.transmitTime
      ∧ e.signal = ⟨NavSatelliteID.ofPRN navIn.satSys.id navIn.satSys navIn.obsID
          navIn.navID, NavMessageType.Ephemeris⟩
      ∧ e.healthL1C = navIn.asBool esbHeaL1C
      ∧ e.health = (if navIn.asBool esbHeaL1C then SVHealth.Unhealthy else SVHealth.Healthy)
      ∧ e.iscL1CP
          = Double.val ((twosComplement (navIn.field 539 13) : ℚ) * 2 ^ (-35 : Int))
      ∧ e.iscL1CD
          = Double.val ((twosComplement (navIn.field 552 13) : ℚ) * 2 ^ (-35 : Int)) := by
  unfold decodeEph
  simp (disch := (rw [hlen]; decide)) only [asUnsignedLong_ok, asLong_ok, asUnsignedDouble_ok,
    asSignedDouble_ok, asDoubleSemiCircles_ok, pure_bind]
  have eP := signed_scaled_exact navIn 539 13 (-35) (by rw [hlen]; decide) (by decide)
    (by decide)
  have eD := signed_scaled_exact navIn 552 13 (-35) (by rw [hlen]; decide) (by decide)
    (by decide)
  by_cases hs : ((accumulate (navIn.field esbTGD enbTGD) : Int) * 1 % 2 ^ 64).toNat = 0x1000
  · rw [if_pos hs]
    exact ⟨_, rfl, rfl, rfl, rfl, rfl, eP, eD⟩
  · rw [if_neg hs]
    exact ⟨_, rfl, rfl, rfl, rfl, rfl, eP, eD⟩

/-- What `addData` appends for a 600-bit frame, given the ephemeris decoded:
the Health message spelt out, when enabled, then the ephemeris, when
enabled. -/
theorem addData_subframe2_messages (f : PNBGPSCNav2DataFactory) (navIn : PackedNavBits)
    (navOut : NavDataPtrList) (htag : navIn.navID = NavType.GPSCNAV2)
    (hlen : navIn.getNumBits = 600) (e : GPSCNav2Eph)
    (he : f.decodeEph navIn = Except.ok e) :
    f.addData navIn navOut
      = (true, navOut
          ++ (if f.base.processHea then
                [NavData.Health
                  ⟨navIn.transmitTime,
                   ⟨NavSatelliteID.ofPRNs navIn.satSys.id navIn.satSys.id
                      navIn.satSys.system CarrierBand.L1 TrackingCode.L1CD NavType.GPSCNAV2,
                    NavMessageType.Health⟩,
                   navIn.asBool esbHeaL1C, true⟩]
              else [])
          ++ (if f.base.processEph then [NavData.Ephemeris e] else [])) := by
  unfold addData PNBGPSCNav2DataFactory.processEph
  simp only [htag, ne_eq, not_true_eq_false, if_false, nnbSF2, hlen, if_true, he]
  cases f.base.processHea <;> cases f.base.processEph <;> simp

/-- The almanac decoded from a 274-bit frame: time stamp, semi-major axis,
inclination and health members. -/
theorem decodeAlm_members (f : PNBGPSCNav2DataFactory) (navIn : PackedNavBits)
    (subj xmit : SatID) (hlen : navIn.bits.length = 274) :
    ∃ a, f.decodeAlm navIn subj xmit = Except.ok a
      ∧ a.timeStamp = navIn.transmitTime
      ∧ a.Ahalf = Double.val ((unsignedValue (navIn.field 79 17) : ℚ) * 2 ^ (-4 : Int))
      ∧ a.A = a.Ahalf * a.Ahalf
      ∧ a.deltai
          = Double.val ((twosComplement (navIn.field 57 11) : ℚ) * 2 ^ (-14 : Int)) * f.ext.PI
      ∧ a.i0 = f.ext.refioffsetGPS + a.deltai
      ∧ a.healthL1 = navIn.asBool asbHeaL1
      ∧ a.healthL2 = navIn.asBool asbHeaL2
      ∧ a.healthL5 = navIn.asBool asbHeaL5
      ∧ a.health
          = (if navIn.asBool asbHeaL1 = false then SVHealth.Healthy else SVHealth.Unhealthy) := by
  unfold decodeAlm
  simp (disch := (rw [hlen]; decide)) only [asUnsignedLong_ok, asLong_ok, asUnsignedDouble_ok,
    asSignedDouble_ok, asDoubleSemiCircles_ok, pure_bind]
  have eA := unsigned_scaled_exact navIn 79 17 (-4) (by rw [hlen]; decide) (by decide)
  have eI := signed_scaled_exact navIn 57 11 (-14) (by rw [hlen]; decide) (by decide)
    (by decide)
  exact ⟨_, rfl, rfl, eA, rfl, by rw [← eI]; rfl, rfl, rfl, rfl, rfl, rfl⟩

/-- The time offset decoded from a 274-bit page 1 frame has the frame's
transmit time as time stamp. -/
theorem decodeUTCIono_timeStamp (navIn : PackedNavBits) (hlen : navIn.bits.length = 274) :
    ∃ p0, decodeUTCIono navIn = Except.ok p0 ∧ p0.timeStamp = navIn.transmitTime := by
  unfold decodeUTCIono
  simp (disch := (rw [hlen]; decide)) only [asUnsignedLong_ok, asLong_ok, asUnsignedDouble_ok,
    asSignedDouble_ok, pure_bind]
  exact ⟨_, rfl, rfl⟩

/-- The time offset decoded from a 274-bit page 2 frame has the frame's
transmit time as time stamp. -/
theorem decodeGGTO_timeStamp (navIn : PackedNavBits) (tgt : TimeSystem)
    (hlen : navIn.bits.length = 274) :
    ∃ p0, decodeGGTO navIn tgt = Except.ok p0 ∧ p0.timeStamp = navIn.transmitTime := by
  unfold decodeGGTO
  simp (disch := (rw [hlen]; decide)) only [asUnsignedLong_ok, asLong_ok, asUnsignedDouble_ok,
    asSignedDouble_ok, pure_bind]
  exact ⟨_, rfl, rfl⟩

/-! ## Decoder: inter-signal corrections have no reserved pattern -/

/-- Claim C35. For a 600-bit GPSCNAV2 frame decoded with ephemeris emission
enabled, the `iscL1CP` and `iscL1CD` of the Ephemeris appended are always
the two's-complement values of bits 539..551 and 552..564 times 2^-35, never
not-a-number: when the 13 raw bits are 0x1000 the value is
-4096 * 2^-35 = -2^-23.  Only `tgd` is not-a-number on that pattern (bits
526..538). -/
theorem addData_isc_no_sentinel (f : PNBGPSCNav2DataFactory) (navIn : PackedNavBits)
    (navOut : NavDataPtrList) (htag : navIn.navID = NavType.GPSCNAV2)
    (hlen : navIn.getNumBits = 600) (heph : f.base.processEph = true) :
    ∃ (hs : NavDataPtrList) (e : GPSCNav2Eph),
      f.addData navIn navOut = (true, navOut ++ hs ++ [NavData.Ephemeris e])
      ∧ e.iscL1CP = Double.val ((twosComplement (navIn.field 539 13) : ℚ) * 2 ^ (-35 : Int))
      ∧ e.iscL1CD = Double.val ((twosComplement (navIn.field 552 13) : ℚ) * 2 ^ (-35 : Int))
      ∧ e.iscL1CP ≠ Double.nan ∧ e.iscL1CD ≠ Double.nan
      ∧ (unsignedValue (navIn.field 539 13) = 0x1000 →
          e.iscL1CP = Double.val ((-4096 : ℚ) * 2 ^ (-35 : Int))
          ∧ e.iscL1CP = Double.val (-((2 : ℚ) ^ (-23 : Int))))
      ∧ (unsignedValue (navIn.field 552 13) = 0x1000 →
          e.iscL1CD = Double.val ((-4096 : ℚ) * 2 ^ (-35 : Int))
          ∧ e.iscL1CD = Double.val (-((2 : ℚ) ^ (-23 : Int))))
      ∧ (unsignedValue (navIn.field 526 13) = 0x1000 → e.tgd = Double.nan) := by
  have hl : navIn.bits.length = 600 := hlen
  obtain ⟨e, he, _, _, _, _, hP, hD⟩ := decodeEph_members f navIn hl
  obtain ⟨e2, he2, hnan, _⟩ := decodeEph_tgd f navIn hl
  have hee : e2 = e := by
    rw [he] at he2
    exact (Except.ok.inj he2).symm
  have hq : ((-4096 : Int) : ℚ) * 2 ^ (-35 : Int) = -((2 : ℚ) ^ (-23 : Int)) := by
    norm_num [zpow_neg]
  have hadd := addData_subframe2_messages f navIn navOut htag hlen e he
  rw [heph, if_pos rfl] at hadd
  refine ⟨_, e, hadd, hP, hD, ?_, ?_, ?_, ?_, ?_⟩
  · rw [hP]
    exact fun h => Double.noConfusion h
  · rw [hD]
    exact fun h => Double.noConfusion h
  · intro h
    have ht := twosComplement_sentinel (navIn.field 539 13)
      (field_length navIn 539 13 (by rw [hl]; decide)) h
    rw [hP, ht]
    exact ⟨by norm_num, by rw [hq]⟩
  · intro h
    have ht := twosComplement_sentinel (navIn.field 552 13)
      (field_length navIn 552 13 (by rw [hl]; decide)) h
    rw [hD, ht]
    exact ⟨by norm_num, by rw [hq]⟩
  · intro h
    rw [← hee]
    exact hnan h

/-- Sample instance: the synthetic frame whose two inter-signal correction
fields hold 0x1000 decodes to an Ephemeris whose `iscL1CP` and `iscL1CD` are
both -2^-23. -/
theorem addData_isc_no_sentinel_witness :
    sampleFieldsISC.frame.getNumBits = 600
    ∧ unsignedValue (sampleFieldsISC.frame.field 539 13) = 0x1000
    ∧ unsignedValue (sampleFieldsISC.frame.field 552 13) = 0x1000
    ∧ ∃ (hs : NavDataPtrList) (e : GPSCNav2Eph),
      (sampleFactory true true true true).addData sampleFieldsISC.frame []
        = (true, [] ++ hs ++ [NavData.Ephemeris e])
      ∧ e.iscL1CP = Double.val (-((2 : ℚ) ^ (-23 : Int)))
      ∧ e.iscL1CD = Double.val (-((2 : ℚ) ^ (-23 : Int))) := by
  have hlen : sampleFieldsISC.frame.getNumBits = 600 :=
    Subframe2Fields.frame_length sampleFieldsISC
  have hP : unsignedValue (sampleFieldsISC.frame.field 539 13) = 0x1000 := by
    have hf := Subframe2Fields.frame_field sampleFieldsISC esbISCL1CP
      (bitsOfInt enbISCL1CP sampleFieldsISC.ISCL1CP) (by simp [Subframe2Fields.writes])
    rw [bitsOfInt_length] at hf
    rw [show (539 : Nat) = esbISCL1CP from rfl, show (13 : Nat) = enbISCL1CP from rfl, hf]
    decide
  have hD : unsignedValue (sampleFieldsISC.frame.field 552 13) = 0x1000 := by
    have hf := Subframe2Fields.frame_field sampleFieldsISC esbISCL1CD
      (bitsOfInt enbISCL1CD sampleFieldsISC.ISCL1CD) (by simp [Subframe2Fields.writes])
    rw [bitsOfInt_length] at hf
    rw [show (552 : Nat) = esbISCL1CD from rfl, show (13 : Nat) = enbISCL1CD from rfl, hf]
    decide
  obtain ⟨hs, e, hadd, _, _, _, _, h1, h2, _⟩ :=
    addData_isc_no_sentinel (sampleFactory true true true true) sampleFieldsISC.frame []
      rfl hlen rfl
  exact ⟨hlen, hP, hD, hs, e, hadd, (h1 hP).2, (h2 hD).2⟩

/-- What `addData` appends for a 274-bit page 4 frame, given the almanac
decoded: the three Health messages spelt out, when enabled, then the
almanac, when enabled. -/
theorem addData_almanac_messages (f : PNBGPSCNav2DataFactory) (navIn : PackedNavBits)
    (navOut : NavDataPtrList) (htag : navIn.navID = NavType.GPSCNAV2)
    (hlen : navIn.getNumBits = 274) (hpage : unsignedValue (navIn.field 8 6) = 4)
    (a : GPSCNav2Alm)
    (ha : f.decodeAlm navIn ⟨toInt32 (unsignedValue (navIn.field 35 8)), navIn.satSys.system⟩
      navIn.satSys = Except.ok a) :
    f.addData navIn navOut
      = (true, navOut
          ++ (if f.base.processHea then
                [NavData.Health
                  ⟨navIn.transmitTime, ⟨NavSatelliteID.ofSats
                    ⟨toInt32 (unsignedValue (navIn.field 35 8)), navIn.satSys.system⟩
                    navIn.satSys navIn.obsID navIn.navID, NavMessageType.Health⟩,
                    navIn.asBool asbHeaL1, false⟩,
                 NavData.Health
                  ⟨navIn.transmitTime, ⟨NavSatelliteID.ofSats
                    ⟨toInt32 (unsignedValue (navIn.field 35 8)), navIn.satSys.system⟩
                    navIn.satSys ⟨ObservationType.NavMsg, CarrierBand.L2, TrackingCode.L2CM⟩
                    NavType.GPSCNAVL2, NavMessageType.Health⟩, navIn.asBool asbHeaL2, false⟩,
                 NavData.Health
                  ⟨navIn.transmitTime, ⟨NavSatelliteID.ofSats
                    ⟨toInt32 (unsignedValue (navIn.field 35 8)), navIn.satSys.system⟩
                    navIn.satSys ⟨ObservationType.NavMsg, CarrierBand.L5, TrackingCode.L5I⟩
                    NavType.GPSCNAVL5, NavMessageType.Health⟩, navIn.asBool asbHeaL5, false⟩]
              else [])
          ++ (if f.base.processAlm then [NavData.Almanac a] else [])) := by
  have hl : navIn.bits.length = 274 := hlen
  have hprn : navIn.asUnsignedLong asbPRNa anbPRNa ascPRNa
      = Except.ok (unsignedValue (navIn.field 35 8)) :=
    asUnsignedLong_scale_one navIn 35 8 (by rw [hl]; decide) (by decide)
  unfold addData processAlmOrb
  rw [hprn]
  simp only [htag, ne_eq, not_true_eq_false, if_false, nnbSF2, nnbSF3, hlen,
    pageNum_eq navIn hl, npgUTC, npgGGTO, npgMAlm, hpage, ha]
  cases f.base.processHea <;> cases f.base.processAlm <;> simp

/-! ## Decoder: identities and health of the subframe 2 messages -/

/-- Claim C36. For a 600-bit GPSCNAV2 frame decoded with health and
ephemeris emission enabled, the Health message appended has carrier band L1,
tracking code L1CD and format GPSCNAV2, whatever carrier and code the frame
reports, and its subject and transmitting satellite are the frame's
satellite.  The Ephemeris appended has the frame's carrier, code and format,
and the same two satellites.  The two identities have the same carrier and
code exactly when the frame reports L1 and L1CD. -/
theorem addData_subframe2_identities (f : PNBGPSCNav2DataFactory) (navIn : PackedNavBits)
    (navOut : NavDataPtrList) (htag : navIn.navID = NavType.GPSCNAV2)
    (hlen : navIn.getNumBits = 600) (hhea : f.base.processHea = true)
    (heph : f.base.processEph = true) :
    ∃ (h : GPSCNav2Health) (e : GPSCNav2Eph),
      f.addData navIn navOut = (true, navOut ++ [NavData.Health h, NavData.Ephemeris e])
      ∧ h.signal.messageType = NavMessageType.Health
      ∧ h.signal.satID.obs.band = CarrierBand.L1
      ∧ h.signal.satID.obs.code = TrackingCode.L1CD
      ∧ h.signal.satID.nav = NavType.GPSCNAV2
      ∧ h.signal.satID.sat = navIn.satSys
      ∧ h.signal.satID.xmitSat = navIn.satSys
      ∧ e.signal.messageType = NavMessageType.Ephemeris
      ∧ e.signal.satID.obs = navIn.obsID
      ∧ e.signal.satID.nav = NavType.GPSCNAV2
      ∧ e.signal.satID.sat = navIn.satSys
      ∧ e.signal.satID.xmitSat = navIn.satSys
      ∧ ((h.signal.satID.obs.band = e.signal.satID.obs.band
            ∧ h.signal.satID.obs.code = e.signal.satID.obs.code)
          ↔ (navIn.obsID.band = CarrierBand.L1 ∧ navIn.obsID.code = TrackingCode.L1CD)) := by
  obtain ⟨e, he, _, hsig, _⟩ := decodeEph_members f navIn hlen
  have hadd := addData_subframe2_messages f navIn navOut htag hlen e he
  rw [hhea, heph, if_pos rfl, if_pos rfl, List.append_assoc] at hadd
  refine ⟨_, e, hadd, rfl, rfl, rfl, rfl, rfl, rfl, ?_, ?_, ?_, ?_, ?_, ?_⟩
  · rw [hsig]
  · rw [hsig]; rfl
  · rw [hsig]; exact htag
  · rw [hsig]; rfl
  · rw [hsig]; rfl
  · rw [hsig]
    show (CarrierBand.L1 = navIn.obsID.band ∧ TrackingCode.L1CD = navIn.obsID.code) ↔ _
    constructor
    · rintro ⟨h1, h2⟩
      exact ⟨h1.symm, h2.symm⟩
    · rintro ⟨h1, h2⟩
      exact ⟨h1.symm, h2.symm⟩

/-- Sample instance: the all-ones frame of GPS satellite 5 reported on L2 /
L2CM yields a Health message on L1 / L1CD and an Ephemeris on L2 / L2CM,
both about satellite 5. -/
theorem addData_subframe2_identities_witness :
    sampleSubframe2L2.obsID.band = CarrierBand.L2
    ∧ ∃ (h : GPSCNav2Health) (e : GPSCNav2Eph),
      (sampleFactory true true true true).addData sampleSubframe2L2 []
        = (true, [] ++ [NavData.Health h, NavData.Ephemeris e])
      ∧ h.signal.satID.obs.band = CarrierBand.L1
      ∧ h.signal.satID.obs.code = TrackingCode.L1CD
      ∧ e.signal.satID.obs.band = CarrierBand.L2
      ∧ e.signal.satID.obs.code = TrackingCode.L2CM
      ∧ h.signal.satID.sat = ⟨5, SatelliteSystem.GPS⟩
      ∧ e.signal.satID.sat = ⟨5, SatelliteSystem.GPS⟩ := by
  obtain ⟨h, e, hadd, _, h1, h2, _, h4, _, _, h5, _, h6, _, _⟩ :=
    addData_subframe2_identities (sampleFactory true true true true) sampleSubframe2L2 []
      rfl (by decide) rfl rfl
  refine ⟨rfl, h, e, hadd, h1, h2, ?_, ?_, h4, h6⟩
  · rw [h5]; rfl
  · rw [h5]; rfl

/-- Claim C37. For a 600-bit GPSCNAV2 frame decoded with health and
ephemeris emission enabled, the flag of the Health message, the `healthL1C`
flag of the Ephemeris and bit 32 of the frame are equal; the rolled-up
health of the Ephemeris is `Unhealthy` exactly when that bit is 1 and
`Healthy` exactly when it is 0, and it is never `Degraded`, `Unknown` or
`Any`. -/
theorem addData_subframe2_health_bit (f : PNBGPSCNav2DataFactory) (navIn : PackedNavBits)
    (navOut : NavDataPtrList) (htag : navIn.navID = NavType.GPSCNAV2)
    (hlen : navIn.getNumBits = 600) (hhea : f.base.processHea = true)
    (heph : f.base.processEph = true) :
    ∃ (h : GPSCNav2Health) (e : GPSCNav2Eph),
      f.addData navIn navOut = (true, navOut ++ [NavData.Health h, NavData.Ephemeris e])
      ∧ navIn.bits[32]? = some h.health
      ∧ e.healthL1C = h.health
      ∧ (e.health = SVHealth.Unhealthy ↔ navIn.bits[32]? = some true)
      ∧ (e.health = SVHealth.Healthy ↔ navIn.bits[32]? = some false)
      ∧ e.health ≠ SVHealth.Degraded ∧ e.health ≠ SVHealth.Unknown
      ∧ e.health ≠ SVHealth.Any := by
  have hl : navIn.bits.length = 600 := hlen
  obtain ⟨e, he, _, _, hflag, hroll, _⟩ := decodeEph_members f navIn hl
  have hadd := addData_subframe2_messages f navIn navOut htag hlen e he
  rw [hhea, heph, if_pos rfl, if_pos rfl, List.append_assoc] at hadd
  have hbit : navIn.bits[32]? = some (navIn.asBool esbHeaL1C) :=
    asBool_eq navIn 32 (by rw [hl]; decide)
  refine ⟨_, e, hadd, hbit, hflag, ?_, ?_, ?_, ?_, ?_⟩ <;> rw [hroll] <;>
    (try rw [hbit]) <;> cases navIn.asBool esbHeaL1C <;> simp

/-- Sample instance: bit 32 of the all-ones sample frame is 1; the Health
message and the Ephemeris both carry the flag, and the Ephemeris is
unhealthy. -/
theorem addData_subframe2_health_bit_witness :
    sampleSubframe2.bits[32]? = some true
    ∧ ∃ (h : GPSCNav2Health) (e : GPSCNav2Eph),
      (sampleFactory true true true true).addData sampleSubframe2 []
        = (true, [] ++ [NavData.Health h, NavData.Ephemeris e])
      ∧ h.health = true ∧ e.healthL1C = true ∧ e.health = SVHealth.Unhealthy := by
  have hb : sampleSubframe2.bits[32]? = some true := by decide
  obtain ⟨h, e, hadd, h1, h2, h3, _⟩ :=
    addData_subframe2_health_bit (sampleFactory true true true true) sampleSubframe2 []
      rfl (by decide) rfl rfl
  have hh : h.health = true := by
    rw [hb] at h1
    exact (Option.some.inj h1).symm
  exact ⟨hb, h, e, hadd, hh, h2.trans hh, h3.2 hb⟩

/-! ## Decoder: derived quantities of the almanac -/

/-- Claim C38. For a 274-bit GPSCNAV2 page 4 frame decoded with almanac
emission enabled, the Almanac appended has `Ahalf` equal to the unsigned
value of bits 79..95 times 2^-4 and `A = Ahalf * Ahalf`; `deltai` equal to
the two's-complement value of bits 57..67 times 2^-14 times pi and
`i0 = refioffsetGPS + deltai`; its three health flags are bits 43, 44 and
45, and its rolled-up health is `Healthy` exactly when bit 43 is 0 and
`Unhealthy` exactly when bit 43 is 1, whatever bits 44 and 45 are. -/
theorem addData_almanac_derived (f : PNBGPSCNav2DataFactory) (navIn : PackedNavBits)
    (navOut : NavDataPtrList) (htag : navIn.navID = NavType.GPSCNAV2)
    (hlen : navIn.getNumBits = 274) (hpage : unsignedValue (navIn.field 8 6) = 4)
    (halm : f.base.processAlm = true) :
    ∃ (hs : NavDataPtrList) (a : GPSCNav2Alm),
      f.addData navIn navOut = (true, navOut ++ hs ++ [NavData.Almanac a])
      ∧ a.Ahalf = Double.val ((unsignedValue (navIn.field 79 17) : ℚ) * 2 ^ (-4 : Int))
      ∧ a.A = a.Ahalf * a.Ahalf
      ∧ a.deltai
          = Double.val ((twosComplement (navIn.field 57 11) : ℚ) * 2 ^ (-14 : Int)) * f.ext.PI
      ∧ a.i0 = f.ext.refioffsetGPS + a.deltai
      ∧ navIn.bits[43]? = some a.healthL1
      ∧ navIn.bits[44]? = some a.healthL2
      ∧ navIn.bits[45]? = some a.healthL5
      ∧ (a.health = SVHealth.Healthy ↔ navIn.bits[43]? = some false)
      ∧ (a.health = SVHealth.Unhealthy ↔ navIn.bits[43]? = some true) := by
  have hl : navIn.bits.length = 274 := hlen
  obtain ⟨a, ha, _, hAhalf, hA, hdi, hi0, h1, h2, h5, hroll⟩ := decodeAlm_members f navIn
    ⟨toInt32 (unsignedValue (navIn.field 35 8)), navIn.satSys.system⟩ navIn.satSys hl
  have hadd := addData_almanac_messages f navIn navOut htag hlen hpage a ha
  rw [halm, if_pos rfl] at hadd
  have hb1 : navIn.bits[43]? = some (navIn.asBool asbHeaL1) :=
    asBool_eq navIn 43 (by rw [hl]; decide)
  refine ⟨_, a, hadd, hAhalf, hA, hdi, hi0, ?_, ?_, ?_, ?_, ?_⟩
  · rw [h1]; exact hb1
  · rw [h2]; exact asBool_eq navIn 44 (by rw [hl]; decide)
  · rw [h5]; exact asBool_eq navIn 45 (by rw [hl]; decide)
  · rw [hroll, hb1]
    cases navIn.asBool asbHeaL1 <;> simp
  · rw [hroll, hb1]
    cases navIn.asBool asbHeaL1 <;> simp

/-- Sample instance: in the sample page 4 frame the Ahalf field is all ones
(131071) and the three health bits are 1; the Almanac has
`Ahalf = 131071 / 16`, `A = Ahalf * Ahalf`, and is unhealthy. -/
theorem addData_almanac_derived_witness :
    unsignedValue ((sampleSubframe3 4 0).field 79 17) = 131071
    ∧ (sampleSubframe3 4 0).bits[43]? = some true
    ∧ ∃ (hs : NavDataPtrList) (a : GPSCNav2Alm),
      (sampleFactory true true true true).addData (sampleSubframe3 4 0) []
        = (true, [] ++ hs ++ [NavData.Almanac a])
      ∧ a.Ahalf = Double.val (131071 / 16)
      ∧ a.A = Double.val (131071 / 16 * (131071 / 16))
      ∧ a.health = SVHealth.Unhealthy := by
  have hv : unsignedValue ((sampleSubframe3 4 0).field 79 17) = 131071 := by decide
  have hb : (sampleSubframe3 4 0).bits[43]? = some true := by decide
  obtain ⟨hs, a, hadd, h1, h2, _, _, _, _, _, _, h3⟩ :=
    addData_almanac_derived (sampleFactory true true true true) (sampleSubframe3 4 0) []
      rfl (by decide) (by decide) rfl
  have hAhalf : a.Ahalf = Double.val (131071 / 16) := by
    rw [h1, hv]
    norm_num [zpow_neg]
  refine ⟨hv, hb, hs, a, hadd, hAhalf, ?_, h3.2 hb⟩
  have hx := Double.roundNearestEven_exact 17179607041 (-8) (by norm_num)
  have hq : ((17179607041 : Int) : ℚ) * 2 ^ (-8 : Int) = 131071 / 16 * (131071 / 16) := by
    norm_num [zpow_neg]
  rw [hq] at hx
  rw [h2, hAhalf, Double.val_mul, hx]

/-! ## Decoder: what one call appends -/

/-- On a 600-bit frame `processEph` appends at most two messages, stamped
with the transmit time. -/
theorem processEph_added (f : PNBGPSCNav2DataFactory) (navIn : PackedNavBits)
    (navOut : NavDataPtrList) (hlen : navIn.bits.length = 600) :
    ∃ added : NavDataPtrList, (f.processEph navIn navOut).2 = navOut ++ added
      ∧ added.length ≤ 4 ∧ ∀ m ∈ added, m.timeStamp = navIn.transmitTime := by
  obtain ⟨e, he, hts, _⟩ := decodeEph_members f navIn hlen
  refine ⟨(f.processEph navIn []).2, by rw [processEph_append f navIn navOut], ?_, ?_⟩
  · unfold PNBGPSCNav2DataFactory.processEph
    rw [he]
    cases f.base.processHea <;> cases f.base.processEph <;> simp
  · unfold PNBGPSCNav2DataFactory.processEph
    rw [he]
    cases f.base.processHea <;> cases f.base.processEph <;> simp [NavData.timeStamp, hts]

/-- On a 274-bit frame `processUTCIono` appends at most one message, stamped
with the transmit time. -/
theorem processUTCIono_added (f : PNBGPSCNav2DataFactory) (navIn : PackedNavBits)
    (navOut : NavDataPtrList) (hlen : navIn.bits.length = 274) :
    ∃ added : NavDataPtrList, (f.processUTCIono navIn navOut).2 = navOut ++ added
      ∧ added.length ≤ 4 ∧ ∀ m ∈ added, m.timeStamp = navIn.transmitTime := by
  obtain ⟨t, ht, hts⟩ := decodeUTCIono_timeStamp navIn hlen
  refine ⟨(f.processUTCIono navIn []).2, by rw [processUTCIono_append f navIn navOut], ?_, ?_⟩
  · unfold processUTCIono
    rw [ht]
    cases f.base.processTim <;> simp
  · unfold processUTCIono
    rw [ht]
    cases f.base.processTim <;> simp [NavData.timeStamp, hts]

/-- On a 274-bit frame `processGGTOEOP` appends at most one message, stamped
with the transmit time. -/
theorem processGGTOEOP_added (f : PNBGPSCNav2DataFactory) (navIn : PackedNavBits)
    (navOut : NavDataPtrList) (hlen : navIn.bits.length = 274) :
    ∃ added : NavDataPtrList, (f.processGGTOEOP navIn navOut).2 = navOut ++ added
      ∧ added.length ≤ 4 ∧ ∀ m ∈ added, m.timeStamp = navIn.transmitTime := by
  have hfin : ∀ tgt,
      ((match decodeGGTO navIn tgt with
        | Except.error exc => ((Except.error exc, []) : Outcome)
        | Except.ok p0 => (Except.ok true, [] ++ [NavData.TimeOffset p0])).2.length ≤ 4)
      ∧ ∀ m ∈ (match decodeGGTO navIn tgt with
        | Except.error exc => ((Except.error exc, []) : Outcome)
        | Except.ok p0 => (Except.ok true, [] ++ [NavData.TimeOffset p0])).2,
          m.timeStamp = navIn.transmitTime := by
    intro tgt
    obtain ⟨t, ht, hts⟩ := decodeGGTO_timeStamp navIn tgt hlen
    rw [ht]
    exact ⟨by simp, by simp [NavData.timeStamp, hts]⟩
  refine ⟨(f.processGGTOEOP navIn []).2, by rw [processGGTOEOP_append f navIn navOut], ?_⟩
  unfold processGGTOEOP
  rw [gnssID_eq navIn hlen]
  cases f.base.processTim
  · simp
  · simp only [Bool.not_true, Bool.false_eq_true, if_false]
    split
    · simp
    · exact hfin TimeSystem.GAL
    · exact hfin TimeSystem.GLO
    · exact hfin TimeSystem.QZS
    · simp

/-- On a 274-bit frame `processAlmOrb` appends at most four messages,
stamped with the transmit time. -/
theorem processAlmOrb_added (f : PNBGPSCNav2DataFactory) (navIn : PackedNavBits)
    (navOut : NavDataPtrList) (hlen : navIn.bits.length = 274) :
    ∃ added : NavDataPtrList, (f.processAlmOrb navIn navOut).2 = navOut ++ added
      ∧ added.length ≤ 4 ∧ ∀ m ∈ added, m.timeStamp = navIn.transmitTime := by
  have hprn : navIn.asUnsignedLong asbPRNa anbPRNa ascPRNa
      = Except.ok (unsignedValue (navIn.field 35 8)) :=
    asUnsignedLong_scale_one navIn 35 8 (by rw [hlen]; decide) (by decide)
  obtain ⟨a, ha, hts, _⟩ := decodeAlm_members f navIn
    ⟨toInt32 (unsignedValue (navIn.field 35 8)), navIn.satSys.system⟩ navIn.satSys hlen
  refine ⟨(f.processAlmOrb navIn []).2, by rw [processAlmOrb_append f navIn navOut], ?_, ?_⟩
  · unfold processAlmOrb
    rw [hprn]
    simp only [ha]
    cases f.base.processHea <;> cases f.base.processAlm <;> simp
  · unfold processAlmOrb
    rw [hprn]
    simp only [ha]
    cases f.base.processHea <;> cases f.base.processAlm <;> simp [NavData.timeStamp, hts]

/-- The output list `addData` returns is the one it was given, or the one
the page decoder selected by the bit length and the page number returns. -/
theorem dispatch_snd (navID : NavType) (numBits : Nat) (pageNum : Except Exception Nat)
    (eph utc ggto alm : Outcome) (navOut : NavDataPtrList) :
    (dispatch navID numBits pageNum eph utc ggto alm navOut).2 = navOut
    ∨ (numBits = nnbSF2
        ∧ (dispatch navID numBits pageNum eph utc ggto alm navOut).2 = eph.2)
    ∨ (numBits = nnbSF3
        ∧ ((dispatch navID numBits pageNum eph utc ggto alm navOut).2 = utc.2
          ∨ (dispatch navID numBits pageNum eph utc ggto alm navOut).2 = ggto.2
          ∨ (dispatch navID numBits pageNum eph utc ggto alm navOut).2 = alm.2)) := by
  unfold dispatch
  by_cases htag : navID ≠ NavType.GPSCNAV2
  · rw [if_pos htag]
    exact Or.inl rfl
  · rw [if_neg htag]
    dsimp only
    by_cases h2 : numBits = nnbSF2
    · rw [if_pos h2]
      refine Or.inr (Or.inl ⟨h2, ?_⟩)
      rcases eph with ⟨r, out⟩
      cases r <;> rfl
    · rw [if_neg h2]
      by_cases h3 : numBits = nnbSF3
      · rw [if_pos h3]
        cases pageNum with
        | error exc => exact Or.inl rfl
        | ok p =>
          dsimp only
          by_cases p1 : p = npgUTC
          · rw [if_pos p1]
            refine Or.inr (Or.inr ⟨h3, Or.inl ?_⟩)
            rcases utc with ⟨r, out⟩
            cases r <;> rfl
          · rw [if_neg p1]
            by_cases p2 : p = npgGGTO
            · rw [if_pos p2]
              refine Or.inr (Or.inr ⟨h3, Or.inr (Or.inl ?_)⟩)
              rcases ggto with ⟨r, out⟩
              cases r <;> rfl
            · rw [if_neg p2]
              by_cases p4 : p = npgMAlm
              · rw [if_pos p4]
                refine Or.inr (Or.inr ⟨h3, Or.inr (Or.inr ?_)⟩)
                rcases alm with ⟨r, out⟩
                cases r <;> rfl
              · rw [if_neg p4]
                exact Or.inl rfl
      · rw [if_neg h3]
        exact Or.inl rfl

/-- Claim C39. For every frame and every setting of the toggles, the output
list after `addData` is the output list before, kept in place, followed by
the messages appended; at most four messages are appended, and each of them
has the frame's transmit time as time stamp. -/
theorem addData_appends_stamped (f : PNBGPSCNav2DataFactory) (navIn : PackedNavBits)
    (navOut : NavDataPtrList) :
    ∃ added : NavDataPtrList, (f.addData navIn navOut).2 = navOut ++ added
      ∧ added.length ≤ 4 ∧ ∀ m ∈ added, m.timeStamp = navIn.transmitTime := by
  rw [addData_eq_dispatch]
  rcases dispatch_snd navIn.navID navIn.getNumBits
    (navIn.asUnsignedLong asbPage anbPage ascPage) (f.processEph navIn navOut)
    (f.processUTCIono navIn navOut) (f.processGGTOEOP navIn navOut)
    (f.processAlmOrb navIn navOut) navOut with h | ⟨hl, h⟩ | ⟨hl, h | h | h⟩
  · rw [h]
    exact ⟨[], by simp, by simp, by simp⟩
  · rw [h]
    exact processEph_added f navIn navOut hl
  · rw [h]
    exact processUTCIono_added f navIn navOut hl
  · rw [h]
    exact processGGTOEOP_added f navIn navOut hl
  · rw [h]
    exact processAlmOrb_added f navIn navOut hl

/-- Sample instance: with every toggle on, the sample page 4 frame adds four
messages after the one already in the list, all stamped with the transmit
time 1000 of the frame. -/
theorem addData_appends_stamped_witness :
    (sampleSubframe3 4 0).transmitTime = 1000
    ∧ (((sampleFactory true true true true).addData (sampleSubframe3 4 0)
        [NavData.Health sampleHealth]).2.length = 5)
    ∧ ∃ added : NavDataPtrList,
      ((sampleFactory true true true true).addData (sampleSubframe3 4 0)
        [NavData.Health sampleHealth]).2 = [NavData.Health sampleHealth] ++ added
      ∧ added.length ≤ 4 ∧ ∀ m ∈ added, m.timeStamp = 1000 :=
  ⟨rfl, by decide,
   addData_appends_stamped (sampleFactory true true true true) (sampleSubframe3 4 0)
     [NavData.Health sampleHealth]⟩

/-! ## Stores with file loading: the type filter -/

namespace NavDataFactoryWithStore

/-- A message of the store after `addNavData` was in the store before, or is
the message added. -/
theorem addNavData_mem (M : NavDataMethods) (s : NavDataFactoryWithStore) (nd m : NavData)
    (h : m ∈ (s.addNavData M nd).data) : m ∈ s.data ∨ m = nd := by
  unfold addNavData at h
  simp only [List.mem_append, List.mem_filter, List.mem_singleton] at h
  rcases h with h | h
  · exact Or.inl h.1
  · exact Or.inr h

/-- A message of the store after a list of messages was added was in the
store before, or is one of the messages added. -/
theorem foldl_addNavData_mem (M : NavDataMethods) (msgs : List NavData)
    (s : NavDataFactoryWithStore) (m : NavData)
    (h : m ∈ (msgs.foldl (fun s nd => s.addNavData M nd) s).data) :
    m ∈ s.data ∨ m ∈ msgs := by
  induction msgs generalizing s with
  | nil => exact Or.inl h
  | cons nd rest ih =>
    rw [List.foldl_cons] at h
    rcases ih _ h with h1 | h1
    · rcases addNavData_mem M s nd m h1 with h2 | h2
      · exact Or.inl h2
      · exact Or.inr (h2 ▸ List.mem_cons_self _ _)
    · exact Or.inr (List.mem_cons_of_mem _ h1)

/-- Adding no message leaves the store as it was. -/
theorem foldl_addNavData_nil (M : NavDataMethods) (s : NavDataFactoryWithStore) :
    (([] : List NavData).foldl (fun s nd => s.addNavData M nd) s) = s := rfl

end NavDataFactoryWithStore

/-- The distinct values of a list whose members all equal `t` are none, or
`t` alone. -/
theorem dedup_of_all_eq (l : List NavMessageType) (t : NavMessageType)
    (h : ∀ x ∈ l, x = t) : l.dedup = [] ∨ l.dedup = [t] := by
  have hn := List.nodup_dedup l
  have hall : ∀ x ∈ l.dedup, x = t := fun x hx => h x (List.mem_dedup.1 hx)
  rcases hd : l.dedup with _ | ⟨a, _ | ⟨b, rest⟩⟩
  · exact Or.inl rfl
  · rw [hd] at hall
    rw [hall a (List.mem_cons_self _ _)]
    exact Or.inr rfl
  · rw [hd] at hall hn
    have ha := hall a (List.mem_cons_self _ _)
    have hb := hall b (List.mem_cons_of_mem _ (List.mem_cons_self _ _))
    rw [ha, hb] at hn
    simp at hn

namespace MultiFormatNavDataFactory

/-- The loop of `setTypeFilter` over rows of distinct stores sets the filter
of the store of each row and leaves every other configuration alone. -/
theorem setTypeFilter_foldl (nmts : NavMessageTypeSet) (rows : NavDataFactoryMap)
    (bases : BaseHeap) (p : NavDataFactoryPtr) :
    (rows.foldl (fun b i => b.set i.2 ((b i.2).setTypeFilter nmts)) bases p).navValidity
      = (bases p).navValidity
    ∧ (p ∈ rows.map Prod.snd →
        (rows.foldl (fun b i => b.set i.2 ((b i.2).setTypeFilter nmts)) bases p).procNavTypes
          = nmts)
    ∧ (p ∉ rows.map Prod.snd →
        rows.foldl (fun b i => b.set i.2 ((b i.2).setTypeFilter nmts)) bases p = bases p) := by
  induction rows generalizing bases with
  | nil => exact ⟨rfl, fun h => absurd h (List.not_mem_nil _), fun _ => rfl⟩
  | cons fi rest ih =>
    rw [List.foldl_cons]
    obtain ⟨h1, h2, h3⟩ := ih (bases.set fi.2 ((bases fi.2).setTypeFilter nmts))
    have hset : (bases.set fi.2 ((bases fi.2).setTypeFilter nmts) p).navValidity
        = (bases p).navValidity := by
      unfold BaseHeap.set
      split_ifs with hq
      · rw [hq]; rfl
      · rfl
    refine ⟨h1.trans hset, ?_, ?_⟩
    · intro hp
      by_cases hr : p ∈ rest.map Prod.snd
      · exact h2 hr
      · rw [h3 hr]
        have hq : p = fi.2 := by
          simp only [List.map_cons, List.mem_cons] at hp
          rcases hp with hp | hp
          · exact hp
          · exact absurd hp hr
        unfold BaseHeap.set
        rw [if_pos hq]
        rfl
    · intro hp
      simp only [List.map_cons, List.mem_cons, not_or] at hp
      rw [h3 hp.2]
      unfold BaseHeap.set
      rw [if_neg hp.1]

end MultiFormatNavDataFactory

namespace NavDataFactoryWithStoreFile

/-- Claim C32. After `setTypeFilter({T})` on a store with file loading, let
`addDataSource` succeed.  Every message of the store afterwards was in the
store before or has message type `T`.  When the store was empty before,
every message in it has type `T`, so the message types present are none or
`T` alone, and the store is still empty when the source holds no message of
type `T`.  The federation's `setTypeFilter({T})` sets that filter on every
registered store. -/
theorem addDataSource_type_filter (M : NavDataMethods) (read : SourceReader)
    (fs fs2 : NavDataFactoryWithStoreFile) (T : NavMessageType) (source : String)
    (hload : (fs.setTypeFilter [T]).addDataSource M read source = (true, fs2)) :
    (∀ m ∈ fs2.store.data, m ∈ fs.store.data ∨ m.signal.messageType = T)
    ∧ (fs.store.data = [] →
        (∀ m ∈ fs2.store.data, m.signal.messageType = T)
        ∧ ((fs2.store.data.map (fun m => m.signal.messageType)).dedup = []
          ∨ (fs2.store.data.map (fun m => m.signal.messageType)).dedup = [T]))
    ∧ (fs.store.data = [] →
        (∀ msgs, read source = some msgs → ∀ m ∈ msgs, m.signal.messageType ≠ T) →
        fs2.store.data = [])
    ∧ (∀ (factories : NavDataFactoryMap) (bases : BaseHeap),
        ∀ p ∈ factories.map Prod.snd,
          (MultiFormatNavDataFactory.setTypeFilter factories bases [T] p).procNavTypes
            = [T]) := by
  have hwanted : ∀ m, wanted M (fs.setTypeFilter [T]) m = true → m.signal.messageType = T := by
    intro m hm
    unfold wanted setTypeFilter NavDataFactory.setTypeFilter at hm
    simp only [Bool.and_eq_true, List.contains_iff_exists_mem_beq, List.mem_singleton,
      exists_eq_left, beq_iff_eq] at hm
    exact hm.1
  have hfed : ∀ (factories : NavDataFactoryMap) (bases : BaseHeap),
      ∀ p ∈ factories.map Prod.snd,
        (MultiFormatNavDataFactory.setTypeFilter factories bases [T] p).procNavTypes
          = [T] := by
    intro factories bases p hp
    exact (MultiFormatNavDataFactory.setTypeFilter_foldl [T] (NDFUniqIterator factories)
      bases p).2.1 ((NDFUniqIterator.mem_snd factories p).2 hp)
  unfold addDataSource at hload
  rcases hread : read source with _ | msgs
  · rw [hread] at hload
    cases hload
  · rw [hread] at hload
    have hfs2 : fs2.store
        = (msgs.filter (wanted M (fs.setTypeFilter [T]))).foldl
            (fun s nd => s.addNavData M nd) fs.store := by
      have := (Prod.mk.inj hload).2
      rw [← this]
      rfl
    have hmem : ∀ m ∈ fs2.store.data, m ∈ fs.store.data ∨ m.signal.messageType = T := by
      intro m hm
      rw [hfs2] at hm
      rcases NavDataFactoryWithStore.foldl_addNavData_mem M _ _ m hm with h | h
      · exact Or.inl h
      · exact Or.inr (hwanted m (List.mem_filter.1 h).2)
    have hall : fs.store.data = [] → ∀ m ∈ fs2.store.data, m.signal.messageType = T := by
      intro hempty m hm
      rcases hmem m hm with h | h
      · rw [hempty] at h
        exact absurd h (List.not_mem_nil _)
      · exact h
    refine ⟨hmem, ?_, ?_, hfed⟩
    · intro hempty
      refine ⟨hall hempty, dedup_of_all_eq _ T ?_⟩
      intro x hx
      obtain ⟨m, hm, rfl⟩ := List.mem_map.1 hx
      exact hall hempty m hm
    · intro hempty hnone
      have hfil : msgs.filter (wanted M (fs.setTypeFilter [T])) = [] := by
        rw [List.filter_eq_nil_iff]
        intro m hm hw
        exact hnone msgs rfl m hm (hwanted m hw)
      rw [hfs2, hfil]
      exact hempty

/-- Sample instance: the sample source holds two Health messages and one time
offset message.  After `setTypeFilter({Health})` the empty sample store
loads the two Health messages; after `setTypeFilter({Almanac})` the load
succeeds and the store stays empty; a source in another format is
refused. -/
theorem addDataSource_type_filter_witness :
    (((sampleFileStore.setTypeFilter [NavMessageType.Health]).addDataSource sampleMethods
        sampleSourceReader "nav").1 = true)
    ∧ (((sampleFileStore.setTypeFilter [NavMessageType.Health]).addDataSource sampleMethods
        sampleSourceReader "nav").2.store.data.map (fun m => m.signal.messageType)
        = [NavMessageType.Health, NavMessageType.Health])
    ∧ (∀ m ∈ ((sampleFileStore.setTypeFilter [NavMessageType.Health]).addDataSource
        sampleMethods sampleSourceReader "nav").2.store.data,
        m.signal.messageType = NavMessageType.Health)
    ∧ (((sampleFileStore.setTypeFilter [NavMessageType.Almanac]).addDataSource sampleMethods
        sampleSourceReader "nav").1 = true)
    ∧ (((sampleFileStore.setTypeFilter [NavMessageType.Almanac]).addDataSource sampleMethods
        sampleSourceReader "nav").2.store.size = 0)
    ∧ (((sampleFileStore.setTypeFilter [NavMessageType.Health]).addDataSource sampleMethods
        sampleSourceReader "sp3").1 = false) :=
  ⟨by decide, by decide,
   ((addDataSource_type_filter sampleMethods sampleSourceReader sampleFileStore
      ((sampleFileStore.setTypeFilter [NavMessageType.Health]).addDataSource sampleMethods
        sampleSourceReader "nav").2 NavMessageType.Health "nav" rfl).2.1 rfl).1,
   by decide, by decide, by decide⟩

end NavDataFactoryWithStoreFile

/-! ## Federation: only `addFactory` changes the registry -/

namespace MultiFormatNavDataFactory

/-- A call other than `addFactory` leaves the registry as it was. -/
theorem step_factories (env : FederationEnv) (w : FederationState) (c : FederationCall)
    (h : c.isAddFactory = false) : (step env w c).factories = w.factories := by
  cases c <;> first | rfl | exact absurd h Bool.noConfusion

/-- `addFactory` keeps the rows of the registry, in their order. -/
theorem addFactory_sublist (cmp : SignalCompare) (heap : FactoryHeap)
    (factories : NavDataFactoryMap) (fact : NavDataFactoryPtr) :
    factories.Sublist (addFactory cmp heap factories fact).2 := by
  unfold addFactory
  dsimp only
  split_ifs
  · exact List.Sublist.refl _
  · exact List.Sublist.refl _
  · exact foldl_insert_sublist cmp fact _ factories

/-- Every call keeps the rows of the registry, in their order. -/
theorem step_sublist (env : FederationEnv) (w : FederationState) (c : FederationCall) :
    w.factories.Sublist (step env w c).factories := by
  by_cases h : c.isAddFactory = false
  · rw [step_factories env w c h]
  · cases c <;> first | exact absurd rfl h | exact addFactory_sublist _ _ _ _

/-- A sequence of calls keeps the rows of the registry, in their order. -/
theorem run_sublist (env : FederationEnv) (calls : List FederationCall)
    (w : FederationState) : w.factories.Sublist (run env w calls).factories := by
  induction calls generalizing w with
  | nil => exact List.Sublist.refl _
  | cons c rest ih =>
    unfold run
    rw [List.foldl_cons]
    exact (step_sublist env w c).trans (ih (step env w c))

/-- A sequence of calls without `addFactory` leaves the registry as it
was. -/
theorem run_factories (env : FederationEnv) (calls : List FederationCall)
    (w : FederationState) (h : ∀ c ∈ calls, c.isAddFactory = false) :
    (run env w calls).factories = w.factories := by
  induction calls generalizing w with
  | nil => rfl
  | cons c rest ih =>
    unfold run
    rw [List.foldl_cons]
    have h1 := ih (step env w c) (fun c2 hc2 => h c2 (List.mem_cons_of_mem _ hc2))
    unfold run at h1
    rw [h1, step_factories env w c (h c (List.mem_cons_self _ _))]

/-- Claim C40. `find`, `getOffset`, `clear`, the three overloads of `edit`,
the two filter setters, `addDataSource` and the destructor of a
`MultiFormatNavDataFactory` leave the registry exactly as it was; the
destructor does what `clear` does.  `addFactory` keeps every row in place
and only adds rows.  So after any sequence of calls every row registered
before is still registered, and after a sequence without `addFactory`, such
as `clear()` followed by the destruction of the federation object, the
registry is the same, and `find` goes through the same rows and invokes the
same stores, whatever the stores now answer. -/
theorem registry_frame (env : FederationEnv) (w : FederationState) :
    (∀ c : FederationCall, c.isAddFactory = false → (step env w c).factories = w.factories)
    ∧ step env w FederationCall.destroy = step env w FederationCall.clear
    ∧ (∀ fact, w.factories.Sublist (step env w (FederationCall.addFactory fact)).factories
        ∧ (step env w (FederationCall.addFactory fact)).stores = w.stores)
    ∧ (∀ calls : List FederationCall,
        w.factories.Sublist (run env w calls).factories
        ∧ ∀ row ∈ w.factories, row ∈ (run env w calls).factories)
    ∧ (∀ calls : List FederationCall, (∀ c ∈ calls, c.isAddFactory = false) →
        (run env w calls).factories = w.factories)
    ∧ (∀ (heap2 : FactoryHeap) (args : FindArgs) (navOut : NavDataPtr),
        findCalls env.cmp heap2
            (run env w [FederationCall.clear, FederationCall.destroy]).factories args navOut
          = findCalls env.cmp heap2 w.factories args navOut
        ∧ find env.cmp heap2
            (run env w [FederationCall.clear, FederationCall.destroy]).factories args navOut
          = find env.cmp heap2 w.factories args navOut) := by
  refine ⟨step_factories env w, rfl, fun fact => ⟨step_sublist env w _, rfl⟩, ?_,
    fun calls h => run_factories env calls w h, ?_⟩
  · intro calls
    exact ⟨run_sublist env calls w, fun row hrow => (run_sublist env calls w).subset hrow⟩
  · intro heap2 args navOut
    have e : (run env w [FederationCall.clear, FederationCall.destroy]).factories
        = w.factories :=
      run_factories env _ w (by decide)
    rw [e]
    exact ⟨rfl, rfl⟩

/-- Sample instance: in the sample state the store at address 1 is
registered under the CNAV-2 signal.  After `clear()` and the destruction of
the federation object the registry is the sample registry, the stores are
empty, the store at address 1 is still registered, and `find` still invokes
the stores at addresses 0 and 1; `addFactory` of the store at address 1 adds
a row after the three rows. -/
theorem registry_frame_witness :
    (run sampleEnv sampleState [FederationCall.clear, FederationCall.destroy]).factories
      = sampleRegistry
    ∧ (sampleSignalCNAV2, 1)
        ∈ (run sampleEnv sampleState [FederationCall.clear, FederationCall.destroy]).factories
    ∧ size sampleHeap sampleRegistry
        (run sampleEnv sampleState [FederationCall.clear, FederationCall.destroy]).stores = 0
    ∧ findCalls sampleCompare sampleHeap
        (run sampleEnv sampleState [FederationCall.clear, FederationCall.destroy]).factories
        sampleQuery none = [0, 1]
    ∧ (step sampleEnv sampleState (FederationCall.addFactory 1)).factories
        = sampleRegistry ++ [(sampleSignalCNAV2, 1)] :=
  ⟨(registry_frame sampleEnv sampleState).2.2.2.2.1
      [FederationCall.clear, FederationCall.destroy] (by decide),
   ((registry_frame sampleEnv sampleState).2.2.2.1
      [FederationCall.clear, FederationCall.destroy]).2 (sampleSignalCNAV2, 1) (by decide),
   by decide, by decide, by decide⟩

end MultiFormatNavDataFactory

end gpstk
